import Mathlib

/-!
# SunNet: channel registry, framed connections and endpoint life cycles

A shallow embedding of the SunNet sources.  Every C++ object becomes a Lean
structure holding its data members, every member function becomes a function
that takes the object (and the global state it touches) and returns the new
object together with what the call returned or raised.

Conventions of the embedding:

* a call returns an `Outcome`: the state as it was when the call returned or
  when an exception left it, and the value returned or the exception raised;
* the calls of the operating system are a record of functions (`SocketApi`)
  over a state of the world, so that theorems quantify over its answers;
* `std::map` and `std::unordered_map` are association lists with unique keys
  (`Map`), with `find`, `assign` (for `m[k] = v`) and `erase`;
* a `NETWORK_BYTE` is the value of the byte (`0 .. 255`), and `CHANNEL_ID`,
  a typedef of `NETWORK_BYTE`, is a natural number reduced modulo `256`;
* a C++ type is its `std::type_index`, and `sizeof` is a function on type
  indices that the registry functions take as a parameter.
-/

deriving instance DecidableEq for Except

namespace SunNet

/-! ## Exceptions -/

/-- The exception classes thrown by the sources (their messages are dropped).  The last
two are no C++ exceptions: `null_pointer_dereference` marks a call through a null
`shared_ptr`, and `invalid_iterator` marks the advance of an iterator whose element has
been erased; both are undefined in C++, and no handler of the sources catches them. -/
inductive Exception where
  | BadChannelException
  | ConnectionClosedException
  | ClientInvalidStateTransitionException
  | InvalidSocketPollException
  | ServerInvalidStateTransitionException
  | ApiInitializationException
  | SendException
  | ReceiveException
  | CreateException
  | GetAddrInfoException
  | BindException
  | ListenException
  | AcceptException
  | ConnectException
  | PollException
  | InvalidSocketConnectionException
  | out_of_range
  | null_pointer_dereference
  | invalid_iterator
deriving DecidableEq, Repr

/-! ## Containers -/

/-- A `std::map` / `std::unordered_map`: an association list with unique keys. -/
abbrev Map (κ ν : Type) := List (κ × ν)

/-- The member `find`: the value stored under `k`, `none` for `end()`. -/
def Map.find {κ ν : Type} [DecidableEq κ] : Map κ ν → κ → Option ν
  | [], _ => none
  | (k', v') :: m, k => if k' = k then some v' else Map.find m k

/-- The assignment `m[k] = v`: overwrite the entry of `k`, or insert one. -/
def Map.assign {κ ν : Type} [DecidableEq κ] : Map κ ν → κ → ν → Map κ ν
  | [], k, v => [(k, v)]
  | (k', v') :: m, k, v => if k' = k then (k, v) :: m else (k', v') :: Map.assign m k v

/-- The member `erase` by key. -/
def Map.erase {κ ν : Type} [DecidableEq κ] : Map κ ν → κ → Map κ ν
  | [], _ => []
  | (k', v') :: m, k => if k' = k then m else (k', v') :: Map.erase m k

/-- The keys of a map, in the order of the list. -/
def Map.keys {κ ν : Type} (m : Map κ ν) : List κ := m.map Prod.fst

/-! ## Channel registry (`channels.h`, `channels.cpp`) -/

/-- One byte on the wire, by value. -/
abbrev NETWORK_BYTE := Nat

/-- A number of bytes. -/
abbrev NETWORK_BYTE_SIZE := Nat

/-- The typedef `typedef NETWORK_BYTE CHANNEL_ID`: one byte. -/
abbrev CHANNEL_ID := Nat

/-- The number of values of a `CHANNEL_ID`. -/
def CHANNEL_ID_RANGE : Nat := 256

/-- A `std::type_index`. -/
abbrev TypeIndex := Nat

/-- The class `ChannelInterface`: size of the channel's messages and its id. -/
structure ChannelInterface where
  message_size : NETWORK_BYTE_SIZE
  channel_id : CHANNEL_ID
deriving DecidableEq, Repr

/-- The member `getMessageSize`. -/
def ChannelInterface.getMessageSize (c : ChannelInterface) : NETWORK_BYTE_SIZE := c.message_size

/-- The member `getId`. -/
def ChannelInterface.getId (c : ChannelInterface) : CHANNEL_ID := c.channel_id

/-- The static members of the class `Channels`. -/
structure Channels where
  ids_to_channels : Map CHANNEL_ID ChannelInterface
  types_to_ids : Map TypeIndex CHANNEL_ID
  channel_counter : CHANNEL_ID
deriving DecidableEq, Repr

/-- The static initialisers of `channels.cpp`: empty maps, counter `0`. -/
def Channels.initial : Channels :=
  { ids_to_channels := [], types_to_ids := [], channel_counter := 0 }

/-- The function `Channels::getChannelId<TChannelType>()`. -/
def Channels.getChannelId (c : Channels) (T : TypeIndex) : Except Exception CHANNEL_ID :=
  match c.types_to_ids.find T with
  | none => Except.error Exception.BadChannelException
  | some id => Except.ok id

/-- The function `Channels::getChannel(id)`. -/
def Channels.getChannel (c : Channels) (id : CHANNEL_ID) : Except Exception ChannelInterface :=
  match c.ids_to_channels.find id with
  | none => Except.error Exception.BadChannelException
  | some channel => Except.ok channel

/-- The function `Channels::getNextId()`: `return channel_counter++` on a one-byte counter. -/
def Channels.getNextId (c : Channels) : CHANNEL_ID × Channels :=
  (c.channel_counter, { c with channel_counter := (c.channel_counter + 1) % CHANNEL_ID_RANGE })

/-- The constructor `Channel<TData>()`: `ChannelInterface(sizeof(TData), Channels::getNextId())`. -/
def Channel.new (sizeofTData : NETWORK_BYTE_SIZE) (c : Channels) : ChannelInterface × Channels :=
  let r := c.getNextId
  ({ message_size := sizeofTData, channel_id := r.1 }, r.2)

/-- The function `Channels::addNewChannel<TChannelType>()`. -/
def Channels.addNewChannel (sizeOf : TypeIndex → NETWORK_BYTE_SIZE) (c : Channels)
    (T : TypeIndex) : Channels :=
  let r := Channel.new (sizeOf T) c
  let channel := r.1
  let c1 := r.2
  let c2 := { c1 with ids_to_channels := c1.ids_to_channels.assign channel.getId channel }
  { c2 with types_to_ids := c2.types_to_ids.assign T channel.getId }

/-- A start-up phase: `addNewChannel` for each type of `regs`, in order, from the registry `c`. -/
def Channels.registerAll (sizeOf : TypeIndex → NETWORK_BYTE_SIZE) (c : Channels)
    (regs : List TypeIndex) : Channels :=
  regs.foldl (Channels.addNewChannel sizeOf) c

/-- The ids handed out by `getNextId` during `registerAll`, in order. -/
def Channels.assignedIds (sizeOf : TypeIndex → NETWORK_BYTE_SIZE) :
    Channels → List TypeIndex → List CHANNEL_ID
  | _, [] => []
  | c, T :: regs =>
    (Channel.new (sizeOf T) c).1.getId :: Channels.assignedIds sizeOf (c.addNewChannel sizeOf T) regs

/-! ## Outcomes of calls -/

/-- What a call leaves behind: the state when it returned or when the exception left it,
and the returned value or the exception raised. -/
structure Outcome (σ α : Type) where
  state : σ
  result : Except Exception α
deriving DecidableEq, Repr

/-- A normal return. -/
def Outcome.ok {σ α : Type} (s : σ) (a : α) : Outcome σ α := { state := s, result := Except.ok a }

/-- A `throw`. -/
def Outcome.raise {σ α : Type} (s : σ) (e : Exception) : Outcome σ α :=
  { state := s, result := Except.error e }

/-- Sequencing: an exception of the first call leaves the function, otherwise go on. -/
def Outcome.andThen {σ α β : Type} (o : Outcome σ α) (f : α → σ → Outcome σ β) : Outcome σ β :=
  match o.result with
  | Except.error e => Outcome.raise o.state e
  | Except.ok a => f a o.state

/-! ## The operating system (`socketutil.h`)

The sources reach the network through the functions of `socketutil.h`, thin wrappers of
the sockets calls of the operating system.  The model takes them as a record of functions
over a state `W` of the world outside the program, so that a theorem can quantify over
what the operating system answers. -/

/-- An OS socket descriptor (`typedef int SOCKET`). -/
abbrev SOCKET := Int

/-- The constant `INVALID_SOCKET`. -/
def INVALID_SOCKET : SOCKET := -1

/-- The constant `SOCKET_ERROR`. -/
def SOCKET_ERROR : Int := -1

/-- The flag `POLLIN` of `<poll.h>`. -/
def POLLIN : Nat := 0x001

/-- The flag `POLLERR` of `<poll.h>`. -/
def POLLERR : Nat := 0x008

/-- The flag `POLLHUP` of `<poll.h>`. -/
def POLLHUP : Nat := 0x010

/-- The flag `POLLNVAL` of `<poll.h>`. -/
def POLLNVAL : Nat := 0x020

/-- The type `POLL_DESCRIPTOR` (`struct pollfd`). -/
structure POLL_DESCRIPTOR where
  fd : SOCKET
  events : Nat
  revents : Nat
deriving DecidableEq, Repr

/-- The calls of `socketutil.h`, each a function of the state of the world.

* `socket_send fd buffer`: the return value (`SOCKET_ERROR`, or how many bytes of the
  front of `buffer` the system took);
* `recv fd len`: `none` for `SOCKET_ERROR`, otherwise the bytes stored into the buffer,
  whose number is the return value (`0` bytes: the peer has shut down);
* `getaddrinfo address port`, `bind_socket fd`, `listen_socket fd backlog`,
  `connect_socket fd`: the return value;
* `accept_socket fd`: the new descriptor or `INVALID_SOCKET`;
* `socket_poll descriptors timeout`: the return value and the `revents` written into the
  descriptors, in order. -/
structure SocketApi (W : Type) where
  socket_send : SOCKET → List NETWORK_BYTE → W → Int × W
  recv : SOCKET → NETWORK_BYTE_SIZE → W → Option (List NETWORK_BYTE) × W
  getaddrinfo : String → String → W → Int × W
  bind_socket : SOCKET → W → Int × W
  listen_socket : SOCKET → Int → W → Int × W
  accept_socket : SOCKET → W → SOCKET × W
  connect_socket : SOCKET → W → Int × W
  socket_poll : List POLL_DESCRIPTOR → Int → W → (Int × List Nat) × W

/-! ## Socket connections (`socket_connection.h`, `socket_connection.cpp`) -/

/-- The class `SocketConnection`, reduced to the descriptor it owns.  An object is
identified with its descriptor: pointer equality of two `SocketConnection_p` is equality
of these records. -/
structure SocketConnection where
  socket_descriptor : SOCKET
deriving DecidableEq, Repr

/-- The type `std::shared_ptr<SocketConnection>`; `none` is the null pointer. -/
abbrev SocketConnection_p := Option SocketConnection

/-- The loop of `SocketConnection::send`.  `fuel` bounds the number of calls of
`socket_send`; `none` says that the loop was still running when the fuel ran out. -/
def SocketConnection.send_loop {W : Type} (api : SocketApi W) (self : SocketConnection)
    (bytes : List NETWORK_BYTE) (num_bytes : NETWORK_BYTE_SIZE) :
    Nat → NETWORK_BYTE_SIZE → W → Option (Outcome W Unit)
  | 0, num_bytes_sent, w =>
    if num_bytes_sent < num_bytes then none else some (Outcome.ok w ())
  | fuel + 1, num_bytes_sent, w =>
    if num_bytes_sent < num_bytes then
      let r := api.socket_send self.socket_descriptor
        ((bytes.drop num_bytes_sent).take (num_bytes - num_bytes_sent)) w
      let send_return := r.1
      if send_return = SOCKET_ERROR then
        some (Outcome.raise r.2 Exception.SendException)
      else
        SocketConnection.send_loop api self bytes num_bytes fuel
          (num_bytes_sent + send_return.toNat) r.2
    else some (Outcome.ok w ())

/-- The function `SocketConnection::send(bytes, num_bytes)`. -/
def SocketConnection.send {W : Type} (api : SocketApi W) (fuel : Nat) (self : SocketConnection)
    (bytes : List NETWORK_BYTE) (num_bytes : NETWORK_BYTE_SIZE) (w : W) :
    Option (Outcome W Unit) :=
  SocketConnection.send_loop api self bytes num_bytes fuel 0 w

/-- The loop of `SocketConnection::receive`.  `buffer` holds the bytes stored so far, so
that `num_bytes_recvd` is its length.  A call of `recv` stores at most the `len` bytes it
was asked for, and every call that lets the loop go on stores at least one byte: the loop
makes at most `num_bytes` calls, which is the fuel `receive` gives it. -/
def SocketConnection.receive_loop {W : Type} (api : SocketApi W) (self : SocketConnection)
    (num_bytes : NETWORK_BYTE_SIZE) :
    Nat → List NETWORK_BYTE → W → Outcome W (Bool × List NETWORK_BYTE)
  | 0, buffer, w => Outcome.ok w (true, buffer)
  | fuel + 1, buffer, w =>
    if buffer.length < num_bytes then
      let r := api.recv self.socket_descriptor (num_bytes - buffer.length) w
      match r.1 with
      | none => Outcome.raise r.2 Exception.ReceiveException
      | some stored =>
        let chunk := stored.take (num_bytes - buffer.length)
        if chunk.length = 0 then Outcome.ok r.2 (false, buffer)
        else SocketConnection.receive_loop api self num_bytes fuel (buffer ++ chunk) r.2
    else Outcome.ok w (true, buffer)

/-- The function `SocketConnection::receive(buffer, num_bytes)`: the returned flag and the
bytes stored into the buffer. -/
def SocketConnection.receive {W : Type} (api : SocketApi W) (self : SocketConnection)
    (num_bytes : NETWORK_BYTE_SIZE) (w : W) : Outcome W (Bool × List NETWORK_BYTE) :=
  SocketConnection.receive_loop api self num_bytes num_bytes [] w

/-- The function `SocketConnection::set_socket_info(port, address, flag)`: the call of
`getaddrinfo`, whose result stays with the operating system. -/
def SocketConnection.set_socket_info {W : Type} (api : SocketApi W) (_self : SocketConnection)
    (port address : String) (w : W) : Outcome W Unit :=
  let r := api.getaddrinfo address port w
  let getaddrinfo_return := r.1
  if getaddrinfo_return ≠ 0 then Outcome.raise r.2 Exception.GetAddrInfoException
  else Outcome.ok r.2 ()

/-- The function `SocketConnection::bind(port, address)`. -/
def SocketConnection.bind {W : Type} (api : SocketApi W) (self : SocketConnection)
    (port address : String) (w : W) : Outcome W Unit :=
  (SocketConnection.set_socket_info api self port address w).andThen fun _ w1 =>
    let r := api.bind_socket self.socket_descriptor w1
    let bind_result := r.1
    if bind_result = SOCKET_ERROR then Outcome.raise r.2 Exception.BindException
    else Outcome.ok r.2 ()

/-- The function `SocketConnection::connect(address, port)`. -/
def SocketConnection.connect {W : Type} (api : SocketApi W) (self : SocketConnection)
    (address port : String) (w : W) : Outcome W Unit :=
  (SocketConnection.set_socket_info api self port address w).andThen fun _ w1 =>
    let r := api.connect_socket self.socket_descriptor w1
    let connect_result := r.1
    if connect_result = SOCKET_ERROR then Outcome.raise r.2 Exception.ConnectException
    else Outcome.ok r.2 ()

/-- The function `SocketConnection::listen(queue_size)`. -/
def SocketConnection.listen {W : Type} (api : SocketApi W) (self : SocketConnection)
    (queue_size : Int) (w : W) : Outcome W Unit :=
  let r := api.listen_socket self.socket_descriptor queue_size w
  let listen_result := r.1
  if listen_result = SOCKET_ERROR then Outcome.raise r.2 Exception.ListenException
  else Outcome.ok r.2 ()

/-- The function `SocketConnection::accept()`. -/
def SocketConnection.accept {W : Type} (api : SocketApi W) (self : SocketConnection) (w : W) :
    Outcome W SocketConnection :=
  let r := api.accept_socket self.socket_descriptor w
  let connected_socket := r.1
  if connected_socket = INVALID_SOCKET then Outcome.raise r.2 Exception.AcceptException
  else Outcome.ok r.2 { socket_descriptor := connected_socket }

/-! ## Channeled connections (`channeled_socket_connection.h`) -/

/-- The class `ChanneledSocketConnection` adds member functions only. -/
abbrev ChanneledSocketConnection := SocketConnection

/-- The type `ChanneledSocketConnection_p`. -/
abbrev ChanneledSocketConnection_p := Option ChanneledSocketConnection

/-- The constant `sizeof(CHANNEL_ID)`. -/
def sizeof_CHANNEL_ID : NETWORK_BYTE_SIZE := 1

/-- The function `channeled_send<TMessageType>(message)`; `message` is the object
representation of `*message`. -/
def ChanneledSocketConnection.channeled_send {W : Type} (api : SocketApi W)
    (sizeOf : TypeIndex → NETWORK_BYTE_SIZE) (channels : Channels) (fuel : Nat)
    (self : ChanneledSocketConnection) (TMessageType : TypeIndex)
    (message : List NETWORK_BYTE) (w : W) : Option (Outcome W Unit) :=
  match channels.getChannelId TMessageType with
  | Except.error e => some (Outcome.raise w e)
  | Except.ok channel_id =>
    match SocketConnection.send api fuel self [channel_id] sizeof_CHANNEL_ID w with
    | none => none
    | some o =>
      match o.result with
      | Except.error e => some (Outcome.raise o.state e)
      | Except.ok _ => SocketConnection.send api fuel self message (sizeOf TMessageType) o.state

/-- The function `channeled_read_id()`. -/
def ChanneledSocketConnection.channeled_read_id {W : Type} (api : SocketApi W)
    (self : ChanneledSocketConnection) (w : W) : Outcome W CHANNEL_ID :=
  (SocketConnection.receive api self sizeof_CHANNEL_ID w).andThen fun r w1 =>
    if r.1 = false then Outcome.raise w1 Exception.ConnectionClosedException
    else Outcome.ok w1 (r.2.headD 0)

/-- The function `channeled_read(id)`. -/
def ChanneledSocketConnection.channeled_read {W : Type} (api : SocketApi W)
    (channels : Channels) (self : ChanneledSocketConnection) (id : CHANNEL_ID) (w : W) :
    Outcome W (List NETWORK_BYTE) :=
  match channels.getChannel id with
  | Except.error e => Outcome.raise w e
  | Except.ok channel =>
    (SocketConnection.receive api self channel.getMessageSize w).andThen fun r w1 =>
      if r.1 = false then Outcome.raise w1 Exception.ConnectionClosedException
      else Outcome.ok w1 r.2

/-- The function `channeled_read<TMessageType>()`.  It calls `this->read`, which
`SocketConnection` does not declare; the model reads it as `channeled_read(id)`. -/
def ChanneledSocketConnection.channeled_read_typed {W : Type} (api : SocketApi W)
    (channels : Channels) (self : ChanneledSocketConnection) (TMessageType : TypeIndex)
    (w : W) : Outcome W (List NETWORK_BYTE) :=
  match channels.getChannelId TMessageType with
  | Except.error e => Outcome.raise w e
  | Except.ok id => ChanneledSocketConnection.channeled_read api channels self id w

/-! ## A reliable byte stream

One direction of a connected pair of sockets, seen after the writer is done: the bytes the
system took from the writer and has not yet given to the reader.  The system may take and
give the bytes in pieces; `send_chunks` and `recv_chunks` say, call after call, how large
a piece may be (`h` stands for at most `h + 1` bytes; when the list is empty the whole
request is served).  -/

/-- The state of the stream. -/
structure Pipe where
  wire : List NETWORK_BYTE
  send_chunks : List Nat
  recv_chunks : List Nat
deriving DecidableEq, Repr

/-- How many of `len` bytes the next call transfers. -/
def Pipe.grant (chunks : List Nat) (len : Nat) : Nat :=
  match chunks with
  | [] => len
  | h :: _ => min len (h + 1)

/-- The call `socket_send` on the writing end: the front of `buffer` goes on the wire. -/
def Pipe.socket_send (_fd : SOCKET) (buffer : List NETWORK_BYTE) (p : Pipe) : Int × Pipe :=
  let k := Pipe.grant p.send_chunks buffer.length
  ((k : Int), { p with wire := p.wire ++ buffer.take k, send_chunks := p.send_chunks.tail })

/-- The call `recv` on the reading end: the front of the wire, in order; nothing is left
when the writer has shut down. -/
def Pipe.recv (_fd : SOCKET) (len : NETWORK_BYTE_SIZE) (p : Pipe) :
    Option (List NETWORK_BYTE) × Pipe :=
  let k := Pipe.grant p.recv_chunks (min len p.wire.length)
  (some (p.wire.take k), { p with wire := p.wire.drop k, recv_chunks := p.recv_chunks.tail })

/-- The reliable stream as an operating system (the other calls succeed and do nothing). -/
def Pipe.api : SocketApi Pipe :=
  { socket_send := Pipe.socket_send
    recv := Pipe.recv
    getaddrinfo := fun _ _ p => (0, p)
    bind_socket := fun _ p => (0, p)
    listen_socket := fun _ _ p => (0, p)
    accept_socket := fun _ p => (INVALID_SOCKET, p)
    connect_socket := fun _ p => (0, p)
    socket_poll := fun _ _ p => ((0, []), p) }

/-! ## Poll service (`socket_collection.h`, `pollservice.h`, `pollservice.cpp`) -/

/-- The enumeration `SocketStatus`. -/
inductive SocketStatus where
  | SOCKET_STATUS_NORMAL
  | SOCKET_STATUS_DISCONNECT
  | SOCKET_STATUS_ERROR
deriving DecidableEq, Repr

/-- The structure `SocketCollectionEntry`. -/
structure SocketCollectionEntry where
  connection : SocketConnection_p
  status : SocketStatus
deriving DecidableEq, Repr

/-- The type `SocketCollection`, an `std::unordered_set` whose equality compares the
connections only; the model lists the entries in the order of their insertion. -/
abbrev SocketCollection := List SocketCollectionEntry

/-- The member `insert` of the set: an entry equal to one of the set is not inserted. -/
def SocketCollection.insert (c : SocketCollection) (e : SocketCollectionEntry) :
    SocketCollection :=
  if c.any (fun x => decide (x.connection = e.connection)) then c else c ++ [e]

/-- The data members of the class `PollService`. -/
structure PollService where
  timeout : Int
  descriptors : List POLL_DESCRIPTOR
  poll_descriptor_map : Map SOCKET (Int × SocketConnection_p)
  results : SocketCollection
deriving DecidableEq, Repr

/-- The constructor `PollService(timeout)`. -/
def PollService.new (timeout : Int) : PollService :=
  { timeout := timeout, descriptors := [], poll_descriptor_map := [], results := [] }

/-- The function `PollService::add_socket(socket)`, for a non-null `socket`.  The field
`revents` of the new descriptor is not initialised by the source; the model puts `0`. -/
def PollService.add_socket (self : PollService) (socket : SocketConnection) : PollService :=
  let poll_descriptor : POLL_DESCRIPTOR :=
    { fd := socket.socket_descriptor, events := POLLIN, revents := 0 }
  let descriptors := self.descriptors ++ [poll_descriptor]
  { self with
    descriptors := descriptors
    poll_descriptor_map := self.poll_descriptor_map.assign socket.socket_descriptor
      ((descriptors.length : Int) - 1, some socket) }

/-- The statement `poll_descriptor_map[fd].first = i`: `operator[]` makes a default entry
(index `0`, null connection) when `fd` has none. -/
def PollService.set_index (m : Map SOCKET (Int × SocketConnection_p)) (fd : SOCKET) (i : Int) :
    Map SOCKET (Int × SocketConnection_p) :=
  match m.find fd with
  | none => m.assign fd (i, none)
  | some info => m.assign fd (i, info.2)

/-- Step 2 of `remove_socket`: the loop `for (i = index; i < descriptors.size(); i++)`
over the descriptors from position `i` on. -/
def PollService.renumber :
    List POLL_DESCRIPTOR → Int → Map SOCKET (Int × SocketConnection_p) →
      Map SOCKET (Int × SocketConnection_p)
  | [], _, m => m
  | d :: ds, i, m => PollService.renumber ds (i + 1) (PollService.set_index m d.fd i)

/-- The function `PollService::remove_socket(socket)`, for a non-null `socket`. -/
def PollService.remove_socket (self : PollService) (socket : SocketConnection) : PollService :=
  match self.poll_descriptor_map.find socket.socket_descriptor with
  | none => self
  | some info =>
    let index := info.1
    let descriptors := self.descriptors.eraseIdx index.toNat
    let poll_descriptor_map := self.poll_descriptor_map.erase socket.socket_descriptor
    { self with
      descriptors := descriptors
      poll_descriptor_map :=
        PollService.renumber (descriptors.drop index.toNat) index poll_descriptor_map }

/-- The function `PollService::clear_sockets()`. -/
def PollService.clear_sockets (self : PollService) : PollService :=
  { self with descriptors := [], poll_descriptor_map := [] }

/-- The descriptors after `socket_poll` has written the returned events into them (a
descriptor without an answer gets no event). -/
def PollService.set_revents : List POLL_DESCRIPTOR → List Nat → List POLL_DESCRIPTOR
  | [], _ => []
  | d :: ds, [] => { d with revents := 0 } :: PollService.set_revents ds []
  | d :: ds, r :: rs => { d with revents := r } :: PollService.set_revents ds rs

/-- The loop of `PollService::poll` over the descriptors: the results so far, then the
results at the end of the loop, or the exception that left it. -/
def PollService.poll_loop (poll_descriptor_map : Map SOCKET (Int × SocketConnection_p)) :
    List POLL_DESCRIPTOR → SocketCollection → Outcome SocketCollection Unit
  | [], results => Outcome.ok results ()
  | poll_iter :: rest, results =>
    if poll_iter.revents &&& (POLLIN ||| POLLERR ||| POLLNVAL ||| POLLHUP) ≠ 0 then
      match poll_descriptor_map.find poll_iter.fd with
      | none => PollService.poll_loop poll_descriptor_map rest results
      | some socket_iter =>
        let ready_socket := socket_iter.2
        if ready_socket = none then
          Outcome.raise results Exception.InvalidSocketConnectionException
        else
          let status :=
            if poll_iter.revents &&& (POLLERR ||| POLLNVAL) ≠ 0 then
              SocketStatus.SOCKET_STATUS_ERROR
            else if poll_iter.revents &&& POLLHUP ≠ 0 then
              SocketStatus.SOCKET_STATUS_DISCONNECT
            else SocketStatus.SOCKET_STATUS_NORMAL
          PollService.poll_loop poll_descriptor_map rest
            (SocketCollection.insert results { connection := ready_socket, status := status })
    else PollService.poll_loop poll_descriptor_map rest results

/-- The function `PollService::poll()`; the value returned is the collection `results`. -/
def PollService.poll {W : Type} (api : SocketApi W) (self : PollService) (w : W) :
    Outcome (PollService × W) SocketCollection :=
  let cleared := { self with results := [] }
  let r := api.socket_poll cleared.descriptors cleared.timeout w
  let poll_return := r.1.1
  let polled := { cleared with descriptors := PollService.set_revents cleared.descriptors r.1.2 }
  if poll_return = SOCKET_ERROR then Outcome.raise (polled, r.2) Exception.PollException
  else if poll_return > 0 then
    let o := PollService.poll_loop polled.poll_descriptor_map polled.descriptors polled.results
    { state := ({ polled with results := o.state }, r.2)
      result := o.result.map fun _ => o.state }
  else Outcome.ok (polled, r.2) polled.results

/-- The connections the poll service tracks: the handles of its table. -/
def PollService.tracked (self : PollService) : List SocketConnection :=
  self.poll_descriptor_map.filterMap fun e => e.2.2

/-! ## Client (`client.h`)

The hooks of an endpoint are virtual member functions: the model takes them as a record of
functions over the endpoint and the world.  The data members that a derived class adds
are the field `derived`.  The member `connection_create_func` is set by the constructor
and never assigned again: the functions that call it take it as a parameter.  Releasing a
connection (`reset()`) makes the pointer null; the closing of its descriptor by the
destructor of the connection is not modelled.

`poll()` runs on the polling thread while the control thread may act on the endpoint.
The model gives `poll` what the control thread did to the endpoint while the poll service
was waiting, as a function `during_wait`. -/

/-- The enumeration `ClientState`. -/
inductive ClientState where
  | CLIENT_CLOSED
  | CLIENT_CONNECTED
  | CLIENT_DESTRUCTING
deriving DecidableEq, Repr

/-- The data members of the class `Client<TSocketConnection>`. -/
structure Client (ω : Type) where
  poll_service : PollService
  state : ClientState
  connection : SocketConnection_p
  derived : ω
deriving DecidableEq, Repr

/-- The pure virtual hooks of `Client`. -/
structure ClientHooks (ω W : Type) where
  handle_client_error : Client ω × W → Outcome (Client ω × W) Unit
  handle_client_ready_to_read : Client ω × W → Outcome (Client ω × W) Unit
  handle_poll_timeout : Client ω × W → Outcome (Client ω × W) Unit
  handle_client_disconnect : Client ω × W → Outcome (Client ω × W) Unit

/-- The constructor `Client(poll_timeout, args...)`. -/
def Client.new {ω : Type} (poll_timeout : Int) (derived : ω) : Client ω :=
  { poll_service := PollService.new poll_timeout
    state := ClientState.CLIENT_CLOSED
    connection := none
    derived := derived }

/-- The function `Client::assert_valid_state(valid_states)`. -/
def Client.assert_valid_state {ω : Type} (self : Client ω) (valid_states : List ClientState) :
    Outcome (Client ω) Unit :=
  let is_valid_state := valid_states.any fun valid_state => decide (self.state = valid_state)
  if ¬ is_valid_state then
    Outcome.raise self Exception.ClientInvalidStateTransitionException
  else Outcome.ok self ()

/-- The function `Client::state_transition(valid_from_states, new_state)`. -/
def Client.state_transition {ω : Type} (self : Client ω) (valid_from_states : List ClientState)
    (new_state : ClientState) : Outcome (Client ω) Unit :=
  (self.assert_valid_state valid_from_states).andThen fun _ c =>
    Outcome.ok { c with state := new_state } ()

/-- The destructor `~Client()`, as far as the members of `Client` go. -/
def Client.destruct {ω : Type} (self : Client ω) : Client ω :=
  { self with state := ClientState.CLIENT_DESTRUCTING, connection := none }

/-- An outcome over the endpoint alone, as an outcome over the endpoint and the world. -/
def Outcome.withWorld {σ W α : Type} (o : Outcome σ α) (w : W) : Outcome (σ × W) α :=
  { state := (o.state, w), result := o.result }

/-- An outcome over the world alone, as an outcome over the endpoint and the world. -/
def Outcome.withObject {σ W α : Type} (o : Outcome W α) (s : σ) : Outcome (σ × W) α :=
  { state := (s, o.state), result := o.result }

/-- The function `Client::connect(address, port)`. -/
def Client.connect {ω W : Type} (api : SocketApi W)
    (connection_create_func : W → Outcome W SocketConnection) (address port : String)
    (st : Client ω × W) : Outcome (Client ω × W) Unit :=
  ((st.1.assert_valid_state [ClientState.CLIENT_CLOSED]).withWorld st.2).andThen fun _ st1 =>
  ((connection_create_func st1.2).withObject st1.1).andThen fun created st2 =>
  let c2 := { st2.1 with connection := some created }
  ((SocketConnection.connect api created address port st2.2).withObject c2).andThen fun _ st3 =>
  let c3 := { st3.1 with poll_service := st3.1.poll_service.add_socket created }
  ((c3.state_transition [ClientState.CLIENT_CLOSED] ClientState.CLIENT_CONNECTED).withWorld
    st3.2)

/-- The function `Client::disconnect()`. -/
def Client.disconnect {ω W : Type} (st : Client ω × W) : Outcome (Client ω × W) Unit :=
  ((st.1.state_transition [ClientState.CLIENT_CONNECTED, ClientState.CLIENT_CLOSED]
      ClientState.CLIENT_CLOSED).withWorld st.2).andThen fun _ st1 =>
  let c1 := { st1.1 with poll_service := st1.1.poll_service.clear_sockets }
  Outcome.ok ({ c1 with connection := none }, st1.2) ()

/-- The loop of `Client::poll` over the ready sockets. -/
def Client.poll_loop {ω W : Type} (hooks : ClientHooks ω W) :
    List SocketCollectionEntry → Client ω × W → Outcome (Client ω × W) Bool
  | [], st => Outcome.ok st true
  | socket_iter :: rest, st =>
    if socket_iter.connection = st.1.connection then
      if socket_iter.status = SocketStatus.SOCKET_STATUS_ERROR then
        if st.1.state = ClientState.CLIENT_DESTRUCTING then Outcome.ok st false
        else (hooks.handle_client_error st).andThen fun _ st1 =>
          Client.poll_loop hooks rest st1
      else if socket_iter.status = SocketStatus.SOCKET_STATUS_DISCONNECT then
        if st.1.state = ClientState.CLIENT_DESTRUCTING then Outcome.ok st false
        else (hooks.handle_client_disconnect st).andThen fun _ st1 =>
          Client.poll_loop hooks rest st1
      else
        if st.1.state = ClientState.CLIENT_DESTRUCTING then Outcome.ok st false
        else (hooks.handle_client_ready_to_read st).andThen fun _ st1 =>
          Client.poll_loop hooks rest st1
    else Outcome.raise st Exception.InvalidSocketPollException

/-- The function `Client::poll()`. -/
def Client.poll {ω W : Type} (api : SocketApi W) (hooks : ClientHooks ω W)
    (during_wait : Client ω → Client ω) (st : Client ω × W) : Outcome (Client ω × W) Bool :=
  if st.1.state ≠ ClientState.CLIENT_CONNECTED then Outcome.ok st false
  else
    let polled := PollService.poll api st.1.poll_service st.2
    let st1 : Client ω × W :=
      (during_wait { st.1 with poll_service := polled.state.1 }, polled.state.2)
    match polled.result with
    | Except.error e => Outcome.raise st1 e
    | Except.ok ready_sockets =>
      if ready_sockets.length = 0 then
        if st1.1.state = ClientState.CLIENT_DESTRUCTING then Outcome.ok st1 false
        else (hooks.handle_poll_timeout st1).andThen fun _ st2 => Outcome.ok st2 false
      else Client.poll_loop hooks ready_sockets st1

/-! ## Server (`server.h`) -/

/-- The enumeration `ServerState`. -/
inductive ServerState where
  | DESTRUCTING
  | CLOSED
  | OPEN
  | SERVE
deriving DecidableEq, Repr

/-- The data members of the class `Server<TSocketConnection>`. -/
structure Server (ω : Type) where
  server_connection : SocketConnection_p
  poll_service : PollService
  address : String
  port : String
  listen_queue_size : Int
  poll_timeout : Int
  state : ServerState
  derived : ω
deriving DecidableEq, Repr

/-- The pure virtual hooks of `Server`. -/
structure ServerHooks (ω W : Type) where
  handle_server_connection_error : Server ω × W → Outcome (Server ω × W) Unit
  handle_server_disconnect : Server ω × W → Outcome (Server ω × W) Unit
  handle_client_error : SocketConnection_p → Server ω × W → Outcome (Server ω × W) Unit
  handle_client_connect : SocketConnection_p → Server ω × W → Outcome (Server ω × W) Unit
  handle_ready_to_read : SocketConnection_p → Server ω × W → Outcome (Server ω × W) Unit
  handle_client_disconnect : SocketConnection_p → Server ω × W → Outcome (Server ω × W) Unit
  handle_poll_timeout : Server ω × W → Outcome (Server ω × W) Unit

/-- The constructor `Server(address, port, listen_queue_size, poll_timeout, args...)`. -/
def Server.new {ω : Type} (address port : String) (listen_queue_size poll_timeout : Int)
    (derived : ω) : Server ω :=
  { server_connection := none
    poll_service := PollService.new poll_timeout
    address := address
    port := port
    listen_queue_size := listen_queue_size
    poll_timeout := poll_timeout
    state := ServerState.CLOSED
    derived := derived }

/-- The function `Server::state_transition(valid_from_states, new_state)`. -/
def Server.state_transition {ω : Type} (self : Server ω) (valid_from_states : List ServerState)
    (new_state : ServerState) : Outcome (Server ω) Unit :=
  let in_valid_from_state :=
    valid_from_states.any fun valid_from_state => decide (self.state = valid_from_state)
  if ¬ in_valid_from_state then
    Outcome.raise self Exception.ServerInvalidStateTransitionException
  else Outcome.ok { self with state := new_state } ()

/-- The function `Server::addToPollService(socket)`, for a non-null `socket`. -/
def Server.addToPollService {ω : Type} (self : Server ω) (socket : SocketConnection) :
    Server ω :=
  { self with poll_service := self.poll_service.add_socket socket }

/-- The function `Server::removeFromPollService(socket)`, for a non-null `socket`. -/
def Server.removeFromPollService {ω : Type} (self : Server ω) (socket : SocketConnection) :
    Server ω :=
  { self with poll_service := self.poll_service.remove_socket socket }

/-- The function `Server::clearPollService()`. -/
def Server.clearPollService {ω : Type} (self : Server ω) : Server ω :=
  { self with poll_service := self.poll_service.clear_sockets }

/-- The function `Server::handle_connection_request()`, in its default implementation. -/
def Server.handle_connection_request {ω W : Type} (api : SocketApi W) (hooks : ServerHooks ω W)
    (st : Server ω × W) : Outcome (Server ω × W) Unit :=
  match st.1.server_connection with
  | none => Outcome.raise st Exception.null_pointer_dereference
  | some server_connection =>
    ((SocketConnection.accept api server_connection st.2).withObject st.1).andThen
      fun new_client st1 =>
        hooks.handle_client_connect (some new_client)
          (st1.1.addToPollService new_client, st1.2)

/-- The destructor `~Server()`, as far as the members of `Server` go. -/
def Server.destruct {ω : Type} (self : Server ω) : Server ω :=
  { self with state := ServerState.DESTRUCTING, server_connection := none }

/-- The loop of `Server::poll` over the ready sockets. -/
def Server.poll_loop {ω W : Type} (api : SocketApi W) (hooks : ServerHooks ω W) :
    List SocketCollectionEntry → Server ω × W → Outcome (Server ω × W) Bool
  | [], st => Outcome.ok st true
  | socket_it :: rest, st =>
    if socket_it.connection = st.1.server_connection then
      if socket_it.status = SocketStatus.SOCKET_STATUS_ERROR then
        if st.1.state = ServerState.DESTRUCTING then Outcome.ok st false
        else (hooks.handle_server_connection_error st).andThen fun _ st1 =>
          Server.poll_loop api hooks rest st1
      else if socket_it.status = SocketStatus.SOCKET_STATUS_DISCONNECT then
        if st.1.state = ServerState.DESTRUCTING then Outcome.ok st false
        else (hooks.handle_server_disconnect st).andThen fun _ st1 =>
          Server.poll_loop api hooks rest st1
      else
        if st.1.state = ServerState.DESTRUCTING then Outcome.ok st false
        else (Server.handle_connection_request api hooks st).andThen fun _ st1 =>
          Server.poll_loop api hooks rest st1
    else
      if socket_it.status = SocketStatus.SOCKET_STATUS_ERROR then
        if st.1.state = ServerState.DESTRUCTING then Outcome.ok st false
        else (hooks.handle_client_error socket_it.connection st).andThen fun _ st1 =>
          Server.poll_loop api hooks rest st1
      else if socket_it.status = SocketStatus.SOCKET_STATUS_DISCONNECT then
        if st.1.state = ServerState.DESTRUCTING then Outcome.ok st false
        else (hooks.handle_client_disconnect socket_it.connection st).andThen fun _ st1 =>
          Server.poll_loop api hooks rest st1
      else
        if st.1.state = ServerState.DESTRUCTING then Outcome.ok st false
        else (hooks.handle_ready_to_read socket_it.connection st).andThen fun _ st1 =>
          Server.poll_loop api hooks rest st1

/-- The function `Server::poll()`. -/
def Server.poll {ω W : Type} (api : SocketApi W) (hooks : ServerHooks ω W)
    (during_wait : Server ω → Server ω) (st : Server ω × W) : Outcome (Server ω × W) Bool :=
  if st.1.state ≠ ServerState.SERVE then Outcome.ok st false
  else
    let polled := PollService.poll api st.1.poll_service st.2
    let st1 : Server ω × W :=
      (during_wait { st.1 with poll_service := polled.state.1 }, polled.state.2)
    match polled.result with
    | Except.error e => Outcome.raise st1 e
    | Except.ok ready_sockets =>
      if ready_sockets.length = 0 then
        if st1.1.state = ServerState.DESTRUCTING then Outcome.ok st1 false
        else (hooks.handle_poll_timeout st1).andThen fun _ st2 => Outcome.ok st2 false
      else Server.poll_loop api hooks ready_sockets st1

/-- The function `Server::open()`. -/
def Server.open {ω W : Type} (api : SocketApi W)
    (connection_create_func : W → Outcome W SocketConnection) (st : Server ω × W) :
    Outcome (Server ω × W) Unit :=
  ((st.1.state_transition [ServerState.CLOSED] ServerState.OPEN).withWorld st.2).andThen
    fun _ st1 =>
  ((connection_create_func st1.2).withObject st1.1).andThen fun created st2 =>
  let s2 := { st2.1 with server_connection := some created }
  let s3 := { s2 with poll_service := s2.poll_service.add_socket created }
  ((SocketConnection.bind api created s3.port s3.address st2.2).withObject s3).andThen
    fun _ st4 =>
  ((SocketConnection.listen api created st4.1.listen_queue_size st4.2).withObject st4.1).andThen
    fun _ st5 =>
  Outcome.ok ({ st5.1 with state := ServerState.OPEN }, st5.2) ()

/-- The function `Server::serve()`. -/
def Server.serve {ω W : Type} (st : Server ω × W) : Outcome (Server ω × W) Unit :=
  (st.1.state_transition [ServerState.OPEN] ServerState.SERVE).withWorld st.2

/-- The function `Server::close()`. -/
def Server.close {ω W : Type} (st : Server ω × W) : Outcome (Server ω × W) Unit :=
  ((st.1.state_transition [ServerState.SERVE, ServerState.OPEN, ServerState.CLOSED]
      ServerState.CLOSED).withWorld st.2).andThen fun _ st1 =>
  let s1 := st1.1.clearPollService
  Outcome.ok ({ s1 with server_connection := none }, st1.2) ()

/-! ## Channel subscriptions (`channel_subscription.h`, `channel_subscribable.h`,
`channel_subscribable.cpp`)

A subscribed callback is a `std::function`; the tables of the model hold it as a name (a
number), and the code behind the names is a function `run` given to the dispatcher, so
that a callback may act on the whole endpoint and on the world.  The decoded message handed
to a callback is the buffer that was read, unchanged (`reinterpret_cast`). -/

/-- The type `SUBSCRIPTION_ID` (`unsigned int`). -/
abbrev SUBSCRIPTION_ID := Nat

/-- The number of values of a `SUBSCRIPTION_ID`. -/
def SUBSCRIPTION_ID_RANGE : Nat := 4294967296

/-- The name of a callback. -/
abbrev Callback := Nat

/-- The data members of `ChannelSubscription<TSubscriptionType>`, and its type argument. -/
structure ChannelSubscription where
  subscription_type : TypeIndex
  subscription_counter : SUBSCRIPTION_ID
  subscriptions : Map SUBSCRIPTION_ID Callback
deriving DecidableEq, Repr

/-- The constructor `ChannelSubscription<TSubscriptionType>()`. -/
def ChannelSubscription.new (TSubscriptionType : TypeIndex) : ChannelSubscription :=
  { subscription_type := TSubscriptionType, subscription_counter := 0, subscriptions := [] }

/-- The function `ChannelSubscription::subscribe(handler)`. -/
def ChannelSubscription.subscribe (self : ChannelSubscription) (handler : Callback) :
    SUBSCRIPTION_ID × ChannelSubscription :=
  let subscription_id := self.subscription_counter
  (subscription_id,
    { self with
      subscription_counter := (self.subscription_counter + 1) % SUBSCRIPTION_ID_RANGE
      subscriptions := self.subscriptions.assign subscription_id handler })

/-- The function `ChannelSubscription::unsubscribe(id)`. -/
def ChannelSubscription.unsubscribe (self : ChannelSubscription) (id : SUBSCRIPTION_ID) :
    Bool × ChannelSubscription :=
  let subscriptions := self.subscriptions.erase id
  (decide (subscriptions.length = 0), { self with subscriptions := subscriptions })

/-- The loop of `propagate_to_handlers`, `for (auto subscription : subscriptions)`.  The
range-for walks the member `subscriptions` itself while the callbacks run, and a callback
may subscribe and unsubscribe on the endpoint: `live` reads that member in the endpoint as
it is now, and the list is what the iterator has still to pass, taken from the table when
the loop began.  A subscription erased before the iterator reaches it is not in the
container any more and is passed over; otherwise the element under the iterator is copied
(`auto`) as it is now and its callback is called.  When the call has erased the element
under the iterator, the iterator is invalid and its advance is undefined
(`invalid_iterator`).  A subscription added during the loop is not visited (the standard
leaves open whether it is).  The order of an `unordered_map` is unspecified: the model
walks the table in the order of its list. -/
def ChannelSubscription.propagate_loop {σ : Type}
    (run : Callback → ChanneledSocketConnection_p → List NETWORK_BYTE → σ → Outcome σ Unit)
    (live : σ → Map SUBSCRIPTION_ID Callback)
    (sender : ChanneledSocketConnection_p) (obj : List NETWORK_BYTE) :
    List (SUBSCRIPTION_ID × Callback) → σ → Outcome σ Unit
  | [], st => Outcome.ok st ()
  | subscription :: rest, st =>
    match (live st).find subscription.1 with
    | none => ChannelSubscription.propagate_loop run live sender obj rest st
    | some handler =>
      (run handler sender obj st).andThen fun _ st1 =>
        match (live st1).find subscription.1 with
        | none => Outcome.raise st1 Exception.invalid_iterator
        | some _ => ChannelSubscription.propagate_loop run live sender obj rest st1

/-- The function `ChannelSubscription::propagate_to_handlers(sender, data)`; `live` reads
the member `subscriptions` of this object in the endpoint. -/
def ChannelSubscription.propagate_to_handlers {σ : Type} (self : ChannelSubscription)
    (run : Callback → ChanneledSocketConnection_p → List NETWORK_BYTE → σ → Outcome σ Unit)
    (live : σ → Map SUBSCRIPTION_ID Callback)
    (sender : ChanneledSocketConnection_p) (data : List NETWORK_BYTE) (st : σ) :
    Outcome σ Unit :=
  ChannelSubscription.propagate_loop run live sender data self.subscriptions st

/-- The data member of the class `ChannelSubscribable`. -/
structure ChannelSubscribable where
  subscriptions : Map CHANNEL_ID ChannelSubscription
deriving DecidableEq, Repr

/-- The function `ChannelSubscribable::subscribe<TSubscriptionType>(callback)`. -/
def ChannelSubscribable.subscribe (channels : Channels) (self : ChannelSubscribable)
    (TSubscriptionType : TypeIndex) (callback : Callback) :
    Outcome ChannelSubscribable SUBSCRIPTION_ID :=
  match channels.getChannelId TSubscriptionType with
  | Except.error e => Outcome.raise self e
  | Except.ok channel_id =>
    let subscription :=
      match self.subscriptions.find channel_id with
      | some subscription => subscription
      | none => ChannelSubscription.new TSubscriptionType
    let r := subscription.subscribe callback
    Outcome.ok { subscriptions := self.subscriptions.assign channel_id r.2 } r.1

/-- The function `ChannelSubscribable::unsubscribe<TSubscriptionType>(id)`. -/
def ChannelSubscribable.unsubscribe (channels : Channels) (self : ChannelSubscribable)
    (TSubscriptionType : TypeIndex) (id : SUBSCRIPTION_ID) : Outcome ChannelSubscribable Unit :=
  match channels.getChannelId TSubscriptionType with
  | Except.error e => Outcome.raise self e
  | Except.ok channel_id =>
    match self.subscriptions.find channel_id with
    | none => Outcome.raise self Exception.out_of_range
    | some subscription =>
      let r := subscription.unsubscribe id
      let self1 : ChannelSubscribable :=
        { subscriptions := self.subscriptions.assign channel_id r.2 }
      if r.1 then Outcome.ok { subscriptions := self1.subscriptions.erase channel_id } ()
      else Outcome.ok self1 ()

/-- The subscriptions that a dispatch on `channel_id` reaches: those of the table's entry
for the channel, none when the table has no entry. -/
def ChannelSubscribable.subscribed (self : ChannelSubscribable) (channel_id : CHANNEL_ID) :
    Map SUBSCRIPTION_ID Callback :=
  match self.subscriptions.find channel_id with
  | some subscription => subscription.subscriptions
  | none => []

/-- The function `ChannelSubscribable::handleIncomingMessage(socket)`.  `subscribable`
finds the `ChannelSubscribable` base in the endpoint; `handleSocketDisconnect` is the
virtual function of that name.  The entry found is called through the pointer that the
table holds: while its loop runs, its subscriptions are those that the table holds for the
channel. -/
def ChannelSubscribable.handleIncomingMessage {σ W : Type} (api : SocketApi W)
    (channels : Channels) (subscribable : σ → ChannelSubscribable)
    (run :
      Callback → ChanneledSocketConnection_p → List NETWORK_BYTE → σ × W → Outcome (σ × W) Unit)
    (handleSocketDisconnect : ChanneledSocketConnection_p → σ × W → Outcome (σ × W) Unit)
    (socket : ChanneledSocketConnection_p) (st : σ × W) : Outcome (σ × W) Unit :=
  let attempt : Outcome (σ × W) Unit :=
    match socket with
    | none => Outcome.raise st Exception.null_pointer_dereference
    | some connection =>
      ((ChanneledSocketConnection.channeled_read_id api connection st.2).withObject
        st.1).andThen fun channel_id st1 =>
      ((ChanneledSocketConnection.channeled_read api channels connection channel_id
        st1.2).withObject st1.1).andThen fun data st2 =>
      match (subscribable st2.1).subscriptions.find channel_id with
      | some channel_subs =>
        channel_subs.propagate_to_handlers run
          (fun st3 => (subscribable st3.1).subscribed channel_id) socket data st2
      | none => Outcome.ok st2 ()
  match attempt.result with
  | Except.error Exception.ConnectionClosedException =>
    handleSocketDisconnect socket attempt.state
  | _ => attempt

/-- What a channeled endpoint adds to `Server` or `Client`: the `ChannelSubscribable` base
and the data members of the user's class. -/
structure Channeled (υ : Type) where
  subscribable : ChannelSubscribable
  user : υ
deriving DecidableEq, Repr

/-! ## Channeled server (`channeled_server.h`) -/

/-- The class `ChanneledServer<TSocketConnectionType>`. -/
abbrev ChanneledServer (υ : Type) := Server (Channeled υ)

/-- The virtual functions that `ChanneledServer` leaves to the user, and the code of the
callbacks that the user subscribes. -/
structure ChanneledServerHooks (υ W : Type) where
  handleClientDisconnect :
    ChanneledSocketConnection_p → ChanneledServer υ × W → Outcome (ChanneledServer υ × W) Unit
  handle_server_connection_error :
    ChanneledServer υ × W → Outcome (ChanneledServer υ × W) Unit
  handle_server_disconnect : ChanneledServer υ × W → Outcome (ChanneledServer υ × W) Unit
  handle_channeledclient_error :
    ChanneledSocketConnection_p → ChanneledServer υ × W → Outcome (ChanneledServer υ × W) Unit
  handle_channeledclient_connect :
    ChanneledSocketConnection_p → ChanneledServer υ × W → Outcome (ChanneledServer υ × W) Unit
  handle_poll_timeout : ChanneledServer υ × W → Outcome (ChanneledServer υ × W) Unit
  callback :
    Callback → ChanneledSocketConnection_p → List NETWORK_BYTE → ChanneledServer υ × W →
      Outcome (ChanneledServer υ × W) Unit

/-- The function `ChanneledServer::handleSocketDisconnect(socket)`. -/
def ChanneledServer.handleSocketDisconnect {υ W : Type} (user : ChanneledServerHooks υ W)
    (socket : ChanneledSocketConnection_p) (st : ChanneledServer υ × W) :
    Outcome (ChanneledServer υ × W) Unit :=
  match socket with
  | none => Outcome.raise st Exception.null_pointer_dereference
  | some connection =>
    user.handleClientDisconnect socket (st.1.removeFromPollService connection, st.2)

/-- The function `ChanneledServer::handle_ready_to_read(client)`. -/
def ChanneledServer.handle_ready_to_read {υ W : Type} (api : SocketApi W) (channels : Channels)
    (user : ChanneledServerHooks υ W) (client : SocketConnection_p)
    (st : ChanneledServer υ × W) : Outcome (ChanneledServer υ × W) Unit :=
  ChannelSubscribable.handleIncomingMessage api channels
    (fun s : ChanneledServer υ => s.derived.subscribable) user.callback
    (ChanneledServer.handleSocketDisconnect user) client st

/-- The function `ChanneledServer::handle_client_error(client)`. -/
def ChanneledServer.handle_client_error {υ W : Type} (user : ChanneledServerHooks υ W)
    (client : SocketConnection_p) (st : ChanneledServer υ × W) :
    Outcome (ChanneledServer υ × W) Unit :=
  match client with
  | none => Outcome.raise st Exception.null_pointer_dereference
  | some connection =>
    user.handle_channeledclient_error client (st.1.removeFromPollService connection, st.2)

/-- The function `ChanneledServer::handle_client_connect(client)`. -/
def ChanneledServer.handle_client_connect {υ W : Type} (user : ChanneledServerHooks υ W)
    (client : SocketConnection_p) (st : ChanneledServer υ × W) :
    Outcome (ChanneledServer υ × W) Unit :=
  user.handle_channeledclient_connect client st

/-- The function `ChanneledServer::handle_client_disconnect(client)`. -/
def ChanneledServer.handle_client_disconnect {υ W : Type} (user : ChanneledServerHooks υ W)
    (client : SocketConnection_p) (st : ChanneledServer υ × W) :
    Outcome (ChanneledServer υ × W) Unit :=
  match client with
  | none => Outcome.raise st Exception.null_pointer_dereference
  | some connection =>
    user.handleClientDisconnect client (st.1.removeFromPollService connection, st.2)

/-- The virtual functions of `Server` as `ChanneledServer` and its user implement them. -/
def ChanneledServer.hooks {υ W : Type} (api : SocketApi W) (channels : Channels)
    (user : ChanneledServerHooks υ W) : ServerHooks (Channeled υ) W :=
  { handle_server_connection_error := user.handle_server_connection_error
    handle_server_disconnect := user.handle_server_disconnect
    handle_client_error := ChanneledServer.handle_client_error user
    handle_client_connect := ChanneledServer.handle_client_connect user
    handle_ready_to_read := ChanneledServer.handle_ready_to_read api channels user
    handle_client_disconnect := ChanneledServer.handle_client_disconnect user
    handle_poll_timeout := user.handle_poll_timeout }

/-! ## Channeled client (`channeled_client.h`) -/

/-- The class `ChanneledClient<TSocketConnection>`. -/
abbrev ChanneledClient (υ : Type) := Client (Channeled υ)

/-- The virtual functions that `ChanneledClient` leaves to the user, and the code of the
callbacks that the user subscribes. -/
structure ChanneledClientHooks (υ W : Type) where
  handle_client_disconnect : ChanneledClient υ × W → Outcome (ChanneledClient υ × W) Unit
  handle_client_error : ChanneledClient υ × W → Outcome (ChanneledClient υ × W) Unit
  handle_poll_timeout : ChanneledClient υ × W → Outcome (ChanneledClient υ × W) Unit
  callback :
    Callback → ChanneledSocketConnection_p → List NETWORK_BYTE → ChanneledClient υ × W →
      Outcome (ChanneledClient υ × W) Unit

/-- The function `ChanneledClient::handleSocketDisconnect(socket)`. -/
def ChanneledClient.handleSocketDisconnect {υ W : Type} (user : ChanneledClientHooks υ W)
    (_socket : ChanneledSocketConnection_p) (st : ChanneledClient υ × W) :
    Outcome (ChanneledClient υ × W) Unit :=
  user.handle_client_disconnect st

/-- The function `ChanneledClient::handle_client_ready_to_read()`. -/
def ChanneledClient.handle_client_ready_to_read {υ W : Type} (api : SocketApi W)
    (channels : Channels) (user : ChanneledClientHooks υ W) (st : ChanneledClient υ × W) :
    Outcome (ChanneledClient υ × W) Unit :=
  ChannelSubscribable.handleIncomingMessage api channels
    (fun c : ChanneledClient υ => c.derived.subscribable) user.callback
    (ChanneledClient.handleSocketDisconnect user) st.1.connection st

/-- The virtual functions of `Client` as `ChanneledClient` and its user implement them. -/
def ChanneledClient.hooks {υ W : Type} (api : SocketApi W) (channels : Channels)
    (user : ChanneledClientHooks υ W) : ClientHooks (Channeled υ) W :=
  { handle_client_error := user.handle_client_error
    handle_client_ready_to_read := ChanneledClient.handle_client_ready_to_read api channels user
    handle_poll_timeout := user.handle_poll_timeout
    handle_client_disconnect := user.handle_client_disconnect }

/-- The function `ChanneledClient::channeled_send<TMessageType>(message)`. -/
def ChanneledClient.channeled_send {υ W : Type} (api : SocketApi W)
    (sizeOf : TypeIndex → NETWORK_BYTE_SIZE) (channels : Channels) (fuel : Nat)
    (TMessageType : TypeIndex) (message : List NETWORK_BYTE) (st : ChanneledClient υ × W) :
    Option (Outcome (ChanneledClient υ × W) Unit) :=
  match st.1.connection with
  | none => some (Outcome.raise st Exception.null_pointer_dereference)
  | some channeled_con =>
    (ChanneledSocketConnection.channeled_send api sizeOf channels fuel channeled_con
      TMessageType message st.2).map fun o => o.withObject st.1

/-! ## Reachable clients -/

/-- The clients that the constructor, the member functions, the destructor and the
assignments of a derived class to its own members produce. -/
inductive Client.Reachable {ω : Type} : Client ω → Prop where
  | new (poll_timeout : Int) (derived : ω) : Client.Reachable (Client.new poll_timeout derived)
  | connect {W : Type} (api : SocketApi W)
      (connection_create_func : W → Outcome W SocketConnection) (address port : String)
      (c : Client ω) (w : W) :
      Client.Reachable c →
        Client.Reachable (Client.connect api connection_create_func address port (c, w)).state.1
  | disconnect {W : Type} (c : Client ω) (w : W) :
      Client.Reachable c → Client.Reachable (Client.disconnect (c, w)).state.1
  | polled {W : Type} (api : SocketApi W) (c : Client ω) (w : W) :
      Client.Reachable c →
        Client.Reachable
          { c with poll_service := (PollService.poll api c.poll_service w).state.1 }
  | destruct (c : Client ω) : Client.Reachable c → Client.Reachable c.destruct
  | derived (c : Client ω) (d : ω) : Client.Reachable c → Client.Reachable { c with derived := d }

/-! ## A scripted operating system

A world whose answers are written down in advance, for the evaluation of the model on
concrete inputs. -/

/-- The answers of the system, call after call: the return values of `getaddrinfo`,
`bind`, `listen` and `connect` (`0` once the list is used up); the descriptors of the
connections that `connection_create_func` makes and those that `accept` returns; the
answers of `socket_poll` and of `recv`; and the bytes that `socket_send` took so far. -/
structure Scripted where
  getaddrinfo_returns : List Int
  bind_results : List Int
  listen_results : List Int
  connect_results : List Int
  created : List SOCKET
  accepted : List SOCKET
  polled : List (Int × List Nat)
  received : List (Option (List NETWORK_BYTE))
  sent : List NETWORK_BYTE
deriving DecidableEq, Repr

/-- The scripted system as an operating system: `socket_send` takes the whole buffer; a
call whose answers are used up succeeds (`getaddrinfo`, `bind`, `listen`, `connect`), gets
`INVALID_SOCKET` (`accept`), no ready descriptor (`socket_poll`) or the end of the stream
(`recv`). -/
def Scripted.api : SocketApi Scripted :=
  { socket_send := fun _ buffer w => ((buffer.length : Int), { w with sent := w.sent ++ buffer })
    recv := fun _ _ w => (w.received.headD (some []), { w with received := w.received.tail })
    getaddrinfo := fun _ _ w =>
      (w.getaddrinfo_returns.headD 0, { w with getaddrinfo_returns := w.getaddrinfo_returns.tail })
    bind_socket := fun _ w => (w.bind_results.headD 0, { w with bind_results := w.bind_results.tail })
    listen_socket := fun _ _ w =>
      (w.listen_results.headD 0, { w with listen_results := w.listen_results.tail })
    accept_socket := fun _ w =>
      (w.accepted.headD INVALID_SOCKET, { w with accepted := w.accepted.tail })
    connect_socket := fun _ w =>
      (w.connect_results.headD 0, { w with connect_results := w.connect_results.tail })
    socket_poll := fun _ _ w => (w.polled.headD (0, []), { w with polled := w.polled.tail }) }

/-- A `connection_create_func` on the scripted system: the next descriptor of `created`,
or `CreateException` when there is none. -/
def Scripted.connection_create_func (w : Scripted) : Outcome Scripted SocketConnection :=
  match w.created with
  | [] => Outcome.raise w Exception.CreateException
  | fd :: rest => Outcome.ok { w with created := rest } { socket_descriptor := fd }

/-- A scripted system where every call succeeds and nothing is pending. -/
def Scripted.quiet : Scripted :=
  { getaddrinfo_returns := [], bind_results := [], listen_results := [], connect_results := []
    created := [], accepted := [], polled := [], received := [], sent := [] }

/-- The calls of the hooks and callbacks of a user who only writes down what is called. -/
inductive HookCall where
  | handleClientDisconnect (client : ChanneledSocketConnection_p)
  | handle_server_connection_error
  | handle_server_disconnect
  | handle_channeledclient_error (client : ChanneledSocketConnection_p)
  | handle_channeledclient_connect (client : ChanneledSocketConnection_p)
  | handle_poll_timeout
  | handle_client_disconnect
  | handle_client_error
  | callback (name : Callback) (sender : ChanneledSocketConnection_p)
      (message : List NETWORK_BYTE)
deriving DecidableEq, Repr

/-- The channeled server with one more call written down by its user. -/
def ChanneledServer.record {W : Type} (call : HookCall)
    (st : ChanneledServer (List HookCall) × W) :
    Outcome (ChanneledServer (List HookCall) × W) Unit :=
  Outcome.ok
    ({ st.1 with derived := { st.1.derived with user := st.1.derived.user ++ [call] } }, st.2) ()

/-- The user of a channeled server whose hooks and callbacks write down their calls and
do nothing else. -/
def ChanneledServerHooks.recording {W : Type} : ChanneledServerHooks (List HookCall) W :=
  { handleClientDisconnect := fun client =>
      ChanneledServer.record (HookCall.handleClientDisconnect client)
    handle_server_connection_error :=
      ChanneledServer.record HookCall.handle_server_connection_error
    handle_server_disconnect := ChanneledServer.record HookCall.handle_server_disconnect
    handle_channeledclient_error := fun client =>
      ChanneledServer.record (HookCall.handle_channeledclient_error client)
    handle_channeledclient_connect := fun client =>
      ChanneledServer.record (HookCall.handle_channeledclient_connect client)
    handle_poll_timeout := ChanneledServer.record HookCall.handle_poll_timeout
    callback := fun name sender message =>
      ChanneledServer.record (HookCall.callback name sender message) }

/-- The channeled client with one more call written down by its user. -/
def ChanneledClient.record {W : Type} (call : HookCall)
    (st : ChanneledClient (List HookCall) × W) :
    Outcome (ChanneledClient (List HookCall) × W) Unit :=
  Outcome.ok
    ({ st.1 with derived := { st.1.derived with user := st.1.derived.user ++ [call] } }, st.2) ()

/-- The user of a channeled client whose hooks and callbacks write down their calls and
do nothing else. -/
def ChanneledClientHooks.recording {W : Type} : ChanneledClientHooks (List HookCall) W :=
  { handle_client_disconnect := ChanneledClient.record HookCall.handle_client_disconnect
    handle_client_error := ChanneledClient.record HookCall.handle_client_error
    handle_poll_timeout := ChanneledClient.record HookCall.handle_poll_timeout
    callback := fun name sender message =>
      ChanneledClient.record (HookCall.callback name sender message) }

/-! ## Observations of the subscription table -/

/-- The id that the next `subscribe` on `channel_id` returns: the counter of the table's
entry, the counter of a new `ChannelSubscription` when the table has no entry. -/
def ChannelSubscribable.next_id (self : ChannelSubscribable) (channel_id : CHANNEL_ID) :
    SUBSCRIPTION_ID :=
  match self.subscriptions.find channel_id with
  | some subscription => subscription.subscription_counter
  | none => 0

/-- One call of the subscription interface of an endpoint. -/
inductive SubscriptionCall where
  | subscribe (TSubscriptionType : TypeIndex) (callback : Callback)
  | unsubscribe (TSubscriptionType : TypeIndex) (id : SUBSCRIPTION_ID)
deriving DecidableEq, Repr

/-- The table after one call of the subscription interface (a call that throws leaves the
table as it was). -/
def SubscriptionCall.apply (channels : Channels) (self : ChannelSubscribable) :
    SubscriptionCall → ChannelSubscribable
  | SubscriptionCall.subscribe TSubscriptionType callback =>
    (self.subscribe channels TSubscriptionType callback).state
  | SubscriptionCall.unsubscribe TSubscriptionType id =>
    (self.unsubscribe channels TSubscriptionType id).state

/-- Spec side, the callbacks currently subscribed, each as the pair of its channel and its
subscription id: a `subscribe<T>` that returns `id` adds the pair of `T`'s channel and
`id`; an `unsubscribe<T>(id)` takes the pair of `T`'s channel and `id` away. -/
def SubscriptionCall.currently_subscribed (channels : Channels) (self : ChannelSubscribable)
    (live : List (CHANNEL_ID × SUBSCRIPTION_ID)) :
    SubscriptionCall → List (CHANNEL_ID × SUBSCRIPTION_ID)
  | SubscriptionCall.subscribe TSubscriptionType callback =>
    match channels.getChannelId TSubscriptionType,
      (self.subscribe channels TSubscriptionType callback).result with
    | Except.ok channel_id, Except.ok id => (channel_id, id) :: live
    | _, _ => live
  | SubscriptionCall.unsubscribe TSubscriptionType id =>
    match channels.getChannelId TSubscriptionType with
    | Except.ok channel_id => live.filter fun entry => decide (entry ≠ (channel_id, id))
    | Except.error _ => live

/-- A sequence of calls of the subscription interface, run on a table together with the
callbacks currently subscribed. -/
def SubscriptionCall.run_all (channels : Channels) :
    List SubscriptionCall → ChannelSubscribable × List (CHANNEL_ID × SUBSCRIPTION_ID) →
      ChannelSubscribable × List (CHANNEL_ID × SUBSCRIPTION_ID)
  | [], st => st
  | call :: rest, st =>
    SubscriptionCall.run_all channels rest
      (call.apply channels st.1, call.currently_subscribed channels st.1 st.2)

/-- A table as the subscription interface keeps it: one entry per channel, every entry with
at least one subscription, the subscriptions of an entry under distinct ids. -/
def ChannelSubscribable.WellFormed (self : ChannelSubscribable) : Prop :=
  self.subscriptions.keys.Nodup ∧
    ∀ channel_id entry, self.subscriptions.find channel_id = some entry →
      entry.subscriptions ≠ [] ∧ entry.subscriptions.keys.Nodup

/-- The list `live` names exactly the subscriptions that the table holds. -/
def ChannelSubscribable.Tracks (self : ChannelSubscribable)
    (live : List (CHANNEL_ID × SUBSCRIPTION_ID)) : Prop :=
  ∀ channel_id id, (channel_id, id) ∈ live ↔ id ∈ (self.subscribed channel_id).keys

/-! ## Sequences of calls on the poll service -/

/-- One call that changes the set of sockets of a poll service. -/
inductive PollCall where
  | add_socket (socket : SocketConnection)
  | remove_socket (socket : SocketConnection)
  | clear_sockets
deriving DecidableEq, Repr

/-- The poll service after one call. -/
def PollCall.apply (self : PollService) : PollCall → PollService
  | PollCall.add_socket socket => self.add_socket socket
  | PollCall.remove_socket socket => self.remove_socket socket
  | PollCall.clear_sockets => self.clear_sockets

/-- The poll service after a sequence of calls. -/
def PollCall.run_all : List PollCall → PollService → PollService
  | [], self => self
  | call :: rest, self => PollCall.run_all rest (call.apply self)

/-- Spec side: the sequences of calls in which every `add_socket` is given a handle whose
descriptor is not tracked at that moment. -/
def PollCall.admissible : List PollCall → PollService → Bool
  | [], _ => true
  | PollCall.add_socket socket :: rest, self =>
    decide (socket.socket_descriptor ∉ self.poll_descriptor_map.keys) &&
      PollCall.admissible rest (self.add_socket socket)
  | PollCall.remove_socket socket :: rest, self =>
    PollCall.admissible rest (self.remove_socket socket)
  | PollCall.clear_sockets :: rest, self => PollCall.admissible rest self.clear_sockets

/-- Spec side: the handle table that a descriptor list determines, when the first
descriptor of the list stands at position `i`: every descriptor with its position and the
handle of that descriptor. -/
def PollService.table_of : Int → List POLL_DESCRIPTOR → Map SOCKET (Int × SocketConnection_p)
  | _, [] => []
  | i, d :: ds => (d.fd, (i, some { socket_descriptor := d.fd })) :: PollService.table_of (i + 1) ds

/-- Spec side: the descriptor list names every descriptor once and the handle table is the
one that the list determines. -/
def PollService.Consistent (self : PollService) : Prop :=
  (self.descriptors.map fun d => d.fd).Nodup ∧
    self.poll_descriptor_map = PollService.table_of 0 self.descriptors

/-! ## The turns of the poll loops, and sequences of lifecycle calls -/

/-- The hook that one turn of the loop of `Server::poll` calls for a ready socket, once the
checkpoint of the turn is passed. -/
def Server.dispatch {ω W : Type} (api : SocketApi W) (hooks : ServerHooks ω W)
    (socket_it : SocketCollectionEntry) (st : Server ω × W) : Outcome (Server ω × W) Unit :=
  if socket_it.connection = st.1.server_connection then
    if socket_it.status = SocketStatus.SOCKET_STATUS_ERROR then
      hooks.handle_server_connection_error st
    else if socket_it.status = SocketStatus.SOCKET_STATUS_DISCONNECT then
      hooks.handle_server_disconnect st
    else Server.handle_connection_request api hooks st
  else
    if socket_it.status = SocketStatus.SOCKET_STATUS_ERROR then
      hooks.handle_client_error socket_it.connection st
    else if socket_it.status = SocketStatus.SOCKET_STATUS_DISCONNECT then
      hooks.handle_client_disconnect socket_it.connection st
    else hooks.handle_ready_to_read socket_it.connection st

/-- The hook that one turn of the loop of `Client::poll` calls for its own connection, once
the checkpoint of the turn is passed. -/
def Client.dispatch {ω W : Type} (hooks : ClientHooks ω W) (socket_iter : SocketCollectionEntry)
    (st : Client ω × W) : Outcome (Client ω × W) Unit :=
  if socket_iter.status = SocketStatus.SOCKET_STATUS_ERROR then hooks.handle_client_error st
  else if socket_iter.status = SocketStatus.SOCKET_STATUS_DISCONNECT then
    hooks.handle_client_disconnect st
  else hooks.handle_client_ready_to_read st

/-- Two implementations of the hooks of `Server` that do the same whenever they are called
on a server whose state is not `DESTRUCTING`. -/
def ServerHooks.AgreeUnlessDestructing {ω W : Type} (a b : ServerHooks ω W) : Prop :=
  ∀ st : Server ω × W, st.1.state ≠ ServerState.DESTRUCTING →
    a.handle_server_connection_error st = b.handle_server_connection_error st ∧
    a.handle_server_disconnect st = b.handle_server_disconnect st ∧
    a.handle_poll_timeout st = b.handle_poll_timeout st ∧
    ∀ client : SocketConnection_p,
      a.handle_client_error client st = b.handle_client_error client st ∧
      a.handle_client_connect client st = b.handle_client_connect client st ∧
      a.handle_ready_to_read client st = b.handle_ready_to_read client st ∧
      a.handle_client_disconnect client st = b.handle_client_disconnect client st

/-- Two implementations of the hooks of `Client` that do the same whenever they are called
on a client whose state is not `CLIENT_DESTRUCTING`. -/
def ClientHooks.AgreeUnlessDestructing {ω W : Type} (a b : ClientHooks ω W) : Prop :=
  ∀ st : Client ω × W, st.1.state ≠ ClientState.CLIENT_DESTRUCTING →
    a.handle_client_error st = b.handle_client_error st ∧
    a.handle_client_ready_to_read st = b.handle_client_ready_to_read st ∧
    a.handle_poll_timeout st = b.handle_poll_timeout st ∧
    a.handle_client_disconnect st = b.handle_client_disconnect st

/-- One call of a guarded operation of `Client`. -/
inductive ClientCall where
  | connect (address port : String)
  | disconnect
deriving DecidableEq, Repr

/-- The client and the world after one guarded operation, whether it returns or throws. -/
def ClientCall.apply {ω W : Type} (api : SocketApi W)
    (connection_create_func : W → Outcome W SocketConnection) (st : Client ω × W) :
    ClientCall → Client ω × W
  | ClientCall.connect address port =>
    (Client.connect api connection_create_func address port st).state
  | ClientCall.disconnect => (Client.disconnect st).state

/-- The client and the world after a sequence of guarded operations. -/
def ClientCall.run_all {ω W : Type} (api : SocketApi W)
    (connection_create_func : W → Outcome W SocketConnection) :
    List ClientCall → Client ω × W → Client ω × W
  | [], st => st
  | call :: rest, st =>
    ClientCall.run_all api connection_create_func rest
      (call.apply api connection_create_func st)

/-- One call of a guarded operation of `Server`. -/
inductive ServerCall where
  | open
  | serve
  | close
deriving DecidableEq, Repr

/-- The server and the world after one guarded operation, whether it returns or throws. -/
def ServerCall.apply {ω W : Type} (api : SocketApi W)
    (connection_create_func : W → Outcome W SocketConnection) (st : Server ω × W) :
    ServerCall → Server ω × W
  | ServerCall.open => (Server.open api connection_create_func st).state
  | ServerCall.serve => (Server.serve st).state
  | ServerCall.close => (Server.close st).state

/-- The server and the world after a sequence of guarded operations. -/
def ServerCall.run_all {ω W : Type} (api : SocketApi W)
    (connection_create_func : W → Outcome W SocketConnection) :
    List ServerCall → Server ω × W → Server ω × W
  | [], st => st
  | call :: rest, st =>
    ServerCall.run_all api connection_create_func rest
      (call.apply api connection_create_func st)

/-- Spec side: what a poll reports for a descriptor whose handle is the one of its own
descriptor, from the events returned for it: nothing when none of the bits `POLLIN`,
`POLLERR`, `POLLNVAL`, `POLLHUP` is set; otherwise the handle with the status error when
`POLLERR` or `POLLNVAL` is set, else disconnect when `POLLHUP` is set, else normal. -/
def PollService.entry_of_events (d : POLL_DESCRIPTOR) : Option SocketCollectionEntry :=
  if d.revents &&& (POLLIN ||| POLLERR ||| POLLNVAL ||| POLLHUP) ≠ 0 then
    some
      { connection := some { socket_descriptor := d.fd }
        status :=
          if d.revents &&& (POLLERR ||| POLLNVAL) ≠ 0 then SocketStatus.SOCKET_STATUS_ERROR
          else if d.revents &&& POLLHUP ≠ 0 then SocketStatus.SOCKET_STATUS_DISCONNECT
          else SocketStatus.SOCKET_STATUS_NORMAL }
  else none

/-- The table after a sequence of calls of the subscription interface. -/
def SubscriptionCall.apply_all (channels : Channels) :
    List SubscriptionCall → ChannelSubscribable → ChannelSubscribable
  | [], table => table
  | call :: rest, table => SubscriptionCall.apply_all channels rest (call.apply channels table)

/-- The table has an entry for `channel_id` after each call of the sequence. -/
def SubscriptionCall.entry_kept (channels : Channels) (channel_id : CHANNEL_ID) :
    List SubscriptionCall → ChannelSubscribable → Bool
  | [], _ => true
  | call :: rest, table =>
    ((call.apply channels table).subscriptions.find channel_id).isSome &&
      SubscriptionCall.entry_kept channels channel_id rest (call.apply channels table)

/-! ## A system with scripted answers to `send` -/

/-- The state of a system whose answers to `socket_send` are scripted: the answers still to
give, and the bytes it has taken so far, in order. -/
structure Outbox where
  answers : List Int
  handed : List NETWORK_BYTE
deriving DecidableEq, Repr

/-- The call `socket_send`: a negative answer is an error and takes nothing; another answer
is the number of bytes taken from the front of `buffer`, at most those offered; when the
answers are used up the whole buffer is taken. -/
def Outbox.socket_send (_fd : SOCKET) (buffer : List NETWORK_BYTE) (o : Outbox) :
    Int × Outbox :=
  match o.answers with
  | [] => ((buffer.length : Int), { o with handed := o.handed ++ buffer })
  | a :: rest =>
    if a < 0 then (SOCKET_ERROR, { o with answers := rest })
    else
      ((min a.toNat buffer.length : Nat),
        { answers := rest, handed := o.handed ++ buffer.take (min a.toNat buffer.length) })

/-- The scripted sender as an operating system (the other calls succeed and do nothing;
`recv` reports the end of the stream). -/
def Outbox.api : SocketApi Outbox :=
  { socket_send := Outbox.socket_send
    recv := fun _ _ o => (some [], o)
    getaddrinfo := fun _ _ o => (0, o)
    bind_socket := fun _ o => (0, o)
    listen_socket := fun _ _ o => (0, o)
    accept_socket := fun _ o => (INVALID_SOCKET, o)
    connect_socket := fun _ o => (0, o)
    socket_poll := fun _ _ o => ((0, []), o) }

/-! # Theorems -/

/-! ## Lemmas about the containers and the registry -/

theorem Map.find_assign {κ ν : Type} [DecidableEq κ] (m : Map κ ν) (k k' : κ) (v : ν) :
    (m.assign k v).find k' = if k = k' then some v else m.find k' := by
  induction m with
  | nil => simp [Map.assign, Map.find]
  | cons e m ih =>
    obtain ⟨a, b⟩ := e
    by_cases h : a = k
    · subst h
      by_cases h2 : a = k' <;> simp [Map.assign, Map.find, h2]
    · by_cases h2 : a = k'
      · subst h2
        simp [Map.assign, Map.find, h, Ne.symm h]
      · simp [Map.assign, Map.find, h, h2, ih]

theorem Channels.addNewChannel_counter (sizeOf : TypeIndex → NETWORK_BYTE_SIZE) (c : Channels)
    (T : TypeIndex) :
    (c.addNewChannel sizeOf T).channel_counter = (c.channel_counter + 1) % 256 := rfl

theorem Channels.addNewChannel_types_find (sizeOf : TypeIndex → NETWORK_BYTE_SIZE) (c : Channels)
    (T U : TypeIndex) :
    (c.addNewChannel sizeOf T).types_to_ids.find U
      = if T = U then some c.channel_counter else c.types_to_ids.find U := by
  simp [Channels.addNewChannel, Channel.new, Channels.getNextId, ChannelInterface.getId,
    Map.find_assign]

theorem Channels.addNewChannel_ids_find (sizeOf : TypeIndex → NETWORK_BYTE_SIZE) (c : Channels)
    (T : TypeIndex) (id : CHANNEL_ID) :
    (c.addNewChannel sizeOf T).ids_to_channels.find id
      = if c.channel_counter = id
        then some { message_size := sizeOf T, channel_id := c.channel_counter }
        else c.ids_to_channels.find id := by
  simp [Channels.addNewChannel, Channel.new, Channels.getNextId, ChannelInterface.getId,
    Map.find_assign]

theorem Channels.registerAll_nil (sizeOf : TypeIndex → NETWORK_BYTE_SIZE) (c : Channels) :
    c.registerAll sizeOf [] = c := rfl

theorem Channels.registerAll_cons (sizeOf : TypeIndex → NETWORK_BYTE_SIZE) (c : Channels)
    (T : TypeIndex) (regs : List TypeIndex) :
    c.registerAll sizeOf (T :: regs) = (c.addNewChannel sizeOf T).registerAll sizeOf regs := rfl

theorem Channels.registerAll_append (sizeOf : TypeIndex → NETWORK_BYTE_SIZE) (c : Channels)
    (xs ys : List TypeIndex) :
    c.registerAll sizeOf (xs ++ ys) = (c.registerAll sizeOf xs).registerAll sizeOf ys := by
  simp [Channels.registerAll, List.foldl_append]

theorem Channels.registerAll_counter (sizeOf : TypeIndex → NETWORK_BYTE_SIZE)
    (regs : List TypeIndex) (c : Channels) (hc : c.channel_counter < 256) :
    (c.registerAll sizeOf regs).channel_counter = (c.channel_counter + regs.length) % 256 := by
  induction regs generalizing c with
  | nil =>
    simp only [CHANNEL_ID, Channels.registerAll_nil, List.length_nil] at *
    omega
  | cons T regs ih =>
    rw [Channels.registerAll_cons,
      ih _ (by rw [Channels.addNewChannel_counter]; exact Nat.mod_lt _ (by decide)),
      Channels.addNewChannel_counter]
    simp only [CHANNEL_ID, List.length_cons] at *
    omega

theorem Channels.registerAll_types_find (sizeOf : TypeIndex → NETWORK_BYTE_SIZE)
    (regs : List TypeIndex) (c : Channels) (T : TypeIndex) (hT : T ∉ regs) :
    (c.registerAll sizeOf regs).types_to_ids.find T = c.types_to_ids.find T := by
  induction regs generalizing c with
  | nil => rfl
  | cons U regs ih =>
    simp only [List.mem_cons, not_or] at hT
    rw [Channels.registerAll_cons, ih _ hT.2, Channels.addNewChannel_types_find,
      if_neg (Ne.symm hT.1)]

theorem Channels.assignedIds_cons (sizeOf : TypeIndex → NETWORK_BYTE_SIZE) (c : Channels)
    (T : TypeIndex) (regs : List TypeIndex) :
    Channels.assignedIds sizeOf c (T :: regs)
      = c.channel_counter :: Channels.assignedIds sizeOf (c.addNewChannel sizeOf T) regs := rfl

theorem Channels.registerAll_ids_find (sizeOf : TypeIndex → NETWORK_BYTE_SIZE)
    (regs : List TypeIndex) (c : Channels) (id : CHANNEL_ID)
    (hid : id ∉ Channels.assignedIds sizeOf c regs) :
    (c.registerAll sizeOf regs).ids_to_channels.find id = c.ids_to_channels.find id := by
  induction regs generalizing c with
  | nil => rfl
  | cons U regs ih =>
    rw [Channels.assignedIds_cons] at hid
    simp only [List.mem_cons, not_or] at hid
    rw [Channels.registerAll_cons, ih _ hid.2, Channels.addNewChannel_ids_find,
      if_neg (Ne.symm hid.1)]

theorem Channels.mem_assignedIds (sizeOf : TypeIndex → NETWORK_BYTE_SIZE)
    (regs : List TypeIndex) (c : Channels) (hc : c.channel_counter < 256) (id : CHANNEL_ID)
    (hid : id ∈ Channels.assignedIds sizeOf c regs) :
    ∃ i, i < regs.length ∧ id = (c.channel_counter + i) % 256 := by
  induction regs generalizing c with
  | nil => simp [Channels.assignedIds] at hid
  | cons U regs ih =>
    rw [Channels.assignedIds_cons] at hid
    rcases List.mem_cons.mp hid with h | h
    · refine ⟨0, by simp, ?_⟩
      subst h
      simp only [CHANNEL_ID] at *
      omega
    · obtain ⟨i, hi, hid2⟩ :=
        ih _ (by rw [Channels.addNewChannel_counter]; exact Nat.mod_lt _ (by decide)) h
      refine ⟨i + 1, by simpa using hi, ?_⟩
      rw [hid2, Channels.addNewChannel_counter]
      simp only [CHANNEL_ID] at *
      omega

/-- Id and descriptor of a type after its registration and any later ones. -/
theorem Channels.registerAll_lookup (sizeOf : TypeIndex → NETWORK_BYTE_SIZE)
    (pre post : List TypeIndex) (T : TypeIndex) (hT : T ∉ post) :
    (Channels.initial.registerAll sizeOf (pre ++ T :: post)).getChannelId T
      = Except.ok (pre.length % 256) := by
  have hc : (Channels.initial.registerAll sizeOf pre).channel_counter = pre.length % 256 := by
    rw [Channels.registerAll_counter _ _ _ (by decide)]
    simp [Channels.initial]
  rw [Channels.registerAll_append, Channels.registerAll_cons]
  unfold Channels.getChannelId
  rw [Channels.registerAll_types_find _ _ _ _ hT, Channels.addNewChannel_types_find, if_pos rfl, hc]


set_option maxRecDepth 100000

/-! ## Claims about the channel registry -/

theorem Channels.registerAll_getChannel (sizeOf : TypeIndex → NETWORK_BYTE_SIZE)
    (pre post : List TypeIndex) (T : TypeIndex) (hpost : post.length < 256) :
    (Channels.initial.registerAll sizeOf (pre ++ T :: post)).getChannel (pre.length % 256)
      = Except.ok { message_size := sizeOf T, channel_id := pre.length % 256 } := by
  have hc : (Channels.initial.registerAll sizeOf pre).channel_counter = pre.length % 256 := by
    rw [Channels.registerAll_counter _ _ _ (by decide)]
    simp [Channels.initial]
  have hfresh : pre.length % 256 ∉ Channels.assignedIds sizeOf
      ((Channels.initial.registerAll sizeOf pre).addNewChannel sizeOf T) post := by
    intro hmem
    obtain ⟨i, hi, heq⟩ := Channels.mem_assignedIds sizeOf post _
      (by rw [Channels.addNewChannel_counter]; exact Nat.mod_lt _ (by decide)) _ hmem
    rw [Channels.addNewChannel_counter, hc] at heq
    simp only [CHANNEL_ID] at *
    omega
  rw [Channels.registerAll_append, Channels.registerAll_cons]
  unfold Channels.getChannel
  rw [Channels.registerAll_ids_find _ _ _ _ hfresh, Channels.addNewChannel_ids_find, hc,
    if_pos rfl]

/-- C3 (amended): over any sequence of registrations of pairwise distinct types, the id that
`getChannelId<T>()` returns once `T` is registered is returned again after any further
registrations; and when at most 256 types are registered, two distinct registered types
have distinct ids. -/
theorem channel_ids_stable_and_unique (sizeOf : TypeIndex → NETWORK_BYTE_SIZE)
    (regs more : List TypeIndex) (hdistinct : (regs ++ more).Nodup) :
    (∀ T ∈ regs, ∃ id,
        (Channels.initial.registerAll sizeOf regs).getChannelId T = Except.ok id ∧
        (Channels.initial.registerAll sizeOf (regs ++ more)).getChannelId T = Except.ok id) ∧
    ((regs ++ more).length ≤ 256 → ∀ T ∈ regs ++ more, ∀ U ∈ regs ++ more, T ≠ U →
        (Channels.initial.registerAll sizeOf (regs ++ more)).getChannelId T
          ≠ (Channels.initial.registerAll sizeOf (regs ++ more)).getChannelId U) := by
  constructor
  · intro T hT
    obtain ⟨s, t, rfl⟩ := List.append_of_mem hT
    have hnd : T ∉ t ++ more := by
      have h1 : (s ++ T :: (t ++ more)).Nodup := by simpa using hdistinct
      have h2 := (List.nodup_append.mp h1).2.1
      exact (List.nodup_cons.mp h2).1
    refine ⟨s.length % 256, ?_, ?_⟩
    · exact Channels.registerAll_lookup sizeOf s t T (fun h => hnd (List.mem_append_left _ h))
    · have := Channels.registerAll_lookup sizeOf s (t ++ more) T hnd
      simpa using this
  · intro hlen T hT U hU hne heq
    obtain ⟨s, t, hs⟩ := List.append_of_mem hT
    obtain ⟨s', t', hs'⟩ := List.append_of_mem hU
    have hTt : T ∉ t := by
      rw [hs] at hdistinct
      exact (List.nodup_cons.mp (List.nodup_append.mp hdistinct).2.1).1
    have hUt : U ∉ t' := by
      rw [hs'] at hdistinct
      exact (List.nodup_cons.mp (List.nodup_append.mp hdistinct).2.1).1
    have e1 := Channels.registerAll_lookup sizeOf s t T hTt
    have e2 := Channels.registerAll_lookup sizeOf s' t' U hUt
    rw [← hs] at e1
    rw [← hs'] at e2
    rw [e1, e2] at heq
    have hmod : s.length % 256 = s'.length % 256 := by
      simpa using heq
    have l1 : s.length < 256 := by
      have : (s ++ T :: t).length ≤ 256 := by rw [← hs]; exact hlen
      simp only [List.length_append, List.length_cons] at this
      omega
    have l2 : s'.length < 256 := by
      have : (s' ++ U :: t').length ≤ 256 := by rw [← hs']; exact hlen
      simp only [List.length_append, List.length_cons] at this
      omega
    have hl : s.length = s'.length := by omega
    have hboth : s ++ T :: t = s' ++ U :: t' := by rw [← hs, ← hs']
    have := (List.append_inj hboth hl).2
    exact hne (List.cons.inj this).1

/-- Witness of C3 (amended): three types registered, then two more. -/
theorem channel_ids_stable_and_unique_witness :
    ([10, 20, 30] ++ [40, 50] : List TypeIndex).Nodup ∧
    ((∀ T ∈ ([10, 20, 30] : List TypeIndex), ∃ id,
        (Channels.initial.registerAll (fun t => t + 1) [10, 20, 30]).getChannelId T
          = Except.ok id ∧
        (Channels.initial.registerAll (fun t => t + 1) ([10, 20, 30] ++ [40, 50])).getChannelId T
          = Except.ok id) ∧
    (([10, 20, 30] ++ [40, 50] : List TypeIndex).length ≤ 256 →
      ∀ T ∈ ([10, 20, 30] ++ [40, 50] : List TypeIndex),
      ∀ U ∈ ([10, 20, 30] ++ [40, 50] : List TypeIndex), T ≠ U →
        (Channels.initial.registerAll (fun t => t + 1) ([10, 20, 30] ++ [40, 50])).getChannelId T
          ≠ (Channels.initial.registerAll (fun t => t + 1)
              ([10, 20, 30] ++ [40, 50])).getChannelId U)) :=
  ⟨by decide, channel_ids_stable_and_unique (fun t => t + 1) [10, 20, 30] [40, 50] (by decide)⟩

/-- C3 as stated fails: after 257 registrations of the pairwise distinct types `0 .. 256`
the one-byte counter has wrapped, and the distinct registered types `0` and `256` both
have the id `0`. -/
theorem channel_ids_collide_after_256 :
    (List.range 257).Nodup ∧ (0 : TypeIndex) ∈ List.range 257 ∧
    (256 : TypeIndex) ∈ List.range 257 ∧ (0 : TypeIndex) ≠ 256 ∧
    (Channels.initial.registerAll (fun t => t + 1) (List.range 257)).getChannelId 0
      = Except.ok 0 ∧
    (Channels.initial.registerAll (fun t => t + 1) (List.range 257)).getChannelId 256
      = Except.ok 0 :=
  ⟨List.nodup_range 257, by simp, by simp, by decide, rfl, rfl⟩

/-- C4 (amended): for a registered type `T`, whatever was registered before it and as long
as fewer than 256 registrations follow it, `getChannel(getChannelId<T>())` returns the
descriptor recorded for `T`, whose message size is `sizeof(T)`. -/
theorem getChannel_of_getChannelId (sizeOf : TypeIndex → NETWORK_BYTE_SIZE)
    (pre post : List TypeIndex) (T : TypeIndex) (hT : T ∉ post) (hpost : post.length < 256) :
    ∃ id channel,
      (Channels.initial.registerAll sizeOf (pre ++ T :: post)).getChannelId T = Except.ok id ∧
      (Channels.initial.registerAll sizeOf (pre ++ T :: post)).getChannel id
        = Except.ok channel ∧
      channel.getMessageSize = sizeOf T ∧ channel.getId = id :=
  ⟨pre.length % 256, { message_size := sizeOf T, channel_id := pre.length % 256 },
    Channels.registerAll_lookup sizeOf pre post T hT,
    Channels.registerAll_getChannel sizeOf pre post T hpost, rfl, rfl⟩

/-- Witness of C4 (amended): the type `7`, registered third of five. -/
theorem getChannel_of_getChannelId_witness :
    (7 : TypeIndex) ∉ ([8, 9] : List TypeIndex) ∧ ([8, 9] : List TypeIndex).length < 256 ∧
    ∃ id channel,
      (Channels.initial.registerAll (fun t => 4 * t) ([5, 6] ++ 7 :: [8, 9])).getChannelId 7
        = Except.ok id ∧
      (Channels.initial.registerAll (fun t => 4 * t) ([5, 6] ++ 7 :: [8, 9])).getChannel id
        = Except.ok channel ∧
      channel.getMessageSize = (fun t => 4 * t) 7 ∧ channel.getId = id :=
  ⟨by decide, by decide,
    getChannel_of_getChannelId (fun t => 4 * t) [5, 6] [8, 9] 7 (by decide) (by decide)⟩

/-- C4 as stated fails: with the types `0 .. 256` registered in order (`sizeof t = t + 1`),
the descriptor found for the first type `0` is the one of type `256`, of size `257`. -/
theorem getChannel_overwritten_after_256 :
    (Channels.initial.registerAll (fun t => t + 1) (List.range 257)).getChannelId 0
      = Except.ok 0 ∧
    (Channels.initial.registerAll (fun t => t + 1) (List.range 257)).getChannel 0
      = Except.ok { message_size := 257, channel_id := 0 } ∧
    (fun t => t + 1) (0 : TypeIndex) ≠ 257 :=
  ⟨rfl, rfl, by decide⟩

/-- C5: a lookup miss fails. After any sequence of registrations, `getChannelId<T>()` for a
type that was not registered raises `BadChannelException`, and so does `getChannel(id)` for
an id that `getNextId` never handed out; no default id or descriptor is returned. -/
theorem registry_lookup_miss_fails (sizeOf : TypeIndex → NETWORK_BYTE_SIZE)
    (regs : List TypeIndex) (T : TypeIndex) (id : CHANNEL_ID) (hT : T ∉ regs)
    (hid : id ∉ Channels.assignedIds sizeOf Channels.initial regs) :
    (Channels.initial.registerAll sizeOf regs).getChannelId T
      = Except.error Exception.BadChannelException ∧
    (Channels.initial.registerAll sizeOf regs).getChannel id
      = Except.error Exception.BadChannelException := by
  constructor
  · unfold Channels.getChannelId
    rw [Channels.registerAll_types_find _ _ _ _ hT]
    rfl
  · unfold Channels.getChannel
    rw [Channels.registerAll_ids_find _ _ _ _ hid]
    rfl

/-- Witness of C5: three registered types; the type `9` and the id `3` are unknown. -/
theorem registry_lookup_miss_fails_witness :
    (9 : TypeIndex) ∉ ([4, 5, 6] : List TypeIndex) ∧
    (3 : CHANNEL_ID) ∉ Channels.assignedIds (fun _ => 8) Channels.initial [4, 5, 6] ∧
    (Channels.initial.registerAll (fun _ => 8) [4, 5, 6]).getChannelId 9
      = Except.error Exception.BadChannelException ∧
    (Channels.initial.registerAll (fun _ => 8) [4, 5, 6]).getChannel 3
      = Except.error Exception.BadChannelException :=
  ⟨by decide, by decide,
    registry_lookup_miss_fails (fun _ => 8) [4, 5, 6] 9 3 (by decide) (by decide)⟩


/-! ## Lemmas about the reliable stream -/

theorem Pipe.grant_le (chunks : List Nat) (len : Nat) : Pipe.grant chunks len ≤ len := by
  cases chunks with
  | nil => simp [Pipe.grant]
  | cons h t => simp only [Pipe.grant]; omega

theorem Pipe.grant_pos (chunks : List Nat) (len : Nat) (hlen : 0 < len) :
    0 < Pipe.grant chunks len := by
  cases chunks with
  | nil => simpa [Pipe.grant] using hlen
  | cons h t => simp only [Pipe.grant]; omega

theorem Pipe.api_socket_send : Pipe.api.socket_send = Pipe.socket_send := rfl

theorem Pipe.api_recv : Pipe.api.recv = Pipe.recv := rfl

theorem SocketConnection.send_loop_pipe (self : SocketConnection) (bytes : List NETWORK_BYTE)
    (fuel : Nat) :
    ∀ (num_bytes_sent : NETWORK_BYTE_SIZE) (p : Pipe), num_bytes_sent ≤ bytes.length →
      bytes.length - num_bytes_sent ≤ fuel →
      ∃ p1 : Pipe,
        SocketConnection.send_loop Pipe.api self bytes bytes.length fuel num_bytes_sent p
          = some (Outcome.ok p1 ()) ∧
        p1.wire = p.wire ++ bytes.drop num_bytes_sent ∧ p1.recv_chunks = p.recv_chunks := by
  induction fuel with
  | zero =>
    intro sent p hle hfuel
    have hsent : sent = bytes.length := by
      simp only [NETWORK_BYTE_SIZE] at *
      omega
    subst hsent
    exact ⟨p, by simp [SocketConnection.send_loop], by simp, rfl⟩
  | succ fuel ih =>
    intro sent p hle hfuel
    by_cases hlt : sent < bytes.length
    · have hbuf : (bytes.drop sent).take (bytes.length - sent) = bytes.drop sent := by
        apply List.take_of_length_le
        simp
      have hlen : 0 < (bytes.drop sent).length := by
        simp only [List.length_drop]
        simp only [NETWORK_BYTE_SIZE] at *
        omega
      have hk1 := Pipe.grant_pos p.send_chunks (bytes.drop sent).length hlen
      have hk2 := Pipe.grant_le p.send_chunks (bytes.drop sent).length
      generalize hk : Pipe.grant p.send_chunks (bytes.drop sent).length = k at hk1 hk2
      simp only [List.length_drop] at hk2
      obtain ⟨p1, h1, h2, h3⟩ := ih (sent + k)
        { p with wire := p.wire ++ (bytes.drop sent).take k, send_chunks := p.send_chunks.tail }
        (by simp only [NETWORK_BYTE_SIZE] at *; omega)
        (by simp only [NETWORK_BYTE_SIZE] at *; omega)
      refine ⟨p1, ?_, ?_, h3⟩
      · rw [SocketConnection.send_loop, if_pos hlt]
        simp only [hbuf, Pipe.api_socket_send, Pipe.socket_send, hk]
        have hne : ¬ ((k : Int) = SOCKET_ERROR) := by
          simp only [SOCKET_ERROR]
          omega
        rw [if_neg hne]
        simpa using h1
      · rw [h2]
        simp only [List.append_assoc, List.append_cancel_left_eq]
        rw [← List.drop_drop]
        exact List.take_append_drop k (bytes.drop sent)
    · have hsent : sent = bytes.length := by
        simp only [NETWORK_BYTE_SIZE] at *
        omega
      subst hsent
      exact ⟨p, by simp [SocketConnection.send_loop], by simp, rfl⟩

theorem SocketConnection.receive_loop_pipe (self : SocketConnection)
    (num_bytes : NETWORK_BYTE_SIZE) (fuel : Nat) :
    ∀ (buffer : List NETWORK_BYTE) (p : Pipe), buffer.length ≤ num_bytes →
      num_bytes - buffer.length ≤ p.wire.length → num_bytes - buffer.length ≤ fuel →
      ∃ p1 : Pipe,
        SocketConnection.receive_loop Pipe.api self num_bytes fuel buffer p
          = Outcome.ok p1 (true, buffer ++ p.wire.take (num_bytes - buffer.length)) ∧
        p1.wire = p.wire.drop (num_bytes - buffer.length) ∧
        p1.send_chunks = p.send_chunks := by
  induction fuel with
  | zero =>
    intro buffer p hle hwire hfuel
    have h0 : num_bytes - buffer.length = 0 := by
      simp only [NETWORK_BYTE_SIZE] at *
      omega
    exact ⟨p, by simp [SocketConnection.receive_loop, h0], by simp [h0], rfl⟩
  | succ fuel ih =>
    intro buffer p hle hwire hfuel
    by_cases hlt : buffer.length < num_bytes
    · have hmin : min (num_bytes - buffer.length) p.wire.length = num_bytes - buffer.length :=
        Nat.min_eq_left hwire
      have hpos : 0 < num_bytes - buffer.length := by
        simp only [NETWORK_BYTE_SIZE] at *
        omega
      have hk1 := Pipe.grant_pos p.recv_chunks (num_bytes - buffer.length) hpos
      have hk2 := Pipe.grant_le p.recv_chunks (num_bytes - buffer.length)
      generalize hk : Pipe.grant p.recv_chunks (num_bytes - buffer.length) = k at hk1 hk2
      have hchunk : ((p.wire.take k).take (num_bytes - buffer.length)) = p.wire.take k := by
        apply List.take_of_length_le
        simp only [List.length_take]
        omega
      have hchunklen : (p.wire.take k).length = k := by
        simp only [List.length_take]
        simp only [NETWORK_BYTE_SIZE] at *
        omega
      obtain ⟨p1, h1, h2, h3⟩ := ih (buffer ++ p.wire.take k)
        { p with wire := p.wire.drop k, recv_chunks := p.recv_chunks.tail }
        (by rw [List.length_append, hchunklen]; simp only [NETWORK_BYTE_SIZE] at *; omega)
        (by
          rw [List.length_append, hchunklen]
          simp only [List.length_drop]
          simp only [NETWORK_BYTE_SIZE] at *
          omega)
        (by rw [List.length_append, hchunklen]; simp only [NETWORK_BYTE_SIZE] at *; omega)
      refine ⟨p1, ?_, ?_, h3⟩
      · rw [SocketConnection.receive_loop, if_pos hlt]
        simp only [Pipe.api_recv, Pipe.recv, hmin, hk, hchunk]
        have hne : ¬ ((p.wire.take k).length = 0) := by
          rw [hchunklen]
          omega
        rw [if_neg hne, h1]
        congr 2
        rw [List.length_append, hchunklen, List.append_assoc]
        congr 1
        have hsplit : num_bytes - buffer.length = k + (num_bytes - (buffer.length + k)) := by
          simp only [NETWORK_BYTE_SIZE] at *
          omega
        rw [hsplit, List.take_add]
      · rw [h2, List.length_append, hchunklen]
        simp only [List.drop_drop]
        congr 1
        simp only [NETWORK_BYTE_SIZE] at *
        omega
    · have h0 : num_bytes - buffer.length = 0 := by
        simp only [NETWORK_BYTE_SIZE] at *
        omega
      exact ⟨p, by simp [SocketConnection.receive_loop, hlt, h0], by simp [h0], rfl⟩


theorem ChanneledSocketConnection.channeled_send_pipe (sizeOf : TypeIndex → NETWORK_BYTE_SIZE)
    (channels : Channels) (T : TypeIndex) (id : CHANNEL_ID)
    (hid : channels.getChannelId T = Except.ok id) (message : List NETWORK_BYTE)
    (hm : message.length = sizeOf T) (self : ChanneledSocketConnection) (p : Pipe) (fuel : Nat)
    (hfuel1 : 1 ≤ fuel) (hfuel2 : sizeOf T ≤ fuel) :
    ∃ p1 : Pipe,
      ChanneledSocketConnection.channeled_send Pipe.api sizeOf channels fuel self T message p
        = some (Outcome.ok p1 ()) ∧
      p1.wire = p.wire ++ id :: message ∧ p1.recv_chunks = p.recv_chunks := by
  obtain ⟨p1, h1, h2, h3⟩ := SocketConnection.send_loop_pipe self [id] fuel 0 p
    (Nat.zero_le _) (by simpa using hfuel1)
  obtain ⟨p2, h4, h5, h6⟩ := SocketConnection.send_loop_pipe self message fuel 0 p1
    (Nat.zero_le _) (by rw [hm]; simpa using hfuel2)
  refine ⟨p2, ?_, ?_, by rw [h6, h3]⟩
  · have e1 : SocketConnection.send Pipe.api fuel self [id] sizeof_CHANNEL_ID p
        = some (Outcome.ok p1 ()) := h1
    have e2 : SocketConnection.send Pipe.api fuel self message (sizeOf T) p1
        = some (Outcome.ok p2 ()) := by
      rw [← hm]
      exact h4
    simp only [ChanneledSocketConnection.channeled_send, hid, e1, Outcome.ok, e2]
  · rw [h5, h2]
    simp

theorem ChanneledSocketConnection.channeled_read_id_pipe (self : ChanneledSocketConnection)
    (p : Pipe) (id : CHANNEL_ID) (rest : List NETWORK_BYTE) (hwire : p.wire = id :: rest) :
    ∃ p1 : Pipe,
      ChanneledSocketConnection.channeled_read_id Pipe.api self p = Outcome.ok p1 id ∧
      p1.wire = rest ∧ p1.send_chunks = p.send_chunks := by
  obtain ⟨p1, h1, h2, h3⟩ := SocketConnection.receive_loop_pipe self sizeof_CHANNEL_ID
    sizeof_CHANNEL_ID [] p (Nat.zero_le _) (by simp [hwire, sizeof_CHANNEL_ID]) (by simp)
  refine ⟨p1, ?_, by simpa [hwire, sizeof_CHANNEL_ID] using h2, h3⟩
  have e1 : SocketConnection.receive Pipe.api self sizeof_CHANNEL_ID p
      = Outcome.ok p1 (true, [id]) := by
    simpa [hwire, sizeof_CHANNEL_ID] using h1
  simp [ChanneledSocketConnection.channeled_read_id, e1, Outcome.ok, Outcome.andThen]

theorem ChanneledSocketConnection.channeled_read_pipe (channels : Channels)
    (self : ChanneledSocketConnection) (id : CHANNEL_ID) (channel : ChannelInterface)
    (hch : channels.getChannel id = Except.ok channel) (p : Pipe)
    (hwire : channel.getMessageSize ≤ p.wire.length) :
    ∃ p1 : Pipe,
      ChanneledSocketConnection.channeled_read Pipe.api channels self id p
        = Outcome.ok p1 (p.wire.take channel.getMessageSize) ∧
      p1.wire = p.wire.drop channel.getMessageSize := by
  obtain ⟨p1, h1, h2, _⟩ := SocketConnection.receive_loop_pipe self channel.getMessageSize
    channel.getMessageSize [] p (Nat.zero_le _) (by simpa using hwire) (by simp)
  refine ⟨p1, ?_, by simpa using h2⟩
  have e1 : SocketConnection.receive Pipe.api self channel.getMessageSize p
      = Outcome.ok p1 (true, p.wire.take channel.getMessageSize) := by
    simpa using h1
  simp [ChanneledSocketConnection.channeled_read, hch, e1, Outcome.ok, Outcome.andThen]

/-! ## Claims about the framed connection -/

/-- C1 (amended): round trip over a reliable byte stream.  For a registered type `T` that
fewer than 256 registrations follow, and a message of `sizeof(T)` bytes, after
`channeled_send<T>(m)` on an empty stream the peer's `channeled_read_id()` returns
`getChannelId<T>()` and its `channeled_read(id)` returns exactly the bytes of `m`,
however the system cuts the transfers into pieces. -/
theorem channeled_round_trip (sizeOf : TypeIndex → NETWORK_BYTE_SIZE)
    (pre post : List TypeIndex) (T : TypeIndex) (hT : T ∉ post) (hpost : post.length < 256)
    (m : List NETWORK_BYTE) (hm : m.length = sizeOf T)
    (sender receiver : ChanneledSocketConnection) (p : Pipe) (hp : p.wire = [])
    (fuel : Nat) (hfuel1 : 1 ≤ fuel) (hfuel2 : sizeOf T ≤ fuel) :
    ∃ (p1 p2 p3 : Pipe) (id : CHANNEL_ID),
      ChanneledSocketConnection.channeled_send Pipe.api sizeOf
          (Channels.initial.registerAll sizeOf (pre ++ T :: post)) fuel sender T m p
        = some (Outcome.ok p1 ()) ∧
      ChanneledSocketConnection.channeled_read_id Pipe.api receiver p1 = Outcome.ok p2 id ∧
      (Channels.initial.registerAll sizeOf (pre ++ T :: post)).getChannelId T = Except.ok id ∧
      ChanneledSocketConnection.channeled_read Pipe.api
          (Channels.initial.registerAll sizeOf (pre ++ T :: post)) receiver id p2
        = Outcome.ok p3 m := by
  have hid := Channels.registerAll_lookup sizeOf pre post T hT
  have hch := Channels.registerAll_getChannel sizeOf pre post T hpost
  obtain ⟨p1, h1, h2, _⟩ := ChanneledSocketConnection.channeled_send_pipe sizeOf _ T _ hid m hm
    sender p fuel hfuel1 hfuel2
  rw [hp, List.nil_append] at h2
  obtain ⟨p2, h3, h4, _⟩ :=
    ChanneledSocketConnection.channeled_read_id_pipe receiver p1 _ m h2
  obtain ⟨p3, h5, _⟩ := ChanneledSocketConnection.channeled_read_pipe _ receiver _ _ hch p2
    (by rw [h4]; simp [ChannelInterface.getMessageSize, hm])
  refine ⟨p1, p2, p3, pre.length % 256, h1, h3, hid, ?_⟩
  rw [h5, h4]
  simp [ChannelInterface.getMessageSize, ← hm]

/-- Witness of C1 (amended): the message `[57, 5, 0, 0, 184, 34, 0, 0]` of the second of
three registered types, sent in pieces of at most two bytes and read in pieces of at most
three. -/
theorem channeled_round_trip_witness :
    (1 : TypeIndex) ∉ ([2] : List TypeIndex) ∧ ([2] : List TypeIndex).length < 256 ∧
    ([57, 5, 0, 0, 184, 34, 0, 0] : List NETWORK_BYTE).length = (fun _ => 8) (1 : TypeIndex) ∧
    ({ wire := [], send_chunks := [1, 1, 1, 1, 1], recv_chunks := [2, 2, 2, 2] } : Pipe).wire
      = [] ∧
    1 ≤ 8 ∧ (fun _ => 8) (1 : TypeIndex) ≤ 8 ∧
    ∃ (p1 p2 p3 : Pipe) (id : CHANNEL_ID),
      ChanneledSocketConnection.channeled_send Pipe.api (fun _ => 8)
          (Channels.initial.registerAll (fun _ => 8) ([0] ++ 1 :: [2])) 8
          { socket_descriptor := 3 } 1 [57, 5, 0, 0, 184, 34, 0, 0]
          { wire := [], send_chunks := [1, 1, 1, 1, 1], recv_chunks := [2, 2, 2, 2] }
        = some (Outcome.ok p1 ()) ∧
      ChanneledSocketConnection.channeled_read_id Pipe.api { socket_descriptor := 4 } p1
        = Outcome.ok p2 id ∧
      (Channels.initial.registerAll (fun _ => 8) ([0] ++ 1 :: [2])).getChannelId 1
        = Except.ok id ∧
      ChanneledSocketConnection.channeled_read Pipe.api
          (Channels.initial.registerAll (fun _ => 8) ([0] ++ 1 :: [2]))
          { socket_descriptor := 4 } id p2
        = Outcome.ok p3 [57, 5, 0, 0, 184, 34, 0, 0] :=
  ⟨by decide, by decide, by decide, rfl, by decide, by decide,
    channeled_round_trip (fun _ => 8) [0] [2] 1 (by decide) (by decide)
      [57, 5, 0, 0, 184, 34, 0, 0] (by decide) { socket_descriptor := 3 }
      { socket_descriptor := 4 }
      { wire := [], send_chunks := [1, 1, 1, 1, 1], recv_chunks := [2, 2, 2, 2] } rfl 8
      (by decide) (by decide)⟩

/-- C1 as stated fails: with the types `0 .. 256` registered (`sizeof t = t + 1`), the
one-byte message `[42]` of the registered type `0` is sent as the frame `[0, 42]`; the
peer reads the id `0`, whose descriptor is by now the one of type `256`, asks for 257
bytes and ends with `ConnectionClosedException` instead of the message. -/
theorem channeled_round_trip_fails_after_256 :
    ChanneledSocketConnection.channeled_send Pipe.api (fun t => t + 1)
        (Channels.initial.registerAll (fun t => t + 1) (List.range 257)) 1
        { socket_descriptor := 3 } 0 [42] { wire := [], send_chunks := [], recv_chunks := [] }
      = some (Outcome.ok { wire := [0, 42], send_chunks := [], recv_chunks := [] } ()) ∧
    ChanneledSocketConnection.channeled_read_id Pipe.api { socket_descriptor := 4 }
        { wire := [0, 42], send_chunks := [], recv_chunks := [] }
      = Outcome.ok { wire := [42], send_chunks := [], recv_chunks := [] } 0 ∧
    ChanneledSocketConnection.channeled_read Pipe.api
        (Channels.initial.registerAll (fun t => t + 1) (List.range 257))
        { socket_descriptor := 4 } 0 { wire := [42], send_chunks := [], recv_chunks := [] }
      = Outcome.raise { wire := [], send_chunks := [], recv_chunks := [] }
          Exception.ConnectionClosedException :=
  ⟨rfl, rfl, rfl⟩

/-- C2: wire format.  For a registered type `T` and a message of `sizeof(T)` bytes,
`channeled_send<T>(m)` returns normally and puts on the stream the one byte of
`getChannelId<T>()` followed by the bytes of `m`, and nothing else, however the system
cuts the writes into pieces. -/
theorem channeled_send_wire_format (sizeOf : TypeIndex → NETWORK_BYTE_SIZE)
    (channels : Channels) (T : TypeIndex) (id : CHANNEL_ID)
    (hid : channels.getChannelId T = Except.ok id) (m : List NETWORK_BYTE)
    (hm : m.length = sizeOf T) (self : ChanneledSocketConnection) (p : Pipe) (fuel : Nat)
    (hfuel1 : 1 ≤ fuel) (hfuel2 : sizeOf T ≤ fuel) :
    ∃ p1 : Pipe,
      ChanneledSocketConnection.channeled_send Pipe.api sizeOf channels fuel self T m p
        = some (Outcome.ok p1 ()) ∧
      p1.wire = p.wire ++ [id] ++ m ∧ [id].length = sizeof_CHANNEL_ID ∧
      m.length = sizeOf T := by
  obtain ⟨p1, h1, h2, _⟩ := ChanneledSocketConnection.channeled_send_pipe sizeOf channels T id
    hid m hm self p fuel hfuel1 hfuel2
  exact ⟨p1, h1, by simpa using h2, rfl, hm⟩

/-- Witness of C2: a four-byte message of the only registered type, on a stream that
already holds a byte, written one byte at a time. -/
theorem channeled_send_wire_format_witness :
    (Channels.initial.registerAll (fun _ => 4) [6]).getChannelId 6 = Except.ok 0 ∧
    ([1, 2, 3, 4] : List NETWORK_BYTE).length = (fun _ => 4) (6 : TypeIndex) ∧
    1 ≤ 4 ∧ (fun _ => 4) (6 : TypeIndex) ≤ 4 ∧
    ∃ p1 : Pipe,
      ChanneledSocketConnection.channeled_send Pipe.api (fun _ => 4)
          (Channels.initial.registerAll (fun _ => 4) [6]) 4 { socket_descriptor := 3 } 6
          [1, 2, 3, 4] { wire := [9], send_chunks := [0, 0, 0, 0, 0], recv_chunks := [] }
        = some (Outcome.ok p1 ()) ∧
      p1.wire = [9] ++ [0] ++ [1, 2, 3, 4] ∧ [(0 : CHANNEL_ID)].length = sizeof_CHANNEL_ID ∧
      ([1, 2, 3, 4] : List NETWORK_BYTE).length = (fun _ => 4) (6 : TypeIndex) :=
  ⟨rfl, rfl, by decide, by decide,
    channeled_send_wire_format (fun _ => 4) (Channels.initial.registerAll (fun _ => 4) [6]) 6 0
      rfl [1, 2, 3, 4] rfl { socket_descriptor := 3 }
      { wire := [9], send_chunks := [0, 0, 0, 0, 0], recv_chunks := [] } 4 (by decide)
      (by decide)⟩


/-! ## Lemmas about outcomes -/

@[simp]
theorem Outcome.andThen_ok {σ α β : Type} (s : σ) (a : α) (f : α → σ → Outcome σ β) :
    (Outcome.ok s a).andThen f = f a s := rfl

@[simp]
theorem Outcome.andThen_raise {σ α β : Type} (s : σ) (e : Exception)
    (f : α → σ → Outcome σ β) :
    (Outcome.raise s e : Outcome σ α).andThen f = Outcome.raise s e := rfl

@[simp]
theorem Outcome.withWorld_ok {σ W α : Type} (s : σ) (a : α) (w : W) :
    (Outcome.ok s a).withWorld w = Outcome.ok (s, w) a := rfl

@[simp]
theorem Outcome.withWorld_raise {σ W α : Type} (s : σ) (e : Exception) (w : W) :
    (Outcome.raise s e : Outcome σ α).withWorld w = Outcome.raise (s, w) e := rfl

@[simp]
theorem Outcome.withObject_ok {σ W α : Type} (w : W) (a : α) (s : σ) :
    (Outcome.ok w a).withObject s = Outcome.ok (s, w) a := rfl

@[simp]
theorem Outcome.withObject_raise {σ W α : Type} (w : W) (e : Exception) (s : σ) :
    (Outcome.raise w e : Outcome W α).withObject s = Outcome.raise (s, w) e := rfl

theorem Outcome.eq_ok_or_raise {σ α : Type} (o : Outcome σ α) :
    (∃ a, o = Outcome.ok o.state a) ∨ (∃ e, o = Outcome.raise o.state e) := by
  obtain ⟨s, r⟩ := o
  cases r with
  | error e => exact Or.inr ⟨e, rfl⟩
  | ok a => exact Or.inl ⟨a, rfl⟩

/-! ## Lemmas about the life cycle of the endpoints -/

theorem Client.assert_valid_state_of_mem {ω : Type} (c : Client ω) (valid : List ClientState)
    (h : c.state ∈ valid) : c.assert_valid_state valid = Outcome.ok c () := by
  have hany : (valid.any fun valid_state => decide (c.state = valid_state)) = true := by
    rw [List.any_eq_true]
    exact ⟨c.state, h, by simp⟩
  simp [Client.assert_valid_state, hany]

theorem Client.assert_valid_state_of_not_mem {ω : Type} (c : Client ω)
    (valid : List ClientState) (h : c.state ∉ valid) :
    c.assert_valid_state valid
      = Outcome.raise c Exception.ClientInvalidStateTransitionException := by
  have hany : ¬ (valid.any fun valid_state => decide (c.state = valid_state)) = true := by
    rw [List.any_eq_true]
    rintro ⟨x, hx, hdec⟩
    have : c.state = x := by simpa using hdec
    exact h (this ▸ hx)
  simp [Client.assert_valid_state, hany]

theorem Client.state_transition_of_mem {ω : Type} (c : Client ω) (valid : List ClientState)
    (new_state : ClientState) (h : c.state ∈ valid) :
    c.state_transition valid new_state = Outcome.ok { c with state := new_state } () := by
  simp [Client.state_transition, Client.assert_valid_state_of_mem c valid h]

theorem Client.state_transition_of_not_mem {ω : Type} (c : Client ω) (valid : List ClientState)
    (new_state : ClientState) (h : c.state ∉ valid) :
    c.state_transition valid new_state
      = Outcome.raise c Exception.ClientInvalidStateTransitionException := by
  simp [Client.state_transition, Client.assert_valid_state_of_not_mem c valid h]

theorem Server.transition_of_valid {ω : Type} (s : Server ω) (valid : List ServerState)
    (new_state : ServerState) (h : s.state ∈ valid) :
    s.state_transition valid new_state = Outcome.ok { s with state := new_state } () := by
  have hany : (valid.any fun v => decide (s.state = v)) = true := by
    rw [List.any_eq_true]
    exact ⟨s.state, h, by simp⟩
  simp [Server.state_transition, hany]

theorem Server.transition_of_invalid {ω : Type} (s : Server ω) (valid : List ServerState)
    (new_state : ServerState) (h : s.state ∉ valid) :
    s.state_transition valid new_state
      = Outcome.raise s Exception.ServerInvalidStateTransitionException := by
  have hany : ¬ (valid.any fun v => decide (s.state = v)) = true := by
    rw [List.any_eq_true]
    rintro ⟨x, hx, hdec⟩
    have : s.state = x := by simpa using hdec
    exact h (this ▸ hx)
  simp [Server.state_transition, hany]

/-- C6: state guard.  Each life-cycle operation called in a state outside its set of
allowed states (`Client::connect` {Closed}, `Client::disconnect` {Connected, Closed},
`Server::open` {Closed}, `Server::serve` {Open}, `Server::close` {Serve, Open, Closed})
raises `InvalidStateTransitionException` and leaves the endpoint (its state, its poll
service, its connection) and the world as they were. -/
theorem state_guard_rejects {ω W : Type} (api : SocketApi W)
    (connection_create_func : W → Outcome W SocketConnection) (address port : String)
    (c : Client ω) (s : Server ω) (w : W) :
    (c.state ∉ [ClientState.CLIENT_CLOSED] →
      Client.connect api connection_create_func address port (c, w)
        = Outcome.raise (c, w) Exception.ClientInvalidStateTransitionException) ∧
    (c.state ∉ [ClientState.CLIENT_CONNECTED, ClientState.CLIENT_CLOSED] →
      Client.disconnect (c, w)
        = Outcome.raise (c, w) Exception.ClientInvalidStateTransitionException) ∧
    (s.state ∉ [ServerState.CLOSED] →
      Server.open api connection_create_func (s, w)
        = Outcome.raise (s, w) Exception.ServerInvalidStateTransitionException) ∧
    (s.state ∉ [ServerState.OPEN] →
      Server.serve (s, w)
        = Outcome.raise (s, w) Exception.ServerInvalidStateTransitionException) ∧
    (s.state ∉ [ServerState.SERVE, ServerState.OPEN, ServerState.CLOSED] →
      Server.close (s, w)
        = Outcome.raise (s, w) Exception.ServerInvalidStateTransitionException) := by
  refine ⟨?_, ?_, ?_, ?_, ?_⟩
  · intro h
    simp [Client.connect, Client.assert_valid_state_of_not_mem c _ h]
  · intro h
    simp [Client.disconnect, Client.state_transition_of_not_mem c _ _ h]
  · intro h
    simp [Server.open, Server.transition_of_invalid s _ _ h]
  · intro h
    simp [Server.serve, Server.transition_of_invalid s _ _ h]
  · intro h
    simp [Server.close, Server.transition_of_invalid s _ _ h]


/-- Witness of C6: a destructed client and a destructed server reject every life-cycle
operation and stay as they are. -/
theorem state_guard_rejects_witness :
    Client.connect Scripted.api Scripted.connection_create_func "127.0.0.1" "9876"
        ((Client.new 50 ()).destruct, Scripted.quiet)
      = Outcome.raise ((Client.new 50 ()).destruct, Scripted.quiet)
          Exception.ClientInvalidStateTransitionException ∧
    Client.disconnect ((Client.new 50 ()).destruct, Scripted.quiet)
      = Outcome.raise ((Client.new 50 ()).destruct, Scripted.quiet)
          Exception.ClientInvalidStateTransitionException ∧
    Server.open Scripted.api Scripted.connection_create_func
        ((Server.new "0.0.0.0" "9876" 5 50 ()).destruct, Scripted.quiet)
      = Outcome.raise ((Server.new "0.0.0.0" "9876" 5 50 ()).destruct, Scripted.quiet)
          Exception.ServerInvalidStateTransitionException ∧
    Server.serve ((Server.new "0.0.0.0" "9876" 5 50 ()).destruct, Scripted.quiet)
      = Outcome.raise ((Server.new "0.0.0.0" "9876" 5 50 ()).destruct, Scripted.quiet)
          Exception.ServerInvalidStateTransitionException ∧
    Server.close ((Server.new "0.0.0.0" "9876" 5 50 ()).destruct, Scripted.quiet)
      = Outcome.raise ((Server.new "0.0.0.0" "9876" 5 50 ()).destruct, Scripted.quiet)
          Exception.ServerInvalidStateTransitionException :=
  have h := state_guard_rejects Scripted.api Scripted.connection_create_func "127.0.0.1" "9876"
    (Client.new 50 ()).destruct (Server.new "0.0.0.0" "9876" 5 50 ()).destruct Scripted.quiet
  ⟨h.1 (by decide), h.2.1 (by decide), h.2.2.1 (by decide), h.2.2.2.1 (by decide),
    h.2.2.2.2 (by decide)⟩

theorem Client.connect_of_closed_ok {ω W : Type} (api : SocketApi W)
    (connection_create_func : W → Outcome W SocketConnection) (address port : String)
    (c : Client ω) (w w1 w2 : W) (created : SocketConnection)
    (hc : c.state = ClientState.CLIENT_CLOSED)
    (hcreate : connection_create_func w = Outcome.ok w1 created)
    (hconnect : SocketConnection.connect api created address port w1 = Outcome.ok w2 ()) :
    Client.connect api connection_create_func address port (c, w)
      = Outcome.ok
          ({ c with
              connection := some created
              poll_service := c.poll_service.add_socket created
              state := ClientState.CLIENT_CONNECTED }, w2) () := by
  have h1 := Client.assert_valid_state_of_mem c [ClientState.CLIENT_CLOSED] (by simp [hc])
  simp only [Client.connect, h1, Outcome.withWorld_ok, Outcome.andThen_ok, hcreate,
    Outcome.withObject_ok, hconnect]
  rw [Client.state_transition_of_mem _ _ _ (by simp [hc])]
  rfl

theorem Client.connect_of_closed_raise {ω W : Type} (api : SocketApi W)
    (connection_create_func : W → Outcome W SocketConnection) (address port : String)
    (c : Client ω) (w w1 w2 : W) (created : SocketConnection) (e : Exception)
    (hc : c.state = ClientState.CLIENT_CLOSED)
    (hcreate : connection_create_func w = Outcome.ok w1 created)
    (hconnect : SocketConnection.connect api created address port w1 = Outcome.raise w2 e) :
    Client.connect api connection_create_func address port (c, w)
      = Outcome.raise ({ c with connection := some created }, w2) e := by
  have h1 := Client.assert_valid_state_of_mem c [ClientState.CLIENT_CLOSED] (by simp [hc])
  simp only [Client.connect, h1, Outcome.withWorld_ok, Outcome.andThen_ok, hcreate,
    Outcome.withObject_ok, hconnect, Outcome.withObject_raise, Outcome.andThen_raise]

theorem Client.connect_of_closed_create_raise {ω W : Type} (api : SocketApi W)
    (connection_create_func : W → Outcome W SocketConnection) (address port : String)
    (c : Client ω) (w w1 : W) (e : Exception) (hc : c.state = ClientState.CLIENT_CLOSED)
    (hcreate : connection_create_func w = Outcome.raise w1 e) :
    Client.connect api connection_create_func address port (c, w)
      = Outcome.raise (c, w1) e := by
  have h1 := Client.assert_valid_state_of_mem c [ClientState.CLIENT_CLOSED] (by simp [hc])
  simp only [Client.connect, h1, Outcome.withWorld_ok, Outcome.andThen_ok, hcreate,
    Outcome.withObject_raise, Outcome.andThen_raise]

theorem Client.connect_of_not_closed {ω W : Type} (api : SocketApi W)
    (connection_create_func : W → Outcome W SocketConnection) (address port : String)
    (c : Client ω) (w : W) (hc : c.state ≠ ClientState.CLIENT_CLOSED) :
    Client.connect api connection_create_func address port (c, w)
      = Outcome.raise (c, w) Exception.ClientInvalidStateTransitionException := by
  simp [Client.connect, Client.assert_valid_state_of_not_mem c [ClientState.CLIENT_CLOSED]
    (by simpa using hc)]

/-- The shapes of what `Client::connect` leaves behind. -/
theorem Client.connect_cases {ω W : Type} (api : SocketApi W)
    (connection_create_func : W → Outcome W SocketConnection) (address port : String)
    (c : Client ω) (w : W) :
    (∃ e, (Client.connect api connection_create_func address port (c, w)).result
        = Except.error e ∧
      ((Client.connect api connection_create_func address port (c, w)).state.1 = c ∨
        ∃ created, (Client.connect api connection_create_func address port (c, w)).state.1
          = { c with connection := some created })) ∨
    ((Client.connect api connection_create_func address port (c, w)).result = Except.ok () ∧
      (Client.connect api connection_create_func address port (c, w)).state.1.state
        = ClientState.CLIENT_CONNECTED) := by
  by_cases hc : c.state = ClientState.CLIENT_CLOSED
  · rcases Outcome.eq_ok_or_raise (connection_create_func w) with ⟨created, h1⟩ | ⟨e, h1⟩
    · rcases Outcome.eq_ok_or_raise
          (SocketConnection.connect api created address port (connection_create_func w).state)
        with ⟨u, h2⟩ | ⟨e, h2⟩
      · right
        rw [Client.connect_of_closed_ok api _ address port c w _ _ created hc h1 h2]
        exact ⟨rfl, rfl⟩
      · left
        rw [Client.connect_of_closed_raise api _ address port c w _ _ created e hc h1 h2]
        exact ⟨e, rfl, Or.inr ⟨created, rfl⟩⟩
    · left
      rw [Client.connect_of_closed_create_raise api _ address port c w _ e hc h1]
      exact ⟨e, rfl, Or.inl rfl⟩
  · left
    rw [Client.connect_of_not_closed api _ address port c w hc]
    exact ⟨_, rfl, Or.inl rfl⟩

/-- C7: after a successful `connect`, a second `connect` with no `disconnect` in between
raises `InvalidStateTransitionException` (and changes nothing); and `disconnect` on a
freshly constructed client returns normally and leaves the client as constructed, in
`CLIENT_CLOSED`. -/
theorem client_connect_twice_and_fresh_disconnect {ω W : Type} (api : SocketApi W)
    (connection_create_func : W → Outcome W SocketConnection) (address port : String)
    (address2 port2 : String) (c : Client ω) (w : W) (poll_timeout : Int) (derived : ω)
    (hfirst : (Client.connect api connection_create_func address port (c, w)).result
      = Except.ok ()) :
    Client.connect api connection_create_func address2 port2
        (Client.connect api connection_create_func address port (c, w)).state
      = Outcome.raise (Client.connect api connection_create_func address port (c, w)).state
          Exception.ClientInvalidStateTransitionException ∧
    Client.disconnect (Client.new poll_timeout derived, w)
      = Outcome.ok (Client.new poll_timeout derived, w) () ∧
    (Client.new poll_timeout derived).state = ClientState.CLIENT_CLOSED := by
  refine ⟨?_, ?_, rfl⟩
  · rcases Client.connect_cases api connection_create_func address port c w with
      ⟨e, he, _⟩ | ⟨_, hstate⟩
    · rw [he] at hfirst
      cases hfirst
    · exact Client.connect_of_not_closed api _ address2 port2 _ _ (by rw [hstate]; decide)
  · rw [Client.disconnect, Client.state_transition_of_mem _ _ _ (by simp [Client.new])]
    rfl

/-- Witness of C7: a client on a system where everything succeeds connects, and the
second `connect` is rejected. -/
theorem client_connect_twice_and_fresh_disconnect_witness :
    (Client.connect Scripted.api Scripted.connection_create_func "127.0.0.1" "9876"
        (Client.new 50 (), { Scripted.quiet with created := [3, 4] })).result = Except.ok () ∧
    Client.connect Scripted.api Scripted.connection_create_func "127.0.0.1" "9876"
        (Client.connect Scripted.api Scripted.connection_create_func "127.0.0.1" "9876"
          (Client.new 50 (), { Scripted.quiet with created := [3, 4] })).state
      = Outcome.raise
          (Client.connect Scripted.api Scripted.connection_create_func "127.0.0.1" "9876"
            (Client.new 50 (), { Scripted.quiet with created := [3, 4] })).state
          Exception.ClientInvalidStateTransitionException ∧
    Client.disconnect (Client.new 50 (), { Scripted.quiet with created := [3, 4] })
      = Outcome.ok (Client.new 50 (), { Scripted.quiet with created := [3, 4] }) () ∧
    (Client.new 50 ()).state = ClientState.CLIENT_CLOSED :=
  ⟨rfl, client_connect_twice_and_fresh_disconnect Scripted.api
    Scripted.connection_create_func "127.0.0.1" "9876" "127.0.0.1" "9876" (Client.new 50 ())
    { Scripted.quiet with created := [3, 4] } 50 () rfl⟩


theorem PollService.poll_state_map {W : Type} (api : SocketApi W) (ps : PollService) (w : W) :
    (PollService.poll api ps w).state.1.poll_descriptor_map = ps.poll_descriptor_map := by
  unfold PollService.poll
  simp only
  split
  · rfl
  · split <;> rfl

theorem PollService.poll_state_descriptors {W : Type} (api : SocketApi W) (ps : PollService)
    (w : W) :
    (PollService.poll api ps w).state.1.descriptors
      = PollService.set_revents ps.descriptors (api.socket_poll ps.descriptors ps.timeout w).1.2 := by
  unfold PollService.poll
  simp only
  split
  · rfl
  · split <;> rfl

theorem Client.disconnect_cases {ω W : Type} (c : Client ω) (w : W) :
    (Client.disconnect (c, w)).state.1 = c ∨
    (Client.disconnect (c, w)).state.1
      = { c with
          state := ClientState.CLIENT_CLOSED
          poll_service := c.poll_service.clear_sockets
          connection := none } := by
  by_cases h : c.state ∈ [ClientState.CLIENT_CONNECTED, ClientState.CLIENT_CLOSED]
  · right
    rw [Client.disconnect, Client.state_transition_of_mem _ _ _ h]
    rfl
  · left
    rw [Client.disconnect, Client.state_transition_of_not_mem _ _ _ h]
    rfl

/-- A reachable client in `CLIENT_CLOSED` has an empty poll service. -/
theorem Client.Reachable.closed_untracked {ω : Type} {c : Client ω} (hr : c.Reachable) :
    c.state = ClientState.CLIENT_CLOSED →
      c.poll_service.descriptors = [] ∧ c.poll_service.poll_descriptor_map = [] := by
  induction hr with
  | new poll_timeout derived => intro _; exact ⟨rfl, rfl⟩
  | connect api create address port c w _ ih =>
    intro hclosed
    rcases Client.connect_cases api create address port c w with
      ⟨e, _, hs | ⟨created, hs⟩⟩ | ⟨_, hstate⟩
    · rw [hs] at hclosed ⊢
      exact ih hclosed
    · rw [hs] at hclosed ⊢
      exact ih hclosed
    · rw [hstate] at hclosed
      cases hclosed
  | disconnect c w _ ih =>
    intro hclosed
    rcases Client.disconnect_cases c w with hs | hs
    · rw [hs] at hclosed ⊢
      exact ih hclosed
    · rw [hs]
      exact ⟨rfl, rfl⟩
  | polled api c w _ ih =>
    intro hclosed
    have h := ih hclosed
    refine ⟨?_, ?_⟩
    · show (PollService.poll api c.poll_service w).state.1.descriptors = []
      rw [PollService.poll_state_descriptors, h.1]
      rfl
    · show (PollService.poll api c.poll_service w).state.1.poll_descriptor_map = []
      rw [PollService.poll_state_map, h.2]
  | destruct c _ _ =>
    intro hclosed
    cases hclosed
  | derived c d _ ih => exact ih

/-- C8: `Client::connect` from `CLIENT_CLOSED`, once the connection object is created.
If the connection's `connect` succeeds, the client ends in `CLIENT_CONNECTED`, owns the
new connection, and the poll service tracks exactly that connection.  If it fails, the
exception leaves `Client::connect`, the state is still `CLIENT_CLOSED`, the poll service
is as it was, and a later `connect` whose connection connects succeeds. -/
theorem client_connect_from_closed {ω W : Type} (api : SocketApi W)
    (connection_create_func : W → Outcome W SocketConnection) (address port : String)
    (c : Client ω) (w w1 : W) (created : SocketConnection) (hr : c.Reachable)
    (hc : c.state = ClientState.CLIENT_CLOSED)
    (hcreate : connection_create_func w = Outcome.ok w1 created) :
    (∀ w2, SocketConnection.connect api created address port w1 = Outcome.ok w2 () →
      ∃ c1 : Client ω,
        Client.connect api connection_create_func address port (c, w) = Outcome.ok (c1, w2) () ∧
        c1.state = ClientState.CLIENT_CONNECTED ∧ c1.connection = some created ∧
        c1.poll_service.tracked = [created] ∧
        c1.poll_service.descriptors
          = [{ fd := created.socket_descriptor, events := POLLIN, revents := 0 }]) ∧
    (∀ w2 e, SocketConnection.connect api created address port w1 = Outcome.raise w2 e →
      ∃ c1 : Client ω,
        Client.connect api connection_create_func address port (c, w)
          = Outcome.raise (c1, w2) e ∧
        c1.state = ClientState.CLIENT_CLOSED ∧ c1.poll_service = c.poll_service ∧
        ∀ (w3 w4 : W) (created2 : SocketConnection) (address2 port2 : String),
          connection_create_func w2 = Outcome.ok w3 created2 →
          SocketConnection.connect api created2 address2 port2 w3 = Outcome.ok w4 () →
          ∃ c2 : Client ω,
            Client.connect api connection_create_func address2 port2 (c1, w2)
              = Outcome.ok (c2, w4) () ∧
            c2.state = ClientState.CLIENT_CONNECTED ∧ c2.connection = some created2 ∧
            c2.poll_service.tracked = [created2]) := by
  obtain ⟨hd, hm⟩ := hr.closed_untracked hc
  constructor
  · intro w2 hconnect
    refine ⟨_, Client.connect_of_closed_ok api _ address port c w w1 w2 created hc hcreate
      hconnect, rfl, rfl, ?_, ?_⟩
    · simp [PollService.tracked, PollService.add_socket, hm, Map.assign]
    · simp [PollService.add_socket, hd]
  · intro w2 e hconnect
    refine ⟨_, Client.connect_of_closed_raise api _ address port c w w1 w2 created e hc hcreate
      hconnect, hc, rfl, ?_⟩
    intro w3 w4 created2 address2 port2 hcreate2 hconnect2
    refine ⟨_, Client.connect_of_closed_ok api _ address2 port2 _ w2 w3 w4 created2 hc hcreate2
      hconnect2, rfl, rfl, ?_⟩
    simp [PollService.tracked, PollService.add_socket, hm, Map.assign]

/-- Witness of C8: a fresh client on a system where every call succeeds; and on a system
whose first `connect` fails and whose second succeeds. -/
theorem client_connect_from_closed_witness :
    (Client.new 50 () : Client Unit).Reachable ∧
    (Client.new 50 () : Client Unit).state = ClientState.CLIENT_CLOSED ∧
    (∃ c1 : Client Unit,
      Client.connect Scripted.api Scripted.connection_create_func "127.0.0.1" "9876"
          (Client.new 50 (), { Scripted.quiet with created := [3, 4] })
        = Outcome.ok (c1, { Scripted.quiet with created := [4] }) () ∧
      c1.state = ClientState.CLIENT_CONNECTED ∧
      c1.connection = some { socket_descriptor := 3 } ∧
      c1.poll_service.tracked = [{ socket_descriptor := 3 }] ∧
      c1.poll_service.descriptors = [{ fd := 3, events := POLLIN, revents := 0 }]) ∧
    (∃ c1 : Client Unit,
      Client.connect Scripted.api Scripted.connection_create_func "127.0.0.1" "9876"
          (Client.new 50 (), { Scripted.quiet with created := [3, 4], connect_results := [-1] })
        = Outcome.raise (c1, { Scripted.quiet with created := [4] })
            Exception.ConnectException ∧
      c1.state = ClientState.CLIENT_CLOSED ∧
      c1.poll_service = (Client.new 50 () : Client Unit).poll_service ∧
      ∃ c2 : Client Unit,
        Client.connect Scripted.api Scripted.connection_create_func "127.0.0.1" "9876"
            (c1, { Scripted.quiet with created := [4] })
          = Outcome.ok (c2, Scripted.quiet) () ∧
        c2.state = ClientState.CLIENT_CONNECTED ∧
        c2.connection = some { socket_descriptor := 4 } ∧
        c2.poll_service.tracked = [{ socket_descriptor := 4 }]) :=
  ⟨Client.Reachable.new 50 (), rfl,
    (client_connect_from_closed Scripted.api Scripted.connection_create_func "127.0.0.1"
      "9876" (Client.new 50 ()) { Scripted.quiet with created := [3, 4] }
      { Scripted.quiet with created := [4] } { socket_descriptor := 3 }
      (Client.Reachable.new 50 ()) rfl rfl).1 { Scripted.quiet with created := [4] } rfl,
    match (client_connect_from_closed Scripted.api Scripted.connection_create_func "127.0.0.1"
      "9876" (Client.new 50 ())
      { Scripted.quiet with created := [3, 4], connect_results := [-1] }
      { Scripted.quiet with created := [4], connect_results := [-1] }
      { socket_descriptor := 3 } (Client.Reachable.new 50 ()) rfl rfl).2
      { Scripted.quiet with created := [4] } Exception.ConnectException rfl with
    | ⟨c1, h1, h2, h3, hretry⟩ =>
      ⟨c1, h1, h2, h3, hretry Scripted.quiet Scripted.quiet { socket_descriptor := 4 }
        "127.0.0.1" "9876" rfl rfl⟩⟩


/-! ## Claims about the server -/

/-- C9 fails on the code: `Server::open` makes the transition to `OPEN` before it creates,
binds and listens.  On a system whose `bind` fails, `open()` on a new server raises
`BindException` and leaves the server in `OPEN`, with the listening connection created
and tracked; `serve()` is then accepted and a second `open()` is rejected. -/
theorem server_open_failed_bind_leaves_open :
    Server.open Scripted.api Scripted.connection_create_func
        (Server.new "0.0.0.0" "9876" 5 50 (),
          { Scripted.quiet with created := [3], bind_results := [-1] })
      = Outcome.raise
          ({ Server.new "0.0.0.0" "9876" 5 50 () with
              state := ServerState.OPEN
              server_connection := some { socket_descriptor := 3 }
              poll_service := (PollService.new 50).add_socket { socket_descriptor := 3 } },
            Scripted.quiet)
          Exception.BindException ∧
    (Server.open Scripted.api Scripted.connection_create_func
        (Server.new "0.0.0.0" "9876" 5 50 (),
          { Scripted.quiet with created := [3], bind_results := [-1] })).state.1.state
      ≠ ServerState.CLOSED ∧
    (Server.serve
        (Server.open Scripted.api Scripted.connection_create_func
          (Server.new "0.0.0.0" "9876" 5 50 (),
            { Scripted.quiet with created := [3], bind_results := [-1] })).state).result
      = Except.ok () ∧
    (Server.open Scripted.api Scripted.connection_create_func
        (Server.open Scripted.api Scripted.connection_create_func
          (Server.new "0.0.0.0" "9876" 5 50 (),
            { Scripted.quiet with created := [3], bind_results := [-1] })).state).result
      = Except.error Exception.ServerInvalidStateTransitionException :=
  ⟨rfl, by decide, rfl, rfl⟩

theorem Server.poll_of_one_ready {ω W : Type} (api : SocketApi W) (hooks : ServerHooks ω W)
    (s : Server ω) (w : W) (entry : SocketCollectionEntry)
    (hs : s.state = ServerState.SERVE)
    (hready : (PollService.poll api s.poll_service w).result = Except.ok [entry]) :
    Server.poll api hooks id (s, w)
      = Server.poll_loop api hooks [entry]
          ({ s with poll_service := (PollService.poll api s.poll_service w).state.1 },
            (PollService.poll api s.poll_service w).state.2) := by
  simp [Server.poll, hs, hready]

theorem Server.handle_connection_request_of_accept {ω W : Type} (api : SocketApi W)
    (hooks : ServerHooks ω W) (s : Server ω) (w w1 : W) (listening peer : SocketConnection)
    (hl : s.server_connection = some listening)
    (haccept : SocketConnection.accept api listening w = Outcome.ok w1 peer) :
    Server.handle_connection_request api hooks (s, w)
      = hooks.handle_client_connect (some peer) (s.addToPollService peer, w1) := by
  simp [Server.handle_connection_request, hl, haccept]

theorem Server.poll_loop_listening_normal {ω W : Type} (api : SocketApi W)
    (hooks : ServerHooks ω W) (s : Server ω) (w : W) (listening : SocketConnection)
    (rest : List SocketCollectionEntry) (hl : s.server_connection = some listening)
    (hs : s.state ≠ ServerState.DESTRUCTING) :
    Server.poll_loop api hooks
        ({ connection := some listening, status := SocketStatus.SOCKET_STATUS_NORMAL } :: rest)
        (s, w)
      = (Server.handle_connection_request api hooks (s, w)).andThen fun _ st1 =>
          Server.poll_loop api hooks rest st1 := by
  simp [Server.poll_loop, hl, hs]

theorem PollService.tracked_add_socket (ps : PollService) (socket : SocketConnection)
    (hfresh : socket.socket_descriptor ∉ ps.poll_descriptor_map.keys) :
    (ps.add_socket socket).tracked = ps.tracked ++ [socket] := by
  have hassign : ∀ (m : Map SOCKET (Int × SocketConnection_p)) (v : Int × SocketConnection_p),
      socket.socket_descriptor ∉ m.keys → m.assign socket.socket_descriptor v
        = m ++ [(socket.socket_descriptor, v)] := by
    intro m v
    induction m with
    | nil => intro _; rfl
    | cons e m ih =>
      intro hnot
      obtain ⟨k, x⟩ := e
      have hk : k ≠ socket.socket_descriptor := by
        intro h
        apply hnot
        simp [Map.keys, h]
      have hrest : socket.socket_descriptor ∉ Map.keys m := by
        intro h
        apply hnot
        simp only [Map.keys, List.map_cons, List.mem_cons]
        exact Or.inr h
      simp [Map.assign, hk, ih hrest]
  simp [PollService.tracked, PollService.add_socket, hassign _ _ hfresh, List.filterMap_append]

/-! ## Lemmas about `receive` over any operating system -/

theorem SocketConnection.receive_loop_length {W : Type} (api : SocketApi W)
    (self : SocketConnection) (num_bytes : NETWORK_BYTE_SIZE) (fuel : Nat) :
    ∀ (buffer : List NETWORK_BYTE) (w : W), buffer.length ≤ num_bytes →
      num_bytes - buffer.length ≤ fuel →
      ∀ (flag : Bool) (buf : List NETWORK_BYTE),
        (SocketConnection.receive_loop api self num_bytes fuel buffer w).result
          = Except.ok (flag, buf) →
        (flag = true → buf.length = num_bytes) ∧ (flag = false → buf.length < num_bytes) := by
  induction fuel with
  | zero =>
    intro buffer w hle hfuel flag buf hres
    simp only [SocketConnection.receive_loop, Outcome.ok, Except.ok.injEq, Prod.mk.injEq] at hres
    obtain ⟨rfl, rfl⟩ := hres
    simp only [NETWORK_BYTE_SIZE] at *
    exact ⟨fun _ => by omega, fun h => by cases h⟩
  | succ fuel ih =>
    intro buffer w hle hfuel flag buf hres
    rw [SocketConnection.receive_loop] at hres
    by_cases hlt : buffer.length < num_bytes
    · rw [if_pos hlt] at hres
      simp only at hres
      cases hrecv : (api.recv self.socket_descriptor (num_bytes - buffer.length) w).1 with
      | none =>
        rw [hrecv] at hres
        simp [Outcome.raise] at hres
      | some stored =>
        rw [hrecv] at hres
        simp only at hres
        by_cases hzero : (stored.take (num_bytes - buffer.length)).length = 0
        · rw [if_pos hzero] at hres
          simp only [Outcome.ok, Except.ok.injEq, Prod.mk.injEq] at hres
          obtain ⟨rfl, rfl⟩ := hres
          exact ⟨fun h => (by cases h), fun _ => hlt⟩
        · rw [if_neg hzero] at hres
          have hlen : (stored.take (num_bytes - buffer.length)).length
              ≤ num_bytes - buffer.length := by
            simp only [List.length_take]
            exact Nat.min_le_left _ _
          refine ih _ _ ?_ ?_ flag buf hres
          · rw [List.length_append]
            simp only [NETWORK_BYTE_SIZE] at *
            omega
          · rw [List.length_append]
            simp only [NETWORK_BYTE_SIZE] at *
            omega
    · rw [if_neg hlt] at hres
      simp only [Outcome.ok, Except.ok.injEq, Prod.mk.injEq] at hres
      obtain ⟨rfl, rfl⟩ := hres
      simp only [NETWORK_BYTE_SIZE] at *
      exact ⟨fun _ => by omega, fun h => by cases h⟩

theorem Outcome.ok_or_raise {σ α : Type} (o : Outcome σ α) :
    (∃ s a, o = Outcome.ok s a) ∨ (∃ s e, o = Outcome.raise s e) := by
  obtain ⟨s, r⟩ := o
  cases r with
  | error e => exact Or.inr ⟨s, e, rfl⟩
  | ok a => exact Or.inl ⟨s, a, rfl⟩

theorem SocketConnection.receive_length {W : Type} (api : SocketApi W)
    (self : SocketConnection) (num_bytes : NETWORK_BYTE_SIZE) (w : W) (flag : Bool)
    (buf : List NETWORK_BYTE)
    (hres : (SocketConnection.receive api self num_bytes w).result = Except.ok (flag, buf)) :
    (flag = true → buf.length = num_bytes) ∧ (flag = false → buf.length < num_bytes) :=
  SocketConnection.receive_loop_length api self num_bytes num_bytes [] w (Nat.zero_le _)
    (by simp) flag buf hres

theorem ChanneledSocketConnection.channeled_read_id_of_receive {W : Type} (api : SocketApi W)
    (self : ChanneledSocketConnection) (w w1 : W) (flag : Bool) (buf : List NETWORK_BYTE)
    (hrecv : SocketConnection.receive api self sizeof_CHANNEL_ID w = Outcome.ok w1 (flag, buf)) :
    ChanneledSocketConnection.channeled_read_id api self w
      = if flag = false then Outcome.raise w1 Exception.ConnectionClosedException
        else Outcome.ok w1 (buf.headD 0) := by
  simp [ChanneledSocketConnection.channeled_read_id, hrecv]

theorem ChanneledSocketConnection.channeled_read_of_receive {W : Type} (api : SocketApi W)
    (channels : Channels) (self : ChanneledSocketConnection) (id : CHANNEL_ID)
    (channel : ChannelInterface) (hch : channels.getChannel id = Except.ok channel) (w w1 : W)
    (flag : Bool) (buf : List NETWORK_BYTE)
    (hrecv : SocketConnection.receive api self channel.getMessageSize w
      = Outcome.ok w1 (flag, buf)) :
    ChanneledSocketConnection.channeled_read api channels self id w
      = if flag = false then Outcome.raise w1 Exception.ConnectionClosedException
        else Outcome.ok w1 buf := by
  simp [ChanneledSocketConnection.channeled_read, hch, hrecv]

theorem ChanneledSocketConnection.channeled_read_length {W : Type} (api : SocketApi W)
    (channels : Channels) (self : ChanneledSocketConnection) (id : CHANNEL_ID)
    (channel : ChannelInterface) (hch : channels.getChannel id = Except.ok channel) (w w1 : W)
    (data : List NETWORK_BYTE)
    (hread : ChanneledSocketConnection.channeled_read api channels self id w
      = Outcome.ok w1 data) :
    SocketConnection.receive api self channel.getMessageSize w = Outcome.ok w1 (true, data) ∧
      data.length = channel.getMessageSize := by
  rcases Outcome.ok_or_raise (SocketConnection.receive api self channel.getMessageSize w)
    with ⟨w2, ⟨flag, buf⟩, h⟩ | ⟨w2, e, h⟩
  · rw [ChanneledSocketConnection.channeled_read_of_receive api channels self id channel hch w
      w2 flag buf h] at hread
    cases flag with
    | false => simp [Outcome.raise, Outcome.ok] at hread
    | true =>
      simp only [Bool.true_eq_false, if_false, Outcome.ok, Outcome.mk.injEq, Except.ok.injEq]
        at hread
      obtain ⟨hw, hd⟩ := hread
      subst hd
      refine ⟨by rw [h, hw], ?_⟩
      exact (SocketConnection.receive_length api self _ w true buf (by rw [h]; rfl)).1 rfl
  · simp [ChanneledSocketConnection.channeled_read, hch, h, Outcome.raise, Outcome.ok,
      Outcome.andThen] at hread

/-! ## Claims about the framed reads and the dispatch -/

/-- C19: framed reads.  `channeled_read_id` returns a value exactly when `receive` stored
the one byte of the id, and that byte is the value; when `receive` reports a shutdown it
raises `ConnectionClosedException`.  `channeled_read(id)` for a registered id calls
`receive` for the message size of `getChannel(id)`, returns the buffer, which has exactly
that many bytes, when `receive` succeeds, and raises `ConnectionClosedException` when
`receive` reports a shutdown. -/
theorem framed_reads {W : Type} (api : SocketApi W) (channels : Channels)
    (self : ChanneledSocketConnection) (id : CHANNEL_ID) (channel : ChannelInterface) (w : W)
    (hch : channels.getChannel id = Except.ok channel) :
    (∀ (w1 : W) (buf : List NETWORK_BYTE),
      SocketConnection.receive api self sizeof_CHANNEL_ID w = Outcome.ok w1 (true, buf) →
      ∃ b, buf = [b] ∧
        ChanneledSocketConnection.channeled_read_id api self w = Outcome.ok w1 b) ∧
    (∀ (w1 : W) (buf : List NETWORK_BYTE),
      SocketConnection.receive api self sizeof_CHANNEL_ID w = Outcome.ok w1 (false, buf) →
      ChanneledSocketConnection.channeled_read_id api self w
        = Outcome.raise w1 Exception.ConnectionClosedException) ∧
    (∀ (w1 : W) (value : CHANNEL_ID),
      ChanneledSocketConnection.channeled_read_id api self w = Outcome.ok w1 value →
      SocketConnection.receive api self sizeof_CHANNEL_ID w = Outcome.ok w1 (true, [value])) ∧
    (∀ (w1 : W) (data : List NETWORK_BYTE),
      SocketConnection.receive api self channel.getMessageSize w = Outcome.ok w1 (true, data) →
      ChanneledSocketConnection.channeled_read api channels self id w = Outcome.ok w1 data ∧
        data.length = channel.getMessageSize) ∧
    (∀ (w1 : W) (buf : List NETWORK_BYTE),
      SocketConnection.receive api self channel.getMessageSize w = Outcome.ok w1 (false, buf) →
      ChanneledSocketConnection.channeled_read api channels self id w
        = Outcome.raise w1 Exception.ConnectionClosedException) ∧
    (∀ (w1 : W) (data : List NETWORK_BYTE),
      ChanneledSocketConnection.channeled_read api channels self id w = Outcome.ok w1 data →
      SocketConnection.receive api self channel.getMessageSize w = Outcome.ok w1 (true, data) ∧
        data.length = channel.getMessageSize) := by
  have hone : ∀ (w1 : W) (buf : List NETWORK_BYTE),
      SocketConnection.receive api self sizeof_CHANNEL_ID w = Outcome.ok w1 (true, buf) →
      ∃ b, buf = [b] := by
    intro w1 buf h
    have hlen := (SocketConnection.receive_length api self _ w true buf (by rw [h]; rfl)).1 rfl
    match buf, hlen with
    | [b], _ => exact ⟨b, rfl⟩
  refine ⟨?_, ?_, ?_, ?_, ?_, ?_⟩
  · intro w1 buf h
    obtain ⟨b, rfl⟩ := hone w1 buf h
    exact ⟨b, rfl, by
      rw [ChanneledSocketConnection.channeled_read_id_of_receive api self w w1 true [b] h]
      rfl⟩
  · intro w1 buf h
    rw [ChanneledSocketConnection.channeled_read_id_of_receive api self w w1 false buf h]
    rfl
  · intro w1 value h
    rcases Outcome.ok_or_raise (SocketConnection.receive api self sizeof_CHANNEL_ID w)
      with ⟨w2, ⟨flag, buf⟩, h2⟩ | ⟨w2, e, h2⟩
    · rw [ChanneledSocketConnection.channeled_read_id_of_receive api self w w2 flag buf h2] at h
      cases flag with
      | false => simp [Outcome.raise, Outcome.ok] at h
      | true =>
        obtain ⟨b, rfl⟩ := hone _ buf h2
        simp only [Bool.true_eq_false, if_false, Outcome.ok, Outcome.mk.injEq, Except.ok.injEq,
          List.headD_cons] at h
        obtain ⟨hw, hb⟩ := h
        rw [h2, hw, hb]
    · simp [ChanneledSocketConnection.channeled_read_id, h2, Outcome.raise, Outcome.ok,
        Outcome.andThen] at h
  · intro w1 data h
    refine ⟨?_, (SocketConnection.receive_length api self _ w true data (by rw [h]; rfl)).1 rfl⟩
    rw [ChanneledSocketConnection.channeled_read_of_receive api channels self id channel hch w
      w1 true data h]
    rfl
  · intro w1 buf h
    rw [ChanneledSocketConnection.channeled_read_of_receive api channels self id channel hch w
      w1 false buf h]
    rfl
  · intro w1 data h
    exact ChanneledSocketConnection.channeled_read_length api channels self id channel hch w w1
      data h

/-- Witness of C19: one registered two-byte channel; a stream that delivers the id `0`
and the payload `[7, 8]`, and a stream that is already shut down. -/
theorem framed_reads_witness :
    (Channels.initial.registerAll (fun _ => 2) [6]).getChannel 0
      = Except.ok { message_size := 2, channel_id := 0 } ∧
    (∃ b, [(0 : NETWORK_BYTE)] = [b] ∧
      ChanneledSocketConnection.channeled_read_id Scripted.api { socket_descriptor := 5 }
          { Scripted.quiet with received := [some [0], some [7, 8]] }
        = Outcome.ok { Scripted.quiet with received := [some [7, 8]] } b) ∧
    ChanneledSocketConnection.channeled_read_id Scripted.api { socket_descriptor := 5 }
        Scripted.quiet
      = Outcome.raise Scripted.quiet Exception.ConnectionClosedException ∧
    (ChanneledSocketConnection.channeled_read Scripted.api
        (Channels.initial.registerAll (fun _ => 2) [6]) { socket_descriptor := 5 } 0
        { Scripted.quiet with received := [some [7, 8]] }
      = Outcome.ok Scripted.quiet [7, 8] ∧
      ([7, 8] : List NETWORK_BYTE).length
        = ({ message_size := 2, channel_id := 0 } : ChannelInterface).getMessageSize) ∧
    ChanneledSocketConnection.channeled_read Scripted.api
        (Channels.initial.registerAll (fun _ => 2) [6]) { socket_descriptor := 5 } 0
        { Scripted.quiet with received := [some [7]] }
      = Outcome.raise Scripted.quiet Exception.ConnectionClosedException :=
  ⟨rfl,
    (framed_reads Scripted.api (Channels.initial.registerAll (fun _ => 2) [6])
      { socket_descriptor := 5 } 0 { message_size := 2, channel_id := 0 }
      { Scripted.quiet with received := [some [0], some [7, 8]] } rfl).1
      { Scripted.quiet with received := [some [7, 8]] } [0] rfl,
    (framed_reads Scripted.api (Channels.initial.registerAll (fun _ => 2) [6])
      { socket_descriptor := 5 } 0 { message_size := 2, channel_id := 0 }
      Scripted.quiet rfl).2.1 Scripted.quiet [] rfl,
    (framed_reads Scripted.api (Channels.initial.registerAll (fun _ => 2) [6])
      { socket_descriptor := 5 } 0 { message_size := 2, channel_id := 0 }
      { Scripted.quiet with received := [some [7, 8]] } rfl).2.2.2.1 Scripted.quiet [7, 8] rfl,
    (framed_reads Scripted.api (Channels.initial.registerAll (fun _ => 2) [6])
      { socket_descriptor := 5 } 0 { message_size := 2, channel_id := 0 }
      { Scripted.quiet with received := [some [7]] } rfl).2.2.2.2.1 Scripted.quiet [7] rfl⟩

/-! ## Lemmas about `handleIncomingMessage` -/

@[simp]
theorem Outcome.result_ok {σ α : Type} (s : σ) (a : α) :
    (Outcome.ok s a).result = Except.ok a := rfl

@[simp]
theorem Outcome.state_ok {σ α : Type} (s : σ) (a : α) : (Outcome.ok s a).state = s := rfl

@[simp]
theorem Outcome.result_raise {σ α : Type} (s : σ) (e : Exception) :
    (Outcome.raise s e : Outcome σ α).result = Except.error e := rfl

@[simp]
theorem Outcome.state_raise {σ α : Type} (s : σ) (e : Exception) :
    (Outcome.raise s e : Outcome σ α).state = s := rfl

theorem ChannelSubscribable.handleIncomingMessage_id_closed {σ W : Type} (api : SocketApi W)
    (channels : Channels) (subscribable : σ → ChannelSubscribable)
    (run :
      Callback → ChanneledSocketConnection_p → List NETWORK_BYTE → σ × W → Outcome (σ × W) Unit)
    (handleSocketDisconnect : ChanneledSocketConnection_p → σ × W → Outcome (σ × W) Unit)
    (connection : ChanneledSocketConnection) (s : σ) (w w1 : W)
    (hid : ChanneledSocketConnection.channeled_read_id api connection w
      = Outcome.raise w1 Exception.ConnectionClosedException) :
    ChannelSubscribable.handleIncomingMessage api channels subscribable run
        handleSocketDisconnect (some connection) (s, w)
      = handleSocketDisconnect (some connection) (s, w1) := by
  simp [ChannelSubscribable.handleIncomingMessage, hid]

theorem ChannelSubscribable.handleIncomingMessage_id_raise {σ W : Type} (api : SocketApi W)
    (channels : Channels) (subscribable : σ → ChannelSubscribable)
    (run :
      Callback → ChanneledSocketConnection_p → List NETWORK_BYTE → σ × W → Outcome (σ × W) Unit)
    (handleSocketDisconnect : ChanneledSocketConnection_p → σ × W → Outcome (σ × W) Unit)
    (connection : ChanneledSocketConnection) (s : σ) (w w1 : W) (e : Exception)
    (he : e ≠ Exception.ConnectionClosedException)
    (hid : ChanneledSocketConnection.channeled_read_id api connection w = Outcome.raise w1 e) :
    ChannelSubscribable.handleIncomingMessage api channels subscribable run
        handleSocketDisconnect (some connection) (s, w)
      = Outcome.raise (s, w1) e := by
  cases e <;> first
    | exact absurd rfl he
    | simp [ChannelSubscribable.handleIncomingMessage, hid]

theorem ChannelSubscribable.handleIncomingMessage_read_closed {σ W : Type} (api : SocketApi W)
    (channels : Channels) (subscribable : σ → ChannelSubscribable)
    (run :
      Callback → ChanneledSocketConnection_p → List NETWORK_BYTE → σ × W → Outcome (σ × W) Unit)
    (handleSocketDisconnect : ChanneledSocketConnection_p → σ × W → Outcome (σ × W) Unit)
    (connection : ChanneledSocketConnection) (s : σ) (w w1 w2 : W) (id : CHANNEL_ID)
    (hid : ChanneledSocketConnection.channeled_read_id api connection w = Outcome.ok w1 id)
    (hread : ChanneledSocketConnection.channeled_read api channels connection id w1
      = Outcome.raise w2 Exception.ConnectionClosedException) :
    ChannelSubscribable.handleIncomingMessage api channels subscribable run
        handleSocketDisconnect (some connection) (s, w)
      = handleSocketDisconnect (some connection) (s, w2) := by
  simp [ChannelSubscribable.handleIncomingMessage, hid, hread]

theorem ChannelSubscribable.handleIncomingMessage_read_raise {σ W : Type} (api : SocketApi W)
    (channels : Channels) (subscribable : σ → ChannelSubscribable)
    (run :
      Callback → ChanneledSocketConnection_p → List NETWORK_BYTE → σ × W → Outcome (σ × W) Unit)
    (handleSocketDisconnect : ChanneledSocketConnection_p → σ × W → Outcome (σ × W) Unit)
    (connection : ChanneledSocketConnection) (s : σ) (w w1 w2 : W) (id : CHANNEL_ID)
    (e : Exception) (he : e ≠ Exception.ConnectionClosedException)
    (hid : ChanneledSocketConnection.channeled_read_id api connection w = Outcome.ok w1 id)
    (hread : ChanneledSocketConnection.channeled_read api channels connection id w1
      = Outcome.raise w2 e) :
    ChannelSubscribable.handleIncomingMessage api channels subscribable run
        handleSocketDisconnect (some connection) (s, w)
      = Outcome.raise (s, w2) e := by
  cases e <;> first
    | exact absurd rfl he
    | simp [ChannelSubscribable.handleIncomingMessage, hid, hread]

theorem ChannelSubscribable.handleIncomingMessage_no_entry {σ W : Type} (api : SocketApi W)
    (channels : Channels) (subscribable : σ → ChannelSubscribable)
    (run :
      Callback → ChanneledSocketConnection_p → List NETWORK_BYTE → σ × W → Outcome (σ × W) Unit)
    (handleSocketDisconnect : ChanneledSocketConnection_p → σ × W → Outcome (σ × W) Unit)
    (connection : ChanneledSocketConnection) (s : σ) (w w1 w2 : W) (id : CHANNEL_ID)
    (data : List NETWORK_BYTE)
    (hid : ChanneledSocketConnection.channeled_read_id api connection w = Outcome.ok w1 id)
    (hread : ChanneledSocketConnection.channeled_read api channels connection id w1
      = Outcome.ok w2 data)
    (hnone : (subscribable s).subscriptions.find id = none) :
    ChannelSubscribable.handleIncomingMessage api channels subscribable run
        handleSocketDisconnect (some connection) (s, w)
      = Outcome.ok (s, w2) () := by
  simp [ChannelSubscribable.handleIncomingMessage, hid, hread, hnone]

theorem ChannelSubscribable.handleIncomingMessage_entry {σ W : Type} (api : SocketApi W)
    (channels : Channels) (subscribable : σ → ChannelSubscribable)
    (run :
      Callback → ChanneledSocketConnection_p → List NETWORK_BYTE → σ × W → Outcome (σ × W) Unit)
    (handleSocketDisconnect : ChanneledSocketConnection_p → σ × W → Outcome (σ × W) Unit)
    (connection : ChanneledSocketConnection) (s : σ) (w w1 w2 : W) (id : CHANNEL_ID)
    (data : List NETWORK_BYTE) (channel_subs : ChannelSubscription)
    (hid : ChanneledSocketConnection.channeled_read_id api connection w = Outcome.ok w1 id)
    (hread : ChanneledSocketConnection.channeled_read api channels connection id w1
      = Outcome.ok w2 data)
    (hsome : (subscribable s).subscriptions.find id = some channel_subs)
    (hclosed : (ChannelSubscription.propagate_loop run
      (fun st => (subscribable st.1).subscribed id) (some connection) data
      channel_subs.subscriptions (s, w2)).result
        ≠ Except.error Exception.ConnectionClosedException) :
    ChannelSubscribable.handleIncomingMessage api channels subscribable run
        handleSocketDisconnect (some connection) (s, w)
      = ChannelSubscription.propagate_loop run
          (fun st => (subscribable st.1).subscribed id) (some connection) data
          channel_subs.subscriptions (s, w2) := by
  simp only [ChannelSubscribable.handleIncomingMessage, hid, hread, hsome,
    Outcome.withObject_ok, Outcome.andThen_ok, ChannelSubscription.propagate_to_handlers]

/-- C15: silent drop.  On a stream that holds a frame of a registered channel (its id,
then as many bytes as the channel's message size) followed by anything, when the table has
no entry for that id, `handleIncomingMessage` takes exactly the frame from the stream and
returns normally with the endpoint (and so the table) unchanged, whatever the callbacks
and the disconnect handler are: none of them is called. -/
theorem silent_drop_without_entry {σ : Type} (channels : Channels)
    (subscribable : σ → ChannelSubscribable)
    (run :
      Callback → ChanneledSocketConnection_p → List NETWORK_BYTE → σ × Pipe →
        Outcome (σ × Pipe) Unit)
    (handleSocketDisconnect : ChanneledSocketConnection_p → σ × Pipe → Outcome (σ × Pipe) Unit)
    (connection : ChanneledSocketConnection) (s : σ) (p : Pipe) (id : CHANNEL_ID)
    (channel : ChannelInterface) (payload rest : List NETWORK_BYTE)
    (hch : channels.getChannel id = Except.ok channel)
    (hnone : (subscribable s).subscriptions.find id = none)
    (hwire : p.wire = id :: payload ++ rest)
    (hlen : payload.length = channel.getMessageSize) :
    ∃ p1 : Pipe,
      ChannelSubscribable.handleIncomingMessage Pipe.api channels subscribable run
          handleSocketDisconnect (some connection) (s, p)
        = Outcome.ok (s, p1) () ∧
      p1.wire = rest := by
  obtain ⟨p1, h1, h2, _⟩ :=
    ChanneledSocketConnection.channeled_read_id_pipe connection p id (payload ++ rest) hwire
  obtain ⟨p2, h3, h4⟩ := ChanneledSocketConnection.channeled_read_pipe channels connection id
    channel hch p1 (by rw [h2, List.length_append, hlen]; exact Nat.le_add_right _ _)
  refine ⟨p2, ?_, ?_⟩
  · exact ChannelSubscribable.handleIncomingMessage_no_entry Pipe.api channels subscribable run
      handleSocketDisconnect connection s p p1 p2 id _ h1 h3 hnone
  · rw [h4, h2, ← hlen]
    simp

/-- Witness of C15: a channeled server without subscriptions whose stream holds the frame
`[0, 7, 8]` of the registered two-byte channel `0`, then the byte `9`; the user, who
writes down every call, sees none. -/
theorem silent_drop_without_entry_witness :
    (Channels.initial.registerAll (fun _ => 2) [6]).getChannel 0
      = Except.ok { message_size := 2, channel_id := 0 } ∧
    ∃ p1 : Pipe,
      ChannelSubscribable.handleIncomingMessage Pipe.api
          (Channels.initial.registerAll (fun _ => 2) [6])
          (fun s : ChanneledServer (List HookCall) => s.derived.subscribable)
          ChanneledServerHooks.recording.callback
          (ChanneledServer.handleSocketDisconnect ChanneledServerHooks.recording)
          (some { socket_descriptor := 5 })
          (Server.new "0.0.0.0" "9876" 5 50
              ({ subscribable := { subscriptions := [] }, user := [] } :
                Channeled (List HookCall)),
            { wire := [0, 7, 8, 9], send_chunks := [], recv_chunks := [0, 0] })
        = Outcome.ok
            (Server.new "0.0.0.0" "9876" 5 50
              ({ subscribable := { subscriptions := [] }, user := [] } :
                Channeled (List HookCall)), p1) () ∧
      p1.wire = [9] :=
  ⟨rfl,
    silent_drop_without_entry (Channels.initial.registerAll (fun _ => 2) [6])
      (fun s : ChanneledServer (List HookCall) => s.derived.subscribable)
      ChanneledServerHooks.recording.callback
      (ChanneledServer.handleSocketDisconnect ChanneledServerHooks.recording)
      { socket_descriptor := 5 }
      (Server.new "0.0.0.0" "9876" 5 50
        ({ subscribable := { subscriptions := [] }, user := [] } : Channeled (List HookCall)))
      { wire := [0, 7, 8, 9], send_chunks := [], recv_chunks := [0, 0] } 0
      { message_size := 2, channel_id := 0 } [7, 8] [9] rfl rfl rfl rfl⟩

/-- C16: clean shutdown of the peer during `handleIncomingMessage`.  When `receive`
reports the shutdown during the read of the channel id, or during the read of the payload
of a registered id, `handleIncomingMessage` is one call of `handleSocketDisconnect` with
that connection and returns what the handler returns (no exception of its own), whatever
the callbacks are: none is called.  In a channeled client the handler is the user's
`handle_client_disconnect`. -/
theorem peer_shutdown_calls_disconnect_handler {σ W : Type} (api : SocketApi W)
    (channels : Channels) (subscribable : σ → ChannelSubscribable)
    (run :
      Callback → ChanneledSocketConnection_p → List NETWORK_BYTE → σ × W → Outcome (σ × W) Unit)
    (handleSocketDisconnect : ChanneledSocketConnection_p → σ × W → Outcome (σ × W) Unit)
    (connection : ChanneledSocketConnection) (s : σ) (w : W) :
    (∀ (w1 : W) (buf : List NETWORK_BYTE),
      SocketConnection.receive api connection sizeof_CHANNEL_ID w = Outcome.ok w1 (false, buf) →
      ChannelSubscribable.handleIncomingMessage api channels subscribable run
          handleSocketDisconnect (some connection) (s, w)
        = handleSocketDisconnect (some connection) (s, w1)) ∧
    (∀ (w1 w2 : W) (id : CHANNEL_ID) (channel : ChannelInterface) (buf : List NETWORK_BYTE),
      ChanneledSocketConnection.channeled_read_id api connection w = Outcome.ok w1 id →
      channels.getChannel id = Except.ok channel →
      SocketConnection.receive api connection channel.getMessageSize w1
        = Outcome.ok w2 (false, buf) →
      ChannelSubscribable.handleIncomingMessage api channels subscribable run
          handleSocketDisconnect (some connection) (s, w)
        = handleSocketDisconnect (some connection) (s, w2)) ∧
    (∀ (υ : Type) (user : ChanneledClientHooks υ W) (c : ChanneledClient υ) (w1 : W)
        (buf : List NETWORK_BYTE),
      c.connection = some connection →
      SocketConnection.receive api connection sizeof_CHANNEL_ID w = Outcome.ok w1 (false, buf) →
      ChanneledClient.handle_client_ready_to_read api channels user (c, w)
        = user.handle_client_disconnect (c, w1)) := by
  have hfirst : ∀ (w1 : W) (buf : List NETWORK_BYTE),
      SocketConnection.receive api connection sizeof_CHANNEL_ID w = Outcome.ok w1 (false, buf) →
      ChanneledSocketConnection.channeled_read_id api connection w
        = Outcome.raise w1 Exception.ConnectionClosedException := by
    intro w1 buf h
    rw [ChanneledSocketConnection.channeled_read_id_of_receive api connection w w1 false buf h]
    rfl
  refine ⟨?_, ?_, ?_⟩
  · intro w1 buf h
    exact ChannelSubscribable.handleIncomingMessage_id_closed api channels subscribable run
      handleSocketDisconnect connection s w w1 (hfirst w1 buf h)
  · intro w1 w2 id channel buf hid hch h
    refine ChannelSubscribable.handleIncomingMessage_read_closed api channels subscribable run
      handleSocketDisconnect connection s w w1 w2 id hid ?_
    rw [ChanneledSocketConnection.channeled_read_of_receive api channels connection id channel
      hch w1 w2 false buf h]
    rfl
  · intro υ user c w1 buf hc h
    rw [ChanneledClient.handle_client_ready_to_read]
    simp only [hc]
    rw [ChannelSubscribable.handleIncomingMessage_id_closed api channels _ _ _ connection c w w1
      (hfirst w1 buf h)]
    rfl

/-- Witness of C16: a connected channeled client whose stream is shut down at once, and
one whose stream ends after the id `0` of a registered two-byte channel; the user writes
down one `handle_client_disconnect` and nothing else. -/
theorem peer_shutdown_calls_disconnect_handler_witness :
    ChanneledClient.handle_client_ready_to_read Scripted.api
        (Channels.initial.registerAll (fun _ => 2) [6]) ChanneledClientHooks.recording
        ({ Client.new 50
              ({ subscribable := { subscriptions := [] }, user := [] } :
                Channeled (List HookCall)) with
            state := ClientState.CLIENT_CONNECTED
            connection := some { socket_descriptor := 3 } }, Scripted.quiet)
      = Outcome.ok
          ({ Client.new 50
                ({ subscribable := { subscriptions := [] },
                   user := [HookCall.handle_client_disconnect] } :
                  Channeled (List HookCall)) with
              state := ClientState.CLIENT_CONNECTED
              connection := some { socket_descriptor := 3 } }, Scripted.quiet) () ∧
    ChannelSubscribable.handleIncomingMessage Scripted.api
        (Channels.initial.registerAll (fun _ => 2) [6])
        (fun c : ChanneledClient (List HookCall) => c.derived.subscribable)
        ChanneledClientHooks.recording.callback
        (ChanneledClient.handleSocketDisconnect ChanneledClientHooks.recording)
        (some { socket_descriptor := 3 })
        ({ Client.new 50
              ({ subscribable := { subscriptions := [] }, user := [] } :
                Channeled (List HookCall)) with
            state := ClientState.CLIENT_CONNECTED
            connection := some { socket_descriptor := 3 } },
          { Scripted.quiet with received := [some [0], some [7]] })
      = Outcome.ok
          ({ Client.new 50
                ({ subscribable := { subscriptions := [] },
                   user := [HookCall.handle_client_disconnect] } :
                  Channeled (List HookCall)) with
              state := ClientState.CLIENT_CONNECTED
              connection := some { socket_descriptor := 3 } }, Scripted.quiet) () :=
  ⟨(peer_shutdown_calls_disconnect_handler Scripted.api
      (Channels.initial.registerAll (fun _ => 2) [6])
      (fun c : ChanneledClient (List HookCall) => c.derived.subscribable)
      ChanneledClientHooks.recording.callback
      (ChanneledClient.handleSocketDisconnect ChanneledClientHooks.recording)
      { socket_descriptor := 3 }
      { Client.new 50
            ({ subscribable := { subscriptions := [] }, user := [] } :
              Channeled (List HookCall)) with
          state := ClientState.CLIENT_CONNECTED
          connection := some { socket_descriptor := 3 } }
      Scripted.quiet).2.2 (List HookCall) ChanneledClientHooks.recording _ Scripted.quiet []
      rfl rfl,
    (peer_shutdown_calls_disconnect_handler Scripted.api
      (Channels.initial.registerAll (fun _ => 2) [6])
      (fun c : ChanneledClient (List HookCall) => c.derived.subscribable)
      ChanneledClientHooks.recording.callback
      (ChanneledClient.handleSocketDisconnect ChanneledClientHooks.recording)
      { socket_descriptor := 3 }
      { Client.new 50
            ({ subscribable := { subscriptions := [] }, user := [] } :
              Channeled (List HookCall)) with
          state := ClientState.CLIENT_CONNECTED
          connection := some { socket_descriptor := 3 } }
      { Scripted.quiet with received := [some [0], some [7]] }).2.1
      { Scripted.quiet with received := [some [7]] } Scripted.quiet 0
      { message_size := 2, channel_id := 0 } [7] rfl rfl rfl⟩

theorem Server.poll_loop_peer_normal {ω W : Type} (api : SocketApi W)
    (hooks : ServerHooks ω W) (s : Server ω) (w : W) (client : SocketConnection_p)
    (rest : List SocketCollectionEntry) (hpeer : client ≠ s.server_connection)
    (hs : s.state ≠ ServerState.DESTRUCTING) :
    Server.poll_loop api hooks
        ({ connection := client, status := SocketStatus.SOCKET_STATUS_NORMAL } :: rest) (s, w)
      = (hooks.handle_ready_to_read client (s, w)).andThen fun _ st1 =>
          Server.poll_loop api hooks rest st1 := by
  simp [Server.poll_loop, hpeer, hs]

theorem Server.poll_loop_peer_error {ω W : Type} (api : SocketApi W)
    (hooks : ServerHooks ω W) (s : Server ω) (w : W) (client : SocketConnection_p)
    (rest : List SocketCollectionEntry) (hpeer : client ≠ s.server_connection)
    (hs : s.state ≠ ServerState.DESTRUCTING) :
    Server.poll_loop api hooks
        ({ connection := client, status := SocketStatus.SOCKET_STATUS_ERROR } :: rest) (s, w)
      = (hooks.handle_client_error client (s, w)).andThen fun _ st1 =>
          Server.poll_loop api hooks rest st1 := by
  simp [Server.poll_loop, hpeer, hs]

theorem Server.poll_loop_peer_disconnect {ω W : Type} (api : SocketApi W)
    (hooks : ServerHooks ω W) (s : Server ω) (w : W) (client : SocketConnection_p)
    (rest : List SocketCollectionEntry) (hpeer : client ≠ s.server_connection)
    (hs : s.state ≠ ServerState.DESTRUCTING) :
    Server.poll_loop api hooks
        ({ connection := client, status := SocketStatus.SOCKET_STATUS_DISCONNECT } :: rest)
        (s, w)
      = (hooks.handle_client_disconnect client (s, w)).andThen fun _ st1 =>
          Server.poll_loop api hooks rest st1 := by
  simp [Server.poll_loop, hpeer, hs]

theorem Server.poll_loop_nil {ω W : Type} (api : SocketApi W) (hooks : ServerHooks ω W)
    (st : Server ω × W) : Server.poll_loop api hooks [] st = Outcome.ok st true := rfl

theorem Client.poll_of_ready_connection {ω W : Type} (api : SocketApi W)
    (hooks : ClientHooks ω W)
    (c : Client ω) (w : W) (entry : SocketCollectionEntry)
    (hc : c.state = ClientState.CLIENT_CONNECTED)
    (hready : (PollService.poll api c.poll_service w).result = Except.ok [entry]) :
    Client.poll api hooks id (c, w)
      = Client.poll_loop hooks [entry]
          ({ c with poll_service := (PollService.poll api c.poll_service w).state.1 },
            (PollService.poll api c.poll_service w).state.2) := by
  simp [Client.poll, hc, hready]

theorem Client.poll_loop_own_normal {ω W : Type} (hooks : ClientHooks ω W) (c : Client ω)
    (w : W) (rest : List SocketCollectionEntry)
    (hc : c.state ≠ ClientState.CLIENT_DESTRUCTING) :
    Client.poll_loop hooks
        ({ connection := c.connection, status := SocketStatus.SOCKET_STATUS_NORMAL } :: rest)
        (c, w)
      = (hooks.handle_client_ready_to_read (c, w)).andThen fun _ st1 =>
          Client.poll_loop hooks rest st1 := by
  simp [Client.poll_loop, hc]

/-- C17: unknown channel id.  When `handleIncomingMessage` reads a channel id that the
registry does not hold, it raises `BadChannelException`, with the endpoint unchanged,
whatever the callbacks and the disconnect handler are: none of them is called.  The
exception leaves `poll()` of a channeled server (the peer being the one ready handle, with
normal status) and of a channeled client alike. -/
theorem unknown_channel_id_propagates {σ W : Type} (api : SocketApi W) (channels : Channels)
    (subscribable : σ → ChannelSubscribable)
    (run :
      Callback → ChanneledSocketConnection_p → List NETWORK_BYTE → σ × W → Outcome (σ × W) Unit)
    (handleSocketDisconnect : ChanneledSocketConnection_p → σ × W → Outcome (σ × W) Unit)
    (connection : ChanneledSocketConnection) (s : σ) (w w1 : W) (channel_id : CHANNEL_ID)
    (hid : ChanneledSocketConnection.channeled_read_id api connection w = Outcome.ok w1 channel_id)
    (hunknown : channels.ids_to_channels.find channel_id = none) :
    ChannelSubscribable.handleIncomingMessage api channels subscribable run
        handleSocketDisconnect (some connection) (s, w)
      = Outcome.raise (s, w1) Exception.BadChannelException ∧
    (∀ (υ : Type) (user : ChanneledServerHooks υ W) (server : ChanneledServer υ) (w0 : W),
      server.state = ServerState.SERVE → some connection ≠ server.server_connection →
      PollService.poll api server.poll_service w0
        = Outcome.ok ((PollService.poll api server.poll_service w0).state.1, w)
            [{ connection := some connection, status := SocketStatus.SOCKET_STATUS_NORMAL }] →
      Server.poll api (ChanneledServer.hooks api channels user) id (server, w0)
        = Outcome.raise
            ({ server with
                poll_service := (PollService.poll api server.poll_service w0).state.1 }, w1)
            Exception.BadChannelException) ∧
    (∀ (υ : Type) (user : ChanneledClientHooks υ W) (client : ChanneledClient υ) (w0 : W),
      client.state = ClientState.CLIENT_CONNECTED → client.connection = some connection →
      PollService.poll api client.poll_service w0
        = Outcome.ok ((PollService.poll api client.poll_service w0).state.1, w)
            [{ connection := some connection, status := SocketStatus.SOCKET_STATUS_NORMAL }] →
      Client.poll api (ChanneledClient.hooks api channels user) id (client, w0)
        = Outcome.raise
            ({ client with
                poll_service := (PollService.poll api client.poll_service w0).state.1 }, w1)
            Exception.BadChannelException) := by
  have hread : ChanneledSocketConnection.channeled_read api channels connection channel_id w1
      = Outcome.raise w1 Exception.BadChannelException := by
    simp [ChanneledSocketConnection.channeled_read, Channels.getChannel, hunknown]
  have hmain : ∀ {τ : Type} (sub : τ → ChannelSubscribable)
      (r : Callback → ChanneledSocketConnection_p → List NETWORK_BYTE → τ × W →
        Outcome (τ × W) Unit)
      (h : ChanneledSocketConnection_p → τ × W → Outcome (τ × W) Unit) (t : τ),
      ChannelSubscribable.handleIncomingMessage api channels sub r h (some connection) (t, w)
        = Outcome.raise (t, w1) Exception.BadChannelException := by
    intro τ sub r h t
    exact ChannelSubscribable.handleIncomingMessage_read_raise api channels sub r h connection t
      w w1 w1 channel_id Exception.BadChannelException (by decide) hid hread
  refine ⟨hmain _ _ _ _, ?_, ?_⟩
  · intro υ user server w0 hs hpeer hpoll
    have hres : (PollService.poll api server.poll_service w0).result
        = Except.ok [{ connection := some connection,
                       status := SocketStatus.SOCKET_STATUS_NORMAL }] := by
      rw [hpoll]
      rfl
    have hw : (PollService.poll api server.poll_service w0).state.2 = w := by
      rw [hpoll]
      rfl
    rw [Server.poll_of_one_ready api _ server w0 _ hs hres, hw,
      Server.poll_loop_peer_normal api _
        { server with poll_service := (PollService.poll api server.poll_service w0).state.1 }
        w (some connection) [] hpeer (by simp [hs])]
    show (ChanneledServer.handle_ready_to_read api channels user (some connection) _).andThen _
      = _
    rw [ChanneledServer.handle_ready_to_read, hmain]
    rfl
  · intro υ user client w0 hc hconn hpoll
    obtain ⟨ps, stt, conn, der⟩ := client
    simp only at hc hconn hpoll
    subst hconn
    subst hc
    have hres : (PollService.poll api ps w0).result
        = Except.ok [{ connection := some connection,
                       status := SocketStatus.SOCKET_STATUS_NORMAL }] := by
      rw [hpoll]
      rfl
    have hw : (PollService.poll api ps w0).state.2 = w := by
      rw [hpoll]
      rfl
    rw [Client.poll_of_ready_connection api _ _ w0 _ rfl hres]
    simp only [hw]
    rw [Client.poll_loop_own_normal (ChanneledClient.hooks api channels user)
      { poll_service := (PollService.poll api ps w0).state.1,
        state := ClientState.CLIENT_CONNECTED, connection := some connection, derived := der }
      w [] (by simp)]
    show (ChanneledClient.handle_client_ready_to_read api channels user _).andThen _ = _
    rw [ChanneledClient.handle_client_ready_to_read]
    simp only []
    rw [hmain]
    rfl

/-- Witness of C17: a serving channeled server with an empty registry whose peer `5` is
ready with the byte `9`; `poll()` ends with `BadChannelException` and the user is never
called. -/
theorem unknown_channel_id_propagates_witness :
    Server.poll Scripted.api
        (ChanneledServer.hooks Scripted.api Channels.initial ChanneledServerHooks.recording) id
        ({ Server.new "0.0.0.0" "9876" 5 50
              ({ subscribable := { subscriptions := [] }, user := [] } :
                Channeled (List HookCall)) with
            state := ServerState.SERVE
            server_connection := some { socket_descriptor := 3 }
            poll_service :=
              ((PollService.new 50).add_socket { socket_descriptor := 3 }).add_socket
                { socket_descriptor := 5 } },
          { Scripted.quiet with polled := [(1, [0, POLLIN])], received := [some [9]] })
      = Outcome.raise
          ({ Server.new "0.0.0.0" "9876" 5 50
                ({ subscribable := { subscriptions := [] }, user := [] } :
                  Channeled (List HookCall)) with
              state := ServerState.SERVE
              server_connection := some { socket_descriptor := 3 }
              poll_service :=
                (PollService.poll Scripted.api
                  (((PollService.new 50).add_socket { socket_descriptor := 3 }).add_socket
                    { socket_descriptor := 5 })
                  { Scripted.quiet with
                    polled := [(1, [0, POLLIN])], received := [some [9]] }).state.1 },
            Scripted.quiet)
          Exception.BadChannelException :=
  (unknown_channel_id_propagates Scripted.api Channels.initial
      (fun c : ChanneledServer (List HookCall) => c.derived.subscribable)
      ChanneledServerHooks.recording.callback
      (ChanneledServer.handleSocketDisconnect ChanneledServerHooks.recording)
      { socket_descriptor := 5 }
      { Server.new "0.0.0.0" "9876" 5 50
            ({ subscribable := { subscriptions := [] }, user := [] } :
              Channeled (List HookCall)) with
          state := ServerState.SERVE
          server_connection := some { socket_descriptor := 3 } }
      { Scripted.quiet with received := [some [9]] } Scripted.quiet 9 rfl rfl).2.1
    (List HookCall) ChanneledServerHooks.recording
    { Server.new "0.0.0.0" "9876" 5 50
          ({ subscribable := { subscriptions := [] }, user := [] } :
            Channeled (List HookCall)) with
        state := ServerState.SERVE
        server_connection := some { socket_descriptor := 3 }
        poll_service :=
          ((PollService.new 50).add_socket { socket_descriptor := 3 }).add_socket
            { socket_descriptor := 5 } }
    { Scripted.quiet with polled := [(1, [0, POLLIN])], received := [some [9]] }
    rfl (by decide) rfl

/-! ## Lemmas about maps with distinct keys -/

theorem Map.find_eq_none_iff {κ ν : Type} [DecidableEq κ] (m : Map κ ν) (k : κ) :
    m.find k = none ↔ k ∉ m.keys := by
  induction m with
  | nil => simp [Map.find, Map.keys]
  | cons e m ih =>
    obtain ⟨a, b⟩ := e
    by_cases h : a = k
    · simp [Map.find, Map.keys, h]
    · have h2 : ¬ k = a := fun h3 => h h3.symm
      simpa [Map.find, Map.keys, h, h2] using ih

theorem Map.mem_keys_of_find {κ ν : Type} [DecidableEq κ] (m : Map κ ν) (k : κ) (v : ν)
    (h : m.find k = some v) : k ∈ m.keys := by
  by_contra hk
  rw [(Map.find_eq_none_iff m k).2 hk] at h
  cases h

theorem Map.find_of_mem_keys {κ ν : Type} [DecidableEq κ] (m : Map κ ν) (k : κ)
    (h : k ∈ m.keys) : ∃ v, m.find k = some v := by
  cases hf : m.find k with
  | none => exact absurd h ((Map.find_eq_none_iff m k).1 hf)
  | some v => exact ⟨v, rfl⟩

theorem Map.assign_of_not_mem {κ ν : Type} [DecidableEq κ] (m : Map κ ν) (k : κ) (v : ν)
    (h : k ∉ m.keys) : m.assign k v = m ++ [(k, v)] := by
  induction m with
  | nil => rfl
  | cons e m ih =>
    obtain ⟨a, b⟩ := e
    simp only [Map.keys, List.map_cons, List.mem_cons, not_or] at h
    have h1 : ¬ a = k := fun h3 => h.1 h3.symm
    simp only [Map.assign, h1, if_false, List.cons_append]
    rw [ih h.2]

theorem Map.mem_keys_assign {κ ν : Type} [DecidableEq κ] (m : Map κ ν) (k k' : κ) (v : ν) :
    k' ∈ (m.assign k v).keys ↔ k' = k ∨ k' ∈ m.keys := by
  induction m with
  | nil => simp [Map.assign, Map.keys]
  | cons e m ih =>
    obtain ⟨a, b⟩ := e
    by_cases h : a = k
    · subst h
      simp [Map.assign, Map.keys]
    · simp only [Map.assign, h, if_false, Map.keys, List.map_cons, List.mem_cons]
      simp only [Map.keys] at ih
      rw [ih]
      tauto

theorem Map.nodup_keys_assign {κ ν : Type} [DecidableEq κ] (m : Map κ ν) (k : κ) (v : ν)
    (h : m.keys.Nodup) : (m.assign k v).keys.Nodup := by
  induction m with
  | nil => simp [Map.assign, Map.keys]
  | cons e m ih =>
    obtain ⟨a, b⟩ := e
    simp only [Map.keys, List.map_cons, List.nodup_cons] at h
    by_cases h1 : a = k
    · subst h1
      simpa [Map.assign, Map.keys] using h
    · simp only [Map.assign, h1, if_false, Map.keys, List.map_cons, List.nodup_cons]
      refine ⟨?_, ih h.2⟩
      intro hmem
      rcases (Map.mem_keys_assign m k a v).1 hmem with h2 | h2
      · exact h1 h2
      · exact h.1 h2

theorem Map.assign_ne_nil {κ ν : Type} [DecidableEq κ] (m : Map κ ν) (k : κ) (v : ν) :
    m.assign k v ≠ [] := by
  cases m with
  | nil => simp [Map.assign]
  | cons e m =>
    obtain ⟨a, b⟩ := e
    by_cases h : a = k <;> simp [Map.assign, h]

theorem Map.erase_eq_filter {κ ν : Type} [DecidableEq κ] (m : Map κ ν) (k : κ)
    (h : m.keys.Nodup) : m.erase k = m.filter fun e => decide (e.1 ≠ k) := by
  induction m with
  | nil => rfl
  | cons e m ih =>
    obtain ⟨a, b⟩ := e
    simp only [Map.keys, List.map_cons, List.nodup_cons] at h
    by_cases h1 : a = k
    · subst h1
      simp only [Map.erase, if_true, List.filter_cons, ne_eq, not_true_eq_false, decide_False,
        Bool.false_eq_true, if_false]
      symm
      rw [List.filter_eq_self]
      intro x hx
      have : x.1 ∈ Map.keys m := List.mem_map_of_mem Prod.fst hx
      simp only [decide_eq_true_eq]
      intro hxa
      exact h.1 (hxa ▸ this)
    · simp only [Map.erase, h1, if_false, List.filter_cons, ne_eq, not_false_eq_true,
        decide_True, if_true]
      rw [ih h.2]

theorem Map.mem_keys_erase {κ ν : Type} [DecidableEq κ] (m : Map κ ν) (k k' : κ)
    (h : m.keys.Nodup) : k' ∈ (m.erase k).keys ↔ k' ≠ k ∧ k' ∈ m.keys := by
  rw [Map.erase_eq_filter m k h]
  simp only [Map.keys, List.mem_map, List.mem_filter, decide_eq_true_eq]
  constructor
  · rintro ⟨x, ⟨hx, hne⟩, rfl⟩
    exact ⟨hne, x, hx, rfl⟩
  · rintro ⟨hne, x, hx, rfl⟩
    exact ⟨x, ⟨hx, hne⟩, rfl⟩

theorem Map.nodup_keys_erase {κ ν : Type} [DecidableEq κ] (m : Map κ ν) (k : κ)
    (h : m.keys.Nodup) : (m.erase k).keys.Nodup := by
  rw [Map.erase_eq_filter m k h]
  exact (List.Nodup.sublist (List.Sublist.map Prod.fst (List.filter_sublist m)) h)

theorem Map.find_erase {κ ν : Type} [DecidableEq κ] (m : Map κ ν) (k k' : κ)
    (h : m.keys.Nodup) : (m.erase k).find k' = if k = k' then none else m.find k' := by
  induction m with
  | nil => simp [Map.erase, Map.find]
  | cons e m ih =>
    obtain ⟨a, b⟩ := e
    simp only [Map.keys, List.map_cons, List.nodup_cons] at h
    by_cases h1 : a = k
    · subst h1
      by_cases h2 : a = k'
      · subst h2
        simp only [Map.erase, if_true]
        exact (Map.find_eq_none_iff m a).2 h.1
      · simp [Map.erase, Map.find, h2]
    · by_cases h2 : k = k'
      · subst h2
        simp only [Map.erase, h1, if_false, Map.find, if_true]
        rw [ih h.2, if_pos rfl]
      · simp only [Map.erase, h1, if_false, Map.find, h2]
        rw [ih h.2, if_neg h2]

/-! ## Claims about the subscription router -/

theorem ChannelSubscribable.subscribe_of_channel (channels : Channels)
    (self : ChannelSubscribable) (T : TypeIndex) (callback : Callback) (ch : CHANNEL_ID)
    (hT : channels.getChannelId T = Except.ok ch) :
    ∃ entry : ChannelSubscription,
      self.subscribe channels T callback
        = Outcome.ok { subscriptions := self.subscriptions.assign ch entry } (self.next_id ch) ∧
      entry.subscriptions = (self.subscribed ch).assign (self.next_id ch) callback ∧
      entry.subscription_counter = (self.next_id ch + 1) % SUBSCRIPTION_ID_RANGE := by
  cases hfind : self.subscriptions.find ch with
  | none =>
    refine ⟨((ChannelSubscription.new T).subscribe callback).2, ?_, ?_, ?_⟩ <;>
      simp [ChannelSubscribable.subscribe, ChannelSubscribable.next_id,
        ChannelSubscribable.subscribed, hT, hfind, ChannelSubscription.subscribe,
        ChannelSubscription.new]
  | some e =>
    refine ⟨(e.subscribe callback).2, ?_, ?_, ?_⟩ <;>
      simp [ChannelSubscribable.subscribe, ChannelSubscribable.next_id,
        ChannelSubscribable.subscribed, hT, hfind, ChannelSubscription.subscribe]

theorem ChannelSubscribable.subscribed_subscribe (channels : Channels)
    (self : ChannelSubscribable) (T : TypeIndex) (callback : Callback) (ch : CHANNEL_ID)
    (hT : channels.getChannelId T = Except.ok ch) :
    (self.subscribe channels T callback).result = Except.ok (self.next_id ch) ∧
    (self.subscribe channels T callback).state.subscribed ch
      = (self.subscribed ch).assign (self.next_id ch) callback ∧
    (self.subscribe channels T callback).state.next_id ch
      = (self.next_id ch + 1) % SUBSCRIPTION_ID_RANGE := by
  obtain ⟨entry, h, hsubs, hcounter⟩ :=
    ChannelSubscribable.subscribe_of_channel channels self T callback ch hT
  rw [h]
  refine ⟨rfl, ?_, ?_⟩
  · simp only [Outcome.state_ok, ChannelSubscribable.subscribed]
    rw [Map.find_assign, if_pos rfl]
    exact hsubs
  · simp only [Outcome.state_ok, ChannelSubscribable.next_id]
    rw [Map.find_assign, if_pos rfl]
    exact hcounter

theorem ChannelSubscribable.unsubscribe_of_entry (channels : Channels)
    (self : ChannelSubscribable) (T : TypeIndex) (id : SUBSCRIPTION_ID) (ch : CHANNEL_ID)
    (entry : ChannelSubscription) (hT : channels.getChannelId T = Except.ok ch)
    (hentry : self.subscriptions.find ch = some entry) :
    self.unsubscribe channels T id
      = Outcome.ok
          (if (entry.subscriptions.erase id).length = 0 then
            { subscriptions :=
                (self.subscriptions.assign ch
                  { entry with subscriptions := entry.subscriptions.erase id }).erase ch }
          else
            { subscriptions :=
                self.subscriptions.assign ch
                  { entry with subscriptions := entry.subscriptions.erase id } }) () := by
  unfold ChannelSubscribable.unsubscribe ChannelSubscription.unsubscribe
  rw [hT]
  simp only [hentry]
  by_cases h : (entry.subscriptions.erase id).length = 0
  · simp [h]
  · simp [h]

theorem ChannelSubscription.propagate_loop_not_closed {σ : Type}
    (run : Callback → ChanneledSocketConnection_p → List NETWORK_BYTE → σ → Outcome σ Unit)
    (live : σ → Map SUBSCRIPTION_ID Callback)
    (hrun : ∀ c x d st, (run c x d st).result ≠ Except.error Exception.ConnectionClosedException)
    (sender : ChanneledSocketConnection_p) (obj : List NETWORK_BYTE)
    (subscriptions : List (SUBSCRIPTION_ID × Callback)) (st : σ) :
    (ChannelSubscription.propagate_loop run live sender obj subscriptions st).result
      ≠ Except.error Exception.ConnectionClosedException := by
  induction subscriptions generalizing st with
  | nil => simp [ChannelSubscription.propagate_loop]
  | cons e rest ih =>
    rw [ChannelSubscription.propagate_loop]
    cases hlive : (live st).find e.1 with
    | none => exact ih st
    | some handler =>
      simp only []
      rcases Outcome.ok_or_raise (run handler sender obj st) with ⟨s1, a, h⟩ | ⟨s1, err, h⟩
      · rw [h, Outcome.andThen_ok]
        cases (live s1).find e.1 with
        | none => simp
        | some c => exact ih s1
      · rw [h, Outcome.andThen_raise]
        have := hrun handler sender obj st
        rw [h] at this
        simpa using this

theorem ChannelSubscribable.handleIncomingMessage_dispatch {σ W : Type} (api : SocketApi W)
    (channels : Channels) (subscribable : σ → ChannelSubscribable)
    (run :
      Callback → ChanneledSocketConnection_p → List NETWORK_BYTE → σ × W → Outcome (σ × W) Unit)
    (handleSocketDisconnect : ChanneledSocketConnection_p → σ × W → Outcome (σ × W) Unit)
    (connection : ChanneledSocketConnection) (s : σ) (w w1 w2 : W) (ch : CHANNEL_ID)
    (data : List NETWORK_BYTE)
    (hid : ChanneledSocketConnection.channeled_read_id api connection w = Outcome.ok w1 ch)
    (hread : ChanneledSocketConnection.channeled_read api channels connection ch w1
      = Outcome.ok w2 data)
    (hrun : ∀ c x d st,
      (run c x d st).result ≠ Except.error Exception.ConnectionClosedException) :
    ChannelSubscribable.handleIncomingMessage api channels subscribable run
        handleSocketDisconnect (some connection) (s, w)
      = ChannelSubscription.propagate_loop run
          (fun st => (subscribable st.1).subscribed ch) (some connection) data
          ((subscribable s).subscribed ch) (s, w2) := by
  cases hfind : (subscribable s).subscriptions.find ch with
  | none =>
    rw [ChannelSubscribable.handleIncomingMessage_no_entry api channels subscribable run
      handleSocketDisconnect connection s w w1 w2 ch data hid hread hfind]
    simp [ChannelSubscribable.subscribed, hfind, ChannelSubscription.propagate_loop]
  | some e =>
    rw [ChannelSubscribable.handleIncomingMessage_entry api channels subscribable run
      handleSocketDisconnect connection s w w1 w2 ch data e hid hread hfind
      (ChannelSubscription.propagate_loop_not_closed run _ hrun _ _ _ _)]
    simp [ChannelSubscribable.subscribed, hfind]

theorem ChannelSubscribable.subscribed_assign (m : Map CHANNEL_ID ChannelSubscription)
    (ch ch' : CHANNEL_ID) (e : ChannelSubscription) :
    ({ subscriptions := m.assign ch e } : ChannelSubscribable).subscribed ch'
      = if ch = ch' then e.subscriptions
        else ({ subscriptions := m } : ChannelSubscribable).subscribed ch' := by
  simp only [ChannelSubscribable.subscribed, Map.find_assign]
  by_cases h : ch = ch'
  · simp [h]
  · simp [h]

theorem ChannelSubscribable.WellFormed.subscribed_nodup {self : ChannelSubscribable}
    (h : self.WellFormed) (ch : CHANNEL_ID) : (self.subscribed ch).keys.Nodup := by
  unfold ChannelSubscribable.subscribed
  cases hfind : self.subscriptions.find ch with
  | none => simp [Map.keys]
  | some e => exact (h.2 ch e hfind).2

theorem ChannelSubscribable.subscribe_invariant (channels : Channels)
    (self : ChannelSubscribable) (live : List (CHANNEL_ID × SUBSCRIPTION_ID)) (T : TypeIndex)
    (callback : Callback) (hwf : self.WellFormed) (htr : self.Tracks live) :
    (self.subscribe channels T callback).state.WellFormed ∧
    (self.subscribe channels T callback).state.Tracks
      ((SubscriptionCall.subscribe T callback).currently_subscribed channels self live) := by
  cases hT : channels.getChannelId T with
  | error err =>
    have hst : self.subscribe channels T callback = Outcome.raise self err := by
      simp [ChannelSubscribable.subscribe, hT]
    rw [hst]
    simp only [SubscriptionCall.currently_subscribed, hT, Outcome.state_raise]
    exact ⟨hwf, htr⟩
  | ok ch =>
    obtain ⟨entry, hst, hsubs, -⟩ :=
      ChannelSubscribable.subscribe_of_channel channels self T callback ch hT
    rw [hst]
    simp only [SubscriptionCall.currently_subscribed, hT, hst, Outcome.state_ok,
      Outcome.result_ok]
    refine ⟨⟨Map.nodup_keys_assign _ _ _ hwf.1, ?_⟩, ?_⟩
    · intro ch' e' hfind
      rw [Map.find_assign] at hfind
      by_cases hc : ch = ch'
      · rw [if_pos hc] at hfind
        cases hfind
        rw [hsubs]
        exact ⟨Map.assign_ne_nil _ _ _, Map.nodup_keys_assign _ _ _ (hwf.subscribed_nodup ch)⟩
      · rw [if_neg hc] at hfind
        exact hwf.2 ch' e' hfind
    · intro ch' id'
      rw [ChannelSubscribable.subscribed_assign]
      by_cases hc : ch = ch'
      · subst hc
        rw [if_pos rfl, hsubs, Map.mem_keys_assign, List.mem_cons, ← htr ch id']
        simp
      · rw [if_neg hc, List.mem_cons, htr ch' id']
        constructor
        · rintro (h | h)
          · exact absurd (congrArg Prod.fst h).symm hc
          · exact h
        · exact fun h => Or.inr h

theorem ChannelSubscribable.subscribed_unsubscribe (channels : Channels)
    (self : ChannelSubscribable) (T : TypeIndex) (id : SUBSCRIPTION_ID) (ch ch' : CHANNEL_ID)
    (hwf : self.WellFormed) (hT : channels.getChannelId T = Except.ok ch) :
    (self.unsubscribe channels T id).state.subscribed ch'
      = if ch = ch' then (self.subscribed ch).erase id else self.subscribed ch' := by
  cases hfind : self.subscriptions.find ch with
  | none =>
    have hst : self.unsubscribe channels T id = Outcome.raise self Exception.out_of_range := by
      simp [ChannelSubscribable.unsubscribe, hT, hfind]
    rw [hst, Outcome.state_raise]
    by_cases hc : ch = ch'
    · subst hc
      simp [ChannelSubscribable.subscribed, hfind, Map.erase]
    · rw [if_neg hc]
  | some e =>
    rw [ChannelSubscribable.unsubscribe_of_entry channels self T id ch e hT hfind,
      Outcome.state_ok]
    have hsub : self.subscribed ch = e.subscriptions := by
      simp [ChannelSubscribable.subscribed, hfind]
    by_cases hlen : (e.subscriptions.erase id).length = 0
    · rw [if_pos hlen]
      by_cases hc : ch = ch'
      · subst hc
        rw [if_pos rfl, hsub]
        simp only [ChannelSubscribable.subscribed]
        rw [Map.find_erase _ _ _ (Map.nodup_keys_assign _ _ _ hwf.1), if_pos rfl]
        exact (List.length_eq_zero.1 hlen).symm
      · rw [if_neg hc]
        simp only [ChannelSubscribable.subscribed]
        rw [Map.find_erase _ _ _ (Map.nodup_keys_assign _ _ _ hwf.1), if_neg hc,
          Map.find_assign, if_neg hc]
    · rw [if_neg hlen, ChannelSubscribable.subscribed_assign]
      by_cases hc : ch = ch'
      · rw [if_pos hc, if_pos hc, hsub]
      · rw [if_neg hc, if_neg hc]

theorem ChannelSubscribable.unsubscribe_wellFormed (channels : Channels)
    (self : ChannelSubscribable) (T : TypeIndex) (id : SUBSCRIPTION_ID)
    (hwf : self.WellFormed) : (self.unsubscribe channels T id).state.WellFormed := by
  cases hT : channels.getChannelId T with
  | error err =>
    have hst : self.unsubscribe channels T id = Outcome.raise self err := by
      simp [ChannelSubscribable.unsubscribe, hT]
    rw [hst]
    exact hwf
  | ok ch =>
    cases hfind : self.subscriptions.find ch with
    | none =>
      have hst : self.unsubscribe channels T id
          = Outcome.raise self Exception.out_of_range := by
        simp [ChannelSubscribable.unsubscribe, hT, hfind]
      rw [hst]
      exact hwf
    | some e =>
      rw [ChannelSubscribable.unsubscribe_of_entry channels self T id ch e hT hfind,
        Outcome.state_ok]
      have hassign := Map.nodup_keys_assign self.subscriptions ch
        { e with subscriptions := e.subscriptions.erase id } hwf.1
      by_cases hlen : (e.subscriptions.erase id).length = 0
      · rw [if_pos hlen]
        refine ⟨Map.nodup_keys_erase _ _ hassign, ?_⟩
        intro ch' e' hf
        rw [Map.find_erase _ _ _ hassign] at hf
        by_cases hc : ch = ch'
        · rw [if_pos hc] at hf
          cases hf
        · rw [if_neg hc, Map.find_assign, if_neg hc] at hf
          exact hwf.2 ch' e' hf
      · rw [if_neg hlen]
        refine ⟨hassign, ?_⟩
        intro ch' e' hf
        rw [Map.find_assign] at hf
        by_cases hc : ch = ch'
        · rw [if_pos hc] at hf
          cases hf
          refine ⟨fun h => hlen (List.length_eq_zero.2 h), ?_⟩
          exact Map.nodup_keys_erase _ _ (hwf.2 ch e hfind).2
        · rw [if_neg hc] at hf
          exact hwf.2 ch' e' hf

theorem ChannelSubscribable.unsubscribe_tracks (channels : Channels)
    (self : ChannelSubscribable) (live : List (CHANNEL_ID × SUBSCRIPTION_ID)) (T : TypeIndex)
    (id : SUBSCRIPTION_ID) (hwf : self.WellFormed) (htr : self.Tracks live) :
    (self.unsubscribe channels T id).state.Tracks
      ((SubscriptionCall.unsubscribe T id).currently_subscribed channels self live) := by
  cases hT : channels.getChannelId T with
  | error err =>
    have hst : self.unsubscribe channels T id = Outcome.raise self err := by
      simp [ChannelSubscribable.unsubscribe, hT]
    rw [hst]
    simp only [SubscriptionCall.currently_subscribed, hT, Outcome.state_raise]
    exact htr
  | ok ch =>
    intro ch' id'
    rw [ChannelSubscribable.subscribed_unsubscribe channels self T id ch ch' hwf hT]
    simp only [SubscriptionCall.currently_subscribed, hT, List.mem_filter, decide_eq_true_eq,
      ne_eq, Prod.mk.injEq, not_and]
    rw [htr ch' id']
    by_cases hc : ch = ch'
    · subst hc
      rw [if_pos rfl, Map.mem_keys_erase _ _ _ (hwf.subscribed_nodup ch)]
      constructor
      · rintro ⟨h1, h2⟩
        exact ⟨h2 rfl, h1⟩
      · rintro ⟨h1, h2⟩
        exact ⟨h2, fun _ => h1⟩
    · rw [if_neg hc]
      constructor
      · exact fun h => h.1
      · exact fun h => ⟨h, fun h2 => absurd h2.symm hc⟩

theorem SubscriptionCall.run_all_invariant (channels : Channels)
    (calls : List SubscriptionCall)
    (st : ChannelSubscribable × List (CHANNEL_ID × SUBSCRIPTION_ID))
    (hwf : st.1.WellFormed) (htr : st.1.Tracks st.2) :
    (SubscriptionCall.run_all channels calls st).1.WellFormed ∧
    (SubscriptionCall.run_all channels calls st).1.Tracks
      (SubscriptionCall.run_all channels calls st).2 := by
  induction calls generalizing st with
  | nil => exact ⟨hwf, htr⟩
  | cons call rest ih =>
    rw [SubscriptionCall.run_all]
    cases call with
    | subscribe T callback =>
      have h := ChannelSubscribable.subscribe_invariant channels st.1 st.2 T callback hwf htr
      exact ih _ h.1 h.2
    | unsubscribe T id =>
      exact ih _ (ChannelSubscribable.unsubscribe_wellFormed channels st.1 T id hwf)
        (ChannelSubscribable.unsubscribe_tracks channels st.1 st.2 T id hwf htr)

theorem ChannelSubscribable.entry_iff_tracked (self : ChannelSubscribable)
    (live : List (CHANNEL_ID × SUBSCRIPTION_ID)) (hwf : self.WellFormed)
    (htr : self.Tracks live) (ch : CHANNEL_ID) :
    (self.subscriptions.find ch).isSome = true ↔ ∃ id, (ch, id) ∈ live := by
  constructor
  · intro h
    cases hfind : self.subscriptions.find ch with
    | none => rw [hfind] at h; cases h
    | some e =>
      obtain ⟨hne, -⟩ := hwf.2 ch e hfind
      cases hs : e.subscriptions with
      | nil => exact absurd hs hne
      | cons x rest =>
        refine ⟨x.1, (htr ch x.1).2 ?_⟩
        simp [ChannelSubscribable.subscribed, hfind, hs, Map.keys]
  · rintro ⟨id, hmem⟩
    have h := (htr ch id).1 hmem
    cases hfind : self.subscriptions.find ch with
    | none => simp [ChannelSubscribable.subscribed, hfind, Map.keys] at h
    | some e => rfl

theorem ChannelSubscribable.empty_invariant :
    ({ subscriptions := [] } : ChannelSubscribable).WellFormed ∧
    ({ subscriptions := [] } : ChannelSubscribable).Tracks [] := by
  refine ⟨⟨by simp [Map.keys], ?_⟩, ?_⟩
  · intro ch e h
    simp [Map.find] at h
  · intro ch id
    simp [ChannelSubscribable.subscribed, Map.find, Map.keys]

/-- C14: entries of the subscription table exist exactly while they have callbacks.  After
any sequence of `subscribe` and `unsubscribe` calls on a new endpoint, the table has an
entry for a channel exactly when some callback is currently subscribed to it; a `subscribe`
on a channel without an entry creates the entry, holding that one callback; and an
`unsubscribe` of the only callback subscribed to a channel returns and removes the entry. -/
theorem table_entries_exist_while_subscribed (channels : Channels)
    (calls : List SubscriptionCall) :
    (∀ ch : CHANNEL_ID,
      ((SubscriptionCall.run_all channels calls
          ({ subscriptions := [] }, [])).1.subscriptions.find ch).isSome = true ↔
        ∃ id, (ch, id) ∈ (SubscriptionCall.run_all channels calls
          ({ subscriptions := [] }, [])).2) ∧
    (∀ (T : TypeIndex) (callback : Callback) (ch : CHANNEL_ID),
      channels.getChannelId T = Except.ok ch →
      (SubscriptionCall.run_all channels calls
        ({ subscriptions := [] }, [])).1.subscriptions.find ch = none →
      ∃ entry : ChannelSubscription,
        ((SubscriptionCall.run_all channels calls
          ({ subscriptions := [] }, [])).1.subscribe channels T
            callback).state.subscriptions.find ch = some entry ∧
        entry.subscriptions = [(0, callback)]) ∧
    (∀ (T : TypeIndex) (id : SUBSCRIPTION_ID) (ch : CHANNEL_ID),
      channels.getChannelId T = Except.ok ch →
      (ch, id) ∈ (SubscriptionCall.run_all channels calls ({ subscriptions := [] }, [])).2 →
      (∀ other, (ch, other) ∈ (SubscriptionCall.run_all channels calls
        ({ subscriptions := [] }, [])).2 → other = id) →
      ((SubscriptionCall.run_all channels calls
        ({ subscriptions := [] }, [])).1.unsubscribe channels T id).result = Except.ok () ∧
      ((SubscriptionCall.run_all channels calls
        ({ subscriptions := [] }, [])).1.unsubscribe channels T
          id).state.subscriptions.find ch = none) := by
  obtain ⟨hwf, htr⟩ := SubscriptionCall.run_all_invariant channels calls
    ({ subscriptions := [] }, []) ChannelSubscribable.empty_invariant.1
    ChannelSubscribable.empty_invariant.2
  generalize SubscriptionCall.run_all channels calls ({ subscriptions := [] }, []) = st
    at hwf htr
  obtain ⟨table, live⟩ := st
  simp only at hwf htr
  refine ⟨fun ch => ChannelSubscribable.entry_iff_tracked table live hwf htr ch, ?_, ?_⟩
  · intro T callback ch hT hnone
    obtain ⟨entry, hst, hsubs, -⟩ :=
      ChannelSubscribable.subscribe_of_channel channels table T callback ch hT
    refine ⟨entry, ?_, ?_⟩
    · rw [hst, Outcome.state_ok]
      simp only []
      rw [Map.find_assign, if_pos rfl]
    · rw [hsubs]
      simp [ChannelSubscribable.subscribed, ChannelSubscribable.next_id, hnone, Map.assign]
  · intro T id ch hT hmem honly
    constructor
    · have hsome := (ChannelSubscribable.entry_iff_tracked table live hwf htr ch).2 ⟨id, hmem⟩
      cases hfind : table.subscriptions.find ch with
      | none => rw [hfind] at hsome; cases hsome
      | some e =>
        rw [ChannelSubscribable.unsubscribe_of_entry channels table T id ch e hT hfind]
        rfl
    · have hwf2 := ChannelSubscribable.unsubscribe_wellFormed channels table T id hwf
      have htr2 := ChannelSubscribable.unsubscribe_tracks channels table live T id hwf htr
      have hiff := ChannelSubscribable.entry_iff_tracked _ _ hwf2 htr2 ch
      cases hfind : (table.unsubscribe channels T id).state.subscriptions.find ch with
      | none => rfl
      | some e =>
        rw [hfind] at hiff
        obtain ⟨other, hother⟩ := hiff.1 rfl
        simp only [SubscriptionCall.currently_subscribed, hT, List.mem_filter,
          decide_eq_true_eq, ne_eq, Prod.mk.injEq, not_and] at hother
        exact absurd (honly other hother.1) (hother.2 trivial)

/-- Witness of C14: on a new endpoint, with the type `6` registered on channel `0`, the
call `subscribe<6>(11)` leaves an entry for channel `0` and one callback subscribed, and
the `unsubscribe<6>(0)` that follows returns and leaves no entry. -/
theorem table_entries_exist_while_subscribed_witness :
    ((SubscriptionCall.run_all (Channels.initial.registerAll (fun _ => 2) [6])
        [SubscriptionCall.subscribe 6 11]
        ({ subscriptions := [] }, [])).1.subscriptions.find 0).isSome = true ∧
    (SubscriptionCall.run_all (Channels.initial.registerAll (fun _ => 2) [6])
        [SubscriptionCall.subscribe 6 11] ({ subscriptions := [] }, [])).2 = [(0, 0)] ∧
    ((SubscriptionCall.run_all (Channels.initial.registerAll (fun _ => 2) [6])
        [SubscriptionCall.subscribe 6 11]
        ({ subscriptions := [] }, [])).1.unsubscribe
          (Channels.initial.registerAll (fun _ => 2) [6]) 6 0).result = Except.ok () ∧
    ((SubscriptionCall.run_all (Channels.initial.registerAll (fun _ => 2) [6])
        [SubscriptionCall.subscribe 6 11]
        ({ subscriptions := [] }, [])).1.unsubscribe
          (Channels.initial.registerAll (fun _ => 2) [6]) 6 0).state.subscriptions.find 0
      = none :=
  ⟨((table_entries_exist_while_subscribed (Channels.initial.registerAll (fun _ => 2) [6])
      [SubscriptionCall.subscribe 6 11]).1 0).2 ⟨0, by decide⟩,
    rfl,
    (table_entries_exist_while_subscribed (Channels.initial.registerAll (fun _ => 2) [6])
      [SubscriptionCall.subscribe 6 11]).2.2 6 0 0 rfl (by decide)
      (fun other h => by
        have h2 : (0, other) ∈ [((0 : CHANNEL_ID), (0 : SUBSCRIPTION_ID))] := h
        simpa using h2)⟩

/-- C18 as stated fails: with the types `0 .. 256` registered (`sizeof t = 1` for all but
the last, whose size is `2`), the id `0` of type `0` is by now recorded with the size of
type `256`.  The callback `11` is subscribed for type `0` (one byte); the frame `0, 7, 8`
is dispatched to it with the two-byte payload `7, 8`, and the dispatch returns without an
error. -/
theorem decode_size_mismatch_after_256 :
    (fun t : TypeIndex => t / 256 + 1) 0 = 1 ∧
    ({ subscriptions := [] } : ChannelSubscribable).subscribe
        (Channels.initial.registerAll (fun t => t / 256 + 1) (List.range 257)) 0 11
      = Outcome.ok
          { subscriptions :=
              [(0, { subscription_type := 0, subscription_counter := 1,
                     subscriptions := [(0, 11)] })] } 0 ∧
    ChannelSubscribable.handleIncomingMessage Scripted.api
        (Channels.initial.registerAll (fun t => t / 256 + 1) (List.range 257))
        (fun c : ChanneledClient (List HookCall) => c.derived.subscribable)
        ChanneledClientHooks.recording.callback
        (ChanneledClient.handleSocketDisconnect ChanneledClientHooks.recording)
        (some { socket_descriptor := 3 })
        ({ Client.new 50
              ({ subscribable :=
                   { subscriptions :=
                       [(0, { subscription_type := 0, subscription_counter := 1,
                              subscriptions := [(0, 11)] })] },
                 user := [] } : Channeled (List HookCall)) with
            state := ClientState.CLIENT_CONNECTED
            connection := some { socket_descriptor := 3 } },
          { Scripted.quiet with received := [some [0], some [7, 8]] })
      = Outcome.ok
          ({ Client.new 50
                ({ subscribable :=
                     { subscriptions :=
                         [(0, { subscription_type := 0, subscription_counter := 1,
                                subscriptions := [(0, 11)] })] },
                   user :=
                     [HookCall.callback 11 (some { socket_descriptor := 3 }) [7, 8]] } :
                  Channeled (List HookCall)) with
              state := ClientState.CLIENT_CONNECTED
              connection := some { socket_descriptor := 3 } }, Scripted.quiet) () :=
  ⟨rfl, rfl, rfl⟩

/-- C18 (amended): for every registry state and every dispatch of a complete frame whose
id the registry holds, the callbacks of the frame's channel are run with a payload of
exactly the message size that the registry records for that id; when the registry was
built by registrations in which fewer than 256 follow the one of `T`, and the frame's id
is `T`'s, that is `sizeof(T)` bytes.  No size is compared and no error is raised (see the
counterexample for the case of a wrapped id).  The callbacks are assumed not to throw
`ConnectionClosedException`. -/
theorem dispatch_payload_size {σ W : Type} (api : SocketApi W) (channels : Channels)
    (subscribable : σ → ChannelSubscribable)
    (run :
      Callback → ChanneledSocketConnection_p → List NETWORK_BYTE → σ × W → Outcome (σ × W) Unit)
    (handleSocketDisconnect : ChanneledSocketConnection_p → σ × W → Outcome (σ × W) Unit)
    (connection : ChanneledSocketConnection) (s : σ) (w w1 w2 : W) (ch : CHANNEL_ID)
    (channel : ChannelInterface) (data : List NETWORK_BYTE)
    (hch : channels.getChannel ch = Except.ok channel)
    (hid : ChanneledSocketConnection.channeled_read_id api connection w = Outcome.ok w1 ch)
    (hread : ChanneledSocketConnection.channeled_read api channels connection ch w1
      = Outcome.ok w2 data)
    (hrun : ∀ c x d st,
      (run c x d st).result ≠ Except.error Exception.ConnectionClosedException) :
    ChannelSubscribable.handleIncomingMessage api channels subscribable run
        handleSocketDisconnect (some connection) (s, w)
      = ChannelSubscription.propagate_loop run
          (fun st => (subscribable st.1).subscribed ch) (some connection) data
          ((subscribable s).subscribed ch) (s, w2) ∧
    data.length = channel.getMessageSize ∧
    (∀ (sizeOf : TypeIndex → NETWORK_BYTE_SIZE) (pre post : List TypeIndex) (T : TypeIndex),
      T ∉ post → post.length < 256 →
      channels = Channels.initial.registerAll sizeOf (pre ++ T :: post) →
      ch = pre.length % 256 →
      channels.getChannelId T = Except.ok ch ∧ data.length = sizeOf T) := by
  have hlen := (ChanneledSocketConnection.channeled_read_length api channels connection ch
    channel hch w1 w2 data hread).2
  refine ⟨ChannelSubscribable.handleIncomingMessage_dispatch api channels subscribable run
    handleSocketDisconnect connection s w w1 w2 ch data hid hread hrun, hlen, ?_⟩
  intro sizeOf pre post T hT hpost hchannels hpre
  subst hchannels
  subst hpre
  refine ⟨Channels.registerAll_lookup sizeOf pre post T hT, ?_⟩
  rw [Channels.registerAll_getChannel sizeOf pre post T hpost] at hch
  cases hch
  exact hlen

/-- Witness of C18 (amended): the callback `11` is subscribed for the registered type `6`
(two bytes, channel `0`), the only registration; the frame `0, 7, 8` is dispatched to it
with the two bytes `7, 8`. -/
theorem dispatch_payload_size_witness :
    ChannelSubscribable.handleIncomingMessage Scripted.api
        (Channels.initial.registerAll (fun _ => 2) [6])
        (fun c : ChanneledClient (List HookCall) => c.derived.subscribable)
        ChanneledClientHooks.recording.callback
        (ChanneledClient.handleSocketDisconnect ChanneledClientHooks.recording)
        (some { socket_descriptor := 3 })
        ({ Client.new 50
              ({ subscribable :=
                   { subscriptions :=
                       [(0, { subscription_type := 6, subscription_counter := 1,
                              subscriptions := [(0, 11)] })] },
                 user := [] } : Channeled (List HookCall)) with
            state := ClientState.CLIENT_CONNECTED
            connection := some { socket_descriptor := 3 } },
          { Scripted.quiet with received := [some [0], some [7, 8]] })
      = Outcome.ok
          ({ Client.new 50
                ({ subscribable :=
                     { subscriptions :=
                         [(0, { subscription_type := 6, subscription_counter := 1,
                                subscriptions := [(0, 11)] })] },
                   user :=
                     [HookCall.callback 11 (some { socket_descriptor := 3 }) [7, 8]] } :
                  Channeled (List HookCall)) with
              state := ClientState.CLIENT_CONNECTED
              connection := some { socket_descriptor := 3 } }, Scripted.quiet) () ∧
    (Channels.initial.registerAll (fun _ => 2) [6]).getChannelId 6 = Except.ok 0 ∧
    [7, 8].length = (fun _ : TypeIndex => 2) 6 :=
  ⟨(dispatch_payload_size Scripted.api (Channels.initial.registerAll (fun _ => 2) [6])
      (fun c : ChanneledClient (List HookCall) => c.derived.subscribable)
      ChanneledClientHooks.recording.callback
      (ChanneledClient.handleSocketDisconnect ChanneledClientHooks.recording)
      { socket_descriptor := 3 }
      { Client.new 50
            ({ subscribable :=
                 { subscriptions :=
                     [(0, { subscription_type := 6, subscription_counter := 1,
                            subscriptions := [(0, 11)] })] },
               user := [] } : Channeled (List HookCall)) with
          state := ClientState.CLIENT_CONNECTED
          connection := some { socket_descriptor := 3 } }
      { Scripted.quiet with received := [some [0], some [7, 8]] }
      { Scripted.quiet with received := [some [7, 8]] } Scripted.quiet 0
      { message_size := 2, channel_id := 0 } [7, 8] rfl rfl rfl
      (fun _ _ _ _ h => by cases h)).1,
    (dispatch_payload_size Scripted.api (Channels.initial.registerAll (fun _ => 2) [6])
      (fun c : ChanneledClient (List HookCall) => c.derived.subscribable)
      ChanneledClientHooks.recording.callback
      (ChanneledClient.handleSocketDisconnect ChanneledClientHooks.recording)
      { socket_descriptor := 3 }
      { Client.new 50
            ({ subscribable :=
                 { subscriptions :=
                     [(0, { subscription_type := 6, subscription_counter := 1,
                            subscriptions := [(0, 11)] })] },
               user := [] } : Channeled (List HookCall)) with
          state := ClientState.CLIENT_CONNECTED
          connection := some { socket_descriptor := 3 } }
      { Scripted.quiet with received := [some [0], some [7, 8]] }
      { Scripted.quiet with received := [some [7, 8]] } Scripted.quiet 0
      { message_size := 2, channel_id := 0 } [7, 8] rfl rfl rfl
      (fun _ _ _ _ h => by cases h)).2.2 (fun _ => 2) [] [] 6 (by simp) (by decide) rfl rfl⟩

/-! ## The index invariant of the poll service -/

theorem Map.find_append_of_not_mem {κ ν : Type} [DecidableEq κ] (a b : Map κ ν) (k : κ)
    (h : k ∉ a.keys) : Map.find (a ++ b) k = b.find k := by
  induction a with
  | nil => rfl
  | cons e a ih =>
    obtain ⟨x, y⟩ := e
    simp only [Map.keys, List.map_cons, List.mem_cons, not_or] at h
    have h1 : ¬ x = k := fun h3 => h.1 h3.symm
    simp only [List.cons_append, Map.find, h1, if_false]
    exact ih h.2

theorem Map.assign_append_of_not_mem {κ ν : Type} [DecidableEq κ] (a b : Map κ ν) (k : κ)
    (v : ν) (h : k ∉ a.keys) : Map.assign (a ++ b) k v = a ++ b.assign k v := by
  induction a with
  | nil => rfl
  | cons e a ih =>
    obtain ⟨x, y⟩ := e
    simp only [Map.keys, List.map_cons, List.mem_cons, not_or] at h
    have h1 : ¬ x = k := fun h3 => h.1 h3.symm
    simp only [List.cons_append, Map.assign, h1, if_false]
    exact congrArg _ (ih h.2)

theorem Map.erase_append_of_not_mem {κ ν : Type} [DecidableEq κ] (a b : Map κ ν) (k : κ)
    (h : k ∉ a.keys) : Map.erase (a ++ b) k = a ++ b.erase k := by
  induction a with
  | nil => rfl
  | cons e a ih =>
    obtain ⟨x, y⟩ := e
    simp only [Map.keys, List.map_cons, List.mem_cons, not_or] at h
    have h1 : ¬ x = k := fun h3 => h.1 h3.symm
    simp only [List.cons_append, Map.erase, h1, if_false]
    exact congrArg _ (ih h.2)

theorem PollService.table_of_keys (i : Int) (ds : List POLL_DESCRIPTOR) :
    (PollService.table_of i ds).keys = ds.map fun d => d.fd := by
  induction ds generalizing i with
  | nil => rfl
  | cons d ds ih =>
    simp only [PollService.table_of, Map.keys, List.map_cons]
    rw [← ih (i + 1)]
    rfl

theorem PollService.table_of_append (i : Int) (a b : List POLL_DESCRIPTOR) :
    PollService.table_of i (a ++ b)
      = PollService.table_of i a ++ PollService.table_of (i + a.length) b := by
  induction a generalizing i with
  | nil => simp [PollService.table_of]
  | cons d a ih =>
    simp only [List.cons_append, PollService.table_of, List.length_cons, Nat.cast_add,
      Nat.cast_one]
    have hrest := ih (i + 1)
    have hsum : i + 1 + (a.length : Int) = i + ((a.length : Int) + 1) := by omega
    rw [hsum] at hrest
    exact congrArg _ hrest

theorem PollService.renumber_table_of (todo : List POLL_DESCRIPTOR) (j : Int)
    (a : Map SOCKET (Int × SocketConnection_p))
    (hnodup : (todo.map fun d => d.fd).Nodup) (hdisjoint : ∀ d ∈ todo, d.fd ∉ a.keys) :
    PollService.renumber todo j (a ++ PollService.table_of (j + 1) todo)
      = a ++ PollService.table_of j todo := by
  induction todo generalizing j a with
  | nil => rfl
  | cons d t ih =>
    simp only [List.map_cons, List.nodup_cons] at hnodup
    have hd : d.fd ∉ a.keys := hdisjoint d (List.mem_cons_self d t)
    have hstep : PollService.set_index (a ++ PollService.table_of (j + 1) (d :: t)) d.fd j
        = (a ++ [(d.fd, (j, some { socket_descriptor := d.fd }))])
            ++ PollService.table_of (j + 1 + 1) t := by
      unfold PollService.set_index
      rw [Map.find_append_of_not_mem _ _ _ hd]
      simp only [PollService.table_of, Map.find, if_true]
      rw [Map.assign_append_of_not_mem _ _ _ _ hd]
      simp [Map.assign]
    rw [PollService.renumber, hstep, ih (j + 1) _ hnodup.2]
    · simp [PollService.table_of]
    · intro x hx
      simp only [Map.keys, List.map_append, List.map_cons, List.map_nil, List.mem_append,
        List.mem_singleton, not_or]
      refine ⟨hdisjoint x (List.mem_cons_of_mem d hx), ?_⟩
      intro hxd
      exact hnodup.1 (hxd ▸ List.mem_map_of_mem (fun d => d.fd) hx)

theorem PollService.table_of_find (ds : List POLL_DESCRIPTOR) (j : Int) (fd : SOCKET)
    (i : Int) (handle : SocketConnection_p)
    (h : (PollService.table_of j ds).find fd = some (i, handle)) :
    j ≤ i ∧ (ds.map fun d => d.fd)[(i - j).toNat]? = some fd ∧
      handle = some { socket_descriptor := fd } := by
  induction ds generalizing j with
  | nil => simp [PollService.table_of, Map.find] at h
  | cons d ds ih =>
    simp only [PollService.table_of, Map.find] at h
    by_cases hd : d.fd = fd
    · rw [if_pos hd] at h
      simp only [Option.some.injEq, Prod.mk.injEq] at h
      obtain ⟨h1, h2⟩ := h
      subst h1
      refine ⟨le_refl _, ?_, by rw [← h2, hd]⟩
      simp [hd]
    · rw [if_neg hd] at h
      obtain ⟨h1, h2, h3⟩ := ih (j + 1) h
      refine ⟨by omega, ?_, h3⟩
      have hidx : (i - j).toNat = (i - (j + 1)).toNat + 1 := by omega
      rw [hidx]
      simpa using h2

theorem PollService.Consistent.add_socket {ps : PollService} (h : ps.Consistent)
    (socket : SocketConnection) (hnew : socket.socket_descriptor ∉ ps.poll_descriptor_map.keys) :
    (ps.add_socket socket).Consistent := by
  obtain ⟨hnodup, hmap⟩ := h
  have hnot : socket.socket_descriptor ∉ ps.descriptors.map fun d => d.fd := by
    rw [hmap, PollService.table_of_keys] at hnew
    exact hnew
  constructor
  · simp only [PollService.add_socket, List.map_append, List.map_cons, List.map_nil]
    rw [List.nodup_append]
    refine ⟨hnodup, by simp, ?_⟩
    intro x hx hx2
    simp only [List.mem_singleton] at hx2
    exact hnot (hx2 ▸ hx)
  · simp only [PollService.add_socket]
    rw [Map.assign_of_not_mem _ _ _ hnew, hmap, PollService.table_of_append]
    simp [PollService.table_of]

theorem PollService.Consistent.remove_socket_of_split {ps : PollService} (h : ps.Consistent)
    (socket : SocketConnection) (pre post : List POLL_DESCRIPTOR) (d : POLL_DESCRIPTOR)
    (hsplit : ps.descriptors = pre ++ d :: post) (hd : d.fd = socket.socket_descriptor) :
    ps.remove_socket socket
      = { ps with descriptors := pre ++ post
                  poll_descriptor_map := PollService.table_of 0 (pre ++ post) } := by
  obtain ⟨hnodup, hmap⟩ := h
  rw [hsplit] at hnodup hmap
  simp only [List.map_append, List.map_cons] at hnodup
  rw [List.nodup_append] at hnodup
  obtain ⟨hpre, hrest, hdisj⟩ := hnodup
  simp only [List.nodup_cons] at hrest
  have hdpre : d.fd ∉ (PollService.table_of 0 pre).keys := by
    rw [PollService.table_of_keys]
    intro hmem
    exact hdisj hmem (List.mem_cons_self _ _)
  rw [PollService.table_of_append] at hmap
  have hfind : ps.poll_descriptor_map.find socket.socket_descriptor
      = some ((0 : Int) + pre.length, some { socket_descriptor := d.fd }) := by
    rw [hmap, ← hd, Map.find_append_of_not_mem _ _ _ hdpre]
    simp [PollService.table_of, Map.find]
  have herase : ps.poll_descriptor_map.erase socket.socket_descriptor
      = PollService.table_of 0 pre
          ++ PollService.table_of ((0 : Int) + pre.length + 1) post := by
    rw [hmap, ← hd, Map.erase_append_of_not_mem _ _ _ hdpre]
    simp [PollService.table_of, Map.erase]
  have hidx : ((0 : Int) + (pre.length : Int)).toNat = pre.length := by simp
  unfold PollService.remove_socket
  rw [hfind]
  simp only [hidx, hsplit, herase]
  have herased : (pre ++ d :: post).eraseIdx pre.length = pre ++ post := by
    rw [List.eraseIdx_append_of_length_le (le_refl _)]
    simp
  rw [herased]
  have hdrop : (pre ++ post).drop pre.length = post := by simp
  rw [hdrop, PollService.renumber_table_of post _ _ hrest.2, ← PollService.table_of_append]
  intro x hx
  rw [PollService.table_of_keys]
  intro hmem
  exact hdisj hmem (List.mem_cons_of_mem _ (List.mem_map_of_mem (fun d => d.fd) hx))

theorem PollService.remove_socket_untracked (ps : PollService) (socket : SocketConnection)
    (h : socket.socket_descriptor ∉ ps.poll_descriptor_map.keys) :
    ps.remove_socket socket = ps := by
  unfold PollService.remove_socket
  rw [(Map.find_eq_none_iff _ _).2 h]

theorem PollService.Consistent.remove_socket {ps : PollService} (h : ps.Consistent)
    (socket : SocketConnection) : (ps.remove_socket socket).Consistent := by
  by_cases hmem : socket.socket_descriptor ∈ ps.poll_descriptor_map.keys
  · have hmem2 := hmem
    rw [h.2, PollService.table_of_keys] at hmem2
    obtain ⟨d, hd, hfd⟩ := List.mem_map.1 hmem2
    obtain ⟨pre, post, hsplit⟩ := List.append_of_mem hd
    rw [h.remove_socket_of_split socket pre post d hsplit hfd]
    refine ⟨?_, rfl⟩
    have hnodup := h.1
    rw [hsplit] at hnodup
    simp only [List.map_append, List.map_cons] at hnodup ⊢
    exact hnodup.sublist
      (List.Sublist.append (List.Sublist.refl _) (List.sublist_cons_self _ _))
  · rw [PollService.remove_socket_untracked ps socket hmem]
    exact h

theorem PollCall.run_all_consistent (calls : List PollCall) (ps : PollService)
    (h : ps.Consistent) (hadm : PollCall.admissible calls ps = true) :
    (PollCall.run_all calls ps).Consistent := by
  induction calls generalizing ps with
  | nil => exact h
  | cons call rest ih =>
    cases call with
    | add_socket socket =>
      simp only [PollCall.admissible, Bool.and_eq_true, decide_eq_true_eq] at hadm
      exact ih _ (h.add_socket socket hadm.1) hadm.2
    | remove_socket socket =>
      exact ih _ (h.remove_socket socket) hadm
    | clear_sockets =>
      refine ih _ ?_ hadm
      exact ⟨List.nodup_nil, rfl⟩

theorem PollService.Consistent.remove_socket_tracked {ps : PollService} (h : ps.Consistent)
    (socket : SocketConnection)
    (hmem : socket.socket_descriptor ∈ ps.poll_descriptor_map.keys) :
    (ps.remove_socket socket).descriptors
        = ps.descriptors.filter (fun d => decide (d.fd ≠ socket.socket_descriptor)) ∧
      (ps.remove_socket socket).descriptors.length + 1 = ps.descriptors.length ∧
      ∀ fd, fd ∈ (ps.remove_socket socket).poll_descriptor_map.keys ↔
        fd ≠ socket.socket_descriptor ∧ fd ∈ ps.poll_descriptor_map.keys := by
  have hmem2 := hmem
  rw [h.2, PollService.table_of_keys] at hmem2
  obtain ⟨d, hd, hfd⟩ := List.mem_map.1 hmem2
  obtain ⟨pre, post, hsplit⟩ := List.append_of_mem hd
  rw [h.remove_socket_of_split socket pre post d hsplit hfd]
  have hnodup := h.1
  rw [hsplit] at hnodup
  simp only [List.map_append, List.map_cons] at hnodup
  rw [List.nodup_append] at hnodup
  obtain ⟨-, hrest, hdisj⟩ := hnodup
  simp only [List.nodup_cons] at hrest
  have hpre : ∀ x ∈ pre, x.fd ≠ socket.socket_descriptor := by
    intro x hx hxd
    exact hdisj (List.mem_map_of_mem (fun d => d.fd) hx)
      (by rw [hxd, ← hfd]; exact List.mem_cons_self _ _)
  have hpost : ∀ x ∈ post, x.fd ≠ socket.socket_descriptor := by
    intro x hx hxd
    exact hrest.1 (by rw [hfd, ← hxd]; exact List.mem_map_of_mem (fun d => d.fd) hx)
  refine ⟨?_, ?_, ?_⟩
  · simp only [hsplit, List.filter_append, List.filter_cons, hfd, ne_eq, not_true_eq_false,
      decide_False, Bool.false_eq_true, if_false]
    rw [List.filter_eq_self.2 (fun x hx => by simpa using hpre x hx),
      List.filter_eq_self.2 (fun x hx => by simpa using hpost x hx)]
  · simp only [hsplit, List.length_append, List.length_cons]
    omega
  · intro fd
    simp only []
    rw [PollService.table_of_keys, h.2, PollService.table_of_keys, hsplit]
    simp only [List.map_append, List.map_cons, List.mem_append, List.mem_cons, List.mem_map]
    constructor
    · rintro (⟨x, hx, rfl⟩ | ⟨x, hx, rfl⟩)
      · exact ⟨hpre x hx, Or.inl ⟨x, hx, rfl⟩⟩
      · exact ⟨hpost x hx, Or.inr (Or.inr ⟨x, hx, rfl⟩)⟩
    · rintro ⟨hne, (h1 | h1 | h1)⟩
      · exact Or.inl h1
      · exact absurd (h1.trans hfd) hne
      · exact Or.inr h1

/-- C20: the index invariant of the poll service.  After every sequence of `add_socket`
(each of a handle whose descriptor is not tracked at that moment), `remove_socket` and
`clear_sockets` on a new poll service: the descriptor list and the handle table name every
descriptor once and name the same descriptors; every entry of the table stores the position
of its own descriptor in the list, with the handle of that descriptor; `remove_socket` of a
tracked handle deletes its descriptor and no other from the list, keeping the order of the
rest, and from the table; and `remove_socket` of an untracked handle changes nothing. -/
theorem poll_service_index_invariant (timeout : Int) (calls : List PollCall)
    (ps : PollService) (hps : ps = PollCall.run_all calls (PollService.new timeout))
    (hadm : PollCall.admissible calls (PollService.new timeout) = true) :
    (ps.descriptors.map fun d => d.fd).Nodup ∧ ps.poll_descriptor_map.keys.Nodup ∧
    (∀ fd, fd ∈ ps.poll_descriptor_map.keys ↔ fd ∈ ps.descriptors.map fun d => d.fd) ∧
    (∀ fd i handle, ps.poll_descriptor_map.find fd = some (i, handle) →
      0 ≤ i ∧ (ps.descriptors.map fun d => d.fd)[i.toNat]? = some fd ∧
        handle = some { socket_descriptor := fd }) ∧
    (∀ socket : SocketConnection, socket.socket_descriptor ∈ ps.poll_descriptor_map.keys →
      (ps.remove_socket socket).descriptors
          = ps.descriptors.filter (fun d => decide (d.fd ≠ socket.socket_descriptor)) ∧
        (ps.remove_socket socket).descriptors.length + 1 = ps.descriptors.length ∧
        ∀ fd, fd ∈ (ps.remove_socket socket).poll_descriptor_map.keys ↔
          fd ≠ socket.socket_descriptor ∧ fd ∈ ps.poll_descriptor_map.keys) ∧
    (∀ socket : SocketConnection, socket.socket_descriptor ∉ ps.poll_descriptor_map.keys →
      ps.remove_socket socket = ps) := by
  have h : ps.Consistent := by
    rw [hps]
    exact PollCall.run_all_consistent calls (PollService.new timeout)
      ⟨List.nodup_nil, rfl⟩ hadm
  have hkeys : ps.poll_descriptor_map.keys = ps.descriptors.map fun d => d.fd := by
    rw [h.2, PollService.table_of_keys]
  refine ⟨h.1, by rw [hkeys]; exact h.1, fun fd => by rw [hkeys], ?_,
    fun socket hmem => h.remove_socket_tracked socket hmem,
    fun socket hnot => PollService.remove_socket_untracked ps socket hnot⟩
  intro fd i handle hfind
  rw [h.2] at hfind
  have := PollService.table_of_find ps.descriptors 0 fd i handle hfind
  simpa using this

/-- Witness of C20: the handles `3`, `5` and `7` are added and `5` is removed; the table
stores the position `1` for `7`, and removing `3` leaves the list with `7` alone. -/
theorem poll_service_index_invariant_witness :
    (0 ≤ (1 : Int) ∧
      ((PollCall.run_all
          [PollCall.add_socket { socket_descriptor := 3 },
           PollCall.add_socket { socket_descriptor := 5 },
           PollCall.add_socket { socket_descriptor := 7 },
           PollCall.remove_socket { socket_descriptor := 5 }]
          (PollService.new 50)).descriptors.map fun d => d.fd)[(1 : Int).toNat]? = some 7 ∧
      (some { socket_descriptor := 7 } : SocketConnection_p)
        = some { socket_descriptor := 7 }) ∧
    ((PollCall.run_all
        [PollCall.add_socket { socket_descriptor := 3 },
         PollCall.add_socket { socket_descriptor := 5 },
         PollCall.add_socket { socket_descriptor := 7 },
         PollCall.remove_socket { socket_descriptor := 5 }]
        (PollService.new 50)).remove_socket { socket_descriptor := 3 }).descriptors.map
          (fun d => d.fd) = [7] :=
  ⟨(poll_service_index_invariant 50
      [PollCall.add_socket { socket_descriptor := 3 },
       PollCall.add_socket { socket_descriptor := 5 },
       PollCall.add_socket { socket_descriptor := 7 },
       PollCall.remove_socket { socket_descriptor := 5 }] _ rfl (by decide)).2.2.2.1
      7 1 (some { socket_descriptor := 7 }) (by decide),
    by
      rw [((poll_service_index_invariant 50
        [PollCall.add_socket { socket_descriptor := 3 },
         PollCall.add_socket { socket_descriptor := 5 },
         PollCall.add_socket { socket_descriptor := 7 },
         PollCall.remove_socket { socket_descriptor := 5 }] _ rfl (by decide)).2.2.2.2.1
        { socket_descriptor := 3 } (by decide)).1]
      decide⟩

/-! ## Cleanup of terminated peers in the channeled server -/

theorem PollService.set_revents_fds (ds : List POLL_DESCRIPTOR) (rs : List Nat) :
    (PollService.set_revents ds rs).map (fun d => d.fd) = ds.map fun d => d.fd := by
  induction ds generalizing rs with
  | nil => cases rs <;> rfl
  | cons d ds ih =>
    cases rs with
    | nil => simp [PollService.set_revents, ih]
    | cons r rs => simp [PollService.set_revents, ih]

theorem PollService.table_of_congr (ds ds' : List POLL_DESCRIPTOR) (i : Int)
    (h : (ds.map fun d => d.fd) = ds'.map fun d => d.fd) :
    PollService.table_of i ds = PollService.table_of i ds' := by
  induction ds generalizing ds' i with
  | nil =>
    cases ds' with
    | nil => rfl
    | cons d' ds' => simp at h
  | cons d ds ih =>
    cases ds' with
    | nil => simp at h
    | cons d' ds' =>
      simp only [List.map_cons, List.cons.injEq] at h
      simp only [PollService.table_of, h.1]
      rw [ih ds' (i + 1) h.2]

theorem PollService.Consistent.poll {W : Type} {ps : PollService} (h : ps.Consistent)
    (api : SocketApi W) (w : W) : (PollService.poll api ps w).state.1.Consistent := by
  have hfds := PollService.set_revents_fds ps.descriptors
    (api.socket_poll ps.descriptors ps.timeout w).1.2
  constructor
  · rw [PollService.poll_state_descriptors, hfds]
    exact h.1
  · rw [PollService.poll_state_map, PollService.poll_state_descriptors, h.2]
    exact PollService.table_of_congr _ _ 0 hfds.symm

theorem PollService.table_of_handles (i : Int) (ds : List POLL_DESCRIPTOR) :
    (PollService.table_of i ds).filterMap (fun e => e.2.2)
      = ds.map fun d => ({ socket_descriptor := d.fd } : SocketConnection) := by
  induction ds generalizing i with
  | nil => rfl
  | cons d ds ih => simp [PollService.table_of, ih]

theorem PollService.Consistent.tracked_eq {ps : PollService} (h : ps.Consistent) :
    ps.tracked = ps.descriptors.map fun d => ({ socket_descriptor := d.fd } : SocketConnection) := by
  rw [PollService.tracked, h.2, PollService.table_of_handles]

theorem PollService.Consistent.descriptors_remove_socket {ps : PollService}
    (h : ps.Consistent) (socket : SocketConnection) :
    (ps.remove_socket socket).descriptors
      = ps.descriptors.filter (fun d => decide (d.fd ≠ socket.socket_descriptor)) := by
  by_cases hmem : socket.socket_descriptor ∈ ps.poll_descriptor_map.keys
  · exact (h.remove_socket_tracked socket hmem).1
  · rw [PollService.remove_socket_untracked ps socket hmem]
    symm
    rw [List.filter_eq_self]
    intro d hd
    simp only [decide_eq_true_eq]
    intro hfd
    apply hmem
    rw [h.2, PollService.table_of_keys, ← hfd]
    exact List.mem_map_of_mem (fun d => d.fd) hd

theorem PollService.Consistent.tracked_remove_socket {ps : PollService} (h : ps.Consistent)
    (socket : SocketConnection) :
    (ps.remove_socket socket).tracked = ps.tracked.filter fun c => decide (c ≠ socket) := by
  rw [(h.remove_socket socket).tracked_eq, h.tracked_eq, h.descriptors_remove_socket,
    List.filter_map]
  congr 1
  apply List.filter_congr
  intro d _
  obtain ⟨fd⟩ := socket
  simp

theorem PollService.tracked_poll {W : Type} (api : SocketApi W) (ps : PollService) (w : W) :
    (PollService.poll api ps w).state.1.tracked = ps.tracked := by
  rw [PollService.tracked, PollService.poll_state_map]
  rfl

/-! ## Claims about `poll()` outside the polling state and about closing -/

/-- C27: `poll()` outside the polling state.  `Client::poll` in a state other than
`CLIENT_CONNECTED` and `Server::poll` in a state other than `SERVE` return `false` with the
endpoint (state, poll service, connection) and the world as they were, whatever the system,
the hooks and the control thread are: the poll service is not consulted and no hook is
called. -/
theorem poll_outside_polling_state_is_noop {ω W : Type} (api : SocketApi W)
    (client_hooks : ClientHooks ω W) (server_hooks : ServerHooks ω W)
    (client_wait : Client ω → Client ω) (server_wait : Server ω → Server ω)
    (c : Client ω) (s : Server ω) (w : W) :
    (c.state ≠ ClientState.CLIENT_CONNECTED →
      Client.poll api client_hooks client_wait (c, w) = Outcome.ok (c, w) false) ∧
    (s.state ≠ ServerState.SERVE →
      Server.poll api server_hooks server_wait (s, w) = Outcome.ok (s, w) false) := by
  constructor
  · intro h
    simp [Client.poll, h]
  · intro h
    simp [Server.poll, h]

/-- Witness of C27: an open (not serving) channeled server and a closed channeled client
whose system has a ready event in store; `poll()` returns `false`, the users have written
down nothing and the event is still in store. -/
theorem poll_outside_polling_state_is_noop_witness :
    Client.poll Scripted.api
        (ChanneledClient.hooks Scripted.api Channels.initial ChanneledClientHooks.recording) id
        (Client.new 50
            ({ subscribable := { subscriptions := [] }, user := [] } :
              Channeled (List HookCall)),
          { Scripted.quiet with polled := [(1, [POLLIN])] })
      = Outcome.ok
          (Client.new 50
              ({ subscribable := { subscriptions := [] }, user := [] } :
                Channeled (List HookCall)),
            { Scripted.quiet with polled := [(1, [POLLIN])] }) false ∧
    Server.poll Scripted.api
        (ChanneledServer.hooks Scripted.api Channels.initial ChanneledServerHooks.recording) id
        ({ Server.new "0.0.0.0" "9876" 5 50
              ({ subscribable := { subscriptions := [] }, user := [] } :
                Channeled (List HookCall)) with
            state := ServerState.OPEN
            server_connection := some { socket_descriptor := 3 }
            poll_service := (PollService.new 50).add_socket { socket_descriptor := 3 } },
          { Scripted.quiet with polled := [(1, [POLLIN])] })
      = Outcome.ok
          ({ Server.new "0.0.0.0" "9876" 5 50
                ({ subscribable := { subscriptions := [] }, user := [] } :
                  Channeled (List HookCall)) with
              state := ServerState.OPEN
              server_connection := some { socket_descriptor := 3 }
              poll_service := (PollService.new 50).add_socket { socket_descriptor := 3 } },
            { Scripted.quiet with polled := [(1, [POLLIN])] }) false :=
  ⟨(poll_outside_polling_state_is_noop Scripted.api
      (ChanneledClient.hooks Scripted.api Channels.initial ChanneledClientHooks.recording)
      (ChanneledServer.hooks Scripted.api Channels.initial ChanneledServerHooks.recording)
      id id
      (Client.new 50
        ({ subscribable := { subscriptions := [] }, user := [] } : Channeled (List HookCall)))
      (Server.new "0.0.0.0" "9876" 5 50
        ({ subscribable := { subscriptions := [] }, user := [] } : Channeled (List HookCall)))
      { Scripted.quiet with polled := [(1, [POLLIN])] }).1 (by decide),
    (poll_outside_polling_state_is_noop Scripted.api
      (ChanneledClient.hooks Scripted.api Channels.initial ChanneledClientHooks.recording)
      (ChanneledServer.hooks Scripted.api Channels.initial ChanneledServerHooks.recording)
      id id
      (Client.new 50
        ({ subscribable := { subscriptions := [] }, user := [] } : Channeled (List HookCall)))
      { Server.new "0.0.0.0" "9876" 5 50
            ({ subscribable := { subscriptions := [] }, user := [] } :
              Channeled (List HookCall)) with
          state := ServerState.OPEN
          server_connection := some { socket_descriptor := 3 }
          poll_service := (PollService.new 50).add_socket { socket_descriptor := 3 } }
      { Scripted.quiet with polled := [(1, [POLLIN])] }).2 (by decide)⟩

theorem Client.disconnect_of_valid {ω W : Type} (c : Client ω) (w : W)
    (h : c.state = ClientState.CLIENT_CONNECTED ∨ c.state = ClientState.CLIENT_CLOSED) :
    Client.disconnect (c, w)
      = Outcome.ok
          ({ c with
              state := ClientState.CLIENT_CLOSED
              poll_service := c.poll_service.clear_sockets
              connection := none }, w) () := by
  have hmem : c.state ∈ [ClientState.CLIENT_CONNECTED, ClientState.CLIENT_CLOSED] := by
    rcases h with h | h <;> simp [h]
  simp [Client.disconnect, Client.state_transition_of_mem c _ _ hmem]

/-- C25: `Client::disconnect` from `CLIENT_CONNECTED` or `CLIENT_CLOSED` returns normally
with the state `CLIENT_CLOSED`, the poll service tracking nothing (no descriptor, no
handle) and the connection released; a `connect` that follows is accepted and, when the
connection is created and connects, ends in `CLIENT_CONNECTED` with exactly the new
connection tracked. -/
theorem client_disconnect_closes {ω W : Type} (api : SocketApi W)
    (connection_create_func : W → Outcome W SocketConnection) (address port : String)
    (c : Client ω) (w : W)
    (h : c.state = ClientState.CLIENT_CONNECTED ∨ c.state = ClientState.CLIENT_CLOSED) :
    ∃ c1 : Client ω,
      Client.disconnect (c, w) = Outcome.ok (c1, w) () ∧
      c1.state = ClientState.CLIENT_CLOSED ∧ c1.poll_service.tracked = [] ∧
      c1.poll_service.descriptors = [] ∧ c1.connection = none ∧ c1.derived = c.derived ∧
      ∀ (w1 w2 : W) (created : SocketConnection),
        connection_create_func w = Outcome.ok w1 created →
        SocketConnection.connect api created address port w1 = Outcome.ok w2 () →
        ∃ c2 : Client ω,
          Client.connect api connection_create_func address port (c1, w)
            = Outcome.ok (c2, w2) () ∧
          c2.state = ClientState.CLIENT_CONNECTED ∧ c2.connection = some created ∧
          c2.poll_service.tracked = [created] := by
  refine ⟨_, Client.disconnect_of_valid c w h, rfl, rfl, rfl, rfl, rfl, ?_⟩
  intro w1 w2 created hcreate hconnect
  refine ⟨_, Client.connect_of_closed_ok api _ address port _ w w1 w2 created rfl hcreate
    hconnect, rfl, rfl, ?_⟩
  simp [PollService.tracked, PollService.add_socket, PollService.clear_sockets, Map.assign]

/-- Witness of C25: on a system where every call succeeds, a new client connects
(descriptor `3`), disconnects and connects again (descriptor `4`); the three calls return
normally and the client ends connected, tracking the second connection alone. -/
theorem client_disconnect_closes_witness :
    (Client.connect Scripted.api Scripted.connection_create_func "localhost" "9876"
        (Client.new 50 (), { Scripted.quiet with created := [3, 4] })).result = Except.ok () ∧
    (Client.connect Scripted.api Scripted.connection_create_func "localhost" "9876"
        (Client.disconnect
          (Client.connect Scripted.api Scripted.connection_create_func "localhost" "9876"
            (Client.new 50 (), { Scripted.quiet with created := [3, 4] })).state).state).result
      = Except.ok () ∧
    ∃ c1 : Client Unit,
      Client.disconnect
          (Client.connect Scripted.api Scripted.connection_create_func "localhost" "9876"
            (Client.new 50 (), { Scripted.quiet with created := [3, 4] })).state
        = Outcome.ok (c1, { Scripted.quiet with created := [4] }) () ∧
      c1.state = ClientState.CLIENT_CLOSED ∧ c1.poll_service.tracked = [] ∧
      c1.poll_service.descriptors = [] ∧ c1.connection = none ∧ c1.derived = () ∧
      ∀ (w1 w2 : Scripted) (created : SocketConnection),
        Scripted.connection_create_func { Scripted.quiet with created := [4] }
          = Outcome.ok w1 created →
        SocketConnection.connect Scripted.api created "localhost" "9876" w1
          = Outcome.ok w2 () →
        ∃ c2 : Client Unit,
          Client.connect Scripted.api Scripted.connection_create_func "localhost" "9876"
              (c1, { Scripted.quiet with created := [4] })
            = Outcome.ok (c2, w2) () ∧
          c2.state = ClientState.CLIENT_CONNECTED ∧ c2.connection = some created ∧
          c2.poll_service.tracked = [created] :=
  ⟨rfl, rfl, client_disconnect_closes Scripted.api Scripted.connection_create_func "localhost"
    "9876"
    (Client.connect Scripted.api Scripted.connection_create_func "localhost" "9876"
      (Client.new 50 (), { Scripted.quiet with created := [3, 4] })).state.1
    { Scripted.quiet with created := [4] } (Or.inl rfl)⟩

theorem Server.close_of_valid {ω W : Type} (s : Server ω) (w : W)
    (h : s.state = ServerState.SERVE ∨ s.state = ServerState.OPEN ∨
      s.state = ServerState.CLOSED) :
    Server.close (s, w)
      = Outcome.ok
          ({ s with
              state := ServerState.CLOSED
              poll_service := s.poll_service.clear_sockets
              server_connection := none }, w) () := by
  have hmem : s.state ∈ [ServerState.SERVE, ServerState.OPEN, ServerState.CLOSED] := by
    rcases h with h | h | h <;> simp [h]
  simp [Server.close, Server.transition_of_valid s _ _ hmem, Server.clearPollService]

theorem Server.open_of_closed_ok {ω W : Type} (api : SocketApi W)
    (connection_create_func : W → Outcome W SocketConnection) (s : Server ω)
    (w w1 w2 w3 : W) (created : SocketConnection) (hs : s.state = ServerState.CLOSED)
    (hcreate : connection_create_func w = Outcome.ok w1 created)
    (hbind : SocketConnection.bind api created s.port s.address w1 = Outcome.ok w2 ())
    (hlisten : SocketConnection.listen api created s.listen_queue_size w2 = Outcome.ok w3 ()) :
    Server.open api connection_create_func (s, w)
      = Outcome.ok
          ({ s with
              state := ServerState.OPEN
              server_connection := some created
              poll_service := s.poll_service.add_socket created }, w3) () := by
  have hmem : s.state ∈ [ServerState.CLOSED] := by simp [hs]
  simp [Server.open, Server.transition_of_valid s _ _ hmem, hcreate, hbind, hlisten]

/-- C26: `Server::close` from `SERVE`, `OPEN` or `CLOSED` returns normally with the state
`CLOSED`, the poll service tracking nothing (neither the listening handle nor any peer) and
the listening connection released; an `open` that follows is accepted and, when the
connection is created, bound and listening, ends in `OPEN` with exactly the new listening
connection tracked. -/
theorem server_close_closes {ω W : Type} (api : SocketApi W)
    (connection_create_func : W → Outcome W SocketConnection) (s : Server ω) (w : W)
    (h : s.state = ServerState.SERVE ∨ s.state = ServerState.OPEN ∨
      s.state = ServerState.CLOSED) :
    ∃ s1 : Server ω,
      Server.close (s, w) = Outcome.ok (s1, w) () ∧
      s1.state = ServerState.CLOSED ∧ s1.poll_service.tracked = [] ∧
      s1.poll_service.descriptors = [] ∧ s1.server_connection = none ∧
      s1.derived = s.derived ∧
      ∀ (w1 w2 w3 : W) (created : SocketConnection),
        connection_create_func w = Outcome.ok w1 created →
        SocketConnection.bind api created s1.port s1.address w1 = Outcome.ok w2 () →
        SocketConnection.listen api created s1.listen_queue_size w2 = Outcome.ok w3 () →
        ∃ s2 : Server ω,
          Server.open api connection_create_func (s1, w) = Outcome.ok (s2, w3) () ∧
          s2.state = ServerState.OPEN ∧ s2.server_connection = some created ∧
          s2.poll_service.tracked = [created] := by
  refine ⟨_, Server.close_of_valid s w h, rfl, rfl, rfl, rfl, rfl, ?_⟩
  intro w1 w2 w3 created hcreate hbind hlisten
  refine ⟨_, Server.open_of_closed_ok api _ _ w w1 w2 w3 created rfl hcreate hbind hlisten,
    rfl, rfl, ?_⟩
  simp [PollService.tracked, PollService.add_socket, PollService.clear_sockets, Map.assign]

/-- Witness of C26: a serving server that tracks its listening handle `3` and the peers
`5` and `7` is closed and opened again (descriptor `4`) on a system where every call
succeeds; both calls return normally and the server ends open. -/
theorem server_close_closes_witness :
    (Server.open Scripted.api Scripted.connection_create_func
        (Server.close
          ({ Server.new "0.0.0.0" "9876" 5 50 () with
              state := ServerState.SERVE
              server_connection := some { socket_descriptor := 3 }
              poll_service :=
                (((PollService.new 50).add_socket { socket_descriptor := 3 }).add_socket
                  { socket_descriptor := 5 }).add_socket { socket_descriptor := 7 } },
            { Scripted.quiet with created := [4] })).state).result = Except.ok () ∧
    ∃ s1 : Server Unit,
      Server.close
          ({ Server.new "0.0.0.0" "9876" 5 50 () with
              state := ServerState.SERVE
              server_connection := some { socket_descriptor := 3 }
              poll_service :=
                (((PollService.new 50).add_socket { socket_descriptor := 3 }).add_socket
                  { socket_descriptor := 5 }).add_socket { socket_descriptor := 7 } },
            { Scripted.quiet with created := [4] })
        = Outcome.ok (s1, { Scripted.quiet with created := [4] }) () ∧
      s1.state = ServerState.CLOSED ∧ s1.poll_service.tracked = [] ∧
      s1.poll_service.descriptors = [] ∧ s1.server_connection = none ∧ s1.derived = () ∧
      ∀ (w1 w2 w3 : Scripted) (created : SocketConnection),
        Scripted.connection_create_func { Scripted.quiet with created := [4] }
          = Outcome.ok w1 created →
        SocketConnection.bind Scripted.api created s1.port s1.address w1 = Outcome.ok w2 () →
        SocketConnection.listen Scripted.api created s1.listen_queue_size w2
          = Outcome.ok w3 () →
        ∃ s2 : Server Unit,
          Server.open Scripted.api Scripted.connection_create_func
              (s1, { Scripted.quiet with created := [4] }) = Outcome.ok (s2, w3) () ∧
          s2.state = ServerState.OPEN ∧ s2.server_connection = some created ∧
          s2.poll_service.tracked = [created] :=
  ⟨rfl, server_close_closes Scripted.api Scripted.connection_create_func
    { Server.new "0.0.0.0" "9876" 5 50 () with
      state := ServerState.SERVE
      server_connection := some { socket_descriptor := 3 }
      poll_service :=
        (((PollService.new 50).add_socket { socket_descriptor := 3 }).add_socket
          { socket_descriptor := 5 }).add_socket { socket_descriptor := 7 } }
    { Scripted.quiet with created := [4] } (Or.inl rfl)⟩

/-! ## Claims about the turns of `poll()` -/

theorem Server.poll_loop_cons {ω W : Type} (api : SocketApi W) (hooks : ServerHooks ω W)
    (socket_it : SocketCollectionEntry) (rest : List SocketCollectionEntry)
    (st : Server ω × W) :
    Server.poll_loop api hooks (socket_it :: rest) st
      = if st.1.state = ServerState.DESTRUCTING then Outcome.ok st false
        else (Server.dispatch api hooks socket_it st).andThen fun _ st1 =>
          Server.poll_loop api hooks rest st1 := by
  unfold Server.dispatch
  rw [Server.poll_loop]
  split_ifs <;> rfl

theorem Client.poll_loop_step {ω W : Type} (hooks : ClientHooks ω W)
    (socket_iter : SocketCollectionEntry) (rest : List SocketCollectionEntry)
    (st : Client ω × W) :
    Client.poll_loop hooks (socket_iter :: rest) st
      = if socket_iter.connection = st.1.connection then
          if st.1.state = ClientState.CLIENT_DESTRUCTING then Outcome.ok st false
          else (Client.dispatch hooks socket_iter st).andThen fun _ st1 =>
            Client.poll_loop hooks rest st1
        else Outcome.raise st Exception.InvalidSocketPollException := by
  unfold Client.dispatch
  rw [Client.poll_loop]
  split_ifs <;> rfl

theorem Server.poll_of_ready {ω W : Type} (api : SocketApi W) (hooks : ServerHooks ω W)
    (during_wait : Server ω → Server ω) (s : Server ω) (w : W)
    (ready : List SocketCollectionEntry) (hs : s.state = ServerState.SERVE)
    (hready : (PollService.poll api s.poll_service w).result = Except.ok ready) :
    Server.poll api hooks during_wait (s, w)
      = if ready.length = 0 then
          if (during_wait
              { s with poll_service := (PollService.poll api s.poll_service w).state.1 }).state
            = ServerState.DESTRUCTING then
            Outcome.ok
              (during_wait
                { s with poll_service := (PollService.poll api s.poll_service w).state.1 },
                (PollService.poll api s.poll_service w).state.2) false
          else
            (hooks.handle_poll_timeout
              (during_wait
                { s with poll_service := (PollService.poll api s.poll_service w).state.1 },
                (PollService.poll api s.poll_service w).state.2)).andThen
              fun _ st2 => Outcome.ok st2 false
        else
          Server.poll_loop api hooks ready
            (during_wait
              { s with poll_service := (PollService.poll api s.poll_service w).state.1 },
              (PollService.poll api s.poll_service w).state.2) := by
  simp [Server.poll, hs, hready]

theorem Client.poll_of_ready_set {ω W : Type} (api : SocketApi W) (hooks : ClientHooks ω W)
    (during_wait : Client ω → Client ω) (c : Client ω) (w : W)
    (ready : List SocketCollectionEntry) (hc : c.state = ClientState.CLIENT_CONNECTED)
    (hready : (PollService.poll api c.poll_service w).result = Except.ok ready) :
    Client.poll api hooks during_wait (c, w)
      = if ready.length = 0 then
          if (during_wait
              { c with poll_service := (PollService.poll api c.poll_service w).state.1 }).state
            = ClientState.CLIENT_DESTRUCTING then
            Outcome.ok
              (during_wait
                { c with poll_service := (PollService.poll api c.poll_service w).state.1 },
                (PollService.poll api c.poll_service w).state.2) false
          else
            (hooks.handle_poll_timeout
              (during_wait
                { c with poll_service := (PollService.poll api c.poll_service w).state.1 },
                (PollService.poll api c.poll_service w).state.2)).andThen
              fun _ st2 => Outcome.ok st2 false
        else
          Client.poll_loop hooks ready
            (during_wait
              { c with poll_service := (PollService.poll api c.poll_service w).state.1 },
              (PollService.poll api c.poll_service w).state.2) := by
  simp [Client.poll, hc, hready]

theorem Server.poll_loop_append {ω W : Type} (api : SocketApi W) (hooks : ServerHooks ω W)
    (first second : List SocketCollectionEntry) (st st1 : Server ω × W)
    (h : Server.poll_loop api hooks first st = Outcome.ok st1 true) :
    Server.poll_loop api hooks (first ++ second) st = Server.poll_loop api hooks second st1 := by
  induction first generalizing st with
  | nil =>
    simp only [Server.poll_loop, Outcome.ok, Outcome.mk.injEq] at h
    rw [← h.1]
    rfl
  | cons e rest ih =>
    rw [Server.poll_loop_cons] at h
    rw [List.cons_append, Server.poll_loop_cons]
    by_cases hd : st.1.state = ServerState.DESTRUCTING
    · rw [if_pos hd] at h
      simp [Outcome.ok] at h
    · rw [if_neg hd] at h
      rw [if_neg hd]
      rcases Outcome.ok_or_raise (Server.dispatch api hooks e st) with ⟨s1, a, h1⟩ | ⟨s1, err, h1⟩
      · rw [h1, Outcome.andThen_ok] at h
        rw [h1, Outcome.andThen_ok]
        exact ih s1 h
      · rw [h1, Outcome.andThen_raise] at h
        simp [Outcome.ok, Outcome.raise] at h

theorem Client.poll_loop_concat {ω W : Type} (hooks : ClientHooks ω W)
    (first second : List SocketCollectionEntry) (st st1 : Client ω × W)
    (h : Client.poll_loop hooks first st = Outcome.ok st1 true) :
    Client.poll_loop hooks (first ++ second) st = Client.poll_loop hooks second st1 := by
  induction first generalizing st with
  | nil =>
    simp only [Client.poll_loop, Outcome.ok, Outcome.mk.injEq] at h
    rw [← h.1]
    rfl
  | cons e rest ih =>
    rw [Client.poll_loop_step] at h
    rw [List.cons_append, Client.poll_loop_step]
    by_cases hc : e.connection = st.1.connection
    · rw [if_pos hc] at h
      rw [if_pos hc]
      by_cases hd : st.1.state = ClientState.CLIENT_DESTRUCTING
      · rw [if_pos hd] at h
        simp [Outcome.ok] at h
      · rw [if_neg hd] at h
        rw [if_neg hd]
        rcases Outcome.ok_or_raise (Client.dispatch hooks e st) with ⟨s1, a, h1⟩ | ⟨s1, err, h1⟩
        · rw [h1, Outcome.andThen_ok] at h
          rw [h1, Outcome.andThen_ok]
          exact ih s1 h
        · rw [h1, Outcome.andThen_raise] at h
          simp [Outcome.ok, Outcome.raise] at h
    · rw [if_neg hc] at h
      simp [Outcome.ok, Outcome.raise] at h

theorem Server.dispatch_agree {ω W : Type} (api : SocketApi W) (a b : ServerHooks ω W)
    (hab : a.AgreeUnlessDestructing b) (e : SocketCollectionEntry) (st : Server ω × W)
    (hd : st.1.state ≠ ServerState.DESTRUCTING) :
    Server.dispatch api a e st = Server.dispatch api b e st := by
  obtain ⟨h1, h2, -, h4⟩ := hab st hd
  obtain ⟨h5, -, h7, h8⟩ := h4 e.connection
  unfold Server.dispatch
  split_ifs
  · exact h1
  · exact h2
  · unfold Server.handle_connection_request
    cases st.1.server_connection with
    | none => rfl
    | some listening =>
      simp only []
      rcases Outcome.ok_or_raise (SocketConnection.accept api listening st.2)
        with ⟨w1, peer, h⟩ | ⟨w1, err, h⟩
      · rw [h]
        simp only [Outcome.withObject_ok, Outcome.andThen_ok]
        exact ((hab (st.1.addToPollService peer, w1) hd).2.2.2 (some peer)).2.1
      · rw [h]
        simp only [Outcome.withObject_raise, Outcome.andThen_raise]
  · exact h5
  · exact h8
  · exact h7

theorem Server.poll_loop_agree {ω W : Type} (api : SocketApi W) (a b : ServerHooks ω W)
    (hab : a.AgreeUnlessDestructing b) (ready : List SocketCollectionEntry)
    (st : Server ω × W) :
    Server.poll_loop api a ready st = Server.poll_loop api b ready st := by
  induction ready generalizing st with
  | nil => rfl
  | cons e rest ih =>
    rw [Server.poll_loop_cons, Server.poll_loop_cons]
    by_cases hd : st.1.state = ServerState.DESTRUCTING
    · rw [if_pos hd, if_pos hd]
    · rw [if_neg hd, if_neg hd, Server.dispatch_agree api a b hab e st hd]
      congr 1
      funext _ st1
      exact ih st1

theorem Client.dispatch_eq_of_agree {ω W : Type} (a b : ClientHooks ω W)
    (hab : a.AgreeUnlessDestructing b) (e : SocketCollectionEntry) (st : Client ω × W)
    (hd : st.1.state ≠ ClientState.CLIENT_DESTRUCTING) :
    Client.dispatch a e st = Client.dispatch b e st := by
  obtain ⟨h1, h2, -, h4⟩ := hab st hd
  unfold Client.dispatch
  split_ifs
  · exact h1
  · exact h4
  · exact h2

theorem Client.poll_loop_eq_of_agree {ω W : Type} (a b : ClientHooks ω W)
    (hab : a.AgreeUnlessDestructing b) (ready : List SocketCollectionEntry)
    (st : Client ω × W) :
    Client.poll_loop a ready st = Client.poll_loop b ready st := by
  induction ready generalizing st with
  | nil => rfl
  | cons e rest ih =>
    rw [Client.poll_loop_step, Client.poll_loop_step]
    by_cases hc : e.connection = st.1.connection
    · rw [if_pos hc, if_pos hc]
      by_cases hd : st.1.state = ClientState.CLIENT_DESTRUCTING
      · rw [if_pos hd, if_pos hd]
      · rw [if_neg hd, if_neg hd, Client.dispatch_eq_of_agree a b hab e st hd]
        congr 1
        funext _ st1
        exact ih st1
    · rw [if_neg hc, if_neg hc]

theorem Server.poll_agree {ω W : Type} (api : SocketApi W) (a b : ServerHooks ω W)
    (hab : a.AgreeUnlessDestructing b) (during_wait : Server ω → Server ω)
    (st : Server ω × W) :
    Server.poll api a during_wait st = Server.poll api b during_wait st := by
  unfold Server.poll
  by_cases hs : st.1.state ≠ ServerState.SERVE
  · rw [if_pos hs, if_pos hs]
  · rw [if_neg hs, if_neg hs]
    simp only []
    cases (PollService.poll api st.1.poll_service st.2).result with
    | error e => rfl
    | ok ready =>
      simp only []
      by_cases hlen : ready.length = 0
      · rw [if_pos hlen, if_pos hlen]
        split_ifs with hd
        · rfl
        · rw [(hab _ hd).2.2.1]
      · rw [if_neg hlen, if_neg hlen]
        exact Server.poll_loop_agree api a b hab ready _

theorem Client.poll_eq_of_agree {ω W : Type} (api : SocketApi W) (a b : ClientHooks ω W)
    (hab : a.AgreeUnlessDestructing b) (during_wait : Client ω → Client ω)
    (st : Client ω × W) :
    Client.poll api a during_wait st = Client.poll api b during_wait st := by
  unfold Client.poll
  by_cases hs : st.1.state ≠ ClientState.CLIENT_CONNECTED
  · rw [if_pos hs, if_pos hs]
  · rw [if_neg hs, if_neg hs]
    simp only []
    cases (PollService.poll api st.1.poll_service st.2).result with
    | error e => rfl
    | ok ready =>
      simp only []
      by_cases hlen : ready.length = 0
      · rw [if_pos hlen, if_pos hlen]
        split_ifs with hd
        · rfl
        · rw [(hab _ hd).2.2.1]
      · rw [if_neg hlen, if_neg hlen]
        exact Client.poll_loop_eq_of_agree a b hab ready _

/-- C29: checkpoints.  In `Server::poll` and `Client::poll` no hook is called on an
endpoint whose state is `DESTRUCTING`: the outcome of `poll()` is the same for any two
implementations of the hooks that agree on endpoints in other states.  When the state is
`DESTRUCTING` after the wait of the poll service, `poll()` returns `false` with no hook
called (for a client with a ready entry, the entry being its own connection); when the
state has become `DESTRUCTING` during the hooks for the first entries of the ready set and
a further entry follows (for a client, its own connection), `poll()` returns `false`
without the hook of that entry or of any later one. -/
theorem no_hook_while_destructing {ω W : Type} (api : SocketApi W) :
    (∀ (a b : ServerHooks ω W) (during_wait : Server ω → Server ω) (st : Server ω × W),
      a.AgreeUnlessDestructing b →
      Server.poll api a during_wait st = Server.poll api b during_wait st) ∧
    (∀ (hooks : ServerHooks ω W) (during_wait : Server ω → Server ω) (s : Server ω) (w : W)
        (ready : List SocketCollectionEntry),
      s.state = ServerState.SERVE →
      (PollService.poll api s.poll_service w).result = Except.ok ready →
      (during_wait
        { s with poll_service := (PollService.poll api s.poll_service w).state.1 }).state
          = ServerState.DESTRUCTING →
      Server.poll api hooks during_wait (s, w)
        = Outcome.ok
            (during_wait
              { s with poll_service := (PollService.poll api s.poll_service w).state.1 },
              (PollService.poll api s.poll_service w).state.2) false) ∧
    (∀ (hooks : ServerHooks ω W) (first rest : List SocketCollectionEntry)
        (e : SocketCollectionEntry) (st st1 : Server ω × W),
      Server.poll_loop api hooks first st = Outcome.ok st1 true →
      st1.1.state = ServerState.DESTRUCTING →
      Server.poll_loop api hooks (first ++ e :: rest) st = Outcome.ok st1 false) ∧
    (∀ (a b : ClientHooks ω W) (during_wait : Client ω → Client ω) (st : Client ω × W),
      a.AgreeUnlessDestructing b →
      Client.poll api a during_wait st = Client.poll api b during_wait st) ∧
    (∀ (hooks : ClientHooks ω W) (during_wait : Client ω → Client ω) (c : Client ω) (w : W)
        (ready : List SocketCollectionEntry),
      c.state = ClientState.CLIENT_CONNECTED →
      (PollService.poll api c.poll_service w).result = Except.ok ready →
      (during_wait
        { c with poll_service := (PollService.poll api c.poll_service w).state.1 }).state
          = ClientState.CLIENT_DESTRUCTING →
      (∀ e ∈ ready.head?, e.connection
        = (during_wait
            { c with
              poll_service := (PollService.poll api c.poll_service w).state.1 }).connection) →
      Client.poll api hooks during_wait (c, w)
        = Outcome.ok
            (during_wait
              { c with poll_service := (PollService.poll api c.poll_service w).state.1 },
              (PollService.poll api c.poll_service w).state.2) false) ∧
    (∀ (hooks : ClientHooks ω W) (first rest : List SocketCollectionEntry)
        (e : SocketCollectionEntry) (st st1 : Client ω × W),
      Client.poll_loop hooks first st = Outcome.ok st1 true →
      st1.1.state = ClientState.CLIENT_DESTRUCTING → e.connection = st1.1.connection →
      Client.poll_loop hooks (first ++ e :: rest) st = Outcome.ok st1 false) := by
  refine ⟨?_, ?_, ?_, ?_, ?_, ?_⟩
  · intro a b during_wait st hab
    exact Server.poll_agree api a b hab during_wait st
  · intro hooks during_wait s w ready hs hready hd
    rw [Server.poll_of_ready api hooks during_wait s w ready hs hready]
    by_cases hlen : ready.length = 0
    · rw [if_pos hlen, if_pos hd]
    · rw [if_neg hlen]
      cases ready with
      | nil => exact absurd rfl hlen
      | cons e rest => rw [Server.poll_loop_cons, if_pos hd]
  · intro hooks first rest e st st1 h hd
    rw [Server.poll_loop_append api hooks first (e :: rest) st st1 h, Server.poll_loop_cons,
      if_pos hd]
  · intro a b during_wait st hab
    exact Client.poll_eq_of_agree api a b hab during_wait st
  · intro hooks during_wait c w ready hc hready hd hown
    rw [Client.poll_of_ready_set api hooks during_wait c w ready hc hready]
    by_cases hlen : ready.length = 0
    · rw [if_pos hlen, if_pos hd]
    · rw [if_neg hlen]
      cases ready with
      | nil => exact absurd rfl hlen
      | cons e rest =>
        rw [Client.poll_loop_step, if_pos (hown e (by simp)), if_pos hd]
  · intro hooks first rest e st st1 h hd hown
    rw [Client.poll_loop_concat hooks first (e :: rest) st st1 h, Client.poll_loop_step,
      if_pos hown, if_pos hd]

/-- Witness of C29: a serving channeled server whose peer `5` is reported readable while
the control thread destructs the server during the wait; `poll()` returns `false`, the
byte in store for the peer is not read and the user has written down nothing. -/
theorem no_hook_while_destructing_witness :
    Server.poll Scripted.api
        (ChanneledServer.hooks Scripted.api Channels.initial ChanneledServerHooks.recording)
        Server.destruct
        ({ Server.new "0.0.0.0" "9876" 5 50
              ({ subscribable := { subscriptions := [] }, user := [] } :
                Channeled (List HookCall)) with
            state := ServerState.SERVE
            server_connection := some { socket_descriptor := 3 }
            poll_service :=
              ((PollService.new 50).add_socket { socket_descriptor := 3 }).add_socket
                { socket_descriptor := 5 } },
          { Scripted.quiet with polled := [(1, [0, POLLIN])], received := [some [9]] })
      = Outcome.ok
          ({ Server.new "0.0.0.0" "9876" 5 50
                ({ subscribable := { subscriptions := [] }, user := [] } :
                  Channeled (List HookCall)) with
              state := ServerState.DESTRUCTING
              server_connection := none
              poll_service :=
                (PollService.poll Scripted.api
                  (((PollService.new 50).add_socket { socket_descriptor := 3 }).add_socket
                    { socket_descriptor := 5 })
                  { Scripted.quiet with
                    polled := [(1, [0, POLLIN])], received := [some [9]] }).state.1 },
            { Scripted.quiet with received := [some [9]] }) false :=
  ((no_hook_while_destructing Scripted.api).2.1
    (ChanneledServer.hooks Scripted.api Channels.initial ChanneledServerHooks.recording)
    Server.destruct
    { Server.new "0.0.0.0" "9876" 5 50
          ({ subscribable := { subscriptions := [] }, user := [] } :
            Channeled (List HookCall)) with
        state := ServerState.SERVE
        server_connection := some { socket_descriptor := 3 }
        poll_service :=
          ((PollService.new 50).add_socket { socket_descriptor := 3 }).add_socket
            { socket_descriptor := 5 } }
    { Scripted.quiet with polled := [(1, [0, POLLIN])], received := [some [9]] }
    [{ connection := some { socket_descriptor := 5 },
       status := SocketStatus.SOCKET_STATUS_NORMAL }]
    rfl rfl rfl).trans rfl

/-! ## `DESTRUCTING` is terminal -/

theorem Client.disconnect_of_invalid {ω W : Type} (c : Client ω) (w : W)
    (h : c.state ∉ [ClientState.CLIENT_CONNECTED, ClientState.CLIENT_CLOSED]) :
    Client.disconnect (c, w)
      = Outcome.raise (c, w) Exception.ClientInvalidStateTransitionException := by
  simp [Client.disconnect, Client.state_transition_of_not_mem c _ _ h]

theorem Server.open_of_invalid {ω W : Type} (api : SocketApi W)
    (connection_create_func : W → Outcome W SocketConnection) (s : Server ω) (w : W)
    (h : s.state ∉ [ServerState.CLOSED]) :
    Server.open api connection_create_func (s, w)
      = Outcome.raise (s, w) Exception.ServerInvalidStateTransitionException := by
  simp [Server.open, Server.transition_of_invalid s _ _ h]

theorem Server.serve_of_invalid {ω W : Type} (s : Server ω) (w : W)
    (h : s.state ∉ [ServerState.OPEN]) :
    Server.serve (s, w)
      = Outcome.raise (s, w) Exception.ServerInvalidStateTransitionException := by
  simp [Server.serve, Server.transition_of_invalid s _ _ h]

theorem Server.close_of_invalid {ω W : Type} (s : Server ω) (w : W)
    (h : s.state ∉ [ServerState.SERVE, ServerState.OPEN, ServerState.CLOSED]) :
    Server.close (s, w)
      = Outcome.raise (s, w) Exception.ServerInvalidStateTransitionException := by
  simp [Server.close, Server.transition_of_invalid s _ _ h]

theorem Server.open_state {ω W : Type} (api : SocketApi W)
    (connection_create_func : W → Outcome W SocketConnection) (s : Server ω) (w : W) :
    (Server.open api connection_create_func (s, w)).state.1.state = s.state ∨
    (Server.open api connection_create_func (s, w)).state.1.state = ServerState.OPEN := by
  by_cases hmem : s.state ∈ [ServerState.CLOSED]
  · right
    rcases Outcome.ok_or_raise (connection_create_func w) with ⟨w1, created, h1⟩ | ⟨w1, e, h1⟩
    · rcases Outcome.ok_or_raise (SocketConnection.bind api created s.port s.address w1)
        with ⟨w2, u, h2⟩ | ⟨w2, e, h2⟩
      · rcases Outcome.ok_or_raise
          (SocketConnection.listen api created s.listen_queue_size w2)
          with ⟨w3, u2, h3⟩ | ⟨w3, e, h3⟩
        · simp [Server.open, Server.transition_of_valid s _ _ hmem, h1, h2, h3]
        · simp [Server.open, Server.transition_of_valid s _ _ hmem, h1, h2, h3]
      · simp [Server.open, Server.transition_of_valid s _ _ hmem, h1, h2]
    · simp [Server.open, Server.transition_of_valid s _ _ hmem, h1]
  · left
    rw [Server.open_of_invalid api connection_create_func s w hmem]
    rfl

theorem Server.serve_state {ω W : Type} (s : Server ω) (w : W) :
    (Server.serve (s, w)).state.1.state = s.state ∨
    (Server.serve (s, w)).state.1.state = ServerState.SERVE := by
  by_cases hmem : s.state ∈ [ServerState.OPEN]
  · right
    simp [Server.serve, Server.transition_of_valid s _ _ hmem]
  · left
    rw [Server.serve_of_invalid s w hmem]
    rfl

theorem Server.close_state {ω W : Type} (s : Server ω) (w : W) :
    (Server.close (s, w)).state.1.state = s.state ∨
    (Server.close (s, w)).state.1.state = ServerState.CLOSED := by
  by_cases hmem : s.state ∈ [ServerState.SERVE, ServerState.OPEN, ServerState.CLOSED]
  · right
    simp [Server.close, Server.transition_of_valid s _ _ hmem, Server.clearPollService]
  · left
    rw [Server.close_of_invalid s w hmem]
    rfl

theorem ClientCall.apply_alive {ω W : Type} (api : SocketApi W)
    (connection_create_func : W → Outcome W SocketConnection) (call : ClientCall)
    (st : Client ω × W) (h : st.1.state ≠ ClientState.CLIENT_DESTRUCTING) :
    (call.apply api connection_create_func st).1.state ≠ ClientState.CLIENT_DESTRUCTING := by
  obtain ⟨c, w⟩ := st
  cases call with
  | connect address port =>
    simp only [ClientCall.apply]
    rcases Client.connect_cases api connection_create_func address port c w
      with ⟨e, -, h1 | ⟨created, h1⟩⟩ | ⟨-, h1⟩
    · rw [h1]
      exact h
    · rw [h1]
      exact h
    · rw [h1]
      decide
  | disconnect =>
    simp only [ClientCall.apply]
    rcases Client.disconnect_cases c w with h1 | h1
    · rw [h1]
      exact h
    · rw [h1]
      simp

theorem ServerCall.apply_keeps_alive {ω W : Type} (api : SocketApi W)
    (connection_create_func : W → Outcome W SocketConnection) (call : ServerCall)
    (st : Server ω × W) (h : st.1.state ≠ ServerState.DESTRUCTING) :
    (call.apply api connection_create_func st).1.state ≠ ServerState.DESTRUCTING := by
  obtain ⟨s, w⟩ := st
  cases call with
  | «open» =>
    simp only [ServerCall.apply]
    rcases Server.open_state api connection_create_func s w with h1 | h1
    · rw [h1]
      exact h
    · rw [h1]
      decide
  | serve =>
    simp only [ServerCall.apply]
    rcases Server.serve_state s w with h1 | h1
    · rw [h1]
      exact h
    · rw [h1]
      decide
  | close =>
    simp only [ServerCall.apply]
    rcases Server.close_state s w with h1 | h1
    · rw [h1]
      exact h
    · rw [h1]
      decide

theorem ClientCall.apply_destructing {ω W : Type} (api : SocketApi W)
    (connection_create_func : W → Outcome W SocketConnection) (call : ClientCall)
    (st : Client ω × W) (h : st.1.state = ClientState.CLIENT_DESTRUCTING) :
    call.apply api connection_create_func st = st := by
  obtain ⟨c, w⟩ := st
  cases call with
  | connect address port =>
    simp only [ClientCall.apply]
    rw [Client.connect_of_not_closed api connection_create_func address port c w
      (by rw [h]; decide)]
    rfl
  | disconnect =>
    simp only [ClientCall.apply]
    rw [Client.disconnect_of_invalid c w (by rw [h]; decide)]
    rfl

theorem ServerCall.apply_of_destructing {ω W : Type} (api : SocketApi W)
    (connection_create_func : W → Outcome W SocketConnection) (call : ServerCall)
    (st : Server ω × W) (h : st.1.state = ServerState.DESTRUCTING) :
    call.apply api connection_create_func st = st := by
  obtain ⟨s, w⟩ := st
  cases call with
  | «open» =>
    simp only [ServerCall.apply]
    rw [Server.open_of_invalid api connection_create_func s w (by rw [h]; decide)]
    rfl
  | serve =>
    simp only [ServerCall.apply]
    rw [Server.serve_of_invalid s w (by rw [h]; decide)]
    rfl
  | close =>
    simp only [ServerCall.apply]
    rw [Server.close_of_invalid s w (by rw [h]; decide)]
    rfl

/-- C30: `DESTRUCTING` is terminal.  On a client whose state is `CLIENT_DESTRUCTING`,
`connect` and `disconnect` throw `InvalidStateTransitionException`, `poll()` returns
`false` with no hook called, and every sequence of guarded operations leaves the client
and the world as they were; likewise `open`, `serve`, `close` and `poll()` on a server
whose state is `DESTRUCTING`.  Conversely, from a state other than `DESTRUCTING` no
sequence of guarded operations, whether they return or throw, ends in `DESTRUCTING`. -/
theorem destructing_is_terminal {ω W : Type} (api : SocketApi W)
    (connection_create_func : W → Outcome W SocketConnection)
    (client_hooks : ClientHooks ω W) (server_hooks : ServerHooks ω W)
    (client_wait : Client ω → Client ω) (server_wait : Server ω → Server ω)
    (c : Client ω) (s : Server ω) (w : W) :
    (c.state = ClientState.CLIENT_DESTRUCTING →
      (∀ address port : String,
        Client.connect api connection_create_func address port (c, w)
          = Outcome.raise (c, w) Exception.ClientInvalidStateTransitionException) ∧
      Client.disconnect (c, w)
        = Outcome.raise (c, w) Exception.ClientInvalidStateTransitionException ∧
      Client.poll api client_hooks client_wait (c, w) = Outcome.ok (c, w) false ∧
      ∀ calls : List ClientCall,
        ClientCall.run_all api connection_create_func calls (c, w) = (c, w)) ∧
    (s.state = ServerState.DESTRUCTING →
      Server.open api connection_create_func (s, w)
        = Outcome.raise (s, w) Exception.ServerInvalidStateTransitionException ∧
      Server.serve (s, w)
        = Outcome.raise (s, w) Exception.ServerInvalidStateTransitionException ∧
      Server.close (s, w)
        = Outcome.raise (s, w) Exception.ServerInvalidStateTransitionException ∧
      Server.poll api server_hooks server_wait (s, w) = Outcome.ok (s, w) false ∧
      ∀ calls : List ServerCall,
        ServerCall.run_all api connection_create_func calls (s, w) = (s, w)) ∧
    (c.state ≠ ClientState.CLIENT_DESTRUCTING →
      ∀ calls : List ClientCall,
        (ClientCall.run_all api connection_create_func calls (c, w)).1.state
          ≠ ClientState.CLIENT_DESTRUCTING) ∧
    (s.state ≠ ServerState.DESTRUCTING →
      ∀ calls : List ServerCall,
        (ServerCall.run_all api connection_create_func calls (s, w)).1.state
          ≠ ServerState.DESTRUCTING) := by
  refine ⟨?_, ?_, ?_, ?_⟩
  · intro h
    refine ⟨fun address port =>
        Client.connect_of_not_closed api connection_create_func address port c w
          (by rw [h]; decide),
      Client.disconnect_of_invalid c w (by rw [h]; decide), by simp [Client.poll, h], ?_⟩
    intro calls
    induction calls with
    | nil => rfl
    | cons call rest ih =>
      rw [ClientCall.run_all, ClientCall.apply_destructing api connection_create_func call
        (c, w) h]
      exact ih
  · intro h
    refine ⟨Server.open_of_invalid api connection_create_func s w (by rw [h]; decide),
      Server.serve_of_invalid s w (by rw [h]; decide),
      Server.close_of_invalid s w (by rw [h]; decide), by simp [Server.poll, h], ?_⟩
    intro calls
    induction calls with
    | nil => rfl
    | cons call rest ih =>
      rw [ServerCall.run_all, ServerCall.apply_of_destructing api connection_create_func call
        (s, w) h]
      exact ih
  · intro h calls
    have hgen : ∀ st : Client ω × W, st.1.state ≠ ClientState.CLIENT_DESTRUCTING →
        (ClientCall.run_all api connection_create_func calls st).1.state
          ≠ ClientState.CLIENT_DESTRUCTING := by
      induction calls with
      | nil => exact fun st hst => hst
      | cons call rest ih =>
        intro st hst
        rw [ClientCall.run_all]
        exact ih _ (ClientCall.apply_alive api connection_create_func call st hst)
    exact hgen (c, w) h
  · intro h calls
    have hgen : ∀ st : Server ω × W, st.1.state ≠ ServerState.DESTRUCTING →
        (ServerCall.run_all api connection_create_func calls st).1.state
          ≠ ServerState.DESTRUCTING := by
      induction calls with
      | nil => exact fun st hst => hst
      | cons call rest ih =>
        intro st hst
        rw [ServerCall.run_all]
        exact ih _ (ServerCall.apply_keeps_alive api connection_create_func call st hst)
    exact hgen (s, w) h

/-- Witness of C30: a destructed channeled server, on a system that would let every call
succeed, is as it was after `open`, `serve`, `close`; a new channeled client is not
destructing after `connect`, `disconnect`, `disconnect`, `connect`. -/
theorem destructing_is_terminal_witness :
    (ServerCall.run_all Scripted.api Scripted.connection_create_func
        [ServerCall.open, ServerCall.serve, ServerCall.close]
        ((Server.new "0.0.0.0" "9876" 5 50
            ({ subscribable := { subscriptions := [] }, user := [] } :
              Channeled (List HookCall))).destruct,
          { Scripted.quiet with created := [3] })
      = ((Server.new "0.0.0.0" "9876" 5 50
            ({ subscribable := { subscriptions := [] }, user := [] } :
              Channeled (List HookCall))).destruct,
          { Scripted.quiet with created := [3] })) ∧
    (ClientCall.run_all Scripted.api Scripted.connection_create_func
        [ClientCall.connect "localhost" "9876", ClientCall.disconnect, ClientCall.disconnect,
         ClientCall.connect "localhost" "9876"]
        (Client.new 50
            ({ subscribable := { subscriptions := [] }, user := [] } :
              Channeled (List HookCall)),
          { Scripted.quiet with created := [3] })).1.state
      ≠ ClientState.CLIENT_DESTRUCTING :=
  ⟨((destructing_is_terminal Scripted.api Scripted.connection_create_func
      (ChanneledClient.hooks Scripted.api Channels.initial ChanneledClientHooks.recording)
      (ChanneledServer.hooks Scripted.api Channels.initial ChanneledServerHooks.recording)
      id id
      (Client.new 50
        ({ subscribable := { subscriptions := [] }, user := [] } : Channeled (List HookCall)))
      (Server.new "0.0.0.0" "9876" 5 50
        ({ subscribable := { subscriptions := [] }, user := [] } :
          Channeled (List HookCall))).destruct
      { Scripted.quiet with created := [3] }).2.1 rfl).2.2.2.2
      [ServerCall.open, ServerCall.serve, ServerCall.close],
    (destructing_is_terminal Scripted.api Scripted.connection_create_func
      (ChanneledClient.hooks Scripted.api Channels.initial ChanneledClientHooks.recording)
      (ChanneledServer.hooks Scripted.api Channels.initial ChanneledServerHooks.recording)
      id id
      (Client.new 50
        ({ subscribable := { subscriptions := [] }, user := [] } : Channeled (List HookCall)))
      (Server.new "0.0.0.0" "9876" 5 50
        ({ subscribable := { subscriptions := [] }, user := [] } :
          Channeled (List HookCall))).destruct
      { Scripted.quiet with created := [3] }).2.2.1 (by decide)
      [ClientCall.connect "localhost" "9876", ClientCall.disconnect, ClientCall.disconnect,
       ClientCall.connect "localhost" "9876"]⟩

/-! ## Claims about `PollService::poll` -/

theorem PollService.land_mod (x m : Nat) (hm : 63 &&& m = m) : x &&& m = x % 64 &&& m := by
  have h : x % 64 = x &&& 63 := (Nat.and_pow_two_sub_one_eq_mod x 6).symm
  rw [h, Nat.land_assoc, hm]

theorem PollService.ready_of_bits (x : Nat) :
    (x &&& (POLLERR ||| POLLNVAL) ≠ 0 → x &&& (POLLIN ||| POLLERR ||| POLLNVAL ||| POLLHUP) ≠ 0) ∧
    (x &&& POLLHUP ≠ 0 → x &&& (POLLIN ||| POLLERR ||| POLLNVAL ||| POLLHUP) ≠ 0) ∧
    (x &&& POLLIN ≠ 0 → x &&& (POLLIN ||| POLLERR ||| POLLNVAL ||| POLLHUP) ≠ 0) := by
  rw [PollService.land_mod x (POLLERR ||| POLLNVAL) (by decide),
    PollService.land_mod x POLLHUP (by decide), PollService.land_mod x POLLIN (by decide),
    PollService.land_mod x (POLLIN ||| POLLERR ||| POLLNVAL ||| POLLHUP) (by decide)]
  have hlt : x % 64 < 64 := Nat.mod_lt x (by decide)
  generalize x % 64 = y at hlt
  revert y
  decide

theorem SocketCollection.mem_insert (c : SocketCollection) (e x : SocketCollectionEntry)
    (h : x ∈ SocketCollection.insert c e) : x ∈ c ∨ x = e := by
  unfold SocketCollection.insert at h
  split_ifs at h
  · exact Or.inl h
  · rcases List.mem_append.1 h with h1 | h1
    · exact Or.inl h1
    · exact Or.inr (List.mem_singleton.1 h1)

theorem SocketCollection.nodup_insert (c : SocketCollection) (e : SocketCollectionEntry)
    (h : (c.map fun x => x.connection).Nodup) :
    ((SocketCollection.insert c e).map fun x => x.connection).Nodup := by
  unfold SocketCollection.insert
  split_ifs with hany
  · exact h
  · rw [List.map_append, List.nodup_append]
    refine ⟨h, by simp, ?_⟩
    intro a ha hb
    simp only [List.map_cons, List.map_nil, List.mem_singleton] at hb
    apply hany
    obtain ⟨x, hx, hxa⟩ := List.mem_map.1 ha
    rw [List.any_eq_true]
    exact ⟨x, hx, by simp [hxa, hb]⟩

theorem SocketCollection.insert_new (c : SocketCollection) (e : SocketCollectionEntry)
    (h : ∀ x ∈ c, x.connection ≠ e.connection) : SocketCollection.insert c e = c ++ [e] := by
  unfold SocketCollection.insert
  rw [if_neg]
  intro hany
  rw [List.any_eq_true] at hany
  obtain ⟨x, hx, hxe⟩ := hany
  exact h x hx (by simpa using hxe)

theorem PollService.poll_loop_of_table (table : Map SOCKET (Int × SocketConnection_p))
    (todo : List POLL_DESCRIPTOR) (acc : SocketCollection)
    (htable : ∀ d ∈ todo, ∃ i,
      table.find d.fd = some (i, some { socket_descriptor := d.fd }))
    (hnodup : (todo.map fun d => d.fd).Nodup)
    (hacc : ∀ e ∈ acc, ∀ d ∈ todo, e.connection ≠ some { socket_descriptor := d.fd }) :
    PollService.poll_loop table todo acc
      = Outcome.ok (acc ++ todo.filterMap PollService.entry_of_events) () := by
  induction todo generalizing acc with
  | nil => simp [PollService.poll_loop]
  | cons d t ih =>
    simp only [List.map_cons, List.nodup_cons] at hnodup
    have htable2 : ∀ x ∈ t, ∃ i,
        table.find x.fd = some (i, some { socket_descriptor := x.fd }) :=
      fun x hx => htable x (List.mem_cons_of_mem d hx)
    rw [PollService.poll_loop]
    by_cases hb : d.revents &&& (POLLIN ||| POLLERR ||| POLLNVAL ||| POLLHUP) ≠ 0
    · obtain ⟨i, hf⟩ := htable d (List.mem_cons_self d t)
      rw [if_pos hb, hf]
      simp only [reduceCtorEq, if_false]
      rw [SocketCollection.insert_new acc _ (fun x hx => hacc x hx d (List.mem_cons_self d t)),
        ih _ htable2 hnodup.2]
      · simp [List.filterMap_cons, PollService.entry_of_events, hb]
      · intro e he x hx
        rcases List.mem_append.1 he with h1 | h1
        · exact hacc e h1 x (List.mem_cons_of_mem d hx)
        · rw [List.mem_singleton.1 h1]
          intro heq
          simp only [Option.some.injEq, SocketConnection.mk.injEq] at heq
          exact hnodup.1 (heq ▸ List.mem_map_of_mem (fun d => d.fd) hx)
    · rw [if_neg hb, ih acc htable2 hnodup.2
        (fun e he x hx => hacc e he x (List.mem_cons_of_mem d hx))]
      simp [List.filterMap_cons, PollService.entry_of_events, hb]

theorem PollService.poll_loop_skipped (table : Map SOCKET (Int × SocketConnection_p))
    (todo : List POLL_DESCRIPTOR) (acc : SocketCollection)
    (h : ∀ d ∈ todo, d.revents &&& (POLLIN ||| POLLERR ||| POLLNVAL ||| POLLHUP) ≠ 0 →
      table.find d.fd = none) :
    PollService.poll_loop table todo acc = Outcome.ok acc () := by
  induction todo with
  | nil => rfl
  | cons d t ih =>
    rw [PollService.poll_loop]
    by_cases hb : d.revents &&& (POLLIN ||| POLLERR ||| POLLNVAL ||| POLLHUP) ≠ 0
    · rw [if_pos hb, h d (List.mem_cons_self d t) hb]
      exact ih fun x hx => h x (List.mem_cons_of_mem d hx)
    · rw [if_neg hb]
      exact ih fun x hx => h x (List.mem_cons_of_mem d hx)

theorem PollService.poll_loop_sound (table : Map SOCKET (Int × SocketConnection_p))
    (todo : List POLL_DESCRIPTOR) (acc out : SocketCollection)
    (h : PollService.poll_loop table todo acc = Outcome.ok out ())
    (hacc : (acc.map fun x => x.connection).Nodup) :
    (out.map fun x => x.connection).Nodup ∧
    ∀ e ∈ out, e ∈ acc ∨ ∃ d ∈ todo,
      d.revents &&& (POLLIN ||| POLLERR ||| POLLNVAL ||| POLLHUP) ≠ 0 ∧
      (∃ i, table.find d.fd = some (i, e.connection)) ∧ e.connection ≠ none ∧
      e.status
        = if d.revents &&& (POLLERR ||| POLLNVAL) ≠ 0 then SocketStatus.SOCKET_STATUS_ERROR
          else if d.revents &&& POLLHUP ≠ 0 then SocketStatus.SOCKET_STATUS_DISCONNECT
          else SocketStatus.SOCKET_STATUS_NORMAL := by
  induction todo generalizing acc with
  | nil =>
    simp only [PollService.poll_loop, Outcome.ok, Outcome.mk.injEq] at h
    rw [← h.1]
    exact ⟨hacc, fun e he => Or.inl he⟩
  | cons d t ih =>
    rw [PollService.poll_loop] at h
    by_cases hb : d.revents &&& (POLLIN ||| POLLERR ||| POLLNVAL ||| POLLHUP) ≠ 0
    · rw [if_pos hb] at h
      cases hf : table.find d.fd with
      | none =>
        rw [hf] at h
        obtain ⟨h1, h2⟩ := ih acc h hacc
        refine ⟨h1, fun e he => ?_⟩
        rcases h2 e he with h3 | ⟨x, hx, h3⟩
        · exact Or.inl h3
        · exact Or.inr ⟨x, List.mem_cons_of_mem d hx, h3⟩
      | some info =>
        obtain ⟨i, handle⟩ := info
        rw [hf] at h
        simp only [] at h
        by_cases hnull : handle = none
        · rw [if_pos hnull] at h
          simp [Outcome.ok, Outcome.raise] at h
        · rw [if_neg hnull] at h
          obtain ⟨h1, h2⟩ := ih _ h (SocketCollection.nodup_insert acc _ hacc)
          refine ⟨h1, fun e he => ?_⟩
          rcases h2 e he with h3 | ⟨x, hx, h3⟩
          · rcases SocketCollection.mem_insert acc _ e h3 with h4 | h4
            · exact Or.inl h4
            · refine Or.inr ⟨d, List.mem_cons_self d t, hb, ⟨i, ?_⟩, ?_, ?_⟩
              · rw [hf, h4]
              · rw [h4]
                exact hnull
              · rw [h4]
          · exact Or.inr ⟨x, List.mem_cons_of_mem d hx, h3⟩
    · rw [if_neg hb] at h
      obtain ⟨h1, h2⟩ := ih acc h hacc
      refine ⟨h1, fun e he => ?_⟩
      rcases h2 e he with h3 | ⟨x, hx, h3⟩
      · exact Or.inl h3
      · exact Or.inr ⟨x, List.mem_cons_of_mem d hx, h3⟩

theorem PollService.poll_of_positive {W : Type} (api : SocketApi W) (ps : PollService) (w : W)
    (out : SocketCollection)
    (hpos : 0 < (api.socket_poll ps.descriptors ps.timeout w).1.1)
    (hloop : PollService.poll_loop ps.poll_descriptor_map
      (PollService.set_revents ps.descriptors
        (api.socket_poll ps.descriptors ps.timeout w).1.2) [] = Outcome.ok out ()) :
    (PollService.poll api ps w).result = Except.ok out := by
  have hne : (api.socket_poll ps.descriptors ps.timeout w).1.1 ≠ SOCKET_ERROR := by
    simp only [SOCKET_ERROR]
    omega
  unfold PollService.poll
  simp only []
  rw [if_neg hne, if_pos hpos, hloop]
  rfl

theorem PollService.poll_of_not_positive {W : Type} (api : SocketApi W) (ps : PollService)
    (w : W) (hne : (api.socket_poll ps.descriptors ps.timeout w).1.1 ≠ SOCKET_ERROR)
    (hnot : ¬ 0 < (api.socket_poll ps.descriptors ps.timeout w).1.1) :
    (PollService.poll api ps w).result = Except.ok [] := by
  unfold PollService.poll
  simp only []
  rw [if_neg hne, if_neg (by simpa using hnot)]
  rfl

theorem PollService.poll_ok_cases {W : Type} (api : SocketApi W) (ps : PollService) (w : W)
    (ready : SocketCollection) (h : (PollService.poll api ps w).result = Except.ok ready) :
    ready = [] ∨
    PollService.poll_loop ps.poll_descriptor_map (PollService.poll api ps w).state.1.descriptors
      [] = Outcome.ok ready () := by
  rw [PollService.poll_state_descriptors]
  unfold PollService.poll at h
  simp only [] at h
  split_ifs at h with h1 h2
  · cases h
  · right
    rcases Outcome.ok_or_raise (PollService.poll_loop ps.poll_descriptor_map
      (PollService.set_revents ps.descriptors
        (api.socket_poll ps.descriptors ps.timeout w).1.2) []) with ⟨out, u, ho⟩ | ⟨out, e, ho⟩
    · rw [ho] at h
      simp only [Outcome.ok, Except.map, Except.ok.injEq] at h
      rw [ho, ← h]
    · rw [ho] at h
      simp [Outcome.raise, Except.map] at h
  · left
    simp only [Outcome.ok, Except.ok.injEq] at h
    exact h.symm

theorem PollService.eq_of_fd_eq (ds : List POLL_DESCRIPTOR)
    (hnodup : (ds.map fun d => d.fd).Nodup) (a b : POLL_DESCRIPTOR) (ha : a ∈ ds) (hb : b ∈ ds)
    (h : a.fd = b.fd) : a = b :=
  List.inj_on_of_nodup_map hnodup ha hb h

theorem PollService.mem_filterMap_entry (ds : List POLL_DESCRIPTOR) (d : POLL_DESCRIPTOR)
    (hd : d ∈ ds) (e : SocketCollectionEntry) (he : PollService.entry_of_events d = some e) :
    e ∈ ds.filterMap PollService.entry_of_events :=
  List.mem_filterMap.2 ⟨d, hd, he⟩

/-- C22 as stated fails: the peer `5` is tracked and the poll returns for it the readable bit
together with the hang-up bit (`POLLIN | POLLHUP`, not the hang-up bit alone, and no error
bit); the status reported is disconnect, not normal. -/
theorem hangup_with_readable_reports_disconnect :
    POLLIN ||| POLLHUP ≠ POLLHUP ∧ (POLLIN ||| POLLHUP) &&& (POLLERR ||| POLLNVAL) = 0 ∧
    (PollService.poll Scripted.api ((PollService.new 50).add_socket { socket_descriptor := 5 })
        { Scripted.quiet with polled := [(1, [POLLIN ||| POLLHUP])] }).result
      = Except.ok
          [{ connection := some { socket_descriptor := 5 },
             status := SocketStatus.SOCKET_STATUS_DISCONNECT }] :=
  ⟨by decide, by decide, rfl⟩

/-- C22 (amended): status derivation in `PollService::poll`.  On a consistent poll service,
when the system's poll returns a positive count, the call returns, with one entry at most
for a handle, and for every tracked descriptor with its returned events: the handle is
reported with the status error when `POLLERR` or `POLLNVAL` is set; with the status
disconnect when neither is set and `POLLHUP` is set (whether or not `POLLIN` is set);
with the status normal when none of the three is set and `POLLIN` is; and it is not
reported when none of `POLLIN`, `POLLERR`, `POLLNVAL`, `POLLHUP` is set. -/
theorem poll_status_derivation {W : Type} (api : SocketApi W) (ps : PollService) (w : W)
    (hcons : ps.Consistent)
    (hpos : 0 < (api.socket_poll ps.descriptors ps.timeout w).1.1) :
    ∃ ready : SocketCollection,
      (PollService.poll api ps w).result = Except.ok ready ∧
      ready = (PollService.poll api ps w).state.1.descriptors.filterMap
        PollService.entry_of_events ∧
      (ready.map fun e => e.connection).Nodup ∧
      ∀ d ∈ (PollService.poll api ps w).state.1.descriptors,
        (d.revents &&& (POLLERR ||| POLLNVAL) ≠ 0 →
          { connection := some { socket_descriptor := d.fd },
            status := SocketStatus.SOCKET_STATUS_ERROR } ∈ ready) ∧
        (d.revents &&& (POLLERR ||| POLLNVAL) = 0 → d.revents &&& POLLHUP ≠ 0 →
          { connection := some { socket_descriptor := d.fd },
            status := SocketStatus.SOCKET_STATUS_DISCONNECT } ∈ ready) ∧
        (d.revents &&& (POLLERR ||| POLLNVAL) = 0 → d.revents &&& POLLHUP = 0 →
          d.revents &&& POLLIN ≠ 0 →
          { connection := some { socket_descriptor := d.fd },
            status := SocketStatus.SOCKET_STATUS_NORMAL } ∈ ready) ∧
        (d.revents &&& (POLLIN ||| POLLERR ||| POLLNVAL ||| POLLHUP) = 0 →
          ∀ e ∈ ready, e.connection ≠ some { socket_descriptor := d.fd }) := by
  have hc1 := hcons.poll api w
  have hds := PollService.poll_state_descriptors api ps w
  have hmap := PollService.poll_state_map api ps w
  have htable : ∀ d ∈ (PollService.poll api ps w).state.1.descriptors, ∃ i,
      ps.poll_descriptor_map.find d.fd = some (i, some { socket_descriptor := d.fd }) := by
    intro d hd
    have hkey : d.fd ∈ ps.poll_descriptor_map.keys := by
      rw [← hmap, hc1.2, PollService.table_of_keys]
      exact List.mem_map_of_mem (fun d => d.fd) hd
    obtain ⟨⟨i, handle⟩, hfind⟩ := Map.find_of_mem_keys _ _ hkey
    have hfind2 := hfind
    rw [hcons.2] at hfind2
    obtain ⟨-, -, hhandle⟩ := PollService.table_of_find _ 0 d.fd i handle hfind2
    exact ⟨i, by rw [hfind, hhandle]⟩
  have hloop := PollService.poll_loop_of_table ps.poll_descriptor_map
    (PollService.poll api ps w).state.1.descriptors [] htable hc1.1
    (fun e he => by cases he)
  rw [List.nil_append] at hloop
  have hloop2 := hloop
  rw [hds] at hloop2
  refine ⟨_, PollService.poll_of_positive api ps w _ hpos hloop2, by rw [hds],
    (PollService.poll_loop_sound _ _ [] _ hloop2 List.nodup_nil).1, ?_⟩
  rw [← hds]
  intro d hd
  obtain ⟨hr1, hr2, hr3⟩ := PollService.ready_of_bits d.revents
  refine ⟨?_, ?_, ?_, ?_⟩
  · intro h1
    exact PollService.mem_filterMap_entry _ d hd _
      (by simp [PollService.entry_of_events, hr1 h1, h1])
  · intro h1 h2
    exact PollService.mem_filterMap_entry _ d hd _
      (by simp [PollService.entry_of_events, hr2 h2, h1, h2])
  · intro h1 h2 h3
    exact PollService.mem_filterMap_entry _ d hd _
      (by simp [PollService.entry_of_events, hr3 h3, h1, h2])
  · intro h0 e he hconn
    obtain ⟨x, hx, hxe⟩ := List.mem_filterMap.1 he
    have hx2 : x.revents &&& (POLLIN ||| POLLERR ||| POLLNVAL ||| POLLHUP) ≠ 0 ∧
        e.connection = some { socket_descriptor := x.fd } := by
      unfold PollService.entry_of_events at hxe
      by_cases hbits : x.revents &&& (POLLIN ||| POLLERR ||| POLLNVAL ||| POLLHUP) ≠ 0
      · rw [if_pos hbits] at hxe
        simp only [Option.some.injEq] at hxe
        exact ⟨hbits, by rw [← hxe]⟩
      · rw [if_neg hbits] at hxe
        cases hxe
    rw [hx2.2] at hconn
    simp only [Option.some.injEq, SocketConnection.mk.injEq] at hconn
    have hxd := PollService.eq_of_fd_eq _ hc1.1 x d hx hd hconn
    rw [hxd] at hx2
    exact hx2.1 h0

/-- Witness of C22 (amended): the handles `3`, `5`, `7` and `9` are tracked and the poll
returns `POLLIN` for `3`, `POLLIN | POLLHUP` for `5`, `POLLHUP | POLLERR` for `7` and
nothing for `9`; the result is `3` normal, `5` disconnect, `7` error. -/
theorem poll_status_derivation_witness :
    ∃ ready : SocketCollection,
      (PollService.poll Scripted.api
        (((((PollService.new 50).add_socket { socket_descriptor := 3 }).add_socket
          { socket_descriptor := 5 }).add_socket { socket_descriptor := 7 }).add_socket
          { socket_descriptor := 9 })
        { Scripted.quiet with
          polled := [(3, [POLLIN, POLLIN ||| POLLHUP, POLLHUP ||| POLLERR, 0])] }).result
        = Except.ok ready ∧
      ready
        = [{ connection := some { socket_descriptor := 3 },
             status := SocketStatus.SOCKET_STATUS_NORMAL },
           { connection := some { socket_descriptor := 5 },
             status := SocketStatus.SOCKET_STATUS_DISCONNECT },
           { connection := some { socket_descriptor := 7 },
             status := SocketStatus.SOCKET_STATUS_ERROR }] :=
  (poll_status_derivation Scripted.api
    (((((PollService.new 50).add_socket { socket_descriptor := 3 }).add_socket
      { socket_descriptor := 5 }).add_socket { socket_descriptor := 7 }).add_socket
      { socket_descriptor := 9 })
    { Scripted.quiet with
      polled := [(3, [POLLIN, POLLIN ||| POLLHUP, POLLHUP ||| POLLERR, 0])] }
    ⟨by decide, rfl⟩ (by decide)).imp fun _ h => ⟨h.1, h.2.1.trans rfl⟩

theorem Map.mem_of_find {κ ν : Type} [DecidableEq κ] (m : Map κ ν) (k : κ) (v : ν)
    (h : m.find k = some v) : (k, v) ∈ m := by
  induction m with
  | nil => simp [Map.find] at h
  | cons e m ih =>
    obtain ⟨a, b⟩ := e
    simp only [Map.find] at h
    by_cases hk : a = k
    · rw [if_pos hk] at h
      simp only [Option.some.injEq] at h
      rw [hk, h]
      exact List.mem_cons_self _ _
    · rw [if_neg hk] at h
      exact List.mem_cons_of_mem _ (ih h)

theorem PollService.poll_state_results {W : Type} (api : SocketApi W) (ps : PollService)
    (w : W) (ready : SocketCollection)
    (h : (PollService.poll api ps w).result = Except.ok ready) :
    (PollService.poll api ps w).state.1.results = ready := by
  unfold PollService.poll at h ⊢
  simp only [] at h ⊢
  split_ifs at h ⊢ with h1 h2
  · cases h
  · rcases Outcome.ok_or_raise (PollService.poll_loop ps.poll_descriptor_map
      (PollService.set_revents ps.descriptors
        (api.socket_poll ps.descriptors ps.timeout w).1.2) []) with ⟨out, u, ho⟩ | ⟨out, e, ho⟩
    · rw [ho] at h ⊢
      simp only [Outcome.ok, Except.map, Except.ok.injEq] at h
      exact h
    · rw [ho] at h
      simp [Outcome.raise, Except.map] at h
  · simp only [Outcome.ok, Except.ok.injEq] at h
    exact h

theorem PollService.poll_sound {W : Type} (api : SocketApi W) (ps : PollService) (w : W)
    (ready : SocketCollection) (h : (PollService.poll api ps w).result = Except.ok ready) :
    (ready.map fun x => x.connection).Nodup ∧
    ∀ e ∈ ready, ∃ d ∈ (PollService.poll api ps w).state.1.descriptors,
      d.revents &&& (POLLIN ||| POLLERR ||| POLLNVAL ||| POLLHUP) ≠ 0 ∧
      (∃ i, ps.poll_descriptor_map.find d.fd = some (i, e.connection)) ∧
      e.connection ≠ none ∧
      e.status
        = if d.revents &&& (POLLERR ||| POLLNVAL) ≠ 0 then SocketStatus.SOCKET_STATUS_ERROR
          else if d.revents &&& POLLHUP ≠ 0 then SocketStatus.SOCKET_STATUS_DISCONNECT
          else SocketStatus.SOCKET_STATUS_NORMAL := by
  rcases PollService.poll_ok_cases api ps w ready h with h1 | h1
  · rw [h1]
    exact ⟨List.nodup_nil, fun e he => by cases he⟩
  · obtain ⟨h2, h3⟩ := PollService.poll_loop_sound _ _ [] ready h1 List.nodup_nil
    refine ⟨h2, fun e he => ?_⟩
    rcases h3 e he with h4 | h4
    · cases h4
    · exact h4

/-- C24: the poll result set.  Whatever results an earlier call left in the poll service,
a call of `PollService::poll` does the same as on a poll service without them.  A result
returned holds one entry at most for a connection handle, it is the set kept in the poll
service after the call, and each of its entries is derived from a descriptor for which
this call's poll of the system returned one of the bits `POLLIN`, `POLLERR`, `POLLNVAL`,
`POLLHUP`: the handle is the one of the descriptor's table entry and the status is the one
of the returned bits.  A call whose poll of the system returns `0` (a timeout) returns the
empty set. -/
theorem poll_results_recomputed {W : Type} (api : SocketApi W) (ps : PollService) (w : W) :
    (∀ earlier : SocketCollection,
      PollService.poll api { ps with results := earlier } w = PollService.poll api ps w) ∧
    (∀ ready : SocketCollection, (PollService.poll api ps w).result = Except.ok ready →
      (ready.map fun x => x.connection).Nodup ∧
      (PollService.poll api ps w).state.1.results = ready ∧
      ∀ e ∈ ready, ∃ d ∈ (PollService.poll api ps w).state.1.descriptors,
        d.revents &&& (POLLIN ||| POLLERR ||| POLLNVAL ||| POLLHUP) ≠ 0 ∧
        (∃ i, ps.poll_descriptor_map.find d.fd = some (i, e.connection)) ∧
        e.status
          = if d.revents &&& (POLLERR ||| POLLNVAL) ≠ 0 then SocketStatus.SOCKET_STATUS_ERROR
            else if d.revents &&& POLLHUP ≠ 0 then SocketStatus.SOCKET_STATUS_DISCONNECT
            else SocketStatus.SOCKET_STATUS_NORMAL) ∧
    ((api.socket_poll ps.descriptors ps.timeout w).1.1 = 0 →
      (PollService.poll api ps w).result = Except.ok []) := by
  refine ⟨fun earlier => rfl, ?_, ?_⟩
  · intro ready h
    obtain ⟨h1, h2⟩ := PollService.poll_sound api ps w ready h
    refine ⟨h1, PollService.poll_state_results api ps w ready h, fun e he => ?_⟩
    obtain ⟨d, hd, hb, hf, -, hs⟩ := h2 e he
    exact ⟨d, hd, hb, hf, hs⟩
  · intro hzero
    exact PollService.poll_of_not_positive api ps w (by rw [hzero]; decide)
      (by rw [hzero]; decide)

/-- Witness of C24: a poll service that tracks `3` and `5` is polled twice; the first poll
reports `5` readable, the second times out and returns the empty set, and the poll service
keeps no result. -/
theorem poll_results_recomputed_witness :
    (PollService.poll Scripted.api
        (((PollService.new 50).add_socket { socket_descriptor := 3 }).add_socket
          { socket_descriptor := 5 })
        { Scripted.quiet with polled := [(1, [0, POLLIN]), (0, [0, 0])] }).result
      = Except.ok
          [{ connection := some { socket_descriptor := 5 },
             status := SocketStatus.SOCKET_STATUS_NORMAL }] ∧
    (PollService.poll Scripted.api
        (PollService.poll Scripted.api
          (((PollService.new 50).add_socket { socket_descriptor := 3 }).add_socket
            { socket_descriptor := 5 })
          { Scripted.quiet with polled := [(1, [0, POLLIN]), (0, [0, 0])] }).state.1
        { Scripted.quiet with polled := [(0, [0, 0])] }).result = Except.ok [] ∧
    (PollService.poll Scripted.api
        (PollService.poll Scripted.api
          (((PollService.new 50).add_socket { socket_descriptor := 3 }).add_socket
            { socket_descriptor := 5 })
          { Scripted.quiet with polled := [(1, [0, POLLIN]), (0, [0, 0])] }).state.1
        { Scripted.quiet with polled := [(0, [0, 0])] }).state.1.results = [] :=
  ⟨rfl,
    (poll_results_recomputed Scripted.api
      (PollService.poll Scripted.api
        (((PollService.new 50).add_socket { socket_descriptor := 3 }).add_socket
          { socket_descriptor := 5 })
        { Scripted.quiet with polled := [(1, [0, POLLIN]), (0, [0, 0])] }).state.1
      { Scripted.quiet with polled := [(0, [0, 0])] }).2.2 rfl,
    rfl⟩

/-- C21: `PollService::poll` reports tracked handles only.  Whatever the system's poll
returns, every entry of a result is a handle that the poll service tracks at the time of
the call.  On a consistent poll service, a handle (of a descriptor not tracked before) that
was added and at once removed is in no result of a later poll; and a poll with no handle
tracked returns the empty result when the system's poll does not fail. -/
theorem poll_reports_only_tracked {W : Type} (api : SocketApi W) (ps : PollService) (w : W) :
    (∀ ready : SocketCollection, (PollService.poll api ps w).result = Except.ok ready →
      ∀ e ∈ ready, ∃ c : SocketConnection, e.connection = some c ∧ c ∈ ps.tracked) ∧
    (∀ socket : SocketConnection, ps.Consistent →
      socket.socket_descriptor ∉ ps.poll_descriptor_map.keys →
      ∀ ready : SocketCollection,
        (PollService.poll api ((ps.add_socket socket).remove_socket socket) w).result
          = Except.ok ready →
        ∀ e ∈ ready, e.connection ≠ some socket) ∧
    (ps.Consistent → ps.tracked = [] →
      (api.socket_poll ps.descriptors ps.timeout w).1.1 ≠ SOCKET_ERROR →
      (PollService.poll api ps w).result = Except.ok []) := by
  have htracked : ∀ (p : PollService) (ready : SocketCollection),
      (PollService.poll api p w).result = Except.ok ready →
      ∀ e ∈ ready, ∃ c : SocketConnection, e.connection = some c ∧ c ∈ p.tracked := by
    intro p ready h e he
    obtain ⟨d, -, -, ⟨i, hf⟩, hnull, -⟩ := (PollService.poll_sound api p w ready h).2 e he
    cases hc : e.connection with
    | none => exact absurd hc hnull
    | some c =>
      refine ⟨c, rfl, ?_⟩
      rw [hc] at hf
      exact List.mem_filterMap.2 ⟨_, Map.mem_of_find _ _ _ hf, rfl⟩
  refine ⟨htracked ps, ?_, ?_⟩
  · intro socket hcons hnew ready h e he heq
    obtain ⟨c, hc, hmem⟩ := htracked _ ready h e he
    rw [(hcons.add_socket socket hnew).tracked_remove_socket socket] at hmem
    rw [hc, Option.some.injEq] at heq
    simp only [List.mem_filter, decide_eq_true_eq] at hmem
    exact hmem.2 heq
  · intro hcons hempty hne
    have hds : ps.descriptors = [] := by
      rw [hcons.tracked_eq] at hempty
      exact List.map_eq_nil_iff.1 hempty
    by_cases hpos : 0 < (api.socket_poll ps.descriptors ps.timeout w).1.1
    · refine PollService.poll_of_positive api ps w [] hpos ?_
      rw [hds]
      rfl
    · exact PollService.poll_of_not_positive api ps w hne hpos

/-- Witness of C21: the handle `5` is tracked, `7` is added and at once removed, and the
system's poll returns events for two descriptors; the result holds `5` alone.  A new poll
service returns the empty result whatever the system's poll returns. -/
theorem poll_reports_only_tracked_witness :
    (∀ ready : SocketCollection,
      (PollService.poll Scripted.api
        ((((PollService.new 50).add_socket { socket_descriptor := 5 }).add_socket
          { socket_descriptor := 7 }).remove_socket { socket_descriptor := 7 })
        { Scripted.quiet with polled := [(2, [POLLIN, POLLIN])] }).result = Except.ok ready →
      ∀ e ∈ ready, e.connection ≠ some { socket_descriptor := 7 }) ∧
    (PollService.poll Scripted.api
        ((((PollService.new 50).add_socket { socket_descriptor := 5 }).add_socket
          { socket_descriptor := 7 }).remove_socket { socket_descriptor := 7 })
        { Scripted.quiet with polled := [(2, [POLLIN, POLLIN])] }).result
      = Except.ok
          [{ connection := some { socket_descriptor := 5 },
             status := SocketStatus.SOCKET_STATUS_NORMAL }] ∧
    (PollService.poll Scripted.api (PollService.new 50)
        { Scripted.quiet with polled := [(2, [POLLIN, POLLIN])] }).result = Except.ok [] :=
  ⟨(poll_reports_only_tracked Scripted.api
      ((PollService.new 50).add_socket { socket_descriptor := 5 })
      { Scripted.quiet with polled := [(2, [POLLIN, POLLIN])] }).2.1
      { socket_descriptor := 7 } ⟨by decide, rfl⟩ (by decide),
    rfl,
    (poll_reports_only_tracked Scripted.api (PollService.new 50)
      { Scripted.quiet with polled := [(2, [POLLIN, POLLIN])] }).2.2
      ⟨by decide, rfl⟩ rfl (by decide)⟩

/-- C23 as stated fails: the descriptor `5` is added twice and removed once, which leaves
it in the polled list without an entry in the handle table, next to the tracked handle `7`.
The system's poll returns `POLLIN` for both; `poll` returns normally, reporting `7` and
passing over `5`, instead of failing with `InvalidSocketConnectionException`. -/
theorem poll_passes_over_descriptor_without_entry :
    ((((PollService.new 50).add_socket { socket_descriptor := 7 }).add_socket
        { socket_descriptor := 5 }).add_socket { socket_descriptor := 5 }).remove_socket
        { socket_descriptor := 5 }
      = { timeout := 50
          descriptors :=
            [{ fd := 7, events := POLLIN, revents := 0 },
             { fd := 5, events := POLLIN, revents := 0 }]
          poll_descriptor_map := [(7, (0, some { socket_descriptor := 7 }))]
          results := [] } ∧
    (PollService.poll Scripted.api
        (((((PollService.new 50).add_socket { socket_descriptor := 7 }).add_socket
          { socket_descriptor := 5 }).add_socket { socket_descriptor := 5 }).remove_socket
          { socket_descriptor := 5 })
        { Scripted.quiet with polled := [(2, [POLLIN, POLLIN])] }).result
      = Except.ok
          [{ connection := some { socket_descriptor := 7 },
             status := SocketStatus.SOCKET_STATUS_NORMAL }] :=
  ⟨rfl, rfl⟩

/-- C23 (amended): in the loop of `PollService::poll`, a descriptor with a ready event and
no entry in the handle table is passed over and the loop goes on; the loop fails with
`InvalidSocketConnectionException` when the entry of such a descriptor holds a null
handle.  So a poll in which every descriptor with a ready event lacks an entry returns the
empty result, when the system's poll does not fail. -/
theorem poll_skips_descriptor_without_entry {W : Type} (api : SocketApi W) (ps : PollService)
    (w : W) :
    (∀ (table : Map SOCKET (Int × SocketConnection_p)) (d : POLL_DESCRIPTOR)
        (rest : List POLL_DESCRIPTOR) (results : SocketCollection),
      d.revents &&& (POLLIN ||| POLLERR ||| POLLNVAL ||| POLLHUP) ≠ 0 →
      table.find d.fd = none →
      PollService.poll_loop table (d :: rest) results
        = PollService.poll_loop table rest results) ∧
    (∀ (table : Map SOCKET (Int × SocketConnection_p)) (d : POLL_DESCRIPTOR)
        (rest : List POLL_DESCRIPTOR) (results : SocketCollection) (i : Int),
      d.revents &&& (POLLIN ||| POLLERR ||| POLLNVAL ||| POLLHUP) ≠ 0 →
      table.find d.fd = some (i, none) →
      PollService.poll_loop table (d :: rest) results
        = Outcome.raise results Exception.InvalidSocketConnectionException) ∧
    ((api.socket_poll ps.descriptors ps.timeout w).1.1 ≠ SOCKET_ERROR →
      (∀ d ∈ (PollService.poll api ps w).state.1.descriptors,
        d.revents &&& (POLLIN ||| POLLERR ||| POLLNVAL ||| POLLHUP) ≠ 0 →
        ps.poll_descriptor_map.find d.fd = none) →
      (PollService.poll api ps w).result = Except.ok []) := by
  refine ⟨?_, ?_, ?_⟩
  · intro table d rest results hb hf
    rw [PollService.poll_loop, if_pos hb, hf]
  · intro table d rest results i hb hf
    rw [PollService.poll_loop, if_pos hb, hf]
    simp
  · intro hne hall
    by_cases hpos : 0 < (api.socket_poll ps.descriptors ps.timeout w).1.1
    · refine PollService.poll_of_positive api ps w [] hpos ?_
      rw [← PollService.poll_state_descriptors]
      exact PollService.poll_loop_skipped _ _ [] hall
    · exact PollService.poll_of_not_positive api ps w hne hpos

/-- Witness of C23 (amended): the descriptor `5`, added twice and removed once, is polled
without an entry in the table; its ready event is passed over and the result is empty.
After the removal of `7`, which was added before it, the table holds a null handle for `5`
and the poll fails with `InvalidSocketConnectionException`. -/
theorem poll_skips_descriptor_without_entry_witness :
    (PollService.poll Scripted.api
        ((((PollService.new 50).add_socket { socket_descriptor := 5 }).add_socket
          { socket_descriptor := 5 }).remove_socket { socket_descriptor := 5 })
        { Scripted.quiet with polled := [(1, [POLLIN])] }).result = Except.ok [] ∧
    (PollService.poll Scripted.api
        ((((((PollService.new 50).add_socket { socket_descriptor := 7 }).add_socket
          { socket_descriptor := 5 }).add_socket { socket_descriptor := 5 }).remove_socket
          { socket_descriptor := 5 }).remove_socket { socket_descriptor := 7 })
        { Scripted.quiet with polled := [(1, [POLLIN])] }).result
      = Except.error Exception.InvalidSocketConnectionException :=
  ⟨(poll_skips_descriptor_without_entry Scripted.api
      ((((PollService.new 50).add_socket { socket_descriptor := 5 }).add_socket
        { socket_descriptor := 5 }).remove_socket { socket_descriptor := 5 })
      { Scripted.quiet with polled := [(1, [POLLIN])] }).2.2 (by decide)
      (fun _ _ _ => rfl),
    rfl⟩

/-! ## Further claims about the registry, sending and unsubscribing -/

/-- C35: registering the same type twice.  Two calls of `addNewChannel<T>()` in a row are
made without any check: the first takes the id of the counter, the second the next one, a
different id; each stores under its id a descriptor of `sizeof(T)` bytes; and
`getChannelId<T>()` returns the first id after the first call and the second id after the
second.  When the registry was built by at most 254 registrations, neither id was assigned
before. -/
theorem double_registration_creates_two_ids (sizeOf : TypeIndex → NETWORK_BYTE_SIZE)
    (c : Channels) (T : TypeIndex) :
    (c.addNewChannel sizeOf T).getChannelId T = Except.ok c.channel_counter ∧
    ((c.addNewChannel sizeOf T).addNewChannel sizeOf T).getChannelId T
      = Except.ok ((c.channel_counter + 1) % 256) ∧
    c.channel_counter ≠ (c.channel_counter + 1) % 256 ∧
    ((c.addNewChannel sizeOf T).addNewChannel sizeOf T).getChannel c.channel_counter
      = Except.ok { message_size := sizeOf T, channel_id := c.channel_counter } ∧
    ((c.addNewChannel sizeOf T).addNewChannel sizeOf T).getChannel
        ((c.channel_counter + 1) % 256)
      = Except.ok
          { message_size := sizeOf T, channel_id := (c.channel_counter + 1) % 256 } ∧
    (∀ regs : List TypeIndex, c = Channels.initial.registerAll sizeOf regs →
      regs.length + 2 ≤ 256 →
      c.ids_to_channels.find c.channel_counter = none ∧
      c.ids_to_channels.find ((c.channel_counter + 1) % 256) = none) := by
  have hne : c.channel_counter ≠ (c.channel_counter + 1) % 256 := by
    simp only [CHANNEL_ID]
    omega
  refine ⟨?_, ?_, hne, ?_, ?_, ?_⟩
  · unfold Channels.getChannelId
    rw [Channels.addNewChannel_types_find, if_pos rfl]
  · unfold Channels.getChannelId
    rw [Channels.addNewChannel_types_find, if_pos rfl, Channels.addNewChannel_counter]
  · unfold Channels.getChannel
    rw [Channels.addNewChannel_ids_find, Channels.addNewChannel_counter,
      if_neg (fun h => hne h.symm), Channels.addNewChannel_ids_find, if_pos rfl]
  · unfold Channels.getChannel
    rw [Channels.addNewChannel_ids_find, Channels.addNewChannel_counter, if_pos rfl]
  · intro regs hc hlen
    have hcounter : c.channel_counter = regs.length := by
      rw [hc, Channels.registerAll_counter _ _ _ (by decide)]
      simp only [Channels.initial, CHANNEL_ID]
      omega
    have hnone : ∀ id : CHANNEL_ID, regs.length ≤ id → id < 256 →
        c.ids_to_channels.find id = none := by
      intro id h1 h2
      rw [hc, Channels.registerAll_ids_find]
      · rfl
      · intro hmem
        obtain ⟨i, hi, heq⟩ := Channels.mem_assignedIds sizeOf regs _ (by decide) _ hmem
        simp only [Channels.initial, CHANNEL_ID] at *
        omega
    rw [hcounter]
    have h1 : regs.length < 256 := by omega
    have h2 : regs.length ≤ (regs.length + 1) % 256 := by omega
    exact ⟨hnone _ (le_refl _) h1, hnone _ h2 (Nat.mod_lt _ (by decide))⟩

/-- Witness of C35: on the initial registry the type `6` (two bytes) is registered twice;
the ids `0` and `1` were not assigned before, and afterwards `getChannelId<6>()` is `1`. -/
theorem double_registration_creates_two_ids_witness :
    (Channels.initial.ids_to_channels.find Channels.initial.channel_counter = none ∧
      Channels.initial.ids_to_channels.find ((Channels.initial.channel_counter + 1) % 256)
        = none) ∧
    ((Channels.initial.addNewChannel (fun _ => 2) 6).addNewChannel (fun _ => 2) 6).getChannelId
        6 = Except.ok 1 :=
  ⟨(double_registration_creates_two_ids (fun _ => 2) Channels.initial 6).2.2.2.2.2 [] rfl
      (by decide),
    (double_registration_creates_two_ids (fun _ => 2) Channels.initial 6).2.1⟩

/-- C37: `channeled_send<T>` for a type that is not registered ends with
`BadChannelException` and the world as it was: no call of the system is made, whatever the
system, the message and the connection are. -/
theorem channeled_send_unregistered_writes_nothing {W : Type} (api : SocketApi W)
    (sizeOf : TypeIndex → NETWORK_BYTE_SIZE) (channels : Channels) (fuel : Nat)
    (self : ChanneledSocketConnection) (T : TypeIndex) (message : List NETWORK_BYTE) (w : W)
    (hT : channels.types_to_ids.find T = none) :
    channels.getChannelId T = Except.error Exception.BadChannelException ∧
    ChanneledSocketConnection.channeled_send api sizeOf channels fuel self T message w
      = some (Outcome.raise w Exception.BadChannelException) := by
  have h : channels.getChannelId T = Except.error Exception.BadChannelException := by
    simp [Channels.getChannelId, hT]
  refine ⟨h, ?_⟩
  unfold ChanneledSocketConnection.channeled_send
  rw [h]

/-- Witness of C37: with the type `6` alone registered, a message of the type `9` is sent
on a stream that holds `1, 2`; the call ends with `BadChannelException` and the stream
still holds `1, 2`. -/
theorem channeled_send_unregistered_writes_nothing_witness :
    ChanneledSocketConnection.channeled_send Pipe.api (fun _ => 2)
        (Channels.initial.registerAll (fun _ => 2) [6]) 5 { socket_descriptor := 3 } 9 [7, 8]
        { wire := [1, 2], send_chunks := [], recv_chunks := [] }
      = some (Outcome.raise { wire := [1, 2], send_chunks := [], recv_chunks := [] }
          Exception.BadChannelException) :=
  (channeled_send_unregistered_writes_nothing Pipe.api (fun _ => 2)
    (Channels.initial.registerAll (fun _ => 2) [6]) 5 { socket_descriptor := 3 } 9 [7, 8]
    { wire := [1, 2], send_chunks := [], recv_chunks := [] } rfl).2

theorem Map.erase_of_not_mem {κ ν : Type} [DecidableEq κ] (m : Map κ ν) (k : κ)
    (h : k ∉ m.keys) : m.erase k = m := by
  induction m with
  | nil => rfl
  | cons e m ih =>
    obtain ⟨a, b⟩ := e
    simp only [Map.keys, List.map_cons, List.mem_cons, not_or] at h
    have h1 : ¬ a = k := fun h3 => h.1 h3.symm
    simp only [Map.erase, h1, if_false]
    exact congrArg _ (ih h.2)

theorem Map.assign_of_find {κ ν : Type} [DecidableEq κ] (m : Map κ ν) (k : κ) (v : ν)
    (h : m.find k = some v) : m.assign k v = m := by
  induction m with
  | nil => simp [Map.find] at h
  | cons e m ih =>
    obtain ⟨a, b⟩ := e
    simp only [Map.find] at h
    by_cases hk : a = k
    · rw [if_pos hk] at h
      simp only [Option.some.injEq] at h
      simp [Map.assign, hk, h]
    · rw [if_neg hk] at h
      simp only [Map.assign, hk, if_false]
      exact congrArg _ (ih h)

/-- C38: `unsubscribe<T>(id)` of what is not subscribed.  For a registered type `T`: when
the table has no entry for `T`'s channel the call ends with `std::out_of_range` and the
table as it was; when the entry exists (with its callbacks) and `id` is not one of its
subscriptions the call returns normally and the table is as it was, the entry and every
callback in place. -/
theorem unsubscribe_of_unknown_subscription (channels : Channels)
    (table : ChannelSubscribable) (T : TypeIndex) (id : SUBSCRIPTION_ID) (ch : CHANNEL_ID)
    (hT : channels.getChannelId T = Except.ok ch) :
    (table.subscriptions.find ch = none →
      table.unsubscribe channels T id = Outcome.raise table Exception.out_of_range) ∧
    (∀ entry : ChannelSubscription, table.subscriptions.find ch = some entry →
      entry.subscriptions ≠ [] → id ∉ entry.subscriptions.keys →
      table.unsubscribe channels T id = Outcome.ok table ()) := by
  constructor
  · intro hnone
    simp [ChannelSubscribable.unsubscribe, hT, hnone]
  · intro entry hentry hne hid
    rw [ChannelSubscribable.unsubscribe_of_entry channels table T id ch entry hT hentry,
      Map.erase_of_not_mem _ _ hid, if_neg (fun h => hne (List.length_eq_zero.1 h))]
    have hsame : ({ entry with subscriptions := entry.subscriptions } : ChannelSubscription)
        = entry := rfl
    rw [hsame, Map.assign_of_find _ _ _ hentry]

/-- Witness of C38: with the type `6` registered on channel `0`, `unsubscribe<6>(0)` on an
empty table ends with `std::out_of_range`; on a table whose entry for channel `0` holds the
subscription `1` alone, `unsubscribe<6>(0)` returns and the table is as it was. -/
theorem unsubscribe_of_unknown_subscription_witness :
    ({ subscriptions := [] } : ChannelSubscribable).unsubscribe
        (Channels.initial.registerAll (fun _ => 2) [6]) 6 0
      = Outcome.raise { subscriptions := [] } Exception.out_of_range ∧
    ({ subscriptions :=
          [(0, { subscription_type := 6, subscription_counter := 2,
                 subscriptions := [(1, 12)] })] } : ChannelSubscribable).unsubscribe
        (Channels.initial.registerAll (fun _ => 2) [6]) 6 0
      = Outcome.ok
          { subscriptions :=
              [(0, { subscription_type := 6, subscription_counter := 2,
                     subscriptions := [(1, 12)] })] } () :=
  ⟨(unsubscribe_of_unknown_subscription (Channels.initial.registerAll (fun _ => 2) [6])
      { subscriptions := [] } 6 0 0 rfl).1 rfl,
    (unsubscribe_of_unknown_subscription (Channels.initial.registerAll (fun _ => 2) [6])
      { subscriptions :=
          [(0, { subscription_type := 6, subscription_counter := 2,
                 subscriptions := [(1, 12)] })] } 6 0 0 rfl).2
      { subscription_type := 6, subscription_counter := 2, subscriptions := [(1, 12)] }
      rfl (by simp) (by decide)⟩

/-! ## The dispatch of `Server::poll` and foreign entries in `Client::poll` -/

theorem Server.dispatch_result_of_status {ω W : Type} (api : SocketApi W)
    (hooks : ServerHooks ω W) (e : SocketCollectionEntry) (st : Server ω × W)
    (hstatus : e.status ≠ SocketStatus.SOCKET_STATUS_NORMAL)
    (h1 : ∀ st, (hooks.handle_server_connection_error st).result = Except.ok ())
    (h2 : ∀ st, (hooks.handle_server_disconnect st).result = Except.ok ())
    (h3 : ∀ client st, (hooks.handle_client_error client st).result = Except.ok ())
    (h4 : ∀ client st, (hooks.handle_client_disconnect client st).result = Except.ok ()) :
    (Server.dispatch api hooks e st).result = Except.ok () := by
  unfold Server.dispatch
  cases hs : e.status with
  | SOCKET_STATUS_NORMAL => exact absurd hs hstatus
  | SOCKET_STATUS_DISCONNECT =>
    by_cases hc : e.connection = st.1.server_connection
    · simp [hc, h2 st]
    · simp [hc, h4 e.connection st]
  | SOCKET_STATUS_ERROR =>
    by_cases hc : e.connection = st.1.server_connection
    · simp [hc, h1 st]
    · simp [hc, h3 e.connection st]

theorem Server.poll_loop_no_error {ω W : Type} (api : SocketApi W) (hooks : ServerHooks ω W)
    (ready : List SocketCollectionEntry) (st : Server ω × W)
    (hstatus : ∀ e ∈ ready, e.status ≠ SocketStatus.SOCKET_STATUS_NORMAL)
    (h1 : ∀ st, (hooks.handle_server_connection_error st).result = Except.ok ())
    (h2 : ∀ st, (hooks.handle_server_disconnect st).result = Except.ok ())
    (h3 : ∀ client st, (hooks.handle_client_error client st).result = Except.ok ())
    (h4 : ∀ client st, (hooks.handle_client_disconnect client st).result = Except.ok ()) :
    ∃ b, (Server.poll_loop api hooks ready st).result = Except.ok b := by
  induction ready generalizing st with
  | nil => exact ⟨true, rfl⟩
  | cons e rest ih =>
    rw [Server.poll_loop_cons]
    by_cases hd : st.1.state = ServerState.DESTRUCTING
    · rw [if_pos hd]
      exact ⟨false, rfl⟩
    · rw [if_neg hd]
      rcases Outcome.ok_or_raise (Server.dispatch api hooks e st) with ⟨s1, a, h⟩ | ⟨s1, err, h⟩
      · rw [h, Outcome.andThen_ok]
        exact ih s1 fun x hx => hstatus x (List.mem_cons_of_mem e hx)
      · have hr := Server.dispatch_result_of_status api hooks e st
          (hstatus e (List.mem_cons_self e rest)) h1 h2 h3 h4
        rw [h] at hr
        cases hr

/-- C36: the dispatch table of `Server::poll`.  In a turn of the loop whose checkpoint is
passed, exactly one handler is called, chosen by the entry: for the listening handle,
`handle_server_connection_error` (status error), `handle_server_disconnect` (status
disconnect), `handle_connection_request` (status normal); for another handle, with that
handle, `handle_client_error`, `handle_client_disconnect`, `handle_ready_to_read`; then the
loop goes on with the next entry.  `poll()` of a server in `SERVE` with a ready set that is
not empty is this loop.  When the four error and disconnect hooks return normally, a ready
set of error and disconnect entries never makes `poll()` end with an exception. -/
theorem server_poll_dispatch_table {ω W : Type} (api : SocketApi W) (hooks : ServerHooks ω W)
    (st : Server ω × W) (connection : SocketConnection_p) (rest : List SocketCollectionEntry)
    (halive : st.1.state ≠ ServerState.DESTRUCTING) :
    (connection = st.1.server_connection →
      Server.poll_loop api hooks
          ({ connection := connection, status := SocketStatus.SOCKET_STATUS_ERROR } :: rest) st
        = (hooks.handle_server_connection_error st).andThen
            (fun _ st1 => Server.poll_loop api hooks rest st1) ∧
      Server.poll_loop api hooks
          ({ connection := connection, status := SocketStatus.SOCKET_STATUS_DISCONNECT } ::
            rest) st
        = (hooks.handle_server_disconnect st).andThen
            (fun _ st1 => Server.poll_loop api hooks rest st1) ∧
      Server.poll_loop api hooks
          ({ connection := connection, status := SocketStatus.SOCKET_STATUS_NORMAL } :: rest)
          st
        = (Server.handle_connection_request api hooks st).andThen
            (fun _ st1 => Server.poll_loop api hooks rest st1)) ∧
    (connection ≠ st.1.server_connection →
      Server.poll_loop api hooks
          ({ connection := connection, status := SocketStatus.SOCKET_STATUS_ERROR } :: rest) st
        = (hooks.handle_client_error connection st).andThen
            (fun _ st1 => Server.poll_loop api hooks rest st1) ∧
      Server.poll_loop api hooks
          ({ connection := connection, status := SocketStatus.SOCKET_STATUS_DISCONNECT } ::
            rest) st
        = (hooks.handle_client_disconnect connection st).andThen
            (fun _ st1 => Server.poll_loop api hooks rest st1) ∧
      Server.poll_loop api hooks
          ({ connection := connection, status := SocketStatus.SOCKET_STATUS_NORMAL } :: rest)
          st
        = (hooks.handle_ready_to_read connection st).andThen
            (fun _ st1 => Server.poll_loop api hooks rest st1)) ∧
    (∀ (during_wait : Server ω → Server ω) (ready : List SocketCollectionEntry),
      st.1.state = ServerState.SERVE →
      (PollService.poll api st.1.poll_service st.2).result = Except.ok ready → ready ≠ [] →
      Server.poll api hooks during_wait st
        = Server.poll_loop api hooks ready
            (during_wait
              { st.1 with
                poll_service := (PollService.poll api st.1.poll_service st.2).state.1 },
              (PollService.poll api st.1.poll_service st.2).state.2)) ∧
    (∀ ready : List SocketCollectionEntry,
      (∀ e ∈ ready, e.status ≠ SocketStatus.SOCKET_STATUS_NORMAL) →
      (∀ st, (hooks.handle_server_connection_error st).result = Except.ok ()) →
      (∀ st, (hooks.handle_server_disconnect st).result = Except.ok ()) →
      (∀ client st, (hooks.handle_client_error client st).result = Except.ok ()) →
      (∀ client st, (hooks.handle_client_disconnect client st).result = Except.ok ()) →
      ∃ b, (Server.poll_loop api hooks ready st).result = Except.ok b) := by
  refine ⟨?_, ?_, ?_, ?_⟩
  · intro hc
    refine ⟨?_, ?_, ?_⟩ <;> simp [Server.poll_loop, hc, halive]
  · intro hc
    refine ⟨?_, ?_, ?_⟩ <;> simp [Server.poll_loop, hc, halive]
  · intro during_wait ready hs hready hne
    obtain ⟨s, w⟩ := st
    rw [Server.poll_of_ready api hooks during_wait s w ready hs hready,
      if_neg (by simpa using hne)]
  · intro ready hstatus h1 h2 h3 h4
    exact Server.poll_loop_no_error api hooks ready st hstatus h1 h2 h3 h4

/-- Witness of C36: a serving channeled server tracks its listening handle `3` and the
peers `5` and `7`; the poll reports an error of `5` and a hang-up of `7`.  `poll()` returns
`true` and the user has written down `handle_channeledclient_error` of `5`, then
`handleClientDisconnect` of `7`. -/
theorem server_poll_dispatch_table_witness :
    (Server.poll Scripted.api
        (ChanneledServer.hooks Scripted.api Channels.initial ChanneledServerHooks.recording) id
        ({ Server.new "0.0.0.0" "9876" 5 50
              ({ subscribable := { subscriptions := [] }, user := [] } :
                Channeled (List HookCall)) with
            state := ServerState.SERVE
            server_connection := some { socket_descriptor := 3 }
            poll_service :=
              (((PollService.new 50).add_socket { socket_descriptor := 3 }).add_socket
                { socket_descriptor := 5 }).add_socket { socket_descriptor := 7 } },
          { Scripted.quiet with polled := [(2, [0, POLLERR, POLLHUP])] })).result
      = Except.ok true ∧
    (Server.poll Scripted.api
        (ChanneledServer.hooks Scripted.api Channels.initial ChanneledServerHooks.recording) id
        ({ Server.new "0.0.0.0" "9876" 5 50
              ({ subscribable := { subscriptions := [] }, user := [] } :
                Channeled (List HookCall)) with
            state := ServerState.SERVE
            server_connection := some { socket_descriptor := 3 }
            poll_service :=
              (((PollService.new 50).add_socket { socket_descriptor := 3 }).add_socket
                { socket_descriptor := 5 }).add_socket { socket_descriptor := 7 } },
          { Scripted.quiet with polled := [(2, [0, POLLERR, POLLHUP])] })).state.1.derived.user
      = [HookCall.handle_channeledclient_error (some { socket_descriptor := 5 }),
         HookCall.handleClientDisconnect (some { socket_descriptor := 7 })] :=
  ⟨(((server_poll_dispatch_table Scripted.api
      (ChanneledServer.hooks Scripted.api Channels.initial ChanneledServerHooks.recording)
      ({ Server.new "0.0.0.0" "9876" 5 50
            ({ subscribable := { subscriptions := [] }, user := [] } :
              Channeled (List HookCall)) with
          state := ServerState.SERVE
          server_connection := some { socket_descriptor := 3 }
          poll_service :=
            (((PollService.new 50).add_socket { socket_descriptor := 3 }).add_socket
              { socket_descriptor := 5 }).add_socket { socket_descriptor := 7 } },
        { Scripted.quiet with polled := [(2, [0, POLLERR, POLLHUP])] })
      (some { socket_descriptor := 5 }) [] (by decide)).2.2.1 id
      [{ connection := some { socket_descriptor := 5 },
         status := SocketStatus.SOCKET_STATUS_ERROR },
       { connection := some { socket_descriptor := 7 },
         status := SocketStatus.SOCKET_STATUS_DISCONNECT }] rfl rfl (by simp)) ▸ rfl :
      (Server.poll Scripted.api
        (ChanneledServer.hooks Scripted.api Channels.initial ChanneledServerHooks.recording) id
        ({ Server.new "0.0.0.0" "9876" 5 50
              ({ subscribable := { subscriptions := [] }, user := [] } :
                Channeled (List HookCall)) with
            state := ServerState.SERVE
            server_connection := some { socket_descriptor := 3 }
            poll_service :=
              (((PollService.new 50).add_socket { socket_descriptor := 3 }).add_socket
                { socket_descriptor := 5 }).add_socket { socket_descriptor := 7 } },
          { Scripted.quiet with polled := [(2, [0, POLLERR, POLLHUP])] })).result
      = Except.ok true),
    rfl⟩

/-- C31: foreign entries in `Client::poll`.  In the loop of `Client::poll` an entry whose
handle is not the client's own connection ends the call with
`InvalidSocketPollException`, whatever the hooks are: none is called for that entry or for
a later one.  This holds for the first entry of the ready set and for an entry reached
after the turns for the entries before it have returned; `poll()` of a client in
`CLIENT_CONNECTED` with a ready set that is not empty is this loop. -/
theorem client_poll_rejects_foreign_entry {ω W : Type} (api : SocketApi W)
    (hooks : ClientHooks ω W) :
    (∀ (e : SocketCollectionEntry) (rest : List SocketCollectionEntry) (st : Client ω × W),
      e.connection ≠ st.1.connection →
      Client.poll_loop hooks (e :: rest) st
        = Outcome.raise st Exception.InvalidSocketPollException) ∧
    (∀ (first rest : List SocketCollectionEntry) (e : SocketCollectionEntry)
        (st st1 : Client ω × W),
      Client.poll_loop hooks first st = Outcome.ok st1 true →
      e.connection ≠ st1.1.connection →
      Client.poll_loop hooks (first ++ e :: rest) st
        = Outcome.raise st1 Exception.InvalidSocketPollException) ∧
    (∀ (during_wait : Client ω → Client ω) (c : Client ω) (w : W)
        (ready : List SocketCollectionEntry),
      c.state = ClientState.CLIENT_CONNECTED →
      (PollService.poll api c.poll_service w).result = Except.ok ready → ready ≠ [] →
      Client.poll api hooks during_wait (c, w)
        = Client.poll_loop hooks ready
            (during_wait
              { c with poll_service := (PollService.poll api c.poll_service w).state.1 },
              (PollService.poll api c.poll_service w).state.2)) ∧
    (∀ (during_wait : Client ω → Client ω) (c : Client ω) (w : W)
        (e : SocketCollectionEntry) (rest : List SocketCollectionEntry),
      c.state = ClientState.CLIENT_CONNECTED →
      (PollService.poll api c.poll_service w).result = Except.ok (e :: rest) →
      e.connection
        ≠ (during_wait
            { c with
              poll_service := (PollService.poll api c.poll_service w).state.1 }).connection →
      Client.poll api hooks during_wait (c, w)
        = Outcome.raise
            (during_wait
              { c with poll_service := (PollService.poll api c.poll_service w).state.1 },
              (PollService.poll api c.poll_service w).state.2)
            Exception.InvalidSocketPollException) := by
  have hfirst : ∀ (e : SocketCollectionEntry) (rest : List SocketCollectionEntry)
      (st : Client ω × W), e.connection ≠ st.1.connection →
      Client.poll_loop hooks (e :: rest) st
        = Outcome.raise st Exception.InvalidSocketPollException := by
    intro e rest st h
    rw [Client.poll_loop_step, if_neg h]
  have hpoll : ∀ (during_wait : Client ω → Client ω) (c : Client ω) (w : W)
      (ready : List SocketCollectionEntry),
      c.state = ClientState.CLIENT_CONNECTED →
      (PollService.poll api c.poll_service w).result = Except.ok ready → ready ≠ [] →
      Client.poll api hooks during_wait (c, w)
        = Client.poll_loop hooks ready
            (during_wait
              { c with poll_service := (PollService.poll api c.poll_service w).state.1 },
              (PollService.poll api c.poll_service w).state.2) := by
    intro during_wait c w ready hc hready hne
    rw [Client.poll_of_ready_set api hooks during_wait c w ready hc hready,
      if_neg (by simpa using hne)]
  refine ⟨hfirst, ?_, hpoll, ?_⟩
  · intro first rest e st st1 h hne
    rw [Client.poll_loop_concat hooks first (e :: rest) st st1 h]
    exact hfirst e rest st1 hne
  · intro during_wait c w e rest hc hready hne
    rw [hpoll during_wait c w (e :: rest) hc hready (by simp)]
    exact hfirst e rest _ hne

/-- Witness of C31: a connected channeled client owns the connection `3`, and its poll
service also tracks `5`, for which the poll returns `POLLIN`; `poll()` ends with
`InvalidSocketPollException`, the byte in store is not read and the user has written down
nothing. -/
theorem client_poll_rejects_foreign_entry_witness :
    Client.poll Scripted.api
        (ChanneledClient.hooks Scripted.api Channels.initial ChanneledClientHooks.recording) id
        ({ Client.new 50
              ({ subscribable := { subscriptions := [] }, user := [] } :
                Channeled (List HookCall)) with
            state := ClientState.CLIENT_CONNECTED
            connection := some { socket_descriptor := 3 }
            poll_service :=
              ((PollService.new 50).add_socket { socket_descriptor := 3 }).add_socket
                { socket_descriptor := 5 } },
          { Scripted.quiet with polled := [(1, [0, POLLIN])], received := [some [9]] })
      = Outcome.raise
          ({ Client.new 50
                ({ subscribable := { subscriptions := [] }, user := [] } :
                  Channeled (List HookCall)) with
              state := ClientState.CLIENT_CONNECTED
              connection := some { socket_descriptor := 3 }
              poll_service :=
                (PollService.poll Scripted.api
                  (((PollService.new 50).add_socket { socket_descriptor := 3 }).add_socket
                    { socket_descriptor := 5 })
                  { Scripted.quiet with
                    polled := [(1, [0, POLLIN])], received := [some [9]] }).state.1 },
            { Scripted.quiet with received := [some [9]] })
          Exception.InvalidSocketPollException :=
  (client_poll_rejects_foreign_entry Scripted.api
    (ChanneledClient.hooks Scripted.api Channels.initial
      ChanneledClientHooks.recording)).2.2.2 id
    { Client.new 50
          ({ subscribable := { subscriptions := [] }, user := [] } :
            Channeled (List HookCall)) with
        state := ClientState.CLIENT_CONNECTED
        connection := some { socket_descriptor := 3 }
        poll_service :=
          ((PollService.new 50).add_socket { socket_descriptor := 3 }).add_socket
            { socket_descriptor := 5 } }
    { Scripted.quiet with polled := [(1, [0, POLLIN])], received := [some [9]] }
    { connection := some { socket_descriptor := 5 },
      status := SocketStatus.SOCKET_STATUS_NORMAL } [] rfl rfl (by decide)

/-! ## Subscription ids -/

theorem ChannelSubscribable.subscribe_wellFormed (channels : Channels)
    (self : ChannelSubscribable) (T : TypeIndex) (callback : Callback)
    (hwf : self.WellFormed) : (self.subscribe channels T callback).state.WellFormed := by
  cases hT : channels.getChannelId T with
  | error err =>
    have hst : self.subscribe channels T callback = Outcome.raise self err := by
      simp [ChannelSubscribable.subscribe, hT]
    rw [hst]
    exact hwf
  | ok ch =>
    obtain ⟨entry, hst, hsubs, -⟩ :=
      ChannelSubscribable.subscribe_of_channel channels self T callback ch hT
    rw [hst]
    refine ⟨Map.nodup_keys_assign _ _ _ hwf.1, ?_⟩
    intro ch' e' hfind
    simp only [Outcome.state_ok] at hfind
    rw [Map.find_assign] at hfind
    by_cases hc : ch = ch'
    · rw [if_pos hc] at hfind
      cases hfind
      rw [hsubs]
      exact ⟨Map.assign_ne_nil _ _ _, Map.nodup_keys_assign _ _ _ (hwf.subscribed_nodup ch)⟩
    · rw [if_neg hc] at hfind
      exact hwf.2 ch' e' hfind

theorem SubscriptionCall.apply_wellFormed (channels : Channels) (call : SubscriptionCall)
    (table : ChannelSubscribable) (hwf : table.WellFormed) :
    (call.apply channels table).WellFormed := by
  cases call with
  | subscribe T callback =>
    exact ChannelSubscribable.subscribe_wellFormed channels table T callback hwf
  | unsubscribe T id => exact ChannelSubscribable.unsubscribe_wellFormed channels table T id hwf

theorem ChannelSubscribable.next_id_subscribe (channels : Channels)
    (self : ChannelSubscribable) (T : TypeIndex) (callback : Callback) (ch : CHANNEL_ID) :
    (self.subscribe channels T callback).state.next_id ch = self.next_id ch ∨
    (self.subscribe channels T callback).state.next_id ch
      = (self.next_id ch + 1) % SUBSCRIPTION_ID_RANGE := by
  cases hT : channels.getChannelId T with
  | error err =>
    left
    have hst : self.subscribe channels T callback = Outcome.raise self err := by
      simp [ChannelSubscribable.subscribe, hT]
    rw [hst]
    rfl
  | ok ch' =>
    by_cases hc : ch' = ch
    · right
      subst hc
      exact (ChannelSubscribable.subscribed_subscribe channels self T callback ch' hT).2.2
    · left
      obtain ⟨entry, hst, -, -⟩ :=
        ChannelSubscribable.subscribe_of_channel channels self T callback ch' hT
      rw [hst]
      simp only [Outcome.state_ok, ChannelSubscribable.next_id]
      rw [Map.find_assign, if_neg hc]

theorem ChannelSubscribable.next_id_unsubscribe (channels : Channels)
    (self : ChannelSubscribable) (T : TypeIndex) (id : SUBSCRIPTION_ID) (ch : CHANNEL_ID)
    (hwf : self.WellFormed)
    (hkept : (self.unsubscribe channels T id).state.subscriptions.find ch ≠ none) :
    (self.unsubscribe channels T id).state.next_id ch = self.next_id ch := by
  cases hT : channels.getChannelId T with
  | error err =>
    have hst : self.unsubscribe channels T id = Outcome.raise self err := by
      simp [ChannelSubscribable.unsubscribe, hT]
    rw [hst]
    rfl
  | ok ch' =>
    cases hfind : self.subscriptions.find ch' with
    | none =>
      have hst : self.unsubscribe channels T id
          = Outcome.raise self Exception.out_of_range := by
        simp [ChannelSubscribable.unsubscribe, hT, hfind]
      rw [hst]
      rfl
    | some e =>
      have hun := ChannelSubscribable.unsubscribe_of_entry channels self T id ch' e hT hfind
      rw [hun] at hkept ⊢
      simp only [Outcome.state_ok] at hkept ⊢
      have hassign := Map.nodup_keys_assign self.subscriptions ch'
        { e with subscriptions := e.subscriptions.erase id } hwf.1
      by_cases hlen : (e.subscriptions.erase id).length = 0
      · rw [if_pos hlen] at hkept ⊢
        simp only [ChannelSubscribable.next_id]
        simp only [] at hkept
        rw [Map.find_erase _ _ _ hassign] at hkept ⊢
        by_cases hc : ch' = ch
        · rw [if_pos hc] at hkept
          exact absurd rfl hkept
        · rw [if_neg hc, Map.find_assign, if_neg hc]
      · rw [if_neg hlen]
        simp only [ChannelSubscribable.next_id]
        rw [Map.find_assign]
        by_cases hc : ch' = ch
        · rw [if_pos hc, ← hc, hfind]
        · rw [if_neg hc]

theorem SubscriptionCall.next_id_apply_all (channels : Channels) (ch : CHANNEL_ID)
    (calls : List SubscriptionCall) (table : ChannelSubscribable) (hwf : table.WellFormed)
    (hkept : SubscriptionCall.entry_kept channels ch calls table = true)
    (hstart : table.next_id ch < SUBSCRIPTION_ID_RANGE) :
    ∃ j, j ≤ calls.length ∧
      (SubscriptionCall.apply_all channels calls table).next_id ch
        = (table.next_id ch + j) % SUBSCRIPTION_ID_RANGE := by
  induction calls generalizing table with
  | nil =>
    refine ⟨0, le_refl _, ?_⟩
    simp only [SubscriptionCall.apply_all, Nat.add_zero]
    exact (Nat.mod_eq_of_lt hstart).symm
  | cons call rest ih =>
    simp only [SubscriptionCall.entry_kept, Bool.and_eq_true] at hkept
    have hwf2 := SubscriptionCall.apply_wellFormed channels call table hwf
    have hstep : (call.apply channels table).next_id ch = table.next_id ch ∨
        (call.apply channels table).next_id ch
          = (table.next_id ch + 1) % SUBSCRIPTION_ID_RANGE := by
      cases call with
      | subscribe T callback =>
        exact ChannelSubscribable.next_id_subscribe channels table T callback ch
      | unsubscribe T id =>
        left
        refine ChannelSubscribable.next_id_unsubscribe channels table T id ch hwf ?_
        intro hnone
        have h1 := hkept.1
        simp only [SubscriptionCall.apply] at h1
        rw [hnone] at h1
        cases h1
    have hstart2 : (call.apply channels table).next_id ch < SUBSCRIPTION_ID_RANGE := by
      rcases hstep with h | h
      · rw [h]
        exact hstart
      · rw [h]
        exact Nat.mod_lt _ (by decide)
    obtain ⟨j, hj, heq⟩ := ih _ hwf2 hkept.2 hstart2
    rw [SubscriptionCall.apply_all, heq]
    rcases hstep with h | h
    · exact ⟨j, by simp only [List.length_cons]; omega, by rw [h]⟩
    · refine ⟨j + 1, by simp only [List.length_cons]; omega, ?_⟩
      rw [h]
      simp only [SUBSCRIPTION_ID_RANGE, SUBSCRIPTION_ID]
      omega

/-- C34 as stated fails: with the type `6` registered on channel `0`, `subscribe<6>(11)` on
a new endpoint returns the id `0`; `unsubscribe<6>(0)` removes the last callback and with
it the entry and its counter; `subscribe<6>(12)` then returns the id `0` again, and the id
held from the first subscription designates the callback `12`. -/
theorem subscription_id_reused_after_entry_removed :
    (({ subscriptions := [] } : ChannelSubscribable).subscribe
        (Channels.initial.registerAll (fun _ => 2) [6]) 6 11).result = Except.ok 0 ∧
    ((({ subscriptions := [] } : ChannelSubscribable).subscribe
        (Channels.initial.registerAll (fun _ => 2) [6]) 6 11).state.unsubscribe
        (Channels.initial.registerAll (fun _ => 2) [6]) 6 0)
      = Outcome.ok { subscriptions := [] } () ∧
    (({ subscriptions := [] } : ChannelSubscribable).subscribe
        (Channels.initial.registerAll (fun _ => 2) [6]) 6 12)
      = Outcome.ok
          { subscriptions :=
              [(0, { subscription_type := 6, subscription_counter := 1,
                     subscriptions := [(0, 12)] })] } 0 :=
  ⟨rfl, rfl, rfl⟩

/-- C34 (amended): subscription ids are distinct while the entry lives.  On a well-formed
table, let `subscribe<T>` return an id, and let fewer than `2^32 - 1` calls of `subscribe`
and `unsubscribe` (for any types) follow, after each of which the table has an entry for
`T`'s channel; then the next `subscribe<T>` returns an id different from the first. -/
theorem subscription_ids_distinct_while_entry_kept (channels : Channels)
    (table : ChannelSubscribable) (T : TypeIndex) (cb1 cb2 : Callback) (ch : CHANNEL_ID)
    (calls : List SubscriptionCall)
    (hT : channels.getChannelId T = Except.ok ch) (hwf : table.WellFormed)
    (hkept : SubscriptionCall.entry_kept channels ch calls
      (table.subscribe channels T cb1).state = true)
    (hlen : calls.length + 1 < SUBSCRIPTION_ID_RANGE) :
    ∃ id1 id2 : SUBSCRIPTION_ID,
      (table.subscribe channels T cb1).result = Except.ok id1 ∧
      ((SubscriptionCall.apply_all channels calls
        (table.subscribe channels T cb1).state).subscribe channels T cb2).result
          = Except.ok id2 ∧
      id1 ≠ id2 := by
  obtain ⟨hr1, -, hnext1⟩ := ChannelSubscribable.subscribed_subscribe channels table T cb1 ch hT
  have hwf1 := ChannelSubscribable.subscribe_wellFormed channels table T cb1 hwf
  obtain ⟨j, hj, hnext⟩ := SubscriptionCall.next_id_apply_all channels ch calls _ hwf1 hkept
    (by rw [hnext1]; exact Nat.mod_lt _ (by decide))
  obtain ⟨hr2, -, -⟩ := ChannelSubscribable.subscribed_subscribe channels
    (SubscriptionCall.apply_all channels calls (table.subscribe channels T cb1).state) T cb2
    ch hT
  refine ⟨_, _, hr1, hr2, ?_⟩
  rw [hnext, hnext1]
  simp only [SUBSCRIPTION_ID_RANGE, SUBSCRIPTION_ID] at *
  omega

/-- Witness of C34 (amended): with the type `6` registered on channel `0`, a new endpoint
subscribes `11` (id `0`), subscribes `12`, unsubscribes `0` and subscribes `13`, which
returns the id `2`. -/
theorem subscription_ids_distinct_while_entry_kept_witness :
    ((SubscriptionCall.apply_all (Channels.initial.registerAll (fun _ => 2) [6])
        [SubscriptionCall.subscribe 6 12, SubscriptionCall.unsubscribe 6 0]
        (({ subscriptions := [] } : ChannelSubscribable).subscribe
          (Channels.initial.registerAll (fun _ => 2) [6]) 6 11).state).subscribe
        (Channels.initial.registerAll (fun _ => 2) [6]) 6 13).result = Except.ok 2 ∧
    ∃ id1 id2 : SUBSCRIPTION_ID,
      (({ subscriptions := [] } : ChannelSubscribable).subscribe
        (Channels.initial.registerAll (fun _ => 2) [6]) 6 11).result = Except.ok id1 ∧
      ((SubscriptionCall.apply_all (Channels.initial.registerAll (fun _ => 2) [6])
        [SubscriptionCall.subscribe 6 12, SubscriptionCall.unsubscribe 6 0]
        (({ subscriptions := [] } : ChannelSubscribable).subscribe
          (Channels.initial.registerAll (fun _ => 2) [6]) 6 11).state).subscribe
        (Channels.initial.registerAll (fun _ => 2) [6]) 6 13).result = Except.ok id2 ∧
      id1 ≠ id2 :=
  ⟨rfl,
    subscription_ids_distinct_while_entry_kept (Channels.initial.registerAll (fun _ => 2) [6])
      { subscriptions := [] } 6 11 13 0
      [SubscriptionCall.subscribe 6 12, SubscriptionCall.unsubscribe 6 0] rfl
      ChannelSubscribable.empty_invariant.1 rfl (by decide)⟩

/-! ## `SocketConnection::send` and `SocketConnection::receive` -/

theorem SocketConnection.send_loop_handed {W : Type} (api : SocketApi W)
    (handed : W → List NETWORK_BYTE) (self : SocketConnection) (bytes : List NETWORK_BYTE)
    (hos : ∀ fd buffer w, (api.socket_send fd buffer w).1 = SOCKET_ERROR ∨
      (0 ≤ (api.socket_send fd buffer w).1 ∧
        (api.socket_send fd buffer w).1.toNat ≤ buffer.length ∧
        handed (api.socket_send fd buffer w).2
          = handed w ++ buffer.take (api.socket_send fd buffer w).1.toNat))
    (fuel : Nat) :
    ∀ (sent : NETWORK_BYTE_SIZE) (w w1 : W), sent ≤ bytes.length →
      SocketConnection.send_loop api self bytes bytes.length fuel sent w
        = some (Outcome.ok w1 ()) →
      handed w1 = handed w ++ bytes.drop sent := by
  induction fuel with
  | zero =>
    intro sent w w1 hsent h
    simp only [SocketConnection.send_loop] at h
    split_ifs at h with hlt
    simp only [Option.some.injEq, Outcome.ok, Outcome.mk.injEq] at h
    have hs : sent = bytes.length := by
      simp only [NETWORK_BYTE_SIZE] at *
      omega
    rw [← h.1, hs]
    simp
  | succ fuel ih =>
    intro sent w w1 hsent h
    rw [SocketConnection.send_loop] at h
    by_cases hlt : sent < bytes.length
    · rw [if_pos hlt] at h
      simp only [] at h
      have hbuf : (bytes.drop sent).take (bytes.length - sent) = bytes.drop sent := by
        rw [List.take_of_length_le]
        simp
      rw [hbuf] at h
      rcases hos self.socket_descriptor (bytes.drop sent) w with herr | ⟨h0, hle, hh⟩
      · rw [if_pos herr] at h
        simp [Outcome.ok, Outcome.raise] at h
      · by_cases herr : (api.socket_send self.socket_descriptor (bytes.drop sent) w).1
            = SOCKET_ERROR
        · rw [if_pos herr] at h
          simp [Outcome.ok, Outcome.raise] at h
        · rw [if_neg herr] at h
          have hle2 : sent
              + (api.socket_send self.socket_descriptor (bytes.drop sent) w).1.toNat
                ≤ bytes.length := by
            rw [List.length_drop] at hle
            simp only [NETWORK_BYTE_SIZE] at *
            omega
          rw [ih _ _ w1 hle2 h, hh, List.append_assoc]
          congr 1
          rw [← List.drop_drop, List.take_append_drop]
    · rw [if_neg hlt] at h
      simp only [Option.some.injEq, Outcome.ok, Outcome.mk.injEq] at h
      have hs : sent = bytes.length := by
        simp only [NETWORK_BYTE_SIZE] at *
        omega
      rw [← h.1, hs]
      simp

theorem SocketConnection.send_loop_raise {W : Type} (api : SocketApi W)
    (self : SocketConnection) (bytes : List NETWORK_BYTE) (num_bytes : NETWORK_BYTE_SIZE)
    (fuel : Nat) :
    ∀ (sent : NETWORK_BYTE_SIZE) (w w1 : W) (e : Exception),
      SocketConnection.send_loop api self bytes num_bytes fuel sent w
        = some (Outcome.raise w1 e) →
      e = Exception.SendException := by
  induction fuel with
  | zero =>
    intro sent w w1 e h
    simp only [SocketConnection.send_loop] at h
    split_ifs at h
    simp [Outcome.ok, Outcome.raise] at h
  | succ fuel ih =>
    intro sent w w1 e h
    rw [SocketConnection.send_loop] at h
    by_cases h1 : sent < num_bytes
    · rw [if_pos h1] at h
      simp only [] at h
      by_cases h2 : (api.socket_send self.socket_descriptor
          ((bytes.drop sent).take (num_bytes - sent)) w).1 = SOCKET_ERROR
      · rw [if_pos h2] at h
        simp only [Option.some.injEq, Outcome.raise, Outcome.mk.injEq, Except.error.injEq] at h
        exact h.2.symm
      · rw [if_neg h2] at h
        exact ih _ _ w1 e h
    · rw [if_neg h1] at h
      simp [Outcome.ok, Outcome.raise] at h

theorem SocketConnection.send_loop_returns {W : Type} (api : SocketApi W)
    (self : SocketConnection) (bytes : List NETWORK_BYTE) (num_bytes : NETWORK_BYTE_SIZE)
    (hprogress : ∀ fd buffer w, buffer ≠ [] →
      (api.socket_send fd buffer w).1 = SOCKET_ERROR ∨ 0 < (api.socket_send fd buffer w).1)
    (hlen : num_bytes ≤ bytes.length) (fuel : Nat) :
    ∀ (sent : NETWORK_BYTE_SIZE) (w : W), num_bytes - sent ≤ fuel →
      (SocketConnection.send_loop api self bytes num_bytes fuel sent w).isSome = true := by
  induction fuel with
  | zero =>
    intro sent w hfuel
    simp only [SocketConnection.send_loop]
    rw [if_neg]
    · rfl
    · simp only [NETWORK_BYTE_SIZE] at *
      omega
  | succ fuel ih =>
    intro sent w hfuel
    rw [SocketConnection.send_loop]
    by_cases hlt : sent < num_bytes
    · rw [if_pos hlt]
      simp only []
      have hne : (bytes.drop sent).take (num_bytes - sent) ≠ [] := by
        intro hnil
        have hl := congrArg List.length hnil
        simp only [List.length_take, List.length_drop, List.length_nil] at hl
        simp only [NETWORK_BYTE_SIZE] at *
        omega
      rcases hprogress self.socket_descriptor _ w hne with herr | hpos
      · rw [if_pos herr]
        rfl
      · by_cases herr : (api.socket_send self.socket_descriptor
            ((bytes.drop sent).take (num_bytes - sent)) w).1 = SOCKET_ERROR
        · rw [if_pos herr]
          rfl
        · rw [if_neg herr]
          apply ih
          simp only [NETWORK_BYTE_SIZE] at *
          omega
    · rw [if_neg hlt]
      rfl

theorem Outbox.contract (fd : SOCKET) (buffer : List NETWORK_BYTE) (o : Outbox) :
    (Outbox.api.socket_send fd buffer o).1 = SOCKET_ERROR ∨
    (0 ≤ (Outbox.api.socket_send fd buffer o).1 ∧
      (Outbox.api.socket_send fd buffer o).1.toNat ≤ buffer.length ∧
      (Outbox.api.socket_send fd buffer o).2.handed
        = o.handed ++ buffer.take (Outbox.api.socket_send fd buffer o).1.toNat) := by
  show (Outbox.socket_send fd buffer o).1 = SOCKET_ERROR ∨ _
  show _ ∨ (0 ≤ (Outbox.socket_send fd buffer o).1 ∧
    (Outbox.socket_send fd buffer o).1.toNat ≤ buffer.length ∧
    (Outbox.socket_send fd buffer o).2.handed
      = o.handed ++ buffer.take (Outbox.socket_send fd buffer o).1.toNat)
  unfold Outbox.socket_send
  cases o.answers with
  | nil =>
    right
    simp
  | cons a rest =>
    by_cases ha : a < 0
    · left
      simp [ha]
    · right
      simp only [ha, if_false]
      have hk : ((min a.toNat buffer.length : Nat) : Int).toNat = min a.toNat buffer.length :=
        Int.toNat_ofNat _
      rw [hk]
      exact ⟨Int.ofNat_nonneg _, Nat.min_le_right _ _, rfl⟩

/-- C32: `SocketConnection::send` is all-or-throw.  Let the system's `send` either report
an error or take a number of bytes from the front of what it is offered, and let `handed`
be the bytes the system has taken so far.  For every buffer: when `send` returns normally
the bytes handed to the system during the call are exactly the buffer, in order; the only
exception that leaves `send` is `SendException`, and it does at the first call of the
system that reports an error; and when every call that does not fail takes one byte at
least, `send` ends (fuel of the buffer's length is enough). -/
theorem send_all_or_throw {W : Type} (api : SocketApi W) (handed : W → List NETWORK_BYTE)
    (self : SocketConnection) (bytes : List NETWORK_BYTE)
    (hos : ∀ fd buffer w, (api.socket_send fd buffer w).1 = SOCKET_ERROR ∨
      (0 ≤ (api.socket_send fd buffer w).1 ∧
        (api.socket_send fd buffer w).1.toNat ≤ buffer.length ∧
        handed (api.socket_send fd buffer w).2
          = handed w ++ buffer.take (api.socket_send fd buffer w).1.toNat)) :
    (∀ (fuel : Nat) (w w1 : W),
      SocketConnection.send api fuel self bytes bytes.length w = some (Outcome.ok w1 ()) →
      handed w1 = handed w ++ bytes) ∧
    (∀ (fuel : Nat) (w w1 : W) (e : Exception),
      SocketConnection.send api fuel self bytes bytes.length w = some (Outcome.raise w1 e) →
      e = Exception.SendException) ∧
    (∀ (fuel : Nat) (sent : NETWORK_BYTE_SIZE) (w : W), sent < bytes.length →
      (api.socket_send self.socket_descriptor
        ((bytes.drop sent).take (bytes.length - sent)) w).1 = SOCKET_ERROR →
      SocketConnection.send_loop api self bytes bytes.length (fuel + 1) sent w
        = some (Outcome.raise
            (api.socket_send self.socket_descriptor
              ((bytes.drop sent).take (bytes.length - sent)) w).2
            Exception.SendException)) ∧
    ((∀ fd buffer w, buffer ≠ [] →
        (api.socket_send fd buffer w).1 = SOCKET_ERROR ∨ 0 < (api.socket_send fd buffer w).1) →
      ∀ (fuel : Nat) (w : W), bytes.length ≤ fuel →
        (SocketConnection.send api fuel self bytes bytes.length w).isSome = true) := by
  refine ⟨?_, ?_, ?_, ?_⟩
  · intro fuel w w1 h
    have := SocketConnection.send_loop_handed api handed self bytes hos fuel 0 w w1
      (Nat.zero_le _) h
    simpa using this
  · intro fuel w w1 e h
    exact SocketConnection.send_loop_raise api self bytes bytes.length fuel 0 w w1 e h
  · intro fuel sent w hlt herr
    rw [SocketConnection.send_loop, if_pos hlt]
    simp only []
    rw [if_pos herr]
  · intro hprogress fuel w hfuel
    exact SocketConnection.send_loop_returns api self bytes bytes.length hprogress (le_refl _)
      fuel 0 w (by simpa using hfuel)

/-- Witness of C32: on a system that takes one byte, then none, then two, then the rest,
the buffer `1, 2, 3, 4` is sent after the byte `9`: the system has been handed
`9, 1, 2, 3, 4`.  On a system that takes two bytes and then fails, `send` ends with
`SendException`. -/
theorem send_all_or_throw_witness :
    Outbox.handed { answers := [], handed := [9, 1, 2, 3, 4] } = [9] ++ [1, 2, 3, 4] ∧
    SocketConnection.send Outbox.api 10 { socket_descriptor := 3 } [1, 2, 3, 4] 4
        { answers := [1, 0, 2], handed := [9] }
      = some (Outcome.ok { answers := [], handed := [9, 1, 2, 3, 4] } ()) ∧
    SocketConnection.send Outbox.api 10 { socket_descriptor := 3 } [1, 2, 3, 4] 4
        { answers := [2, -1], handed := [] }
      = some (Outcome.raise { answers := [], handed := [1, 2] } Exception.SendException) :=
  ⟨(send_all_or_throw Outbox.api Outbox.handed { socket_descriptor := 3 } [1, 2, 3, 4]
      Outbox.contract).1 10 { answers := [1, 0, 2], handed := [9] }
      { answers := [], handed := [9, 1, 2, 3, 4] } rfl,
    rfl, rfl⟩

theorem SocketConnection.receive_loop_stream {W : Type} (api : SocketApi W)
    (stream : W → List NETWORK_BYTE) (self : SocketConnection)
    (num_bytes : NETWORK_BYTE_SIZE)
    (hos : ∀ fd len w chunk, (api.recv fd len w).1 = some chunk →
      chunk.length ≤ len ∧ stream w = chunk ++ stream (api.recv fd len w).2)
    (fuel : Nat) :
    ∀ (buffer : List NETWORK_BYTE) (w w1 : W) (flag : Bool) (buf : List NETWORK_BYTE),
      SocketConnection.receive_loop api self num_bytes fuel buffer w
        = Outcome.ok w1 (flag, buf) →
      (∃ arrived, buf = buffer ++ arrived ∧ stream w = arrived ++ stream w1) ∧
      (flag = false → ∃ w2 len, 0 < len ∧
        (api.recv self.socket_descriptor len w2).1 = some [] ∧
        (api.recv self.socket_descriptor len w2).2 = w1) := by
  induction fuel with
  | zero =>
    intro buffer w w1 flag buf h
    simp only [SocketConnection.receive_loop, Outcome.ok, Outcome.mk.injEq, Except.ok.injEq,
      Prod.mk.injEq] at h
    obtain ⟨hw, hflag, hbuf⟩ := h
    refine ⟨⟨[], by simp [hbuf], by simp [hw]⟩, ?_⟩
    intro hf
    rw [← hflag] at hf
    cases hf
  | succ fuel ih =>
    intro buffer w w1 flag buf h
    rw [SocketConnection.receive_loop] at h
    by_cases hlt : buffer.length < num_bytes
    · rw [if_pos hlt] at h
      simp only [] at h
      cases hr : (api.recv self.socket_descriptor (num_bytes - buffer.length) w).1 with
      | none =>
        rw [hr] at h
        simp [Outcome.ok, Outcome.raise] at h
      | some stored =>
        rw [hr] at h
        simp only [] at h
        obtain ⟨hle, hstream⟩ := hos _ _ _ stored hr
        have htake : stored.take (num_bytes - buffer.length) = stored :=
          List.take_of_length_le hle
        rw [htake] at h
        by_cases hzero : stored.length = 0
        · rw [if_pos hzero] at h
          simp only [Outcome.ok, Outcome.mk.injEq, Except.ok.injEq, Prod.mk.injEq] at h
          obtain ⟨hw, hflag, hbuf⟩ := h
          have hnil : stored = [] := List.length_eq_zero.1 hzero
          refine ⟨⟨[], by simp [hbuf], ?_⟩, ?_⟩
          · rw [hstream, hnil, hw]
          · intro _
            refine ⟨w, num_bytes - buffer.length, ?_, ?_, hw⟩
            · simp only [NETWORK_BYTE_SIZE] at *
              omega
            · rw [hr, hnil]
        · rw [if_neg hzero] at h
          obtain ⟨⟨arrived, h1, h2⟩, h3⟩ := ih _ _ w1 flag buf h
          refine ⟨⟨stored ++ arrived, ?_, ?_⟩, h3⟩
          · rw [h1, List.append_assoc]
          · rw [hstream, h2, List.append_assoc]
    · rw [if_neg hlt] at h
      simp only [Outcome.ok, Outcome.mk.injEq, Except.ok.injEq, Prod.mk.injEq] at h
      obtain ⟨hw, hflag, hbuf⟩ := h
      refine ⟨⟨[], by simp [hbuf], by simp [hw]⟩, ?_⟩
      intro hf
      rw [← hflag] at hf
      cases hf

theorem SocketConnection.receive_loop_raise {W : Type} (api : SocketApi W)
    (self : SocketConnection) (num_bytes : NETWORK_BYTE_SIZE) (fuel : Nat) :
    ∀ (buffer : List NETWORK_BYTE) (w w1 : W) (e : Exception),
      SocketConnection.receive_loop api self num_bytes fuel buffer w = Outcome.raise w1 e →
      e = Exception.ReceiveException ∧
      ∃ w2 len, (api.recv self.socket_descriptor len w2).1 = none ∧
        (api.recv self.socket_descriptor len w2).2 = w1 := by
  induction fuel with
  | zero =>
    intro buffer w w1 e h
    simp [SocketConnection.receive_loop, Outcome.ok, Outcome.raise] at h
  | succ fuel ih =>
    intro buffer w w1 e h
    rw [SocketConnection.receive_loop] at h
    by_cases hlt : buffer.length < num_bytes
    · rw [if_pos hlt] at h
      simp only [] at h
      cases hr : (api.recv self.socket_descriptor (num_bytes - buffer.length) w).1 with
      | none =>
        rw [hr] at h
        simp only [Outcome.raise, Outcome.mk.injEq, Except.error.injEq] at h
        exact ⟨h.2.symm, w, _, hr, h.1⟩
      | some stored =>
        rw [hr] at h
        simp only [] at h
        by_cases hzero : (stored.take (num_bytes - buffer.length)).length = 0
        · rw [if_pos hzero] at h
          simp [Outcome.ok, Outcome.raise] at h
        · rw [if_neg hzero] at h
          exact ih _ _ w1 e h
    · rw [if_neg hlt] at h
      simp [Outcome.ok, Outcome.raise] at h

theorem Pipe.recv_contract (fd : SOCKET) (len : NETWORK_BYTE_SIZE) (p : Pipe)
    (chunk : List NETWORK_BYTE) (h : (Pipe.api.recv fd len p).1 = some chunk) :
    chunk.length ≤ len ∧ p.wire = chunk ++ (Pipe.api.recv fd len p).2.wire := by
  rw [Pipe.api_recv] at h ⊢
  simp only [Pipe.recv, Option.some.injEq] at h ⊢
  rw [← h]
  have hg := Pipe.grant_le p.recv_chunks (min len p.wire.length)
  refine ⟨?_, (List.take_append_drop _ _).symm⟩
  rw [List.length_take]
  simp only [NETWORK_BYTE_SIZE] at *
  omega

/-- C33: `SocketConnection::receive(buffer, n)`.  Let the system's `recv` either report an
error or deliver the next bytes of the incoming stream, at most those asked for.  The call
returns `true` exactly with `n` bytes in the buffer, which are the first `n` bytes of the
stream in their order, however the reads were cut; it returns `false` with fewer than `n`
bytes, after a read of zero bytes (the shutdown of the peer); and the only exception that
leaves it is `ReceiveException`, after a `recv` that reported an error.  In the loop, a
`recv` that reports an error throws, and one that delivers nothing returns `false`. -/
theorem receive_true_iff_all_bytes {W : Type} (api : SocketApi W)
    (stream : W → List NETWORK_BYTE) (self : SocketConnection)
    (num_bytes : NETWORK_BYTE_SIZE) (w : W)
    (hos : ∀ fd len w chunk, (api.recv fd len w).1 = some chunk →
      chunk.length ≤ len ∧ stream w = chunk ++ stream (api.recv fd len w).2) :
    (∀ (w1 : W) (buf : List NETWORK_BYTE),
      SocketConnection.receive api self num_bytes w = Outcome.ok w1 (true, buf) →
      buf.length = num_bytes ∧ stream w = buf ++ stream w1) ∧
    (∀ (w1 : W) (buf : List NETWORK_BYTE),
      SocketConnection.receive api self num_bytes w = Outcome.ok w1 (false, buf) →
      buf.length < num_bytes ∧ stream w = buf ++ stream w1 ∧
      ∃ w2 len, 0 < len ∧ (api.recv self.socket_descriptor len w2).1 = some [] ∧
        (api.recv self.socket_descriptor len w2).2 = w1) ∧
    (∀ (w1 : W) (e : Exception),
      SocketConnection.receive api self num_bytes w = Outcome.raise w1 e →
      e = Exception.ReceiveException ∧
      ∃ w2 len, (api.recv self.socket_descriptor len w2).1 = none ∧
        (api.recv self.socket_descriptor len w2).2 = w1) ∧
    (∀ (fuel : Nat) (buffer : List NETWORK_BYTE) (w0 : W), buffer.length < num_bytes →
      ((api.recv self.socket_descriptor (num_bytes - buffer.length) w0).1 = none →
        SocketConnection.receive_loop api self num_bytes (fuel + 1) buffer w0
          = Outcome.raise (api.recv self.socket_descriptor (num_bytes - buffer.length) w0).2
              Exception.ReceiveException) ∧
      ((api.recv self.socket_descriptor (num_bytes - buffer.length) w0).1 = some [] →
        SocketConnection.receive_loop api self num_bytes (fuel + 1) buffer w0
          = Outcome.ok (api.recv self.socket_descriptor (num_bytes - buffer.length) w0).2
              (false, buffer))) := by
  refine ⟨?_, ?_, ?_, ?_⟩
  · intro w1 buf h
    obtain ⟨⟨arrived, h1, h2⟩, -⟩ := SocketConnection.receive_loop_stream api stream self
      num_bytes hos num_bytes [] w w1 true buf h
    have hlen := (SocketConnection.receive_length api self num_bytes w true buf
      (by rw [h]; rfl)).1 rfl
    rw [List.nil_append] at h1
    exact ⟨hlen, by rw [h1, h2]⟩
  · intro w1 buf h
    obtain ⟨⟨arrived, h1, h2⟩, h3⟩ := SocketConnection.receive_loop_stream api stream self
      num_bytes hos num_bytes [] w w1 false buf h
    have hlen := (SocketConnection.receive_length api self num_bytes w false buf
      (by rw [h]; rfl)).2 rfl
    rw [List.nil_append] at h1
    exact ⟨hlen, by rw [h1, h2], h3 rfl⟩
  · intro w1 e h
    exact SocketConnection.receive_loop_raise api self num_bytes num_bytes [] w w1 e h
  · intro fuel buffer w0 hlt
    constructor
    · intro hnone
      rw [SocketConnection.receive_loop, if_pos hlt]
      simp only []
      rw [hnone]
    · intro hzero
      rw [SocketConnection.receive_loop, if_pos hlt]
      simp only []
      rw [hzero]
      simp

/-- Witness of C33: on a stream that holds `1, 2, 3, 4, 5` and is read one byte, then two
bytes, then the rest at a time, `receive` of four bytes returns `true` with `1, 2, 3, 4`
and leaves `5`; on a stream that ends after `1, 2` it returns `false`; and when the second
`recv` reports an error it ends with `ReceiveException`. -/
theorem receive_true_iff_all_bytes_witness :
    ([1, 2, 3, 4].length = 4 ∧
      Pipe.wire { wire := [1, 2, 3, 4, 5], send_chunks := [], recv_chunks := [0, 1] }
        = [1, 2, 3, 4] ++ Pipe.wire { wire := [5], send_chunks := [], recv_chunks := [] }) ∧
    SocketConnection.receive Pipe.api { socket_descriptor := 3 } 4
        { wire := [1, 2, 3, 4, 5], send_chunks := [], recv_chunks := [0, 1] }
      = Outcome.ok { wire := [5], send_chunks := [], recv_chunks := [] } (true, [1, 2, 3, 4]) ∧
    SocketConnection.receive Pipe.api { socket_descriptor := 3 } 4
        { wire := [1, 2], send_chunks := [], recv_chunks := [] }
      = Outcome.ok { wire := [], send_chunks := [], recv_chunks := [] } (false, [1, 2]) ∧
    SocketConnection.receive Scripted.api { socket_descriptor := 3 } 4
        { Scripted.quiet with received := [some [1], none] }
      = Outcome.raise Scripted.quiet Exception.ReceiveException :=
  ⟨(receive_true_iff_all_bytes Pipe.api Pipe.wire { socket_descriptor := 3 } 4
      { wire := [1, 2, 3, 4, 5], send_chunks := [], recv_chunks := [0, 1] }
      Pipe.recv_contract).1
      { wire := [5], send_chunks := [], recv_chunks := [] } [1, 2, 3, 4] rfl,
    rfl, rfl, rfl⟩

/-! ## Adding a tracked descriptor a second time -/

theorem Map.keys_assign_of_mem {κ ν : Type} [DecidableEq κ] (m : Map κ ν) (k : κ) (v : ν)
    (h : k ∈ m.keys) : (m.assign k v).keys = m.keys := by
  induction m with
  | nil => simp [Map.keys] at h
  | cons e m ih =>
    obtain ⟨a, b⟩ := e
    by_cases hk : a = k
    · simp [Map.assign, Map.keys, hk]
    · simp only [Map.keys, List.map_cons, List.mem_cons] at h
      have hmem : k ∈ Map.keys m := by
        rcases h with h | h
        · exact absurd h.symm hk
        · exact h
      simp only [Map.assign, hk, if_false, Map.keys, List.map_cons, List.cons.injEq, true_and]
      exact ih hmem

theorem Map.erase_assign {κ ν : Type} [DecidableEq κ] (m : Map κ ν) (k : κ) (v : ν) :
    (m.assign k v).erase k = m.erase k := by
  induction m with
  | nil => simp [Map.assign, Map.erase]
  | cons e m ih =>
    obtain ⟨a, b⟩ := e
    by_cases hk : a = k
    · simp [Map.assign, Map.erase, hk]
    · simp only [Map.assign, Map.erase, hk, if_false]
      exact congrArg _ ih

theorem PollService.find_set_index (m : Map SOCKET (Int × SocketConnection_p)) (fd k : SOCKET)
    (i : Int) :
    ((PollService.set_index m fd i).find k).map Prod.snd
      = if fd = k then some ((m.find fd).map Prod.snd).join else (m.find k).map Prod.snd := by
  unfold PollService.set_index
  cases hf : m.find fd with
  | none =>
    simp only [Map.find_assign]
    by_cases hk : fd = k <;> simp [hk]
  | some info =>
    simp only [Map.find_assign]
    by_cases hk : fd = k <;> simp [hk]

theorem PollService.find_renumber (todo : List POLL_DESCRIPTOR) (i : Int)
    (m : Map SOCKET (Int × SocketConnection_p)) (k : SOCKET) :
    ((PollService.renumber todo i m).find k).map Prod.snd
      = if k ∈ todo.map (fun d => d.fd) then some ((m.find k).map Prod.snd).join
        else (m.find k).map Prod.snd := by
  induction todo generalizing i m with
  | nil => simp [PollService.renumber]
  | cons d t ih =>
    rw [PollService.renumber, ih, PollService.find_set_index]
    by_cases hd : d.fd = k
    · subst hd
      by_cases ht : d.fd ∈ t.map (fun d => d.fd)
      · simp [ht]
      · simp [ht]
    · have hd2 : ¬ k = d.fd := fun h => hd h.symm
      by_cases ht : k ∈ t.map (fun d => d.fd)
      · rw [if_pos ht, if_neg hd, if_pos (by simp only [List.map_cons, List.mem_cons]; exact Or.inr ht)]
      · rw [if_neg ht, if_neg hd, if_neg (by
          simp only [List.map_cons, List.mem_cons, not_or]
          exact ⟨hd2, ht⟩)]

theorem PollService.Consistent.find_of_split {ps : PollService} (h : ps.Consistent)
    (pre rest : List POLL_DESCRIPTOR) (d : POLL_DESCRIPTOR)
    (hsplit : ps.descriptors = pre ++ d :: rest) :
    ps.poll_descriptor_map.find d.fd
      = some ((pre.length : Int), some { socket_descriptor := d.fd }) := by
  have hnodup := h.1
  rw [hsplit] at hnodup
  simp only [List.map_append, List.map_cons] at hnodup
  rw [List.nodup_append] at hnodup
  have hpre : d.fd ∉ (PollService.table_of 0 pre).keys := by
    rw [PollService.table_of_keys]
    intro hmem
    exact hnodup.2.2 hmem (List.mem_cons_self _ _)
  rw [h.2, hsplit, PollService.table_of_append, Map.find_append_of_not_mem _ _ _ hpre]
  simp [PollService.table_of, Map.find]

theorem PollService.Consistent.find_of_mem {ps : PollService} (h : ps.Consistent)
    (x : POLL_DESCRIPTOR) (hx : x ∈ ps.descriptors) :
    ∃ i, ps.poll_descriptor_map.find x.fd = some (i, some { socket_descriptor := x.fd }) := by
  obtain ⟨pre, rest, hsplit⟩ := List.append_of_mem hx
  exact ⟨_, h.find_of_split pre rest x hsplit⟩

theorem PollService.remove_after_add (ps : PollService) (s : SocketConnection) :
    (ps.add_socket s).remove_socket s
      = { ps with poll_descriptor_map := ps.poll_descriptor_map.erase s.socket_descriptor } := by
  have hfind : (ps.add_socket s).poll_descriptor_map.find s.socket_descriptor
      = some ((ps.descriptors.length : Int), some s) := by
    simp only [PollService.add_socket]
    rw [Map.find_assign, if_pos rfl]
    simp
  unfold PollService.remove_socket
  rw [hfind]
  simp only [Int.toNat_ofNat]
  have hd : (ps.add_socket s).descriptors.eraseIdx ps.descriptors.length = ps.descriptors := by
    simp only [PollService.add_socket]
    rw [List.eraseIdx_append_of_length_le (le_refl _)]
    simp
  rw [hd, List.drop_length]
  simp only [PollService.renumber, PollService.add_socket]
  rw [Map.erase_assign]

theorem PollService.poll_loop_null_handle (table : Map SOCKET (Int × SocketConnection_p))
    (fd : SOCKET) (todo : List POLL_DESCRIPTOR)
    (hnull : ∃ i, table.find fd = some (i, none))
    (hothers : ∀ y ∈ todo, y.fd ≠ fd → ∀ i, table.find y.fd ≠ some (i, none))
    (hmem : ∃ x ∈ todo, x.fd = fd)
    (hready : ∀ x ∈ todo, x.fd = fd →
      x.revents &&& (POLLIN ||| POLLERR ||| POLLNVAL ||| POLLHUP) ≠ 0) :
    ∀ acc : SocketCollection,
      (PollService.poll_loop table todo acc).result
        = Except.error Exception.InvalidSocketConnectionException := by
  induction todo with
  | nil =>
    obtain ⟨x, hx, -⟩ := hmem
    cases hx
  | cons y t ih =>
    intro acc
    obtain ⟨i, hi⟩ := hnull
    rw [PollService.poll_loop]
    by_cases hy : y.fd = fd
    · rw [if_pos (hready y (List.mem_cons_self y t) hy), hy, hi]
      simp [Outcome.raise]
    · have hmem2 : ∃ x ∈ t, x.fd = fd := by
        obtain ⟨x, hx, hxfd⟩ := hmem
        rcases List.mem_cons.1 hx with h | h
        · rw [h] at hxfd
          exact absurd hxfd hy
        · exact ⟨x, h, hxfd⟩
      have ih2 := ih (fun z hz => hothers z (List.mem_cons_of_mem y hz)) hmem2
        (fun z hz => hready z (List.mem_cons_of_mem y hz))
      by_cases hb : y.revents &&& (POLLIN ||| POLLERR ||| POLLNVAL ||| POLLHUP) ≠ 0
      · rw [if_pos hb]
        cases hf : table.find y.fd with
        | none => exact ih2 acc
        | some info =>
          obtain ⟨j, handle⟩ := info
          simp only []
          cases handle with
          | none => exact absurd hf (hothers y (List.mem_cons_self y t) hy j)
          | some c =>
            simp only [reduceCtorEq, if_false]
            exact ih2 _
      · rw [if_neg hb]
        exact ih2 acc

theorem PollService.Consistent.nodup_keys {ps : PollService} (h : ps.Consistent) :
    ps.poll_descriptor_map.keys.Nodup := by
  rw [h.2, PollService.table_of_keys]
  exact h.1

theorem PollService.remove_lower_after_duplicate (ps : PollService) (s t : SocketConnection)
    (pre1 pre2 post : List POLL_DESCRIPTOR) (dt d : POLL_DESCRIPTOR)
    (hcons : ps.Consistent)
    (hsplit : ps.descriptors = pre1 ++ dt :: (pre2 ++ d :: post))
    (hd : d.fd = s.socket_descriptor) (hdt : dt.fd = t.socket_descriptor) :
    ((ps.add_socket s).remove_socket s).remove_socket t
      = { ps with
          descriptors := pre1 ++ (pre2 ++ d :: post)
          poll_descriptor_map :=
            PollService.renumber (pre2 ++ d :: post) pre1.length
              ((ps.poll_descriptor_map.erase s.socket_descriptor).erase t.socket_descriptor) } := by
  have hnodup := hcons.1
  rw [hsplit] at hnodup
  simp only [List.map_append, List.map_cons] at hnodup
  have hne : s.socket_descriptor ≠ t.socket_descriptor := by
    rw [← hd, ← hdt]
    intro heq
    rw [List.nodup_append] at hnodup
    have h2 := hnodup.2.1
    rw [List.nodup_cons] at h2
    apply h2.1
    rw [← heq]
    simp
  have hfind : (ps.poll_descriptor_map.erase s.socket_descriptor).find t.socket_descriptor
      = some ((pre1.length : Int), some { socket_descriptor := dt.fd }) := by
    rw [Map.find_erase _ _ _ hcons.nodup_keys, if_neg hne, ← hdt]
    exact hcons.find_of_split pre1 _ dt hsplit
  rw [PollService.remove_after_add]
  unfold PollService.remove_socket
  simp only [hfind, Int.toNat_ofNat, hsplit]
  have h1 : (pre1 ++ dt :: (pre2 ++ d :: post)).eraseIdx pre1.length
      = pre1 ++ (pre2 ++ d :: post) := by
    rw [List.eraseIdx_append_of_length_le (le_refl _)]
    simp
  rw [h1]
  have h2 : (pre1 ++ (pre2 ++ d :: post)).drop pre1.length = pre2 ++ d :: post := by
    simp
  rw [h2]

/-- Claim C39: `add_socket` of a handle whose descriptor the poll service already tracks
appends a second descriptor (two in the list, one entry in the table); one `remove_socket`
of that handle then leaves the descriptor list as it was before the second `add_socket`,
with the descriptor in it and no table entry for it; a later `remove_socket` of a handle
at a lower position makes a table entry for that descriptor with a null connection; and
after that a `poll` in which the system reports a ready event for that descriptor ends
with `InvalidSocketConnectionException`. -/
theorem duplicate_add_breaks_correspondence {W : Type} (api : SocketApi W) (ps : PollService)
    (s t : SocketConnection) (pre1 pre2 post : List POLL_DESCRIPTOR) (dt d : POLL_DESCRIPTOR)
    (hcons : ps.Consistent)
    (hsplit : ps.descriptors = pre1 ++ dt :: (pre2 ++ d :: post))
    (hd : d.fd = s.socket_descriptor) (hdt : dt.fd = t.socket_descriptor) :
    ((ps.add_socket s).descriptors
        = ps.descriptors ++ [{ fd := s.socket_descriptor, events := POLLIN, revents := 0 }] ∧
      ((ps.add_socket s).descriptors.map fun x => x.fd).count s.socket_descriptor = 2 ∧
      (ps.add_socket s).poll_descriptor_map.keys.count s.socket_descriptor = 1) ∧
    (((ps.add_socket s).remove_socket s).descriptors = ps.descriptors ∧
      s.socket_descriptor ∈ ((ps.add_socket s).remove_socket s).descriptors.map (fun x => x.fd) ∧
      ((ps.add_socket s).remove_socket s).poll_descriptor_map.find s.socket_descriptor = none ∧
      ¬ ((ps.add_socket s).remove_socket s).Consistent) ∧
    ((((ps.add_socket s).remove_socket s).remove_socket t).descriptors
        = pre1 ++ (pre2 ++ d :: post) ∧
      ∃ i, (((ps.add_socket s).remove_socket s).remove_socket t).poll_descriptor_map.find
        s.socket_descriptor = some (i, none)) ∧
    ∀ w : W,
      0 < (api.socket_poll (((ps.add_socket s).remove_socket s).remove_socket t).descriptors
        (((ps.add_socket s).remove_socket s).remove_socket t).timeout w).1.1 →
      (∀ x ∈ (PollService.poll api (((ps.add_socket s).remove_socket s).remove_socket t)
          w).state.1.descriptors,
        x.fd = s.socket_descriptor →
          x.revents &&& (POLLIN ||| POLLERR ||| POLLNVAL ||| POLLHUP) ≠ 0) →
      (PollService.poll api (((ps.add_socket s).remove_socket s).remove_socket t) w).result
        = Except.error Exception.InvalidSocketConnectionException := by
  have hnodup := hcons.1
  have hkeys := hcons.nodup_keys
  have hmem : s.socket_descriptor ∈ ps.descriptors.map (fun x => x.fd) := by
    rw [hsplit, ← hd]
    simp
  have hmemk : s.socket_descriptor ∈ ps.poll_descriptor_map.keys := by
    rw [hcons.2, PollService.table_of_keys]
    exact hmem
  have hnone : (ps.poll_descriptor_map.erase s.socket_descriptor).find s.socket_descriptor
      = none := by
    rw [Map.find_erase _ _ _ hkeys, if_pos rfl]
  have hne : s.socket_descriptor ≠ t.socket_descriptor := by
    have h := hnodup
    rw [hsplit] at h
    simp only [List.map_append, List.map_cons] at h
    rw [← hd, ← hdt]
    intro heq
    rw [List.nodup_append] at h
    have h2 := h.2.1
    rw [List.nodup_cons] at h2
    apply h2.1
    rw [← heq]
    simp
  have hnone2 : ((ps.poll_descriptor_map.erase s.socket_descriptor).erase
      t.socket_descriptor).find s.socket_descriptor = none := by
    rw [Map.find_erase _ _ _ (Map.nodup_keys_erase _ _ hkeys), hnone]
    simp
  have hfinal := PollService.remove_lower_after_duplicate ps s t pre1 pre2 post dt d hcons
    hsplit hd hdt
  have hsfd : s.socket_descriptor ∈ (pre2 ++ d :: post).map (fun x => x.fd) := by
    rw [← hd]
    simp
  have hentry : ∃ i, (PollService.renumber (pre2 ++ d :: post) pre1.length
      ((ps.poll_descriptor_map.erase s.socket_descriptor).erase t.socket_descriptor)).find
        s.socket_descriptor = some (i, none) := by
    have h := PollService.find_renumber (pre2 ++ d :: post) pre1.length
      ((ps.poll_descriptor_map.erase s.socket_descriptor).erase t.socket_descriptor)
      s.socket_descriptor
    rw [if_pos hsfd, hnone2] at h
    cases hf : (PollService.renumber (pre2 ++ d :: post) pre1.length
      ((ps.poll_descriptor_map.erase s.socket_descriptor).erase t.socket_descriptor)).find
        s.socket_descriptor with
    | none =>
      rw [hf] at h
      simp at h
    | some info =>
      obtain ⟨i, handle⟩ := info
      rw [hf] at h
      simp only [Option.map_some', Option.map_none', Option.join, Option.some.injEq] at h
      exact ⟨i, by rw [h]; rfl⟩
  refine ⟨⟨rfl, ?_, ?_⟩, ⟨?_, ?_, ?_, ?_⟩, ⟨?_, ?_⟩, ?_⟩
  · simp only [PollService.add_socket, List.map_append, List.map_cons, List.map_nil,
      List.count_append]
    rw [List.count_eq_one_of_mem hnodup hmem]
    simp
  · simp only [PollService.add_socket]
    rw [Map.keys_assign_of_mem _ _ _ hmemk]
    exact List.count_eq_one_of_mem hkeys hmemk
  · rw [PollService.remove_after_add]
  · rw [PollService.remove_after_add]
    exact hmem
  · rw [PollService.remove_after_add]
    exact hnone
  · rw [PollService.remove_after_add]
    intro hc
    have h := hc.2
    simp only at h
    have hk : s.socket_descriptor ∈ (PollService.table_of 0 ps.descriptors).keys := by
      rw [PollService.table_of_keys]
      exact hmem
    rw [← h] at hk
    exact (Map.find_eq_none_iff _ _).1 hnone hk
  · rw [hfinal]
  · rw [hfinal]
    exact hentry
  · intro w hpos hready
    rw [hfinal] at hpos hready ⊢
    have hnes : (api.socket_poll (pre1 ++ (pre2 ++ d :: post)) ps.timeout w).1.1
        ≠ SOCKET_ERROR := by
      simp only [SOCKET_ERROR]
      simp only at hpos
      omega
    rw [PollService.poll_state_descriptors] at hready
    simp only at hready hpos
    unfold PollService.poll
    simp only []
    rw [if_neg hnes, if_pos hpos]
    simp only []
    rw [PollService.poll_loop_null_handle _ s.socket_descriptor _ hentry ?_ ?_ hready]
    · rfl
    · intro y hy hyfd i
      have hyfds : y.fd ∈ (pre1 ++ (pre2 ++ d :: post)).map (fun x => x.fd) := by
        rw [← PollService.set_revents_fds (pre1 ++ (pre2 ++ d :: post))
          (api.socket_poll (pre1 ++ (pre2 ++ d :: post)) ps.timeout w).1.2]
        exact List.mem_map_of_mem _ hy
      obtain ⟨x, hx, hxfd⟩ := List.mem_map.1 hyfds
      have hxps : x ∈ ps.descriptors := by
        rw [hsplit]
        simp only [List.mem_append, List.mem_cons] at hx ⊢
        tauto
      obtain ⟨j, hj⟩ := hcons.find_of_mem x hxps
      have hyt : t.socket_descriptor ≠ y.fd := by
        rw [← hdt, ← hxfd]
        intro heq
        have h := hnodup
        rw [hsplit] at h
        simp only [List.map_append, List.map_cons] at h
        rw [List.nodup_append] at h
        have h2 := h.2.1
        rw [List.nodup_cons] at h2
        rcases List.mem_append.1 hx with hx | hx
        · exact h.2.2 (List.mem_map_of_mem _ hx) (by rw [← heq]; simp)
        · apply h2.1
          rw [heq]
          have hin := List.mem_map_of_mem (fun d : POLL_DESCRIPTOR => d.fd) hx
          simpa using hin
      have hm : ((ps.poll_descriptor_map.erase s.socket_descriptor).erase
          t.socket_descriptor).find y.fd = some (j, some { socket_descriptor := x.fd }) := by
        rw [Map.find_erase _ _ _ (Map.nodup_keys_erase _ _ hkeys), if_neg hyt,
          Map.find_erase _ _ _ hkeys, if_neg (fun h => hyfd h.symm), ← hxfd]
        exact hj
      have h := PollService.find_renumber (pre2 ++ d :: post) pre1.length
        ((ps.poll_descriptor_map.erase s.socket_descriptor).erase t.socket_descriptor) y.fd
      rw [hm] at h
      intro hbad
      rw [hbad] at h
      by_cases hin : y.fd ∈ (pre2 ++ d :: post).map (fun x => x.fd)
      · rw [if_pos hin] at h
        simp [Option.join] at h
      · rw [if_neg hin] at h
        simp at h
    · obtain ⟨x, hx, hxfd⟩ : ∃ x ∈ PollService.set_revents (pre1 ++ (pre2 ++ d :: post))
          (api.socket_poll (pre1 ++ (pre2 ++ d :: post)) ps.timeout w).1.2,
          x.fd = s.socket_descriptor := by
        have hin : s.socket_descriptor ∈ (PollService.set_revents (pre1 ++ (pre2 ++ d :: post))
            (api.socket_poll (pre1 ++ (pre2 ++ d :: post)) ps.timeout w).1.2).map
              (fun x => x.fd) := by
          rw [PollService.set_revents_fds, ← hd]
          simp
        obtain ⟨x, hx, hxfd⟩ := List.mem_map.1 hin
        exact ⟨x, hx, hxfd⟩
      exact ⟨x, hx, hxfd⟩

/-- Witness for C39: the handles `7`, `9`, `5` are added, then `5` again; `5` is removed
once and then `7`; the system reports a readable event for the second of the two
descriptors left, and `poll` ends with `InvalidSocketConnectionException`. -/
theorem duplicate_add_breaks_correspondence_witness :
    ((((PollService.new 50).add_socket { socket_descriptor := 7 }).add_socket
      { socket_descriptor := 9 }).add_socket { socket_descriptor := 5 }).Consistent ∧
    ((((((PollService.new 50).add_socket { socket_descriptor := 7 }).add_socket
      { socket_descriptor := 9 }).add_socket { socket_descriptor := 5 }).add_socket
      { socket_descriptor := 5 }).remove_socket { socket_descriptor := 5 }).descriptors.map
        (fun x => x.fd) = [7, 9, 5] ∧
    ((((((PollService.new 50).add_socket { socket_descriptor := 7 }).add_socket
      { socket_descriptor := 9 }).add_socket { socket_descriptor := 5 }).add_socket
      { socket_descriptor := 5 }).remove_socket { socket_descriptor := 5 }).poll_descriptor_map.keys
        = [7, 9] ∧
    (PollService.poll Scripted.api
        (((((((PollService.new 50).add_socket { socket_descriptor := 7 }).add_socket
          { socket_descriptor := 9 }).add_socket { socket_descriptor := 5 }).add_socket
          { socket_descriptor := 5 }).remove_socket { socket_descriptor := 5 }).remove_socket
          { socket_descriptor := 7 })
        { Scripted.quiet with polled := [(1, [0, POLLIN])] }).result
      = Except.error Exception.InvalidSocketConnectionException :=
  ⟨⟨by decide, rfl⟩, rfl, rfl,
    (duplicate_add_breaks_correspondence Scripted.api
      ((((PollService.new 50).add_socket { socket_descriptor := 7 }).add_socket
        { socket_descriptor := 9 }).add_socket { socket_descriptor := 5 })
      { socket_descriptor := 5 } { socket_descriptor := 7 } []
      [{ fd := 9, events := POLLIN, revents := 0 }] []
      { fd := 7, events := POLLIN, revents := 0 } { fd := 5, events := POLLIN, revents := 0 }
      ⟨by decide, rfl⟩ rfl rfl rfl).2.2.2
      { Scripted.quiet with polled := [(1, [0, POLLIN])] } (by decide) (by decide)⟩

/-! ## One turn of `Server::poll` among the turns for the other ready handles -/

theorem Server.poll_of_ready_split {ω W : Type} (api : SocketApi W) (hooks : ServerHooks ω W)
    (s : Server ω) (w : W) (first : List SocketCollectionEntry) (entry : SocketCollectionEntry)
    (rest : List SocketCollectionEntry) (st1 : Server ω × W)
    (hs : s.state = ServerState.SERVE)
    (hready : (PollService.poll api s.poll_service w).result
      = Except.ok (first ++ entry :: rest))
    (hfirst : Server.poll_loop api hooks first
        ({ s with poll_service := (PollService.poll api s.poll_service w).state.1 },
          (PollService.poll api s.poll_service w).state.2) = Outcome.ok st1 true) :
    Server.poll api hooks id (s, w) = Server.poll_loop api hooks (entry :: rest) st1 := by
  rw [Server.poll_of_ready api hooks id s w _ hs hready, if_neg (by simp)]
  exact Server.poll_loop_append api hooks first (entry :: rest) _ st1 hfirst

theorem PollService.poll_ready_distinct {W : Type} (api : SocketApi W) (ps : PollService)
    (w : W) (first : List SocketCollectionEntry) (entry : SocketCollectionEntry)
    (rest : List SocketCollectionEntry)
    (hready : (PollService.poll api ps w).result = Except.ok (first ++ entry :: rest)) :
    ∀ e ∈ first ++ rest, e.connection ≠ entry.connection := by
  have hnodup := (PollService.poll_sound api ps w _ hready).1
  simp only [List.map_append, List.map_cons] at hnodup
  rw [List.nodup_append] at hnodup
  obtain ⟨-, h2, h3⟩ := hnodup
  rw [List.nodup_cons] at h2
  intro e he heq
  rcases List.mem_append.1 he with h | h
  · exact h3 (List.mem_map_of_mem (fun x => x.connection) h)
      (by rw [heq]; exact List.mem_cons_self _ _)
  · apply h2.1
    rw [← heq]
    exact List.mem_map_of_mem (fun x => x.connection) h

theorem Server.poll_loop_nil_ok {ω W : Type} (api : SocketApi W) (hooks : ServerHooks ω W)
    (st st1 : Server ω × W) (h : Server.poll_loop api hooks [] st = Outcome.ok st1 true) :
    st1 = st := by
  simp only [Server.poll_loop, Outcome.ok, Outcome.mk.injEq] at h
  exact h.1.symm

/-- C10: server accept.  A server in `SERVE` polls (with the control thread idle) and the
poll service reports the listening connection as ready with normal status, at any place
among other ready handles.  When the turns of the handles before it have returned and left
the server alive with the same listening connection, and `accept` returns a pending
connection under a descriptor that is not tracked yet, the turn of the listening handle
accepts that one connection, adds the new peer to the poll service behind the connections
tracked before, and calls the client-connect hook once with that peer on the server so
extended; `poll()` then goes on with the turns of the handles after it.  No other ready
entry is for the listening connection, so no other turn of this `poll()` is an accept.
When the listening handle comes first, the connections tracked before its turn are those
tracked before the call.  In a channeled server the hook is the user's
`handle_channeledclient_connect`. -/
theorem server_poll_accepts_pending_connection {ω W : Type} (api : SocketApi W)
    (hooks : ServerHooks ω W) (s : Server ω) (w w2 : W) (listening peer : SocketConnection)
    (first rest : List SocketCollectionEntry) (st1 : Server ω × W)
    (hs : s.state = ServerState.SERVE)
    (hready : (PollService.poll api s.poll_service w).result
      = Except.ok
          (first ++
            { connection := some listening, status := SocketStatus.SOCKET_STATUS_NORMAL }
              :: rest))
    (hfirst : Server.poll_loop api hooks first
        ({ s with poll_service := (PollService.poll api s.poll_service w).state.1 },
          (PollService.poll api s.poll_service w).state.2) = Outcome.ok st1 true)
    (hl : st1.1.server_connection = some listening)
    (halive : st1.1.state ≠ ServerState.DESTRUCTING)
    (haccept : SocketConnection.accept api listening st1.2 = Outcome.ok w2 peer)
    (hfresh : peer.socket_descriptor ∉ st1.1.poll_service.poll_descriptor_map.keys) :
    Server.poll api hooks id (s, w)
      = (hooks.handle_client_connect (some peer) (st1.1.addToPollService peer, w2)).andThen
          (fun _ st => Server.poll_loop api hooks rest st) ∧
    (st1.1.addToPollService peer).poll_service.tracked
      = st1.1.poll_service.tracked ++ [peer] ∧
    (first = [] → st1.1.poll_service.tracked = s.poll_service.tracked) ∧
    (∀ e ∈ first ++ rest, e.connection ≠ some listening) ∧
    ∀ (υ : Type) (channels : Channels) (user : ChanneledServerHooks υ W),
      (ChanneledServer.hooks api channels user).handle_client_connect
        = user.handle_channeledclient_connect := by
  refine ⟨?_, ?_, ?_, ?_, fun _ _ _ => rfl⟩
  · rw [Server.poll_of_ready_split api hooks s w first _ rest st1 hs hready hfirst]
    obtain ⟨s1, w1⟩ := st1
    rw [Server.poll_loop_listening_normal api hooks s1 w1 listening rest hl halive,
      Server.handle_connection_request_of_accept api hooks s1 w1 w2 listening peer hl haccept]
  · exact PollService.tracked_add_socket _ _ hfresh
  · intro hnil
    subst hnil
    rw [Server.poll_loop_nil_ok api hooks _ st1 hfirst]
    exact PollService.tracked_poll api s.poll_service w
  · exact PollService.poll_ready_distinct api s.poll_service w first _ rest hready

/-- Witness of C10: a serving channeled server tracks the peer `5`, its listening handle
`3` and the peer `9`; the poll reports a hang-up of `5`, the listening handle readable and
an error of `9`, and a pending connection is accepted as descriptor `7`.  The user writes
down the calls of the hooks: the disconnect of `5`, one connect of `7`, the error of `9`;
after the turn of the listening handle the handles `3`, `9` and `7` are tracked. -/
theorem server_poll_accepts_pending_connection_witness :
    (Server.poll Scripted.api
        (ChanneledServer.hooks Scripted.api Channels.initial ChanneledServerHooks.recording) id
        ({ Server.new "0.0.0.0" "9876" 5 50
              ({ subscribable := { subscriptions := [] }, user := [] } :
                Channeled (List HookCall)) with
            state := ServerState.SERVE
            server_connection := some { socket_descriptor := 3 }
            poll_service :=
              (((PollService.new 50).add_socket { socket_descriptor := 5 }).add_socket
                { socket_descriptor := 3 }).add_socket { socket_descriptor := 9 } },
          { Scripted.quiet with
            polled := [(3, [POLLHUP, POLLIN, POLLERR])], accepted := [7] })).result
      = Except.ok true ∧
    (Server.poll Scripted.api
        (ChanneledServer.hooks Scripted.api Channels.initial ChanneledServerHooks.recording) id
        ({ Server.new "0.0.0.0" "9876" 5 50
              ({ subscribable := { subscriptions := [] }, user := [] } :
                Channeled (List HookCall)) with
            state := ServerState.SERVE
            server_connection := some { socket_descriptor := 3 }
            poll_service :=
              (((PollService.new 50).add_socket { socket_descriptor := 5 }).add_socket
                { socket_descriptor := 3 }).add_socket { socket_descriptor := 9 } },
          { Scripted.quiet with
            polled := [(3, [POLLHUP, POLLIN, POLLERR])],
            accepted := [7] })).state.1.derived.user
      = [HookCall.handleClientDisconnect (some { socket_descriptor := 5 }),
         HookCall.handle_channeledclient_connect (some { socket_descriptor := 7 }),
         HookCall.handle_channeledclient_error (some { socket_descriptor := 9 })] ∧
    ((Server.poll_loop Scripted.api
        (ChanneledServer.hooks Scripted.api Channels.initial ChanneledServerHooks.recording)
        [{ connection := some { socket_descriptor := 5 },
           status := SocketStatus.SOCKET_STATUS_DISCONNECT }]
        ({ Server.new "0.0.0.0" "9876" 5 50
              ({ subscribable := { subscriptions := [] }, user := [] } :
                Channeled (List HookCall)) with
            state := ServerState.SERVE
            server_connection := some { socket_descriptor := 3 }
            poll_service :=
              (PollService.poll Scripted.api
                ((((PollService.new 50).add_socket { socket_descriptor := 5 }).add_socket
                  { socket_descriptor := 3 }).add_socket { socket_descriptor := 9 })
                { Scripted.quiet with
                  polled := [(3, [POLLHUP, POLLIN, POLLERR])], accepted := [7] }).state.1 },
          { Scripted.quiet with accepted := [7] })).state.1.addToPollService
            { socket_descriptor := 7 }).poll_service.tracked
      = [{ socket_descriptor := 3 }, { socket_descriptor := 9 }, { socket_descriptor := 7 }] :=
  ⟨(congrArg (fun o => o.result)
      (server_poll_accepts_pending_connection Scripted.api
        (ChanneledServer.hooks Scripted.api Channels.initial ChanneledServerHooks.recording)
        { Server.new "0.0.0.0" "9876" 5 50
              ({ subscribable := { subscriptions := [] }, user := [] } :
                Channeled (List HookCall)) with
            state := ServerState.SERVE
            server_connection := some { socket_descriptor := 3 }
            poll_service :=
              (((PollService.new 50).add_socket { socket_descriptor := 5 }).add_socket
                { socket_descriptor := 3 }).add_socket { socket_descriptor := 9 } }
        { Scripted.quiet with polled := [(3, [POLLHUP, POLLIN, POLLERR])], accepted := [7] }
        Scripted.quiet { socket_descriptor := 3 } { socket_descriptor := 7 }
        [{ connection := some { socket_descriptor := 5 },
           status := SocketStatus.SOCKET_STATUS_DISCONNECT }]
        [{ connection := some { socket_descriptor := 9 },
           status := SocketStatus.SOCKET_STATUS_ERROR }]
        (Server.poll_loop Scripted.api
          (ChanneledServer.hooks Scripted.api Channels.initial ChanneledServerHooks.recording)
          [{ connection := some { socket_descriptor := 5 },
             status := SocketStatus.SOCKET_STATUS_DISCONNECT }]
          ({ Server.new "0.0.0.0" "9876" 5 50
                ({ subscribable := { subscriptions := [] }, user := [] } :
                  Channeled (List HookCall)) with
              state := ServerState.SERVE
              server_connection := some { socket_descriptor := 3 }
              poll_service :=
                (PollService.poll Scripted.api
                  ((((PollService.new 50).add_socket { socket_descriptor := 5 }).add_socket
                    { socket_descriptor := 3 }).add_socket { socket_descriptor := 9 })
                  { Scripted.quiet with
                    polled := [(3, [POLLHUP, POLLIN, POLLERR])], accepted := [7] }).state.1 },
            { Scripted.quiet with accepted := [7] })).state
        rfl rfl rfl rfl (by decide) rfl (by decide)).1).trans rfl,
    (congrArg (fun o => o.state.1.derived.user)
      (server_poll_accepts_pending_connection Scripted.api
        (ChanneledServer.hooks Scripted.api Channels.initial ChanneledServerHooks.recording)
        { Server.new "0.0.0.0" "9876" 5 50
              ({ subscribable := { subscriptions := [] }, user := [] } :
                Channeled (List HookCall)) with
            state := ServerState.SERVE
            server_connection := some { socket_descriptor := 3 }
            poll_service :=
              (((PollService.new 50).add_socket { socket_descriptor := 5 }).add_socket
                { socket_descriptor := 3 }).add_socket { socket_descriptor := 9 } }
        { Scripted.quiet with polled := [(3, [POLLHUP, POLLIN, POLLERR])], accepted := [7] }
        Scripted.quiet { socket_descriptor := 3 } { socket_descriptor := 7 }
        [{ connection := some { socket_descriptor := 5 },
           status := SocketStatus.SOCKET_STATUS_DISCONNECT }]
        [{ connection := some { socket_descriptor := 9 },
           status := SocketStatus.SOCKET_STATUS_ERROR }]
        (Server.poll_loop Scripted.api
          (ChanneledServer.hooks Scripted.api Channels.initial ChanneledServerHooks.recording)
          [{ connection := some { socket_descriptor := 5 },
             status := SocketStatus.SOCKET_STATUS_DISCONNECT }]
          ({ Server.new "0.0.0.0" "9876" 5 50
                ({ subscribable := { subscriptions := [] }, user := [] } :
                  Channeled (List HookCall)) with
              state := ServerState.SERVE
              server_connection := some { socket_descriptor := 3 }
              poll_service :=
                (PollService.poll Scripted.api
                  ((((PollService.new 50).add_socket { socket_descriptor := 5 }).add_socket
                    { socket_descriptor := 3 }).add_socket { socket_descriptor := 9 })
                  { Scripted.quiet with
                    polled := [(3, [POLLHUP, POLLIN, POLLERR])], accepted := [7] }).state.1 },
            { Scripted.quiet with accepted := [7] })).state
        rfl rfl rfl rfl (by decide) rfl (by decide)).1).trans rfl,
    ((server_poll_accepts_pending_connection Scripted.api
        (ChanneledServer.hooks Scripted.api Channels.initial ChanneledServerHooks.recording)
        { Server.new "0.0.0.0" "9876" 5 50
              ({ subscribable := { subscriptions := [] }, user := [] } :
                Channeled (List HookCall)) with
            state := ServerState.SERVE
            server_connection := some { socket_descriptor := 3 }
            poll_service :=
              (((PollService.new 50).add_socket { socket_descriptor := 5 }).add_socket
                { socket_descriptor := 3 }).add_socket { socket_descriptor := 9 } }
        { Scripted.quiet with polled := [(3, [POLLHUP, POLLIN, POLLERR])], accepted := [7] }
        Scripted.quiet { socket_descriptor := 3 } { socket_descriptor := 7 }
        [{ connection := some { socket_descriptor := 5 },
           status := SocketStatus.SOCKET_STATUS_DISCONNECT }]
        [{ connection := some { socket_descriptor := 9 },
           status := SocketStatus.SOCKET_STATUS_ERROR }]
        (Server.poll_loop Scripted.api
          (ChanneledServer.hooks Scripted.api Channels.initial ChanneledServerHooks.recording)
          [{ connection := some { socket_descriptor := 5 },
             status := SocketStatus.SOCKET_STATUS_DISCONNECT }]
          ({ Server.new "0.0.0.0" "9876" 5 50
                ({ subscribable := { subscriptions := [] }, user := [] } :
                  Channeled (List HookCall)) with
              state := ServerState.SERVE
              server_connection := some { socket_descriptor := 3 }
              poll_service :=
                (PollService.poll Scripted.api
                  ((((PollService.new 50).add_socket { socket_descriptor := 5 }).add_socket
                    { socket_descriptor := 3 }).add_socket { socket_descriptor := 9 })
                  { Scripted.quiet with
                    polled := [(3, [POLLHUP, POLLIN, POLLERR])], accepted := [7] }).state.1 },
            { Scripted.quiet with accepted := [7] })).state
        rfl rfl rfl rfl (by decide) rfl (by decide)).2.1).trans rfl⟩

/-- C11: cleanup of terminated peers in `ChanneledServer`.  A serving server polls (with
the control thread idle) and the poll service reports an accepted peer, at any place among
other ready handles; the turns of the handles before it have returned and left the server
alive, with a listening connection other than the peer.  When the peer is reported with
disconnect status, with error status, or with normal status while the read of its frame
ends with `ConnectionClosedException` (in the id or in the payload), the turn of the peer
removes that peer from the poll service and then calls one hook of the user with it
(`handleClientDisconnect`, `handle_channeledclient_error`, `handleClientDisconnect`);
`poll()` then goes on with the turns of the handles after it.  No other ready entry is for
the peer.  With a consistent poll service the handles tracked after the removal are those
tracked before the turn without the peer, and when the peer comes first those tracked
before the call without the peer. -/
theorem channeled_server_peer_cleanup {υ W : Type} (api : SocketApi W) (channels : Channels)
    (user : ChanneledServerHooks υ W) (server : ChanneledServer υ) (w0 : W)
    (peer : SocketConnection) (status : SocketStatus)
    (first rest : List SocketCollectionEntry) (st1 : ChanneledServer υ × W)
    (hs : server.state = ServerState.SERVE)
    (hready : (PollService.poll api server.poll_service w0).result
      = Except.ok (first ++ { connection := some peer, status := status } :: rest))
    (hfirst : Server.poll_loop api (ChanneledServer.hooks api channels user) first
        ({ server with
            poll_service := (PollService.poll api server.poll_service w0).state.1 },
          (PollService.poll api server.poll_service w0).state.2) = Outcome.ok st1 true)
    (hpeer : some peer ≠ st1.1.server_connection)
    (halive : st1.1.state ≠ ServerState.DESTRUCTING) :
    (status = SocketStatus.SOCKET_STATUS_DISCONNECT →
      Server.poll api (ChanneledServer.hooks api channels user) id (server, w0)
        = (user.handleClientDisconnect (some peer)
            (st1.1.removeFromPollService peer, st1.2)).andThen
          fun _ st => Server.poll_loop api (ChanneledServer.hooks api channels user) rest st) ∧
    (status = SocketStatus.SOCKET_STATUS_ERROR →
      Server.poll api (ChanneledServer.hooks api channels user) id (server, w0)
        = (user.handle_channeledclient_error (some peer)
            (st1.1.removeFromPollService peer, st1.2)).andThen
          fun _ st => Server.poll_loop api (ChanneledServer.hooks api channels user) rest st) ∧
    (status = SocketStatus.SOCKET_STATUS_NORMAL →
      ∀ w1 : W,
        ChanneledSocketConnection.channeled_read_id api peer st1.2
          = Outcome.raise w1 Exception.ConnectionClosedException →
        Server.poll api (ChanneledServer.hooks api channels user) id (server, w0)
          = (user.handleClientDisconnect (some peer)
              (st1.1.removeFromPollService peer, w1)).andThen
            fun _ st =>
              Server.poll_loop api (ChanneledServer.hooks api channels user) rest st) ∧
    (status = SocketStatus.SOCKET_STATUS_NORMAL →
      ∀ (w1 w2 : W) (channel_id : CHANNEL_ID),
        ChanneledSocketConnection.channeled_read_id api peer st1.2 = Outcome.ok w1 channel_id →
        ChanneledSocketConnection.channeled_read api channels peer channel_id w1
          = Outcome.raise w2 Exception.ConnectionClosedException →
        Server.poll api (ChanneledServer.hooks api channels user) id (server, w0)
          = (user.handleClientDisconnect (some peer)
              (st1.1.removeFromPollService peer, w2)).andThen
            fun _ st =>
              Server.poll_loop api (ChanneledServer.hooks api channels user) rest st) ∧
    (∀ e ∈ first ++ rest, e.connection ≠ some peer) ∧
    (st1.1.poll_service.Consistent →
      (st1.1.removeFromPollService peer).poll_service.tracked
        = st1.1.poll_service.tracked.filter (fun c => decide (c ≠ peer))) ∧
    (first = [] → server.poll_service.Consistent →
      (st1.1.removeFromPollService peer).poll_service.tracked
        = server.poll_service.tracked.filter (fun c => decide (c ≠ peer))) := by
  have hstart := Server.poll_of_ready_split api (ChanneledServer.hooks api channels user)
    server w0 first { connection := some peer, status := status } rest st1 hs hready hfirst
  obtain ⟨s1, w⟩ := st1
  refine ⟨?_, ?_, ?_, ?_, ?_, ?_, ?_⟩
  · intro hstatus
    subst hstatus
    rw [hstart, Server.poll_loop_peer_disconnect api _ s1 w (some peer) rest hpeer halive]
    rfl
  · intro hstatus
    subst hstatus
    rw [hstart, Server.poll_loop_peer_error api _ s1 w (some peer) rest hpeer halive]
    rfl
  · intro hstatus w1 hid
    subst hstatus
    rw [hstart, Server.poll_loop_peer_normal api _ s1 w (some peer) rest hpeer halive]
    show (ChanneledServer.handle_ready_to_read api channels user (some peer) _).andThen _ = _
    rw [ChanneledServer.handle_ready_to_read,
      ChannelSubscribable.handleIncomingMessage_id_closed api channels _ _ _ peer _ w w1 hid]
    rfl
  · intro hstatus w1 w2 channel_id hid hread
    subst hstatus
    rw [hstart, Server.poll_loop_peer_normal api _ s1 w (some peer) rest hpeer halive]
    show (ChanneledServer.handle_ready_to_read api channels user (some peer) _).andThen _ = _
    rw [ChanneledServer.handle_ready_to_read,
      ChannelSubscribable.handleIncomingMessage_read_closed api channels _ _ _ peer _ w w1 w2
        channel_id hid hread]
    rfl
  · exact PollService.poll_ready_distinct api server.poll_service w0 first _ rest hready
  · intro hcons
    exact hcons.tracked_remove_socket peer
  · intro hnil hcons
    subst hnil
    have heq := Server.poll_loop_nil_ok api _ _ _ hfirst
    cases heq
    show ((PollService.poll api server.poll_service w0).state.1.remove_socket peer).tracked = _
    rw [(hcons.poll api w0).tracked_remove_socket peer, PollService.tracked_poll]

/-- Witness of C11: a serving channeled server tracks its listening handle `3` and the
peers `5`, `7` and `9`; the poll reports an error of `5`, a hang-up of `7` and an error of
`9`.  After `poll()` the user has written down the error of `5`, one
`handleClientDisconnect` of `7` and the error of `9`; after the turn of `7` the handles
`3` and `9` are tracked. -/
theorem channeled_server_peer_cleanup_witness :
    (Server.poll Scripted.api
        (ChanneledServer.hooks Scripted.api Channels.initial ChanneledServerHooks.recording) id
        ({ Server.new "0.0.0.0" "9876" 5 50
              ({ subscribable := { subscriptions := [] }, user := [] } :
                Channeled (List HookCall)) with
            state := ServerState.SERVE
            server_connection := some { socket_descriptor := 3 }
            poll_service :=
              ((((PollService.new 50).add_socket { socket_descriptor := 3 }).add_socket
                { socket_descriptor := 5 }).add_socket { socket_descriptor := 7 }).add_socket
                { socket_descriptor := 9 } },
          { Scripted.quiet with polled := [(3, [0, POLLERR, POLLHUP, POLLERR])] })).result
      = Except.ok true ∧
    (Server.poll Scripted.api
        (ChanneledServer.hooks Scripted.api Channels.initial ChanneledServerHooks.recording) id
        ({ Server.new "0.0.0.0" "9876" 5 50
              ({ subscribable := { subscriptions := [] }, user := [] } :
                Channeled (List HookCall)) with
            state := ServerState.SERVE
            server_connection := some { socket_descriptor := 3 }
            poll_service :=
              ((((PollService.new 50).add_socket { socket_descriptor := 3 }).add_socket
                { socket_descriptor := 5 }).add_socket { socket_descriptor := 7 }).add_socket
                { socket_descriptor := 9 } },
          { Scripted.quiet with
            polled := [(3, [0, POLLERR, POLLHUP, POLLERR])] })).state.1.derived.user
      = [HookCall.handle_channeledclient_error (some { socket_descriptor := 5 }),
         HookCall.handleClientDisconnect (some { socket_descriptor := 7 }),
         HookCall.handle_channeledclient_error (some { socket_descriptor := 9 })] ∧
    ((Server.poll_loop Scripted.api
        (ChanneledServer.hooks Scripted.api Channels.initial ChanneledServerHooks.recording)
        [{ connection := some { socket_descriptor := 5 },
           status := SocketStatus.SOCKET_STATUS_ERROR }]
        ({ Server.new "0.0.0.0" "9876" 5 50
              ({ subscribable := { subscriptions := [] }, user := [] } :
                Channeled (List HookCall)) with
            state := ServerState.SERVE
            server_connection := some { socket_descriptor := 3 }
            poll_service :=
              (PollService.poll Scripted.api
                (((((PollService.new 50).add_socket { socket_descriptor := 3 }).add_socket
                  { socket_descriptor := 5 }).add_socket { socket_descriptor := 7 }).add_socket
                  { socket_descriptor := 9 })
                { Scripted.quiet with
                  polled := [(3, [0, POLLERR, POLLHUP, POLLERR])] }).state.1 },
          Scripted.quiet)).state.1.removeFromPollService
            { socket_descriptor := 7 }).poll_service.tracked
      = [{ socket_descriptor := 3 }, { socket_descriptor := 9 }] :=
  ⟨(congrArg (fun o => o.result)
      ((channeled_server_peer_cleanup Scripted.api Channels.initial
        ChanneledServerHooks.recording
        { Server.new "0.0.0.0" "9876" 5 50
              ({ subscribable := { subscriptions := [] }, user := [] } :
                Channeled (List HookCall)) with
            state := ServerState.SERVE
            server_connection := some { socket_descriptor := 3 }
            poll_service :=
              ((((PollService.new 50).add_socket { socket_descriptor := 3 }).add_socket
                { socket_descriptor := 5 }).add_socket { socket_descriptor := 7 }).add_socket
                { socket_descriptor := 9 } }
        { Scripted.quiet with polled := [(3, [0, POLLERR, POLLHUP, POLLERR])] }
        { socket_descriptor := 7 } SocketStatus.SOCKET_STATUS_DISCONNECT
        [{ connection := some { socket_descriptor := 5 },
           status := SocketStatus.SOCKET_STATUS_ERROR }]
        [{ connection := some { socket_descriptor := 9 },
           status := SocketStatus.SOCKET_STATUS_ERROR }]
        (Server.poll_loop Scripted.api
          (ChanneledServer.hooks Scripted.api Channels.initial ChanneledServerHooks.recording)
          [{ connection := some { socket_descriptor := 5 },
             status := SocketStatus.SOCKET_STATUS_ERROR }]
          ({ Server.new "0.0.0.0" "9876" 5 50
                ({ subscribable := { subscriptions := [] }, user := [] } :
                  Channeled (List HookCall)) with
              state := ServerState.SERVE
              server_connection := some { socket_descriptor := 3 }
              poll_service :=
                (PollService.poll Scripted.api
                  (((((PollService.new 50).add_socket { socket_descriptor := 3 }).add_socket
                    { socket_descriptor := 5 }).add_socket
                    { socket_descriptor := 7 }).add_socket { socket_descriptor := 9 })
                  { Scripted.quiet with
                    polled := [(3, [0, POLLERR, POLLHUP, POLLERR])] }).state.1 },
            Scripted.quiet)).state
        rfl rfl rfl (by decide) (by decide)).1 rfl)).trans rfl,
    (congrArg (fun o => o.state.1.derived.user)
      ((channeled_server_peer_cleanup Scripted.api Channels.initial
        ChanneledServerHooks.recording
        { Server.new "0.0.0.0" "9876" 5 50
              ({ subscribable := { subscriptions := [] }, user := [] } :
                Channeled (List HookCall)) with
            state := ServerState.SERVE
            server_connection := some { socket_descriptor := 3 }
            poll_service :=
              ((((PollService.new 50).add_socket { socket_descriptor := 3 }).add_socket
                { socket_descriptor := 5 }).add_socket { socket_descriptor := 7 }).add_socket
                { socket_descriptor := 9 } }
        { Scripted.quiet with polled := [(3, [0, POLLERR, POLLHUP, POLLERR])] }
        { socket_descriptor := 7 } SocketStatus.SOCKET_STATUS_DISCONNECT
        [{ connection := some { socket_descriptor := 5 },
           status := SocketStatus.SOCKET_STATUS_ERROR }]
        [{ connection := some { socket_descriptor := 9 },
           status := SocketStatus.SOCKET_STATUS_ERROR }]
        (Server.poll_loop Scripted.api
          (ChanneledServer.hooks Scripted.api Channels.initial ChanneledServerHooks.recording)
          [{ connection := some { socket_descriptor := 5 },
             status := SocketStatus.SOCKET_STATUS_ERROR }]
          ({ Server.new "0.0.0.0" "9876" 5 50
                ({ subscribable := { subscriptions := [] }, user := [] } :
                  Channeled (List HookCall)) with
              state := ServerState.SERVE
              server_connection := some { socket_descriptor := 3 }
              poll_service :=
                (PollService.poll Scripted.api
                  (((((PollService.new 50).add_socket { socket_descriptor := 3 }).add_socket
                    { socket_descriptor := 5 }).add_socket
                    { socket_descriptor := 7 }).add_socket { socket_descriptor := 9 })
                  { Scripted.quiet with
                    polled := [(3, [0, POLLERR, POLLHUP, POLLERR])] }).state.1 },
            Scripted.quiet)).state
        rfl rfl rfl (by decide) (by decide)).1 rfl)).trans rfl,
    ((channeled_server_peer_cleanup Scripted.api Channels.initial
        ChanneledServerHooks.recording
        { Server.new "0.0.0.0" "9876" 5 50
              ({ subscribable := { subscriptions := [] }, user := [] } :
                Channeled (List HookCall)) with
            state := ServerState.SERVE
            server_connection := some { socket_descriptor := 3 }
            poll_service :=
              ((((PollService.new 50).add_socket { socket_descriptor := 3 }).add_socket
                { socket_descriptor := 5 }).add_socket { socket_descriptor := 7 }).add_socket
                { socket_descriptor := 9 } }
        { Scripted.quiet with polled := [(3, [0, POLLERR, POLLHUP, POLLERR])] }
        { socket_descriptor := 7 } SocketStatus.SOCKET_STATUS_DISCONNECT
        [{ connection := some { socket_descriptor := 5 },
           status := SocketStatus.SOCKET_STATUS_ERROR }]
        [{ connection := some { socket_descriptor := 9 },
           status := SocketStatus.SOCKET_STATUS_ERROR }]
        (Server.poll_loop Scripted.api
          (ChanneledServer.hooks Scripted.api Channels.initial ChanneledServerHooks.recording)
          [{ connection := some { socket_descriptor := 5 },
             status := SocketStatus.SOCKET_STATUS_ERROR }]
          ({ Server.new "0.0.0.0" "9876" 5 50
                ({ subscribable := { subscriptions := [] }, user := [] } :
                  Channeled (List HookCall)) with
              state := ServerState.SERVE
              server_connection := some { socket_descriptor := 3 }
              poll_service :=
                (PollService.poll Scripted.api
                  (((((PollService.new 50).add_socket { socket_descriptor := 3 }).add_socket
                    { socket_descriptor := 5 }).add_socket
                    { socket_descriptor := 7 }).add_socket { socket_descriptor := 9 })
                  { Scripted.quiet with
                    polled := [(3, [0, POLLERR, POLLHUP, POLLERR])] }).state.1 },
            Scripted.quiet)).state
        rfl rfl rfl (by decide) (by decide)).2.2.2.2.2.1 ⟨by decide, rfl⟩).trans rfl⟩

end SunNet
